import Mathlib

/-!
# flutter_open_xr: frame handoff, pointer input, ray picking and background configuration

A shallow embedding of the native Windows runner
(`native/windows/src/flutter_xr/*.cpp`, `shared.cpp`, `shared.h`, `app.h`).

Conventions of the embedding.

* `float` and `double` values are modelled by the rational numbers they denote
  (no NaN, no infinity, no rounding of arithmetic results); a `float` literal
  is the exact value of its binary32 rounding.
* `size_t`, `uint64_t` are natural numbers reduced modulo `2 ^ 64` where the
  source does arithmetic on them; `UINT` casts reduce modulo `2 ^ 32`.
* Handles, paths and the engine pointer are natural numbers, `0` being the null
  value (`XR_NULL_HANDLE`, `XR_NULL_PATH`, `nullptr`).
* `std::vector<uint8_t>` / `std::vector<uint32_t>` are lists of naturals.
* Calls into the OpenXR runtime, the Flutter engine, the file system and the
  image decoder are inputs of the functions that make them, and so is `std::sqrt`.
* An output parameter is the pointee before the call (`none` for a null pointer) and
  the pointee after it.
* Member variables keep their names, trailing underscore included.
-/

namespace FlutterXr

/-! ## Constants (`shared.h`) -/

/-- Number of values of `size_t` / `uint64_t` (64-bit build). -/
def kSizeModulus : Nat := 2 ^ 64

/-- Number of values of `UINT`. -/
def kUintModulus : Nat := 2 ^ 32

/-- Value of `XR_NULL_HANDLE`, `XR_NULL_PATH` and of a null pointer. -/
def XR_NULL_HANDLE : Nat := 0

def kFlutterSurfaceWidth : Nat := 1280
def kFlutterSurfaceHeight : Nat := 720
/-- The literal `2.0f`. -/
def kPointerRayFallbackLengthMeters : ℚ := 2
/-- The literal `0.05f`, as the exact value of its binary32 rounding. -/
def kPointerRayMinLengthMeters : ℚ := 13421773 / 268435456
/-- The literal `0.75f` (exactly representable). -/
def kTriggerPressThreshold : ℚ := 3 / 4
/-- The literal `0.65f`, as the exact value of its binary32 rounding
(`0.64999997615814208984375`). -/
def kTriggerReleaseThreshold : ℚ := 5452595 / 8388608
def kPointerDeviceId : Int := 1
def kFlutterViewId : Int := 0
/-- The embedder's `kFlutterPointerButtonMousePrimary` (`1 << 0`). -/
def kFlutterPointerButtonMousePrimary : Int := 1
/-- The literal `1.2f`, as the exact value of its binary32 rounding
(`1.2000000476837158203125`). -/
def kQuadWidthMeters : ℚ := 5033165 / 4194304
/-- The constant
`kQuadWidthMeters * (static_cast<float>(kFlutterSurfaceHeight) / static_cast<float>(kFlutterSurfaceWidth))`,
the product not rounded. -/
def kQuadHeightMeters : ℚ :=
  kQuadWidthMeters * ((kFlutterSurfaceHeight : ℚ) / (kFlutterSurfaceWidth : ℚ))
/-- The literal `1.2f`. -/
def kQuadDistanceMeters : ℚ := 5033165 / 4194304
/-- The literal `1.0e-6f` of `IntersectRayWithQuad`, as the exact value of its binary32
rounding (about `9.99999997e-7`). -/
def lit_1_0e_6f : ℚ := 8796093 / 8796093022208
/-- The literal `1.0e-8f` of `Normalize`, as the exact value of its binary32 rounding. -/
def lit_1_0e_8f : ℚ := 11258999 / 1125899906842624
/-- The flag `XR_SPACE_LOCATION_ORIENTATION_VALID_BIT` of `openxr.h`. -/
def XR_SPACE_LOCATION_ORIENTATION_VALID_BIT : Nat := 1
/-- The flag `XR_SPACE_LOCATION_POSITION_VALID_BIT` of `openxr.h`. -/
def XR_SPACE_LOCATION_POSITION_VALID_BIT : Nat := 2

/-! ## Geometry types and the operations used by the input poll (`shared.cpp`) -/

structure XrVector2f where
  x : ℚ
  y : ℚ
deriving DecidableEq

structure XrVector3f where
  x : ℚ
  y : ℚ
  z : ℚ
deriving DecidableEq

structure XrQuaternionf where
  x : ℚ
  y : ℚ
  z : ℚ
  w : ℚ
deriving DecidableEq

structure XrPosef where
  orientation : XrQuaternionf
  position : XrVector3f
deriving DecidableEq

def Add (lhs rhs : XrVector3f) : XrVector3f :=
  ⟨lhs.x + rhs.x, lhs.y + rhs.y, lhs.z + rhs.z⟩

def Subtract (lhs rhs : XrVector3f) : XrVector3f :=
  ⟨lhs.x - rhs.x, lhs.y - rhs.y, lhs.z - rhs.z⟩

def Scale (value : XrVector3f) (scale : ℚ) : XrVector3f :=
  ⟨value.x * scale, value.y * scale, value.z * scale⟩

def Dot (lhs rhs : XrVector3f) : ℚ :=
  lhs.x * rhs.x + lhs.y * rhs.y + lhs.z * rhs.z

def Cross (lhs rhs : XrVector3f) : XrVector3f :=
  ⟨lhs.y * rhs.z - lhs.z * rhs.y,
   lhs.z * rhs.x - lhs.x * rhs.z,
   lhs.x * rhs.y - lhs.y * rhs.x⟩

def Conjugate (value : XrQuaternionf) : XrQuaternionf :=
  ⟨-value.x, -value.y, -value.z, value.w⟩

def Multiply (lhs rhs : XrQuaternionf) : XrQuaternionf :=
  ⟨lhs.w * rhs.x + lhs.x * rhs.w + lhs.y * rhs.z - lhs.z * rhs.y,
   lhs.w * rhs.y - lhs.x * rhs.z + lhs.y * rhs.w + lhs.z * rhs.x,
   lhs.w * rhs.z + lhs.x * rhs.y - lhs.y * rhs.x + lhs.z * rhs.w,
   lhs.w * rhs.w - lhs.x * rhs.x - lhs.y * rhs.y - lhs.z * rhs.z⟩

def RotateVector (rotation : XrQuaternionf) (value : XrVector3f) : XrVector3f :=
  let qv : XrVector3f := ⟨rotation.x, rotation.y, rotation.z⟩
  let term1 := Scale qv (2 * Dot qv value)
  let term2 := Scale value (rotation.w * rotation.w - Dot qv qv)
  let term3 := Scale (Cross qv value) (2 * rotation.w)
  Add (Add term1 term2) term3

/-- The function `std::clamp(v, lo, hi)`. -/
def clamp (v lo hi : ℚ) : ℚ :=
  if v < lo then lo else if hi < v then hi else v

/-- The function `Normalize`; `sqrt` is `std::sqrt` on `float`. -/
def Normalize (sqrt : ℚ → ℚ) (value : XrVector3f) : XrVector3f :=
  let lengthSquared := Dot value value
  if lengthSquared ≤ lit_1_0e_8f then ⟨0, 0, -1⟩
  else
    let invLength := 1 / sqrt lengthSquared
    Scale value invLength

/-- The function `MakeQuadPose`. -/
def MakeQuadPose : XrPosef :=
  { orientation := ⟨0, 0, 0, 1⟩
    position := ⟨0, 0, -kQuadDistanceMeters⟩ }

/-- The pointees of the output parameters `outHitDistanceMeters`, `outU`, `outV` of
`IntersectRayWithQuad`; `none` is a null pointer. -/
structure QuadHitOutputs where
  outHitDistanceMeters : Option ℚ
  outU : Option ℚ
  outV : Option ℚ
deriving DecidableEq

/-- The local `rayOriginLocal` of `IntersectRayWithQuad`. -/
def rayOriginLocal (rayOriginWorld : XrVector3f) (quadPoseWorld : XrPosef) : XrVector3f :=
  RotateVector (Conjugate quadPoseWorld.orientation)
    (Subtract rayOriginWorld quadPoseWorld.position)

/-- The local `rayDirectionLocal` of `IntersectRayWithQuad`. -/
def rayDirectionLocal (rayDirectionWorld : XrVector3f) (quadPoseWorld : XrPosef) : XrVector3f :=
  RotateVector (Conjugate quadPoseWorld.orientation) rayDirectionWorld

/-- The local `t` of `IntersectRayWithQuad`: `-rayOriginLocal.z / rayDirectionLocal.z`. -/
def planeCrossing (rayOriginWorld rayDirectionWorld : XrVector3f) (quadPoseWorld : XrPosef) : ℚ :=
  -(rayOriginLocal rayOriginWorld quadPoseWorld).z
    / (rayDirectionLocal rayDirectionWorld quadPoseWorld).z

/-- The local `hit` of `IntersectRayWithQuad`:
`Add(rayOriginLocal, Scale(rayDirectionLocal, t))`. -/
def quadHit (rayOriginWorld rayDirectionWorld : XrVector3f) (quadPoseWorld : XrPosef) :
    XrVector3f :=
  Add (rayOriginLocal rayOriginWorld quadPoseWorld)
    (Scale (rayDirectionLocal rayDirectionWorld quadPoseWorld)
      (planeCrossing rayOriginWorld rayDirectionWorld quadPoseWorld))

/-- The function `IntersectRayWithQuad`: the returned value and the pointees of the three
output parameters afterwards. -/
def IntersectRayWithQuad (rayOriginWorld rayDirectionWorld : XrVector3f) (quadPoseWorld : XrPosef)
    (quadWidthMeters quadHeightMeters : ℚ) (out : QuadHitOutputs) : Bool × QuadHitOutputs :=
  if out.outU = none ∨ out.outV = none ∨ quadWidthMeters ≤ 0 ∨ quadHeightMeters ≤ 0 then
    (false, out)
  else if |(rayDirectionLocal rayDirectionWorld quadPoseWorld).z| < lit_1_0e_6f then
    (false, out)
  else
    let t := planeCrossing rayOriginWorld rayDirectionWorld quadPoseWorld
    if t ≤ 0 then (false, out)
    else
      let hit := quadHit rayOriginWorld rayDirectionWorld quadPoseWorld
      let halfWidth := quadWidthMeters * (1 / 2)
      let halfHeight := quadHeightMeters * (1 / 2)
      if |hit.x| > halfWidth ∨ |hit.y| > halfHeight then (false, out)
      else
        (true,
          { outHitDistanceMeters := out.outHitDistanceMeters.map (fun _ => t)
            outU := some (hit.x / quadWidthMeters + 1 / 2)
            outV := some (1 / 2 - hit.y / quadHeightMeters) })

/-! ## Application state (`app.h`) -/

structure FlutterFrame where
  pixels : List Nat
  rowBytes : Nat
  width : Nat
  height : Nat
  frameIndex : Nat
deriving DecidableEq

inductive BackgroundMode where
  | None
  | GroundGrid
  | Dds
  | Glb
deriving DecidableEq

inductive XrSessionState where
  | UNKNOWN
  | IDLE
  | READY
  | SYNCHRONIZED
  | VISIBLE
  | FOCUSED
  | STOPPING
  | LOSS_PENDING
  | EXITING
deriving DecidableEq

structure PointerHitResult where
  hasPose : Bool := false
  onQuad : Bool := false
  hitDistanceMeters : ℚ := 0
  rayOriginWorld : XrVector3f := ⟨0, 0, 0⟩
  rayDirectionWorld : XrVector3f := ⟨0, 0, -1⟩
  pointerOrientation : XrQuaternionf := ⟨0, 0, 0, 1⟩
  xPixels : ℚ := (kFlutterSurfaceWidth : ℚ) * (1 / 2)
  yPixels : ℚ := (kFlutterSurfaceHeight : ℚ) * (1 / 2)
deriving DecidableEq

/-- One `ID3D11DeviceContext::UpdateSubresource` call on the Flutter texture:
the source bytes, the row pitch and the right / bottom edge of the box. -/
structure FlutterTextureUpload where
  pixels : List Nat
  rowPitch : Nat
  right : Nat
  bottom : Nat
deriving DecidableEq

/-- The members of `FlutterXrApp` that the modelled functions read or write.
`flutterTextureUploads` and `backgroundTextureUploads` record the
`UpdateSubresource` calls made so far, oldest first. -/
structure FlutterXrApp where
  session_ : Nat := XR_NULL_HANDLE
  inputActionSet_ : Nat := XR_NULL_HANDLE
  scrollVectorAction_ : Nat := XR_NULL_HANDLE
  rightHandPath_ : Nat := XR_NULL_HANDLE
  leftHandPath_ : Nat := XR_NULL_HANDLE
  sessionState_ : XrSessionState := XrSessionState.UNKNOWN
  sessionRunning_ : Bool := false
  exitRequested_ : Bool := false
  triggerPressed_ : Bool := false
  pointerAdded_ : Bool := false
  pointerDown_ : Bool := false
  pointerRayVisible_ : Bool := false
  leftPointerRayVisible_ : Bool := false
  pointerRayLengthMeters_ : ℚ := 0
  leftPointerRayLengthMeters_ : ℚ := 0
  pointerRayPose_ : XrPosef := ⟨⟨0, 0, 0, 0⟩, ⟨0, 0, 0⟩⟩
  leftPointerRayPose_ : XrPosef := ⟨⟨0, 0, 0, 0⟩, ⟨0, 0, 0⟩⟩
  lastPointerX_ : ℚ := (kFlutterSurfaceWidth : ℚ) * (1 / 2)
  lastPointerY_ : ℚ := (kFlutterSurfaceHeight : ℚ) * (1 / 2)
  isBgraFormat_ : Bool := false
  backgroundMode_ : BackgroundMode := BackgroundMode.GroundGrid
  backgroundAssetPathUtf8_ : String := ""
  backgroundCustomPixels_ : List Nat := []
  backgroundConfigVersion_ : Nat := 1
  backgroundUploadedVersion_ : Nat := 0
  flutterEngine_ : Nat := XR_NULL_HANDLE
  latestFrame : FlutterFrame := ⟨[], 0, 0, 0, 0⟩
  uploadedFrameIndex_ : Nat := 0
  convertedPixels_ : List Nat := []
  flutterTextureUploads : List FlutterTextureUpload := []
  backgroundTextureUploads : List (List Nat) := []
deriving DecidableEq

/-! ## Frame handoff (`app_flutter.cpp`, `shared.cpp`) -/

/-- The call `std::vector::resize(n)` on a byte vector: keeps the first `n`
elements and pads with zeros. -/
def resize (v : List Nat) (n : Nat) : List Nat :=
  v.take n ++ List.replicate (n - v.length) 0

/-- Body of the inner loop of `ConvertRgbaToBgra` for pixel `x` of a row:
`src` starts at byte `srcOff` of the source, `dst` at byte `dstOff` of the
output. -/
def convertPixel (source : List Nat) (srcOff : Nat) (out : List Nat) (dstOff x : Nat) :
    List Nat :=
  let out := out.set (dstOff + (x * 4 + 0)) (source.getD (srcOff + (x * 4 + 2)) 0)
  let out := out.set (dstOff + (x * 4 + 1)) (source.getD (srcOff + (x * 4 + 1)) 0)
  let out := out.set (dstOff + (x * 4 + 2)) (source.getD (srcOff + (x * 4 + 0)) 0)
  out.set (dstOff + (x * 4 + 3)) (source.getD (srcOff + (x * 4 + 3)) 0)

/-- Body of the outer loop of `ConvertRgbaToBgra` for row `y`. -/
def convertRow (source : List Nat) (sourceRowBytes width : Nat) (out : List Nat) (y : Nat) :
    List Nat :=
  (List.range width).foldl
    (fun out x => convertPixel source (y * sourceRowBytes) out (y * width * 4) x) out

/-- The function `ConvertRgbaToBgra`; `source = none` is the null pointer. Returns the
result and the new contents of `outPixels`. -/
def ConvertRgbaToBgra (source : Option (List Nat)) (sourceRowBytes width height : Nat)
    (outPixels : List Nat) : Bool × List Nat :=
  match source with
  | none => (false, outPixels)
  | some src =>
    if width = 0 ∨ height = 0 ∨ sourceRowBytes < (width * 4) % kSizeModulus then
      (false, outPixels)
    else
      let out := resize outPixels ((width * height * 4) % kSizeModulus)
      (true, (List.range height).foldl (convertRow src sourceRowBytes width) out)

/-- The function `FlutterXrApp::HandleFlutterSurfacePresent`; `allocation = none` is the
null pointer, `some mem` the bytes found at the address. `memcpy` copies the first
`frameBytes` of them. -/
def HandleFlutterSurfacePresent (app : FlutterXrApp) (allocation : Option (List Nat))
    (rowBytes height : Nat) : FlutterXrApp × Bool :=
  match allocation with
  | none => (app, false)
  | some mem =>
    if rowBytes < 4 ∨ height = 0 then (app, false)
    else
      let frameBytes := (rowBytes * height) % kSizeModulus
      ({ app with
          latestFrame :=
            { pixels := mem.take frameBytes
              rowBytes := rowBytes
              width := rowBytes / 4
              height := height
              frameIndex := (app.latestFrame.frameIndex + 1) % kSizeModulus } },
       true)

/-- First block of `UploadLatestFlutterFrame`: the copy of the slot made under the
lock, or `none` when the function returns `false` there. -/
def snapshotLatestFrame (app : FlutterXrApp) : Option FlutterFrame :=
  if app.latestFrame.frameIndex = 0 ∨ app.latestFrame.frameIndex = app.uploadedFrameIndex_ then
    none
  else
    some app.latestFrame

/-- The function `FlutterXrApp::UploadLatestFlutterFrame`. -/
def UploadLatestFlutterFrame (app : FlutterXrApp) : FlutterXrApp × Bool :=
  match snapshotLatestFrame app with
  | none => (app, false)
  | some snapshot =>
    if snapshot.width = 0 ∨ snapshot.height = 0
        ∨ snapshot.rowBytes < (snapshot.width * 4) % kSizeModulus ∨ snapshot.pixels = [] then
      (app, false)
    else
      let uploadWidth := min snapshot.width kFlutterSurfaceWidth
      let uploadHeight := min snapshot.height kFlutterSurfaceHeight
      if uploadWidth = 0 ∨ uploadHeight = 0 then (app, false)
      else if app.isBgraFormat_ then
        let converted := ConvertRgbaToBgra (some snapshot.pixels) snapshot.rowBytes uploadWidth
          uploadHeight app.convertedPixels_
        if !converted.1 then ({ app with convertedPixels_ := converted.2 }, false)
        else
          ({ app with
              convertedPixels_ := converted.2
              flutterTextureUploads := app.flutterTextureUploads ++
                [⟨converted.2, (uploadWidth * 4 % kSizeModulus) % kUintModulus,
                  uploadWidth % kUintModulus, uploadHeight % kUintModulus⟩]
              uploadedFrameIndex_ := snapshot.frameIndex },
           true)
      else
        ({ app with
            flutterTextureUploads := app.flutterTextureUploads ++
              [⟨snapshot.pixels, snapshot.rowBytes % kUintModulus,
                uploadWidth % kUintModulus, uploadHeight % kUintModulus⟩]
            uploadedFrameIndex_ := snapshot.frameIndex },
         true)

/-- Arguments of one `HandleFlutterSurfacePresent` call. -/
structure SurfacePresent where
  allocation : Option (List Nat)
  rowBytes : Nat
  height : Nat
deriving DecidableEq

/-- The call is accepted (non-null allocation, `rowBytes >= 4`, `height > 0`) and the
allocation holds the `rowBytes * height` bytes that `memcpy` reads, inside a 64-bit
address space. -/
def SurfacePresent.Accepted (p : SurfacePresent) : Prop :=
  ∃ mem, p.allocation = some mem ∧ 4 ≤ p.rowBytes ∧ 0 < p.height
    ∧ p.rowBytes * p.height ≤ mem.length ∧ mem.length < kSizeModulus

/-- The bytes of the call's bitmap: the first `rowBytes * height` bytes of the
allocation. -/
def SurfacePresent.payload (p : SurfacePresent) : List Nat :=
  (p.allocation.getD []).take (p.rowBytes * p.height)

/-- A run of `HandleFlutterSurfacePresent` calls with nothing in between. -/
def presentAll (app : FlutterXrApp) (ps : List SurfacePresent) : FlutterXrApp :=
  ps.foldl (fun a p => (HandleFlutterSurfacePresent a p.allocation p.rowBytes p.height).1) app

/-- A whole call on the frame slot: a publish or a consume. -/
inductive FrameOp where
  | present (p : SurfacePresent)
  | upload

def frameStep (app : FlutterXrApp) : FrameOp → FlutterXrApp
  | FrameOp.present p => (HandleFlutterSurfacePresent app p.allocation p.rowBytes p.height).1
  | FrameOp.upload => (UploadLatestFlutterFrame app).1

def frameRun (app : FlutterXrApp) (ops : List FrameOp) : FlutterXrApp :=
  ops.foldl frameStep app

/-! ## Pointer input (`app_input.cpp`, `app_core.cpp`) -/

/-- The literal `{0.0f, -0.70710677f, 0.0f, 0.70710677f}`, each component the exact
value of its binary32 rounding. -/
def kRayAlignmentFromController : XrQuaternionf :=
  ⟨0, -(11863283 / 16777216), 0, 11863283 / 16777216⟩

/-- Constants of `shared.h` that `app_input.cpp` uses and the sources at hand do not
define. -/
structure ScrollConstants where
  kScrollAxisDeadzone : ℚ
  kScrollPixelsPerFrame : ℚ
  kScrollDeltaEpsilonPixels : ℚ

/-- The function `std::copysign` on numbers without a signed zero. -/
def copysign (magnitude sign : ℚ) : ℚ :=
  if sign < 0 then -|magnitude| else |magnitude|

def ApplyAxisDeadzone (k : ScrollConstants) (value : ℚ) : ℚ :=
  let magnitude := |value|
  if magnitude ≤ k.kScrollAxisDeadzone then 0
  else
    let normalized :=
      clamp ((magnitude - k.kScrollAxisDeadzone) / (1 - k.kScrollAxisDeadzone)) 0 1
    copysign normalized value

def MagnitudeSquared (value : XrVector2f) : ℚ :=
  value.x * value.x + value.y * value.y

/-- The function `SelectScrollHit`; `none` is the null pointer. -/
def SelectScrollHit (preferredHandPath leftHandPath : Nat) (rightHit leftHit : PointerHitResult) :
    Option PointerHitResult :=
  let preferredIsLeft : Bool := decide (preferredHandPath = leftHandPath)
  let preferred := if preferredIsLeft then leftHit else rightHit
  let fallback := if preferredIsLeft then rightHit else leftHit
  if preferred.onQuad then some preferred
  else if fallback.onQuad then some fallback
  else none

/-- The locals `scrollDeltaX` and `scrollDeltaY` of `PollInput` for the value
`scrollAxis` of the chosen scroll input. -/
def scrollDeltas (k : ScrollConstants) (scrollAxis : XrVector2f) : ℚ × ℚ :=
  (ApplyAxisDeadzone k scrollAxis.x * k.kScrollPixelsPerFrame,
   -(ApplyAxisDeadzone k scrollAxis.y) * k.kScrollPixelsPerFrame)

/-- The fields of `XrSpaceLocation` that `QueryPointerHit` reads. -/
structure XrSpaceLocation where
  locationFlags : Nat
  pose : XrPosef
deriving DecidableEq

/-- What one `QueryPointerHit` call gets from outside: `poseState` is the `isActive`
field that `xrGetActionStatePose` fills in (`none`: the call fails, on which
`ThrowIfXrFailed` throws), `locateSpace` the location that `xrLocateSpace` fills in at
the predicted display time (`none`: `XR_FAILED(locateResult)`), `sqrt` the function
`std::sqrt` on `float`. -/
structure QueryEnv where
  poseState : Option Bool
  locateSpace : Option XrSpaceLocation
  sqrt : ℚ → ℚ

/-- The constant `kRequiredFlags` of `QueryPointerHit`. -/
def kRequiredFlags : Nat :=
  XR_SPACE_LOCATION_POSITION_VALID_BIT ||| XR_SPACE_LOCATION_ORIENTATION_VALID_BIT

/-- The function `FlutterXrApp::QueryPointerHit`; the result `none` is a call left by
the exception of `ThrowIfXrFailed`. -/
def QueryPointerHit (env : QueryEnv) (pointerSpace handPath : Nat) : Option PointerHitResult :=
  let result : PointerHitResult := {}
  if pointerSpace = XR_NULL_HANDLE ∨ handPath = XR_NULL_HANDLE then some result
  else
    match env.poseState with
    | none => none
    | some isActive =>
      if !isActive then some result
      else
        match env.locateSpace with
        | none => some result
        | some pointerLocation =>
          if pointerLocation.locationFlags &&& kRequiredFlags ≠ kRequiredFlags then some result
          else
            let rayForward := RotateVector pointerLocation.pose.orientation ⟨0, 0, -1⟩
            let located : PointerHitResult :=
              { result with
                  hasPose := true
                  rayOriginWorld := pointerLocation.pose.position
                  rayDirectionWorld := Normalize env.sqrt rayForward
                  pointerOrientation := pointerLocation.pose.orientation }
            match IntersectRayWithQuad pointerLocation.pose.position located.rayDirectionWorld
                MakeQuadPose kQuadWidthMeters kQuadHeightMeters
                ⟨some located.hitDistanceMeters, some 0, some 0⟩ with
            | (false, out) =>
              some { located with
                      hitDistanceMeters := out.outHitDistanceMeters.getD located.hitDistanceMeters }
            | (true, out) =>
              some { located with
                      hitDistanceMeters := out.outHitDistanceMeters.getD located.hitDistanceMeters
                      onQuad := true
                      xPixels := clamp (out.outU.getD 0 * (kFlutterSurfaceWidth : ℚ)) 0
                        ((kFlutterSurfaceWidth - 1 : Nat) : ℚ)
                      yPixels := clamp (out.outV.getD 0 * (kFlutterSurfaceHeight : ℚ)) 0
                        ((kFlutterSurfaceHeight - 1 : Nat) : ℚ) }

/-- The value that `QueryPointerHit` returns once the pose is located with both required
flags: `located` is the sample before the intersection test. -/
def locatedSample (env : QueryEnv) (pointerLocation : XrSpaceLocation) : PointerHitResult :=
  { hasPose := true
    rayOriginWorld := pointerLocation.pose.position
    rayDirectionWorld :=
      Normalize env.sqrt (RotateVector pointerLocation.pose.orientation ⟨0, 0, -1⟩)
    pointerOrientation := pointerLocation.pose.orientation }

/-- A runtime that reports the hand active and located at the origin of the reference
space with the identity orientation and both required flags. -/
def facingEnv : QueryEnv :=
  { poseState := some true
    locateSpace := some ⟨3, ⟨⟨0, 0, 0, 1⟩, ⟨0, 0, 0⟩⟩⟩
    sqrt := fun value => value }

/-- A runtime that reports the hand active and located at the origin, turned half a turn
about the y axis (facing away from the surface). -/
def facingAwayEnv : QueryEnv :=
  { poseState := some true
    locateSpace := some ⟨3, ⟨⟨0, 1, 0, 0⟩, ⟨0, 0, 0⟩⟩⟩
    sqrt := fun value => value }

/-- The sample of a ray that hits the centre of the surface from the origin of the
reference space. -/
def centreSample : PointerHitResult :=
  { hasPose := true, onQuad := true, hitDistanceMeters := kQuadDistanceMeters,
    xPixels := 640, yPixels := 360 }

inductive FlutterPointerPhase where
  | kCancel
  | kUp
  | kDown
  | kMove
  | kAdd
  | kRemove
  | kHover
deriving DecidableEq

inductive FlutterPointerSignalKind where
  | kFlutterPointerSignalKindNone
  | kFlutterPointerSignalKindScroll
deriving DecidableEq

/-- The fields of `FlutterPointerEvent` that the runner fills with something other
than a clock reading or a fixed size / device kind. -/
structure FlutterPointerEvent where
  phase : FlutterPointerPhase
  x : ℚ
  y : ℚ
  device : Int
  signal_kind : FlutterPointerSignalKind
  scroll_delta_x : ℚ
  scroll_delta_y : ℚ
  buttons : Int
  view_id : Int
deriving DecidableEq

/-- A member function in progress: the members and the events handed to
`FlutterEngineSendPointerEvent` since the function was entered, oldest first. -/
structure Run where
  app : FlutterXrApp
  events : List FlutterPointerEvent

/-- Assignments to members by a member function in progress. -/
def Run.assign (r : Run) (f : FlutterXrApp → FlutterXrApp) : Run :=
  ⟨f r.app, r.events⟩

/-- The function `FlutterXrApp::SendFlutterPointerEvent`. `engine n` tells whether the
`n`-th `FlutterEngineSendPointerEvent` call of the running member function returns
`kSuccess`. -/
def SendFlutterPointerEvent (engine : Nat → Bool) (r : Run) (phase : FlutterPointerPhase)
    (xPixels yPixels : ℚ) (buttons : Int) : Run × Bool :=
  if r.app.flutterEngine_ = XR_NULL_HANDLE then (r, false)
  else
    let event : FlutterPointerEvent :=
      { phase := phase
        x := xPixels
        y := yPixels
        device := kPointerDeviceId
        signal_kind := FlutterPointerSignalKind.kFlutterPointerSignalKindNone
        scroll_delta_x := 0
        scroll_delta_y := 0
        buttons := buttons
        view_id := kFlutterViewId }
    if !engine r.events.length then (⟨r.app, r.events ++ [event]⟩, false)
    else
      (⟨{ r.app with lastPointerX_ := xPixels, lastPointerY_ := yPixels }, r.events ++ [event]⟩,
       true)

/-- The function `FlutterXrApp::SendFlutterScrollEvent`. -/
def SendFlutterScrollEvent (engine : Nat → Bool) (r : Run)
    (xPixels yPixels deltaXPixels deltaYPixels : ℚ) : Run × Bool :=
  if r.app.flutterEngine_ = XR_NULL_HANDLE then (r, false)
  else
    let event : FlutterPointerEvent :=
      { phase := if r.app.pointerDown_ then FlutterPointerPhase.kMove
                 else FlutterPointerPhase.kHover
        x := xPixels
        y := yPixels
        device := kPointerDeviceId
        signal_kind := FlutterPointerSignalKind.kFlutterPointerSignalKindScroll
        scroll_delta_x := deltaXPixels
        scroll_delta_y := deltaYPixels
        buttons := if r.app.pointerDown_ then kFlutterPointerButtonMousePrimary else 0
        view_id := kFlutterViewId }
    if !engine r.events.length then (⟨r.app, r.events ++ [event]⟩, false)
    else
      (⟨{ r.app with lastPointerX_ := xPixels, lastPointerY_ := yPixels }, r.events ++ [event]⟩,
       true)

/-- The function `FlutterXrApp::EnsureFlutterPointerAdded`. -/
def EnsureFlutterPointerAdded (engine : Nat → Bool) (r : Run) (xPixels yPixels : ℚ) : Run :=
  if r.app.pointerAdded_ then r
  else
    match SendFlutterPointerEvent engine r FlutterPointerPhase.kAdd xPixels yPixels 0 with
    | (sent, true) => sent.assign (fun a => { a with pointerAdded_ := true })
    | (sent, false) => sent

/-- The statements
`if (pointerDown_) { SendFlutterPointerEvent(kUp, lastPointerX_, lastPointerY_, 0); pointerDown_ = false; }`
`triggerPressed_ = false; pointerRayVisible_ = false; leftPointerRayVisible_ = false;`
which `PollInput` runs when the session is not focused and
`HandleSessionStateChanged` runs for `STOPPING`, `EXITING` and `LOSS_PENDING`. -/
def releasePointer (engine : Nat → Bool) (r : Run) : Run :=
  let r1 : Run :=
    if r.app.pointerDown_ then
      match SendFlutterPointerEvent engine r FlutterPointerPhase.kUp
          r.app.lastPointerX_ r.app.lastPointerY_ 0 with
      | (sent, _) => sent.assign (fun a => { a with pointerDown_ := false })
    else r
  r1.assign (fun a =>
    { a with
        triggerPressed_ := false
        pointerRayVisible_ := false
        leftPointerRayVisible_ := false })

/-- The lambda `updateRayState` of `PollInput`: new values of `*visible`, `*length` and
`*pose`. -/
def updateRayState (pointerHit : PointerHitResult) (length : ℚ) (pose : XrPosef) :
    Bool × ℚ × XrPosef :=
  if pointerHit.hasPose then
    let rayLength :=
      if pointerHit.onQuad then
        clamp pointerHit.hitDistanceMeters kPointerRayMinLengthMeters
          kPointerRayFallbackLengthMeters
      else kPointerRayFallbackLengthMeters
    (true, rayLength,
      { orientation := Multiply pointerHit.pointerOrientation kRayAlignmentFromController
        position := Add pointerHit.rayOriginWorld
          (Scale pointerHit.rayDirectionWorld (rayLength * (1 / 2))) })
  else (false, length, pose)

structure XrActionStateFloat where
  isActive : Bool
  currentState : ℚ

structure XrActionStateVector2f where
  isActive : Bool
  currentState : XrVector2f

/-- What the OpenXR runtime answers during one focused `PollInput` call. `hit` and
`leftHit` are the values of the two `QueryPointerHit` calls; `false` / `none` is a
failed runtime call, on which `ThrowIfXrFailed` throws. -/
structure PollEnv where
  syncActions : Bool
  hit : Option PointerHitResult
  leftHit : Option PointerHitResult
  triggerState : Option XrActionStateFloat
  rightScrollState : Option XrActionStateVector2f
  leftScrollState : Option XrActionStateVector2f

/-- Result of a member function: the members afterwards, the events it handed to the
engine, and whether it was left by an exception. -/
structure Outcome where
  app : FlutterXrApp
  events : List FlutterPointerEvent
  threw : Bool

/-- The statements of `PollInput` from `if (pressedNow && !triggerPressed_)` to the
assignment of `triggerPressed_`, for given values of the locals `inputActive` and
`pressedNow`. -/
def triggerTransition (engine : Nat → Bool) (r : Run) (hit : PointerHitResult)
    (inputActive pressedNow : Bool) : Run :=
  let r1 : Run :=
    if pressedNow && !r.app.triggerPressed_ then
      if hit.onQuad && decide (r.app.flutterEngine_ ≠ XR_NULL_HANDLE) then
        match EnsureFlutterPointerAdded engine r hit.xPixels hit.yPixels with
        | added =>
          if added.app.pointerAdded_ then
            match SendFlutterPointerEvent engine added FlutterPointerPhase.kDown
                hit.xPixels hit.yPixels kFlutterPointerButtonMousePrimary with
            | (sent, true) => sent.assign (fun a => { a with pointerDown_ := true })
            | (sent, false) => sent
          else added
      else r
    else if (!pressedNow || !inputActive) && r.app.triggerPressed_ then
      if r.app.pointerDown_ && decide (r.app.flutterEngine_ ≠ XR_NULL_HANDLE) then
        let upX := if hit.onQuad then hit.xPixels else r.app.lastPointerX_
        let upY := if hit.onQuad then hit.yPixels else r.app.lastPointerY_
        match SendFlutterPointerEvent engine r FlutterPointerPhase.kUp upX upY 0 with
        | (sent, _) => sent.assign (fun a => { a with pointerDown_ := false })
      else r
    else r
  r1.assign (fun a => { a with triggerPressed_ := inputActive && pressedNow })

/-- The local `pressedNow` of `PollInput`. -/
def pressedNow (triggerPressed : Bool) (triggerValue : ℚ) : Bool :=
  if triggerPressed then decide (kTriggerReleaseThreshold ≤ triggerValue)
  else decide (kTriggerPressThreshold ≤ triggerValue)

/-- The trigger part of `PollInput`: from the read of `triggerState` to the
assignment of `triggerPressed_`. -/
def pollTrigger (engine : Nat → Bool) (r : Run) (hit : PointerHitResult)
    (triggerState : XrActionStateFloat) : Run :=
  let inputActive : Bool := triggerState.isActive
  let triggerValue : ℚ := if inputActive then triggerState.currentState else 0
  triggerTransition engine r hit inputActive (pressedNow r.app.triggerPressed_ triggerValue)

/-- The locals `scrollAxis` and `scrollAxisHandPath` of `PollInput` once the two scroll
states are read. -/
def chooseScrollAxis (app : FlutterXrApp) (rightScrollState leftScrollState : XrActionStateVector2f) :
    XrVector2f × Nat :=
  let rightScrollActive : Bool := rightScrollState.isActive
  let leftScrollActive : Bool := leftScrollState.isActive
  if rightScrollActive && leftScrollActive then
    if MagnitudeSquared rightScrollState.currentState
        < MagnitudeSquared leftScrollState.currentState then
      (leftScrollState.currentState, app.leftHandPath_)
    else (rightScrollState.currentState, app.rightHandPath_)
  else if rightScrollActive then (rightScrollState.currentState, app.rightHandPath_)
  else if leftScrollActive then (leftScrollState.currentState, app.leftHandPath_)
  else (⟨0, 0⟩, app.rightHandPath_)

/-- The last statements of `PollInput`, from `double scrollX = lastPointerX_;` on, for
the value `scrollHit` of `SelectScrollHit` and the two deltas. -/
def sendScrollAt (engine : Nat → Bool) (r : Run) (scrollHit : Option PointerHitResult)
    (scrollDeltaX scrollDeltaY : ℚ) : Run :=
  match scrollHit with
  | some scrollHit =>
    let scrollX := scrollHit.xPixels
    let scrollY := scrollHit.yPixels
    match EnsureFlutterPointerAdded engine r scrollX scrollY with
    | added =>
      match (if added.app.pointerAdded_ && !added.app.pointerDown_ then
              (SendFlutterPointerEvent engine added FlutterPointerPhase.kHover scrollX scrollY 0).1
            else added) with
      | hovered =>
        if hovered.app.pointerAdded_ then
          (SendFlutterScrollEvent engine hovered scrollX scrollY scrollDeltaX scrollDeltaY).1
        else hovered
  | none =>
    if r.app.pointerAdded_ then
      (SendFlutterScrollEvent engine r r.app.lastPointerX_ r.app.lastPointerY_
        scrollDeltaX scrollDeltaY).1
    else r

/-- The scroll part of `PollInput`, from the two scroll states on. -/
def pollScroll (k : ScrollConstants) (engine : Nat → Bool) (r : Run)
    (hit leftHit : PointerHitResult)
    (rightScrollState leftScrollState : XrActionStateVector2f) : Run :=
  let chosen := chooseScrollAxis r.app rightScrollState leftScrollState
  let scrollAxis := chosen.1
  let scrollAxisHandPath := chosen.2
  let scrollDeltaX : ℚ := ApplyAxisDeadzone k scrollAxis.x * k.kScrollPixelsPerFrame
  let scrollDeltaY : ℚ := -(ApplyAxisDeadzone k scrollAxis.y) * k.kScrollPixelsPerFrame
  if |scrollDeltaX| ≤ k.kScrollDeltaEpsilonPixels ∧ |scrollDeltaY| ≤ k.kScrollDeltaEpsilonPixels
  then r
  else
    sendScrollAt engine r (SelectScrollHit scrollAxisHandPath r.app.leftHandPath_ hit leftHit)
      scrollDeltaX scrollDeltaY

/-- The two `updateRayState` calls of `PollInput`, on the right and the left hand. -/
def updateRays (app : FlutterXrApp) (hit leftHit : PointerHitResult) : FlutterXrApp :=
  let right := updateRayState hit app.pointerRayLengthMeters_ app.pointerRayPose_
  let left := updateRayState leftHit app.leftPointerRayLengthMeters_ app.leftPointerRayPose_
  { app with
      pointerRayVisible_ := right.1
      pointerRayLengthMeters_ := right.2.1
      pointerRayPose_ := right.2.2
      leftPointerRayVisible_ := left.1
      leftPointerRayLengthMeters_ := left.2.1
      leftPointerRayPose_ := left.2.2 }

/-- The function `FlutterXrApp::PollInput`. -/
def PollInput (k : ScrollConstants) (engine : Nat → Bool) (app : FlutterXrApp) (env : PollEnv) :
    Outcome :=
  if app.inputActionSet_ = XR_NULL_HANDLE then ⟨app, [], false⟩
  else if app.sessionState_ ≠ XrSessionState.FOCUSED then
    match releasePointer engine ⟨app, []⟩ with
    | ⟨released, events⟩ => ⟨released, events, false⟩
  else if !env.syncActions then ⟨app, [], true⟩
  else
    match env.hit with
    | none => ⟨app, [], true⟩
    | some hit =>
      match env.leftHit with
      | none => ⟨app, [], true⟩
      | some leftHit =>
        match env.triggerState with
        | none => ⟨updateRays app hit leftHit, [], true⟩
        | some triggerState =>
          match pollTrigger engine ⟨updateRays app hit leftHit, []⟩ hit triggerState with
          | r =>
            if r.app.scrollVectorAction_ = XR_NULL_HANDLE ∨ r.app.flutterEngine_ = XR_NULL_HANDLE then
              ⟨r.app, r.events, false⟩
            else
              match env.rightScrollState with
              | none => ⟨r.app, r.events, true⟩
              | some rightScrollState =>
                match env.leftScrollState with
                | none => ⟨r.app, r.events, true⟩
                | some leftScrollState =>
                  match pollScroll k engine r hit leftHit rightScrollState leftScrollState with
                  | ⟨polled, events⟩ => ⟨polled, events, false⟩

/-- The function `FlutterXrApp::HandleSessionStateChanged` for `changed.state = state`;
`xrOk` tells whether the runtime call it makes (`xrBeginSession`, `xrEndSession`)
succeeds. -/
def HandleSessionStateChanged (engine : Nat → Bool) (app : FlutterXrApp) (state : XrSessionState)
    (xrOk : Bool) : Outcome :=
  let app0 : FlutterXrApp := { app with sessionState_ := state }
  match state with
  | XrSessionState.READY =>
    if !xrOk then ⟨app0, [], true⟩
    else ⟨{ app0 with sessionRunning_ := true }, [], false⟩
  | XrSessionState.STOPPING =>
    match releasePointer engine ⟨app0, []⟩ with
    | ⟨released, events⟩ => ⟨{ released with sessionRunning_ := false }, events, !xrOk⟩
  | XrSessionState.EXITING | XrSessionState.LOSS_PENDING =>
    match releasePointer engine ⟨app0, []⟩ with
    | ⟨released, events⟩ =>
      ⟨{ released with sessionRunning_ := false, exitRequested_ := true }, events, false⟩
  | _ => ⟨app0, [], false⟩

/-- The function `FlutterXrApp::Shutdown`, on the modelled members. -/
def Shutdown (engine : Nat → Bool) (app : FlutterXrApp) : Outcome :=
  let r1 : Run :=
    if decide (app.flutterEngine_ ≠ XR_NULL_HANDLE) && app.pointerAdded_ then
      match SendFlutterPointerEvent engine ⟨app, []⟩ FlutterPointerPhase.kRemove
          app.lastPointerX_ app.lastPointerY_ 0 with
      | (sent, _) => sent.assign (fun a => { a with pointerAdded_ := false })
    else ⟨app, []⟩
  match r1 with
  | ⟨app1, events⟩ =>
    ⟨{ app1 with
        flutterEngine_ := XR_NULL_HANDLE
        inputActionSet_ := XR_NULL_HANDLE
        sessionRunning_ := if app1.session_ ≠ XR_NULL_HANDLE then false else app1.sessionRunning_
        session_ := XR_NULL_HANDLE
        convertedPixels_ := []
        backgroundCustomPixels_ := [] },
      events, false⟩

/-- A down event: an event of phase `kDown`. -/
def FlutterPointerEvent.isDown (e : FlutterPointerEvent) : Bool :=
  decide (e.phase = FlutterPointerPhase.kDown)

/-- An up event: an event of phase `kUp`. -/
def FlutterPointerEvent.isUp (e : FlutterPointerEvent) : Bool :=
  decide (e.phase = FlutterPointerPhase.kUp)

/-- A trigger transition event: a down or an up event. -/
def FlutterPointerEvent.isTransition (e : FlutterPointerEvent) : Bool :=
  e.isDown || e.isUp

/-- A scroll-signal event. -/
def FlutterPointerEvent.isScroll (e : FlutterPointerEvent) : Bool :=
  decide (e.signal_kind = FlutterPointerSignalKind.kFlutterPointerSignalKindScroll)

/-- The event that `SendFlutterPointerEvent(phase, x, y, buttons)` hands to the engine. -/
def pointerEvent (phase : FlutterPointerPhase) (x y : ℚ) (buttons : Int) : FlutterPointerEvent :=
  { phase := phase
    x := x
    y := y
    device := kPointerDeviceId
    signal_kind := FlutterPointerSignalKind.kFlutterPointerSignalKindNone
    scroll_delta_x := 0
    scroll_delta_y := 0
    buttons := buttons
    view_id := kFlutterViewId }

/-- The event that `SendFlutterScrollEvent(x, y, deltaX, deltaY)` hands to the engine
when `pointerDown_` has the value `down`. -/
def scrollEvent (down : Bool) (x y deltaX deltaY : ℚ) : FlutterPointerEvent :=
  { phase := if down then FlutterPointerPhase.kMove else FlutterPointerPhase.kHover
    x := x
    y := y
    device := kPointerDeviceId
    signal_kind := FlutterPointerSignalKind.kFlutterPointerSignalKindScroll
    scroll_delta_x := deltaX
    scroll_delta_y := deltaY
    buttons := if down then kFlutterPointerButtonMousePrimary else 0
    view_id := kFlutterViewId }

/-- Runtime answers of a poll in which no runtime call fails and the trigger is active
with value `value`. -/
def activePoll (hit leftHit : PointerHitResult) (value : ℚ)
    (rightScrollState leftScrollState : XrActionStateVector2f) : PollEnv :=
  { syncActions := true
    hit := some hit
    leftHit := some leftHit
    triggerState := some ⟨true, value⟩
    rightScrollState := some rightScrollState
    leftScrollState := some leftScrollState }

/-- The down and up events of a list of events, in order. -/
def transitions (events : List FlutterPointerEvent) : List FlutterPointerEvent :=
  events.filter FlutterPointerEvent.isTransition

/-- An engine that accepts every event. -/
def engineAccepts : Nat → Bool := fun _ => true

/-- An initialised application in a focused session: action set, scroll action, hand
paths and engine exist, nothing is pressed. -/
def runningApp : FlutterXrApp :=
  { session_ := 1
    inputActionSet_ := 2
    scrollVectorAction_ := 3
    rightHandPath_ := 4
    leftHandPath_ := 5
    sessionState_ := XrSessionState.FOCUSED
    sessionRunning_ := true
    flutterEngine_ := 6 }

/-- The application `runningApp` with the trigger held and the pointer down. -/
def pressedApp : FlutterXrApp :=
  { runningApp with triggerPressed_ := true, pointerAdded_ := true, pointerDown_ := true }

/-- A right-hand ray that hits the surface at pixel (100, 200), one metre away. -/
def surfaceHit : PointerHitResult :=
  { hasPose := true, onQuad := true, hitDistanceMeters := 1, xPixels := 100, yPixels := 200 }

/-- A scroll input that is not active. -/
def idleScroll : XrActionStateVector2f := ⟨false, ⟨0, 0⟩⟩

/-- Sample values for the scroll constants (deadzone 0.2, 40 pixels per frame, epsilon
0.01). -/
def sampleScrollConstants : ScrollConstants := ⟨1 / 5, 40, 1 / 100⟩

/-- A call that changes the input state. -/
inductive InputOp where
  | poll (engine : Nat → Bool) (env : PollEnv)
  | sessionStateChanged (engine : Nat → Bool) (state : XrSessionState) (xrOk : Bool)
  | ensurePointerAdded (engine : Nat → Bool) (xPixels yPixels : ℚ)
  | shutdown (engine : Nat → Bool)

def inputStep (k : ScrollConstants) (app : FlutterXrApp) : InputOp → FlutterXrApp
  | InputOp.poll engine env => (PollInput k engine app env).app
  | InputOp.sessionStateChanged engine state xrOk =>
    (HandleSessionStateChanged engine app state xrOk).app
  | InputOp.ensurePointerAdded engine x y => (EnsureFlutterPointerAdded engine ⟨app, []⟩ x y).app
  | InputOp.shutdown engine => (Shutdown engine app).app

def inputRun (k : ScrollConstants) (app : FlutterXrApp) (ops : List InputOp) : FlutterXrApp :=
  ops.foldl (inputStep k) app


/-! ## Background configuration (`app_background.cpp`) -/

/-- The function `std::isspace` in the "C" locale. -/
def isspace (ch : Char) : Bool :=
  ch = ' ' || (9 ≤ ch.toNat && ch.toNat ≤ 13)

/-- The function `std::tolower` in the "C" locale. -/
def tolower (ch : Char) : Char :=
  if 'A'.toNat ≤ ch.toNat ∧ ch.toNat ≤ 'Z'.toNat then Char.ofNat (ch.toNat + 32) else ch

/-- The function `TrimAscii`: `b` is the offset of `begin`, `e` the offset of `end`. -/
def TrimAscii (value : String) : String :=
  let cs := value.toList
  let b := (cs.takeWhile isspace).length
  let e := cs.length - (cs.reverse.takeWhile isspace).length
  if e ≤ b then "" else String.mk ((cs.drop b).take (e - b))

def ToLowerAscii (value : String) : String :=
  String.mk (value.toList.map tolower)

/-- The call `trimmed.find('|')`; `none` is `std::string::npos`. -/
def findSeparator (trimmed : String) : Option Nat :=
  trimmed.toList.findIdx? (fun ch => ch == '|')

/-- The local `command` of `HandleBackgroundMessage`:
`ToLowerAscii(TrimAscii(trimmed.substr(0, separator)))`. -/
def backgroundCommand (message : String) : String :=
  let trimmed := TrimAscii message
  match findSeparator trimmed with
  | none => ToLowerAscii (TrimAscii trimmed)
  | some separator => ToLowerAscii (TrimAscii (String.mk (trimmed.toList.take separator)))

/-- The local `argument` of `HandleBackgroundMessage`. -/
def backgroundArgument (message : String) : String :=
  let trimmed := TrimAscii message
  match findSeparator trimmed with
  | none => ""
  | some separator => TrimAscii (String.mk (trimmed.toList.drop (separator + 1)))

/-- The platform as the background functions see it: text conversion, the path
library, the file system, the image decoder (`DecodeImageFileToPixels`, a run of
Windows Imaging Component calls, with its error text on failure) and the pixels that
`BuildGroundGridPixels` generates for a colour format. Paths are strings. -/
structure BackgroundEnv where
  Utf8ToWide : String → String
  WideToUtf8 : String → String
  isAbsolute : String → Bool
  isValidFile : String → Bool
  absolute : String → Option String
  executableDirJoin : String → String
  extension : String → String
  DecodeImageFileToPixels : String → Bool → Except String (List Nat)
  BuildGroundGridPixels : Bool → List Nat

/-- The function `ResolveExistingFilePath` called with non-null `outPath` and `outError`:
the resolved path, or the error text. -/
def ResolveExistingFilePath (env : BackgroundEnv) (utf8Path : String) : Except String String :=
  let trimmed := TrimAscii utf8Path
  if trimmed = "" then Except.error "Background file path is empty."
  else
    let inputPath := env.Utf8ToWide trimmed
    if inputPath = "" then Except.error "Background file path could not be parsed."
    else if env.isAbsolute inputPath then
      if !env.isValidFile inputPath then
        Except.error ("Background file was not found: " ++ trimmed)
      else Except.ok inputPath
    else
      match (env.absolute inputPath).filter env.isValidFile with
      | some absoluteFromCwd => Except.ok absoluteFromCwd
      | none =>
        let absoluteFromExe := env.executableDirJoin inputPath
        if env.isValidFile absoluteFromExe then Except.ok absoluteFromExe
        else Except.error ("Background file was not found: " ++ trimmed)

/-- The function `FlutterXrApp::HandleBackgroundMessage`: the members afterwards and the
returned text. -/
def HandleBackgroundMessage (env : BackgroundEnv) (app : FlutterXrApp) (message : String) :
    FlutterXrApp × String :=
  let trimmed := TrimAscii message
  if trimmed = "" then (app, "error:background command is empty.")
  else
    let command := backgroundCommand message
    let argument := backgroundArgument message
    if command = "none" then
      ({ app with
          backgroundMode_ := BackgroundMode.None
          backgroundAssetPathUtf8_ := ""
          backgroundCustomPixels_ := []
          backgroundConfigVersion_ := (app.backgroundConfigVersion_ + 1) % kSizeModulus },
       "ok")
    else if command = "grid" then
      ({ app with
          backgroundMode_ := BackgroundMode.GroundGrid
          backgroundAssetPathUtf8_ := ""
          backgroundCustomPixels_ := []
          backgroundConfigVersion_ := (app.backgroundConfigVersion_ + 1) % kSizeModulus },
       "ok")
    else if command = "dds" then
      match ResolveExistingFilePath env argument with
      | Except.error resolveError => (app, "error:" ++ resolveError)
      | Except.ok resolvedPath =>
        let extension := ToLowerAscii (env.WideToUtf8 (env.extension resolvedPath))
        if extension ≠ ".dds" then
          (app, "error:Only .dds files are supported for this command.")
        else
          match env.DecodeImageFileToPixels resolvedPath app.isBgraFormat_ with
          | Except.error decodeError => (app, "error:" ++ decodeError)
          | Except.ok decodedPixels =>
            ({ app with
                backgroundMode_ := BackgroundMode.Dds
                backgroundAssetPathUtf8_ := env.WideToUtf8 resolvedPath
                backgroundCustomPixels_ := decodedPixels
                backgroundConfigVersion_ := (app.backgroundConfigVersion_ + 1) % kSizeModulus },
             "ok")
    else if command = "glb" then (app, "error:.glb background is not supported yet.")
    else (app, "error:Unknown background command. Use none, grid, dds|<path>, or glb|<path>.")

/-- Locals of an `UploadBackgroundTexture` call after its first locked block. -/
structure UploadLocals where
  mode : BackgroundMode
  targetVersion : Nat
  pixels : List Nat
deriving DecidableEq

/-- Where an `UploadBackgroundTexture` call stands between its steps. -/
inductive UploadPc where
  | start
  | snapshotTaken (l : UploadLocals)
  | recheckPassed (l : UploadLocals)
  | uploaded (l : UploadLocals)
  | returned (result : Bool)
deriving DecidableEq

/-- The version `targetVersion` that a call in progress read in its first locked
block. -/
def UploadPc.targetVersion : UploadPc → Option Nat
  | UploadPc.snapshotTaken l => some l.targetVersion
  | UploadPc.recheckPassed l => some l.targetVersion
  | UploadPc.uploaded l => some l.targetVersion
  | _ => none

/-- One step of `UploadBackgroundTexture`. From `start`: the first locked block (the
snapshot). From `snapshotTaken`: the mode dispatch with the unlocked preparation of the
pixels and the next locked block (for `None` the commit, otherwise the re-check). From
`recheckPassed`: `UpdateSubresource`. From `uploaded`: the last locked block (the
commit). -/
def uploadBackgroundStep (env : BackgroundEnv) (app : FlutterXrApp) :
    UploadPc → FlutterXrApp × UploadPc
  | UploadPc.start =>
    let targetVersion := app.backgroundConfigVersion_
    if app.backgroundUploadedVersion_ = targetVersion then (app, UploadPc.returned true)
    else
      let mode := app.backgroundMode_
      (app, UploadPc.snapshotTaken
        ⟨mode, targetVersion,
          if mode = BackgroundMode.Dds then app.backgroundCustomPixels_ else []⟩)
  | UploadPc.snapshotTaken l =>
    match l.mode with
    | BackgroundMode.None =>
      (if app.backgroundConfigVersion_ = l.targetVersion then
          { app with backgroundUploadedVersion_ := l.targetVersion }
        else app,
       UploadPc.returned true)
    | BackgroundMode.GroundGrid =>
      let pixels := env.BuildGroundGridPixels app.isBgraFormat_
      if app.backgroundConfigVersion_ ≠ l.targetVersion then (app, UploadPc.returned false)
      else (app, UploadPc.recheckPassed { l with pixels := pixels })
    | BackgroundMode.Dds =>
      if l.pixels = [] then (app, UploadPc.returned false)
      else if app.backgroundConfigVersion_ ≠ l.targetVersion then (app, UploadPc.returned false)
      else (app, UploadPc.recheckPassed l)
    | BackgroundMode.Glb => (app, UploadPc.returned false)
  | UploadPc.recheckPassed l =>
    ({ app with backgroundTextureUploads := app.backgroundTextureUploads ++ [l.pixels] },
     UploadPc.uploaded l)
  | UploadPc.uploaded l =>
    (if app.backgroundConfigVersion_ = l.targetVersion then
        { app with backgroundUploadedVersion_ := l.targetVersion }
      else app,
     UploadPc.returned true)
  | UploadPc.returned result => (app, UploadPc.returned result)

/-- The tail of `UploadBackgroundTexture` once the pixels are ready: the re-check under
the lock, `UpdateSubresource`, and the commit under the lock. -/
def uploadBackgroundPixels (app : FlutterXrApp) (targetVersion : Nat) (pixels : List Nat) :
    FlutterXrApp × Bool :=
  if app.backgroundConfigVersion_ ≠ targetVersion then (app, false)
  else
    let app1 : FlutterXrApp :=
      { app with backgroundTextureUploads := app.backgroundTextureUploads ++ [pixels] }
    (if app1.backgroundConfigVersion_ = targetVersion then
        { app1 with backgroundUploadedVersion_ := targetVersion }
      else app1,
     true)

/-- The function `FlutterXrApp::UploadBackgroundTexture` run without interruption. -/
def UploadBackgroundTexture (env : BackgroundEnv) (app : FlutterXrApp) : FlutterXrApp × Bool :=
  let targetVersion := app.backgroundConfigVersion_
  if app.backgroundUploadedVersion_ = targetVersion then (app, true)
  else
    let mode := app.backgroundMode_
    let pixels : List Nat := if mode = BackgroundMode.Dds then app.backgroundCustomPixels_ else []
    match mode with
    | BackgroundMode.None =>
      (if app.backgroundConfigVersion_ = targetVersion then
          { app with backgroundUploadedVersion_ := targetVersion }
        else app,
       true)
    | BackgroundMode.GroundGrid =>
      uploadBackgroundPixels app targetVersion (env.BuildGroundGridPixels app.isBgraFormat_)
    | BackgroundMode.Dds =>
      if pixels = [] then (app, false) else uploadBackgroundPixels app targetVersion pixels
    | BackgroundMode.Glb => (app, false)

/-- The function `FlutterXrApp::CreateBackgroundTexture`: the members afterwards and
whether the call was left by an exception. `createOk` tells whether
`ID3D11Device::CreateTexture2D` succeeds; `BuildGroundGridPixels` is called with a
non-null vector and so returns `true`. -/
def CreateBackgroundTexture (env : BackgroundEnv) (app : FlutterXrApp) (createOk : Bool) :
    FlutterXrApp × Bool :=
  if !createOk then (app, true)
  else
    let initialPixels := env.BuildGroundGridPixels app.isBgraFormat_
    ({ app with
        backgroundTextureUploads := app.backgroundTextureUploads ++ [initialPixels]
        backgroundUploadedVersion_ := 0 },
     false)

/-- An atomic action on the background configuration: a step of the running
`UploadBackgroundTexture` call (compositor thread), a whole
`HandleBackgroundMessage` call (platform-message thread), the entry of the compositor
thread into a new `UploadBackgroundTexture` call once the previous one has returned, or
a whole `CreateBackgroundTexture` call. -/
inductive BackgroundAction where
  | uploadStep
  | message (text : String)
  | uploadCall
  | createTexture (createOk : Bool)

def backgroundStep (env : BackgroundEnv) (c : FlutterXrApp × UploadPc) :
    BackgroundAction → FlutterXrApp × UploadPc
  | BackgroundAction.uploadStep => uploadBackgroundStep env c.1 c.2
  | BackgroundAction.message text => ((HandleBackgroundMessage env c.1 text).1, c.2)
  | BackgroundAction.uploadCall =>
    match c.2 with
    | UploadPc.returned _ => (c.1, UploadPc.start)
    | _ => c
  | BackgroundAction.createTexture createOk => ((CreateBackgroundTexture env c.1 createOk).1, c.2)

def backgroundRun (env : BackgroundEnv) (c : FlutterXrApp × UploadPc)
    (actions : List BackgroundAction) : FlutterXrApp × UploadPc :=
  actions.foldl (backgroundStep env) c


/-- A platform whose disk holds no file at all and whose decoder fails. -/
def emptyDiskEnv : BackgroundEnv :=
  { Utf8ToWide := fun text => text
    WideToUtf8 := fun text => text
    isAbsolute := fun _ => false
    isValidFile := fun _ => false
    absolute := fun path => some ("C:/work/" ++ path)
    executableDirJoin := fun path => "C:/app/" ++ path
    extension := fun _ => ""
    DecodeImageFileToPixels := fun _ _ => Except.error "Failed to open background image."
    BuildGroundGridPixels := fun _ => [0] }

/-- A run of `n` consecutive steps of the running `UploadBackgroundTexture` call. -/
def uploadSteps (n : Nat) : List BackgroundAction :=
  List.replicate n BackgroundAction.uploadStep

/-! ## Quaternions as Hamilton's quaternions, ray visual (`shared.cpp`, `app_input.cpp`) -/

/-- The quaternion `x i + y j + z k + w` that a value in `(x, y, z, w)` layout denotes,
as an element of Hamilton's quaternions over the rationals. -/
def toHamilton (q : XrQuaternionf) : Quaternion ℚ :=
  ⟨q.w, q.x, q.y, q.z⟩

/-- The `(x, y, z, w)` layout of an element of Hamilton's quaternions. -/
def ofHamilton (q : Quaternion ℚ) : XrQuaternionf :=
  ⟨q.imI, q.imJ, q.imK, q.re⟩

/-- The Hamilton product in `(x, y, z, w)` layout, as the specification names it: the
product of Hamilton's quaternions, to be compared with `Multiply`. -/
def hamiltonProduct (lhs rhs : XrQuaternionf) : XrQuaternionf :=
  ofHamilton (toHamilton lhs * toHamilton rhs)

/-- The vector `v` as the pure quaternion `(v.x, v.y, v.z, 0)`. -/
def pureQuaternion (v : XrVector3f) : XrQuaternionf :=
  ⟨v.x, v.y, v.z, 0⟩

/-- The vector part `(x, y, z)` of a quaternion. -/
def vectorPart (q : XrQuaternionf) : XrVector3f :=
  ⟨q.x, q.y, q.z⟩

/-- The constant `c` with `RotateVector(kRayAlignmentFromController, (1, 0, 0)) =
c * (0, 0, -1)`: minus twice the square of `0.70710677f`. -/
def kRayAlignmentScale : ℚ :=
  -(2 * (kRayAlignmentFromController.w * kRayAlignmentFromController.w))

/-- The local `rayLength` of the lambda `updateRayState` for a sample with a pose. -/
def rayLength (pointerHit : PointerHitResult) : ℚ :=
  if pointerHit.onQuad then
    clamp pointerHit.hitDistanceMeters kPointerRayMinLengthMeters kPointerRayFallbackLengthMeters
  else kPointerRayFallbackLengthMeters

/-! ## Frame handoff: the byte accesses of the conversion (`shared.cpp`, `app_flutter.cpp`) -/

/-- The byte accesses of the body of the inner loop of `ConvertRgbaToBgra` for pixel `x`,
in program order: each pair is the index read relative to `source` and the index written
relative to `outPixels.data()`. -/
def convertPixelAccesses (srcOff dstOff x : Nat) : List (Nat × Nat) :=
  [(srcOff + (x * 4 + 2), dstOff + (x * 4 + 0)),
   (srcOff + (x * 4 + 1), dstOff + (x * 4 + 1)),
   (srcOff + (x * 4 + 0), dstOff + (x * 4 + 2)),
   (srcOff + (x * 4 + 3), dstOff + (x * 4 + 3))]

/-- The byte accesses of the body of the outer loop of `ConvertRgbaToBgra` for row `y`. -/
def convertRowAccesses (sourceRowBytes width y : Nat) : List (Nat × Nat) :=
  (List.range width).flatMap
    (fun x => convertPixelAccesses (y * sourceRowBytes) (y * width * 4) x)

/-- The byte accesses of the two loops of `ConvertRgbaToBgra`. -/
def convertAccesses (sourceRowBytes width height : Nat) : List (Nat × Nat) :=
  (List.range height).flatMap (convertRowAccesses sourceRowBytes width)

/-- One assignment `out[access.2] = source[access.1]`. -/
def copyByte (source : List Nat) (out : List Nat) (access : Nat × Nat) : List Nat :=
  out.set access.2 (source.getD access.1 0)

/-- The arguments `source`, `sourceRowBytes`, `width`, `height` of the
`ConvertRgbaToBgra` call of `UploadLatestFlutterFrame`, or `none` when the function does
not reach the call. -/
def uploadConvertArguments (app : FlutterXrApp) : Option (List Nat × Nat × Nat × Nat) :=
  match snapshotLatestFrame app with
  | none => none
  | some snapshot =>
    if snapshot.width = 0 ∨ snapshot.height = 0
        ∨ snapshot.rowBytes < (snapshot.width * 4) % kSizeModulus ∨ snapshot.pixels = [] then
      none
    else
      let uploadWidth := min snapshot.width kFlutterSurfaceWidth
      let uploadHeight := min snapshot.height kFlutterSurfaceHeight
      if uploadWidth = 0 ∨ uploadHeight = 0 then none
      else if app.isBgraFormat_ then
        some (snapshot.pixels, snapshot.rowBytes, uploadWidth, uploadHeight)
      else none

/-- A slot as an accepted `HandleFlutterSurfacePresent` leaves it: `rowBytes >= 4`,
`height > 0`, `width = rowBytes / 4` and `rowBytes * height` pixels bytes, a product that
a `size_t` holds. -/
def FlutterFrame.Published (frame : FlutterFrame) : Prop :=
  4 ≤ frame.rowBytes ∧ 0 < frame.height ∧ frame.width = frame.rowBytes / 4
    ∧ frame.pixels.length = frame.rowBytes * frame.height
    ∧ frame.rowBytes * frame.height < kSizeModulus

/-- A slot that holds a 2 x 2 image with rows of 10 bytes, published once, on a device
with a BGRA swapchain. -/
def bgraApp : FlutterXrApp :=
  { isBgraFormat_ := true
    latestFrame :=
      { pixels := [1, 2, 3, 4, 5, 6, 7, 8, 0, 0, 11, 12, 13, 14, 15, 16, 17, 18, 0, 0]
        rowBytes := 10
        width := 2
        height := 2
        frameIndex := 1 } }

/-! ## Pointer input: the event stream as the engine sees it -/

/-- The pointer as the engine knows it from the events received so far: whether it has
been added, and whether it is down. -/
structure PointerStream where
  added : Bool
  down : Bool
deriving DecidableEq

/-- Whether an event is well-formed after a stream that left the pointer in state `s`,
and the state after it. An add is allowed only while the pointer is not added, every
other event only once it is added; a down only while not down, an up only while down, a
hover (without scroll signal) only while not down; a scroll-signal event has phase move
and the primary button while down, phase hover and no button otherwise. -/
def streamStep (s : PointerStream) (e : FlutterPointerEvent) : Option PointerStream :=
  if e.isScroll then
    if s.added ∧ e.phase = (if s.down then FlutterPointerPhase.kMove else FlutterPointerPhase.kHover)
        ∧ e.buttons = (if s.down then kFlutterPointerButtonMousePrimary else 0) then some s
    else none
  else
    match e.phase with
    | FlutterPointerPhase.kAdd => if s.added then none else some ⟨true, s.down⟩
    | FlutterPointerPhase.kDown => if s.added ∧ s.down = false then some ⟨true, true⟩ else none
    | FlutterPointerPhase.kUp => if s.added ∧ s.down = true then some ⟨true, false⟩ else none
    | FlutterPointerPhase.kHover => if s.added ∧ s.down = false then some s else none
    | _ => none

/-- The state after a well-formed list of events, `none` for a list that is not
well-formed. -/
def streamRun : PointerStream → List FlutterPointerEvent → Option PointerStream
  | s, [] => some s
  | s, e :: events =>
    match streamStep s e with
    | none => none
    | some next => streamRun next events

/-- An add event. -/
def FlutterPointerEvent.isAdd (e : FlutterPointerEvent) : Bool :=
  decide (e.phase = FlutterPointerPhase.kAdd)

/-- The events that a call hands to the engine. -/
def inputEvents (k : ScrollConstants) (app : FlutterXrApp) : InputOp → List FlutterPointerEvent
  | InputOp.poll engine env => (PollInput k engine app env).events
  | InputOp.sessionStateChanged engine state xrOk =>
    (HandleSessionStateChanged engine app state xrOk).events
  | InputOp.ensurePointerAdded engine x y => (EnsureFlutterPointerAdded engine ⟨app, []⟩ x y).events
  | InputOp.shutdown engine => (Shutdown engine app).events

/-- The members after a sequence of calls and all events handed to the engine, oldest
first. -/
def inputTrace (k : ScrollConstants) (app : FlutterXrApp) (ops : List InputOp) :
    FlutterXrApp × List FlutterPointerEvent :=
  ops.foldl (fun c op => (inputStep k c.1 op, c.2 ++ inputEvents k c.1 op)) (app, [])

/-- A `PollInput` or `HandleSessionStateChanged` call during which every send to the
engine succeeds. -/
def InputOp.Succeeds : InputOp → Prop
  | InputOp.poll engine _ => ∀ n, engine n = true
  | InputOp.sessionStateChanged engine _ _ => ∀ n, engine n = true
  | _ => False

/-- The invariant of the input state in a run with the engine present: the stream of
events so far is well-formed and has left the pointer in the state that the members
`pointerAdded_` and `pointerDown_` record, and `pointerDown_` implies `pointerAdded_`
and `triggerPressed_`. -/
structure StreamInvariant (start : PointerStream) (app : FlutterXrApp)
    (events : List FlutterPointerEvent) : Prop where
  engine : app.flutterEngine_ ≠ XR_NULL_HANDLE
  stream : streamRun start events = some ⟨app.pointerAdded_, app.pointerDown_⟩
  added : app.pointerDown_ = true → app.pointerAdded_ = true
  pressed : app.pointerDown_ = true → app.triggerPressed_ = true

/-- A press on the surface, a scroll while the trigger is held, a release, and the loss
of focus, with every send succeeding. -/
def sampleSession : List InputOp :=
  [InputOp.poll engineAccepts (activePoll surfaceHit surfaceHit 1 idleScroll idleScroll),
   InputOp.poll engineAccepts (activePoll surfaceHit surfaceHit 1 ⟨true, ⟨0, 1⟩⟩ idleScroll),
   InputOp.poll engineAccepts (activePoll surfaceHit surfaceHit 0 ⟨true, ⟨1, 0⟩⟩ idleScroll),
   InputOp.sessionStateChanged engineAccepts XrSessionState.VISIBLE true,
   InputOp.poll engineAccepts (activePoll surfaceHit surfaceHit 1 idleScroll idleScroll)]

/-! ## Pointer input: the coordinates rule for scroll events -/

/-- The rule of the specification for the coordinates of a scroll event: those of `own`,
the hit of the hand that produced the axis input, when that ray is on the surface,
otherwise those of `other`, the hit of the other hand, when that ray is on the surface,
otherwise the last known coordinates. -/
def specScrollCoordinates (own other : PointerHitResult) (lastX lastY : ℚ) : ℚ × ℚ :=
  if own.onQuad then (own.xPixels, own.yPixels)
  else if other.onQuad then (other.xPixels, other.yPixels)
  else (lastX, lastY)

/-- A ray that is off the surface. -/
def offSurfaceHit : PointerHitResult := { hasPose := true }

/-- A left-hand ray that hits the surface at pixel (300, 400). -/
def leftSurfaceHit : PointerHitResult :=
  { hasPose := true, onQuad := true, hitDistanceMeters := 1, xPixels := 300, yPixels := 400 }

/-! ## Frame handoff: latest wins, idempotent consume, version invariant -/

theorem mod_size_of_lt {n : Nat} (h : n < kSizeModulus) : n % kSizeModulus = n :=
  Nat.mod_eq_of_lt h

theorem present_accepted (app : FlutterXrApp) (p : SurfacePresent) (h : p.Accepted) :
    HandleFlutterSurfacePresent app p.allocation p.rowBytes p.height
      = ({ app with
            latestFrame := ⟨p.payload, p.rowBytes, p.rowBytes / 4, p.height,
              (app.latestFrame.frameIndex + 1) % kSizeModulus⟩ }, true) := by
  obtain ⟨mem, hmem, hrow, hheight, hlen, hsize⟩ := h
  have hbytes : p.rowBytes * p.height % kSizeModulus = p.rowBytes * p.height :=
    mod_size_of_lt (lt_of_le_of_lt hlen hsize)
  have hguard : ¬ (p.rowBytes < 4 ∨ p.height = 0) := by omega
  simp [HandleFlutterSurfacePresent, SurfacePresent.payload, hmem, hguard, hbytes]

theorem presentAll_accepted (ps : List SurfacePresent) :
    ∀ (app : FlutterXrApp) (p : SurfacePresent), (∀ q ∈ ps ++ [p], q.Accepted) →
      presentAll app (ps ++ [p])
        = { app with
              latestFrame := ⟨p.payload, p.rowBytes, p.rowBytes / 4, p.height,
                (app.latestFrame.frameIndex + (ps.length + 1)) % kSizeModulus⟩ } := by
  induction ps with
  | nil =>
    intro app p h
    have hp : p.Accepted := h p (by simp)
    simp [presentAll, present_accepted app p hp]
  | cons q qs ih =>
    intro app p h
    have hq : q.Accepted := h q (by simp)
    have hrest : ∀ r ∈ qs ++ [p], r.Accepted := fun r hr => h r (by simp at hr ⊢; tauto)
    have hstep : presentAll app (q :: qs ++ [p])
        = presentAll (HandleFlutterSurfacePresent app q.allocation q.rowBytes q.height).1
            (qs ++ [p]) := by
      simp [presentAll]
    rw [hstep, ih _ p hrest, present_accepted app q hq]
    have harith : ((app.latestFrame.frameIndex + 1) % kSizeModulus + (qs.length + 1)) % kSizeModulus
        = (app.latestFrame.frameIndex + (qs.length + 1 + 1)) % kSizeModulus := by
      rw [Nat.add_mod, Nat.mod_mod, ← Nat.add_mod]
      congr 1
      omega
    simp [harith]

theorem payload_length (p : SurfacePresent) (h : p.Accepted) :
    p.payload.length = p.rowBytes * p.height := by
  obtain ⟨mem, hmem, _, _, hlen, _⟩ := h
  simp [SurfacePresent.payload, hmem, hlen]

theorem convert_guard_passes (src out : List Nat) (rowBytes width height : Nat)
    (hw : width ≠ 0) (hh : height ≠ 0) (hrow : width * 4 ≤ rowBytes)
    (hsmall : width * 4 < kSizeModulus) :
    (ConvertRgbaToBgra (some src) rowBytes width height out).1 = true := by
  have hmod : width * 4 % kSizeModulus = width * 4 := mod_size_of_lt hsmall
  have hguard : ¬ (width = 0 ∨ height = 0 ∨ rowBytes < width * 4 % kSizeModulus) := by
    rw [hmod]; omega
  simp [ConvertRgbaToBgra, hguard]

/-- An upload of a well-formed slot whose version differs from the uploaded one succeeds
and records the slot's version. -/
theorem upload_fresh (app : FlutterXrApp)
    (hne0 : app.latestFrame.frameIndex ≠ 0)
    (hne : app.latestFrame.frameIndex ≠ app.uploadedFrameIndex_)
    (hrow : 4 ≤ app.latestFrame.rowBytes) (hrowsize : app.latestFrame.rowBytes < kSizeModulus)
    (hwidth : app.latestFrame.width = app.latestFrame.rowBytes / 4)
    (hheight : 0 < app.latestFrame.height) (hpix : app.latestFrame.pixels ≠ []) :
    snapshotLatestFrame app = some app.latestFrame
      ∧ (UploadLatestFlutterFrame app).2 = true
      ∧ (UploadLatestFlutterFrame app).1.uploadedFrameIndex_ = app.latestFrame.frameIndex := by
  have hsnap : snapshotLatestFrame app = some app.latestFrame := by
    simp [snapshotLatestFrame, hne0, hne]
  have hw4 : app.latestFrame.width * 4 ≤ app.latestFrame.rowBytes := by
    rw [hwidth]; exact Nat.div_mul_le_self _ _
  have hwpos : app.latestFrame.width ≠ 0 := by
    rw [hwidth]; omega
  have hmod : app.latestFrame.width * 4 % kSizeModulus = app.latestFrame.width * 4 :=
    mod_size_of_lt (lt_of_le_of_lt hw4 hrowsize)
  have hguard : ¬ (app.latestFrame.width = 0 ∨ app.latestFrame.height = 0
      ∨ app.latestFrame.rowBytes < app.latestFrame.width * 4 % kSizeModulus
      ∨ app.latestFrame.pixels = []) := by
    rw [hmod]; simp [hpix]; omega
  have hmin : ¬ (min app.latestFrame.width kFlutterSurfaceWidth = 0
      ∨ min app.latestFrame.height kFlutterSurfaceHeight = 0) := by
    simp [kFlutterSurfaceWidth, kFlutterSurfaceHeight]; omega
  have hconv : (ConvertRgbaToBgra (some app.latestFrame.pixels) app.latestFrame.rowBytes
      (min app.latestFrame.width kFlutterSurfaceWidth)
      (min app.latestFrame.height kFlutterSurfaceHeight) app.convertedPixels_).1 = true := by
    apply convert_guard_passes
    · simp [kFlutterSurfaceWidth]; omega
    · simp [kFlutterSurfaceHeight]; omega
    · exact le_trans (Nat.mul_le_mul_right 4 (min_le_left _ _)) hw4
    · exact lt_of_le_of_lt (le_trans (Nat.mul_le_mul_right 4 (min_le_left _ _)) hw4) hrowsize
  refine ⟨hsnap, ?_, ?_⟩
  · unfold UploadLatestFlutterFrame
    rw [hsnap]
    simp only [hguard, hmin, if_false]
    cases hb : app.isBgraFormat_ <;> simp [hconv]
  · unfold UploadLatestFlutterFrame
    rw [hsnap]
    simp only [hguard, hmin, if_false]
    cases hb : app.isBgraFormat_ <;> simp [hconv]


/-- C1 (latest-wins handoff). After `N = ps.length + 1` accepted
`HandleFlutterSurfacePresent` calls `ps ++ [p]` with no upload in between, made in a
state with `uploadedFrameIndex_ <= frameIndex` and without wrap-around of the 64-bit
index, the whole state depends on the last call `p` and on `N` only; the next
`UploadLatestFlutterFrame` snapshots exactly the bytes, `rowBytes`, width
`rowBytes / 4` and height of `p` with `frameIndex` = old index + `N`, returns `true`
and records that index in `uploadedFrameIndex_`. -/
theorem latest_publish_wins (app : FlutterXrApp) (ps : List SurfacePresent) (p : SurfacePresent)
    (hacc : ∀ q ∈ ps ++ [p], q.Accepted)
    (hinv : app.uploadedFrameIndex_ ≤ app.latestFrame.frameIndex)
    (hwrap : app.latestFrame.frameIndex + (ps.length + 1) < kSizeModulus) :
    presentAll app (ps ++ [p])
        = { app with
              latestFrame := ⟨p.payload, p.rowBytes, p.rowBytes / 4, p.height,
                app.latestFrame.frameIndex + (ps.length + 1)⟩ }
      ∧ snapshotLatestFrame (presentAll app (ps ++ [p]))
        = some ⟨p.payload, p.rowBytes, p.rowBytes / 4, p.height,
            app.latestFrame.frameIndex + (ps.length + 1)⟩
      ∧ (UploadLatestFlutterFrame (presentAll app (ps ++ [p]))).2 = true
      ∧ (UploadLatestFlutterFrame (presentAll app (ps ++ [p]))).1.uploadedFrameIndex_
        = app.latestFrame.frameIndex + (ps.length + 1) := by
  have hp : p.Accepted := hacc p (by simp)
  have hstate := presentAll_accepted ps app p hacc
  rw [mod_size_of_lt hwrap] at hstate
  obtain ⟨mem, hmem, hrow, hheight, hlen, hsize⟩ := hp
  have hbytes : p.payload.length = p.rowBytes * p.height :=
    payload_length p ⟨mem, hmem, hrow, hheight, hlen, hsize⟩
  have hpos : 0 < p.rowBytes * p.height := Nat.mul_pos (by omega) hheight
  have hpix : p.payload ≠ [] := by
    intro hnil
    rw [hnil] at hbytes
    simp at hbytes
    omega
  have hrowsize : p.rowBytes < kSizeModulus := by
    have : p.rowBytes ≤ p.rowBytes * p.height := Nat.le_mul_of_pos_right _ hheight
    omega
  have hfresh := upload_fresh (presentAll app (ps ++ [p]))
    (by rw [hstate]; simp) (by rw [hstate]; simp; omega) (by rw [hstate]; exact hrow)
    (by rw [hstate]; exact hrowsize) (by rw [hstate]) (by rw [hstate]; exact hheight)
    (by rw [hstate]; exact hpix)
  refine ⟨hstate, ?_, hfresh.2.1, ?_⟩
  · rw [hfresh.1, hstate]
  · rw [hfresh.2.2, hstate]

theorem latest_publish_wins_witness :
    (UploadLatestFlutterFrame
        (presentAll {} [⟨some [1, 2, 3, 4], 4, 1⟩, ⟨some [5, 6, 7, 8], 4, 1⟩])).2 = true
      ∧ snapshotLatestFrame (presentAll {} [⟨some [1, 2, 3, 4], 4, 1⟩, ⟨some [5, 6, 7, 8], 4, 1⟩])
        = some ⟨[5, 6, 7, 8], 4, 1, 1, 2⟩ := by
  have h := latest_publish_wins {} [⟨some [1, 2, 3, 4], 4, 1⟩] ⟨some [5, 6, 7, 8], 4, 1⟩
    (by
      intro q hq
      simp at hq
      rcases hq with rfl | rfl
      · exact ⟨[1, 2, 3, 4], rfl, by decide, by decide, by decide, by decide⟩
      · exact ⟨[5, 6, 7, 8], rfl, by decide, by decide, by decide, by decide⟩)
    (by decide) (by decide)
  exact ⟨h.2.2.1, h.2.1⟩

theorem upload_of_snapshot_none (app : FlutterXrApp) (h : snapshotLatestFrame app = none) :
    UploadLatestFlutterFrame app = (app, false) := by
  unfold UploadLatestFlutterFrame
  rw [h]

/-- C2 (consume is idempotent without a publish). An `UploadLatestFlutterFrame` that
follows a successful one with no publish in between returns `false` and leaves every
member unchanged, and so does any upload made while `frameIndex = 0`. -/
theorem upload_twice_no_update (app : FlutterXrApp) :
    ((UploadLatestFlutterFrame app).2 = true →
        UploadLatestFlutterFrame (UploadLatestFlutterFrame app).1
          = ((UploadLatestFlutterFrame app).1, false))
      ∧ (app.latestFrame.frameIndex = 0 → UploadLatestFlutterFrame app = (app, false)) := by
  constructor
  · intro hok
    have hidx : (UploadLatestFlutterFrame app).1.latestFrame.frameIndex
          = (UploadLatestFlutterFrame app).1.uploadedFrameIndex_ := by
      revert hok
      unfold UploadLatestFlutterFrame
      cases hs : snapshotLatestFrame app with
      | none => simp
      | some snapshot =>
        have hsnap : snapshot = app.latestFrame := by
          unfold snapshotLatestFrame at hs
          split at hs
          · exact absurd hs (by simp)
          · exact (Option.some.inj hs).symm
        subst hsnap
        simp only []
        split
        · simp
        · split
          · simp
          · split
            · split
              · simp
              · simp
            · simp
    have hnone : snapshotLatestFrame (UploadLatestFlutterFrame app).1 = none := by
      simp [snapshotLatestFrame, hidx]
    exact upload_of_snapshot_none _ hnone
  · intro h0
    exact upload_of_snapshot_none app (by simp [snapshotLatestFrame, h0])

theorem upload_twice_no_update_witness :
    UploadLatestFlutterFrame
        (UploadLatestFlutterFrame (presentAll {} [⟨some [5, 6, 7, 8], 4, 1⟩])).1
      = ((UploadLatestFlutterFrame (presentAll {} [⟨some [5, 6, 7, 8], 4, 1⟩])).1, false)
      ∧ UploadLatestFlutterFrame {} = ({}, false) :=
  ⟨(upload_twice_no_update (presentAll {} [⟨some [5, 6, 7, 8], 4, 1⟩])).1 (by decide),
   (upload_twice_no_update {}).2 (by decide)⟩


theorem present_effect (app : FlutterXrApp) (allocation : Option (List Nat)) (rowBytes height : Nat) :
    (HandleFlutterSurfacePresent app allocation rowBytes height).1.uploadedFrameIndex_
        = app.uploadedFrameIndex_
      ∧ ((HandleFlutterSurfacePresent app allocation rowBytes height).1 = app
          ∨ (HandleFlutterSurfacePresent app allocation rowBytes height).1.latestFrame.frameIndex
              = (app.latestFrame.frameIndex + 1) % kSizeModulus) := by
  unfold HandleFlutterSurfacePresent
  cases allocation with
  | none => simp
  | some mem =>
    by_cases hguard : rowBytes < 4 ∨ height = 0
    · simp [hguard]
    · simp [hguard]

theorem upload_effect (app : FlutterXrApp) :
    (UploadLatestFlutterFrame app).1.latestFrame = app.latestFrame
      ∧ ((UploadLatestFlutterFrame app).1.uploadedFrameIndex_ = app.uploadedFrameIndex_
          ∨ (UploadLatestFlutterFrame app).1.uploadedFrameIndex_ = app.latestFrame.frameIndex) := by
  unfold UploadLatestFlutterFrame
  cases hs : snapshotLatestFrame app with
  | none => simp
  | some snapshot =>
    have hsnap : snapshot = app.latestFrame := by
      unfold snapshotLatestFrame at hs
      split at hs
      · exact absurd hs (by simp)
      · exact (Option.some.inj hs).symm
    subst hsnap
    simp only []
    split
    · simp
    · split
      · simp
      · split
        · split
          · simp
          · simp
        · simp

theorem frameRun_snoc (app : FlutterXrApp) (ops : List FrameOp) (op : FrameOp) :
    frameRun app (ops ++ [op]) = frameStep (frameRun app ops) op := by
  simp [frameRun, List.foldl_append]

/-- One whole call keeps `uploadedFrameIndex_ <= frameIndex <= n + 1` when it starts in
a state with `uploadedFrameIndex_ <= frameIndex <= n` and `n + 1` is below the
modulus, and never lowers `uploadedFrameIndex_`. -/
theorem frameStep_invariant (app : FlutterXrApp) (op : FrameOp) (n : Nat)
    (hinv : app.uploadedFrameIndex_ ≤ app.latestFrame.frameIndex)
    (hbound : app.latestFrame.frameIndex ≤ n) (hn : n + 1 < kSizeModulus) :
    (frameStep app op).uploadedFrameIndex_ ≤ (frameStep app op).latestFrame.frameIndex
      ∧ (frameStep app op).latestFrame.frameIndex ≤ n + 1
      ∧ app.uploadedFrameIndex_ ≤ (frameStep app op).uploadedFrameIndex_ := by
  cases op with
  | present p =>
    obtain ⟨hup, hcase⟩ := present_effect app p.allocation p.rowBytes p.height
    simp only [frameStep]
    rcases hcase with hsame | hinc
    · rw [hsame]
      omega
    · rw [hup, hinc, mod_size_of_lt (by omega)]
      omega
  | upload =>
    obtain ⟨hframe, hcase⟩ := upload_effect app
    simp only [frameStep]
    rw [hframe]
    rcases hcase with hsame | hset
    · rw [hsame]
      omega
    · rw [hset]
      omega

theorem frameRun_invariant (init : FlutterXrApp) (h0 : init.latestFrame.frameIndex = 0)
    (hu : init.uploadedFrameIndex_ = 0) (ops : List FrameOp) :
    ops.length < kSizeModulus →
      (frameRun init ops).uploadedFrameIndex_ ≤ (frameRun init ops).latestFrame.frameIndex
        ∧ (frameRun init ops).latestFrame.frameIndex ≤ ops.length := by
  induction ops using List.reverseRecOn with
  | nil =>
    intro _
    simp [frameRun, h0, hu]
  | append_singleton ops op ih =>
    intro hlen
    have hlen2 : ops.length + 1 < kSizeModulus := by simpa using hlen
    obtain ⟨hinv, hbound⟩ := ih (by omega)
    obtain ⟨h1, h2, _⟩ := frameStep_invariant (frameRun init ops) op ops.length hinv hbound hlen2
    rw [frameRun_snoc]
    exact ⟨h1, by simpa using h2⟩

/-- C3 (frame-slot version invariant). An accepted `HandleFlutterSurfacePresent`
returns `true` and raises `frameIndex` by exactly 1 (when the 64-bit index does not
wrap); a rejected one (null allocation, `rowBytes < 4` or `height = 0`) returns
`false` and changes nothing; and in every state reached from `frameIndex = 0`,
`uploadedFrameIndex_ = 0` by fewer than `2 ^ 64` whole publish and consume calls,
`uploadedFrameIndex_ <= frameIndex`, and no further call lowers
`uploadedFrameIndex_`. -/
theorem frame_version_invariant :
    (∀ (app : FlutterXrApp) (mem : List Nat) (rowBytes height : Nat),
        4 ≤ rowBytes → 0 < height → app.latestFrame.frameIndex + 1 < kSizeModulus →
        (HandleFlutterSurfacePresent app (some mem) rowBytes height).2 = true
          ∧ (HandleFlutterSurfacePresent app (some mem) rowBytes height).1.latestFrame.frameIndex
              = app.latestFrame.frameIndex + 1)
      ∧ (∀ (app : FlutterXrApp) (allocation : Option (List Nat)) (rowBytes height : Nat),
          (allocation = none ∨ rowBytes < 4 ∨ height = 0) →
          HandleFlutterSurfacePresent app allocation rowBytes height = (app, false))
      ∧ (∀ (init : FlutterXrApp) (ops : List FrameOp),
          init.latestFrame.frameIndex = 0 → init.uploadedFrameIndex_ = 0 →
          ops.length < kSizeModulus →
          (frameRun init ops).uploadedFrameIndex_ ≤ (frameRun init ops).latestFrame.frameIndex
            ∧ ∀ op : FrameOp,
                (frameRun init ops).uploadedFrameIndex_
                  ≤ (frameStep (frameRun init ops) op).uploadedFrameIndex_) := by
  refine ⟨?_, ?_, ?_⟩
  · intro app mem rowBytes height hrow hheight hwrap
    have hguard : ¬ (rowBytes < 4 ∨ height = 0) := by omega
    simp [HandleFlutterSurfacePresent, hguard, mod_size_of_lt hwrap]
  · intro app allocation rowBytes height hrej
    unfold HandleFlutterSurfacePresent
    cases allocation with
    | none => rfl
    | some mem =>
      have hguard : rowBytes < 4 ∨ height = 0 := by
        rcases hrej with h | h | h
        · exact absurd h (by simp)
        · exact Or.inl h
        · exact Or.inr h
      simp [hguard]
  · intro init ops h0 hu hlen
    obtain ⟨hinv, hbound⟩ := frameRun_invariant init h0 hu ops hlen
    refine ⟨hinv, fun op => ?_⟩
    cases op with
    | present p =>
      simp only [frameStep]
      rw [(present_effect _ p.allocation p.rowBytes p.height).1]
    | upload =>
      simp only [frameStep]
      rcases (upload_effect (frameRun init ops)).2 with hsame | hset
      · rw [hsame]
      · rw [hset]
        exact hinv

theorem frame_version_invariant_witness :
    (HandleFlutterSurfacePresent {} (some [5, 6, 7, 8]) 4 1).1.latestFrame.frameIndex = 0 + 1
      ∧ HandleFlutterSurfacePresent {} (some [5, 6, 7, 8]) 3 1 = ({}, false)
      ∧ (frameRun {} [FrameOp.present ⟨some [5, 6, 7, 8], 4, 1⟩, FrameOp.upload]).uploadedFrameIndex_
          ≤ (frameRun {} [FrameOp.present ⟨some [5, 6, 7, 8], 4, 1⟩, FrameOp.upload]).latestFrame.frameIndex :=
  ⟨(frame_version_invariant.1 {} [5, 6, 7, 8] 4 1 (by decide) (by decide) (by decide)).2,
   frame_version_invariant.2.1 {} (some [5, 6, 7, 8]) 3 1 (Or.inr (Or.inl (by decide))),
   (frame_version_invariant.2.2 {} [FrameOp.present ⟨some [5, 6, 7, 8], 4, 1⟩, FrameOp.upload]
      rfl rfl (by decide)).1⟩


/-! ## Pointer input: closed forms of the building blocks -/


theorem send_closed (engine : Nat → Bool) (r : Run) (phase : FlutterPointerPhase) (x y : ℚ)
    (buttons : Int) :
    SendFlutterPointerEvent engine r phase x y buttons
      = if r.app.flutterEngine_ = XR_NULL_HANDLE then (r, false)
        else if engine r.events.length then
          (⟨{ r.app with lastPointerX_ := x, lastPointerY_ := y },
            r.events ++ [pointerEvent phase x y buttons]⟩, true)
        else (⟨r.app, r.events ++ [pointerEvent phase x y buttons]⟩, false) := by
  unfold SendFlutterPointerEvent pointerEvent
  by_cases h1 : r.app.flutterEngine_ = XR_NULL_HANDLE
  · simp [h1]
  · cases h2 : engine r.events.length <;> simp [h1, h2]

theorem sendScroll_closed (engine : Nat → Bool) (r : Run) (x y dx dy : ℚ) :
    SendFlutterScrollEvent engine r x y dx dy
      = if r.app.flutterEngine_ = XR_NULL_HANDLE then (r, false)
        else if engine r.events.length then
          (⟨{ r.app with lastPointerX_ := x, lastPointerY_ := y },
            r.events ++ [scrollEvent r.app.pointerDown_ x y dx dy]⟩, true)
        else (⟨r.app, r.events ++ [scrollEvent r.app.pointerDown_ x y dx dy]⟩, false) := by
  unfold SendFlutterScrollEvent scrollEvent
  by_cases h1 : r.app.flutterEngine_ = XR_NULL_HANDLE
  · simp [h1]
  · cases h2 : engine r.events.length <;> simp [h1, h2]

@[simp] theorem pointerEvent_isScroll (phase : FlutterPointerPhase) (x y : ℚ) (buttons : Int) :
    (pointerEvent phase x y buttons).isScroll = false := by
  simp [pointerEvent, FlutterPointerEvent.isScroll]

@[simp] theorem scrollEvent_isScroll (down : Bool) (x y dx dy : ℚ) :
    (scrollEvent down x y dx dy).isScroll = true := by
  simp [scrollEvent, FlutterPointerEvent.isScroll]

@[simp] theorem scrollEvent_isTransition (down : Bool) (x y dx dy : ℚ) :
    (scrollEvent down x y dx dy).isTransition = false := by
  cases down <;>
  simp [scrollEvent, FlutterPointerEvent.isTransition, FlutterPointerEvent.isDown,
    FlutterPointerEvent.isUp]

@[simp] theorem pointerEvent_isTransition (phase : FlutterPointerPhase) (x y : ℚ) (buttons : Int) :
    (pointerEvent phase x y buttons).isTransition
      = decide (phase = FlutterPointerPhase.kDown ∨ phase = FlutterPointerPhase.kUp) := by
  cases phase <;>
  simp [pointerEvent, FlutterPointerEvent.isTransition, FlutterPointerEvent.isDown,
    FlutterPointerEvent.isUp]



theorem ensure_closed (engine : Nat → Bool) (r : Run) (x y : ℚ) :
    EnsureFlutterPointerAdded engine r x y
      = if r.app.pointerAdded_ then r
        else if r.app.flutterEngine_ = XR_NULL_HANDLE then r
        else if engine r.events.length then
          ⟨{ r.app with lastPointerX_ := x, lastPointerY_ := y, pointerAdded_ := true },
            r.events ++ [pointerEvent FlutterPointerPhase.kAdd x y 0]⟩
        else ⟨r.app, r.events ++ [pointerEvent FlutterPointerPhase.kAdd x y 0]⟩ := by
  unfold EnsureFlutterPointerAdded
  rw [send_closed]
  split_ifs <;> simp_all [Run.assign]

set_option maxHeartbeats 2000000 in
theorem triggerTransition_closed (engine : Nat → Bool) (r : Run) (hit : PointerHitResult)
    (inputActive pressedNow : Bool) :
    triggerTransition engine r hit inputActive pressedNow
      = if pressedNow && !r.app.triggerPressed_ then
          if hit.onQuad && decide (r.app.flutterEngine_ ≠ XR_NULL_HANDLE) then
            if r.app.pointerAdded_ then
              if engine r.events.length then
                ⟨{ r.app with
                    lastPointerX_ := hit.xPixels, lastPointerY_ := hit.yPixels
                    pointerDown_ := true, triggerPressed_ := inputActive && pressedNow },
                  r.events ++ [pointerEvent FlutterPointerPhase.kDown hit.xPixels hit.yPixels
                    kFlutterPointerButtonMousePrimary]⟩
              else
                ⟨{ r.app with triggerPressed_ := inputActive && pressedNow },
                  r.events ++ [pointerEvent FlutterPointerPhase.kDown hit.xPixels hit.yPixels
                    kFlutterPointerButtonMousePrimary]⟩
            else if engine r.events.length then
              if engine (r.events.length + 1) then
                ⟨{ r.app with
                    lastPointerX_ := hit.xPixels, lastPointerY_ := hit.yPixels
                    pointerAdded_ := true
                    pointerDown_ := true, triggerPressed_ := inputActive && pressedNow },
                  r.events ++ [pointerEvent FlutterPointerPhase.kAdd hit.xPixels hit.yPixels 0,
                    pointerEvent FlutterPointerPhase.kDown hit.xPixels hit.yPixels
                      kFlutterPointerButtonMousePrimary]⟩
              else
                ⟨{ r.app with
                    lastPointerX_ := hit.xPixels, lastPointerY_ := hit.yPixels
                    pointerAdded_ := true, triggerPressed_ := inputActive && pressedNow },
                  r.events ++ [pointerEvent FlutterPointerPhase.kAdd hit.xPixels hit.yPixels 0,
                    pointerEvent FlutterPointerPhase.kDown hit.xPixels hit.yPixels
                      kFlutterPointerButtonMousePrimary]⟩
            else
              ⟨{ r.app with triggerPressed_ := inputActive && pressedNow },
                r.events ++ [pointerEvent FlutterPointerPhase.kAdd hit.xPixels hit.yPixels 0]⟩
          else ⟨{ r.app with triggerPressed_ := inputActive && pressedNow }, r.events⟩
        else if (!pressedNow || !inputActive) && r.app.triggerPressed_ then
          if r.app.pointerDown_ && decide (r.app.flutterEngine_ ≠ XR_NULL_HANDLE) then
            if engine r.events.length then
              ⟨{ r.app with
                  lastPointerX_ := if hit.onQuad then hit.xPixels else r.app.lastPointerX_
                  lastPointerY_ := if hit.onQuad then hit.yPixels else r.app.lastPointerY_
                  pointerDown_ := false, triggerPressed_ := inputActive && pressedNow },
                r.events ++ [pointerEvent FlutterPointerPhase.kUp
                  (if hit.onQuad then hit.xPixels else r.app.lastPointerX_)
                  (if hit.onQuad then hit.yPixels else r.app.lastPointerY_) 0]⟩
            else
              ⟨{ r.app with pointerDown_ := false, triggerPressed_ := inputActive && pressedNow },
                r.events ++ [pointerEvent FlutterPointerPhase.kUp
                  (if hit.onQuad then hit.xPixels else r.app.lastPointerX_)
                  (if hit.onQuad then hit.yPixels else r.app.lastPointerY_) 0]⟩
          else ⟨{ r.app with triggerPressed_ := inputActive && pressedNow }, r.events⟩
        else ⟨{ r.app with triggerPressed_ := inputActive && pressedNow }, r.events⟩ := by
  obtain ⟨app, events⟩ := r
  unfold triggerTransition
  by_cases h1 : app.flutterEngine_ = XR_NULL_HANDLE <;>
  cases h2 : app.pointerAdded_ <;>
  cases h3 : app.pointerDown_ <;>
  cases h4 : engine events.length <;>
  cases h5 : engine (events.length + 1) <;>
  cases h6 : app.triggerPressed_ <;>
  cases h7 : hit.onQuad <;>
  cases inputActive <;> cases pressedNow <;>
  simp [ensure_closed, send_closed, Run.assign, h1, h2, h3, h4, h5, h6, h7]

theorem sendScrollAt_closed (engine : Nat → Bool) (r : Run) (scrollHit : Option PointerHitResult)
    (dx dy : ℚ) :
    sendScrollAt engine r scrollHit dx dy
      = match scrollHit with
        | some h =>
          if r.app.flutterEngine_ = XR_NULL_HANDLE then r
          else if r.app.pointerAdded_ then
            if r.app.pointerDown_ then
              ⟨if engine r.events.length then
                  { r.app with lastPointerX_ := h.xPixels, lastPointerY_ := h.yPixels }
                else r.app,
                r.events ++ [scrollEvent true h.xPixels h.yPixels dx dy]⟩
            else
              ⟨if engine r.events.length || engine (r.events.length + 1) then
                  { r.app with lastPointerX_ := h.xPixels, lastPointerY_ := h.yPixels }
                else r.app,
                r.events ++ [pointerEvent FlutterPointerPhase.kHover h.xPixels h.yPixels 0,
                  scrollEvent false h.xPixels h.yPixels dx dy]⟩
          else if engine r.events.length then
            if r.app.pointerDown_ then
              ⟨{ r.app with
                  lastPointerX_ := h.xPixels, lastPointerY_ := h.yPixels, pointerAdded_ := true },
                r.events ++ [pointerEvent FlutterPointerPhase.kAdd h.xPixels h.yPixels 0,
                  scrollEvent true h.xPixels h.yPixels dx dy]⟩
            else
              ⟨{ r.app with
                  lastPointerX_ := h.xPixels, lastPointerY_ := h.yPixels, pointerAdded_ := true },
                r.events ++ [pointerEvent FlutterPointerPhase.kAdd h.xPixels h.yPixels 0,
                  pointerEvent FlutterPointerPhase.kHover h.xPixels h.yPixels 0,
                  scrollEvent false h.xPixels h.yPixels dx dy]⟩
          else ⟨r.app, r.events ++ [pointerEvent FlutterPointerPhase.kAdd h.xPixels h.yPixels 0]⟩
        | none =>
          if r.app.pointerAdded_ then
            if r.app.flutterEngine_ = XR_NULL_HANDLE then r
            else
              ⟨r.app, r.events ++ [scrollEvent r.app.pointerDown_ r.app.lastPointerX_
                r.app.lastPointerY_ dx dy]⟩
          else r := by
  obtain ⟨app, events⟩ := r
  unfold sendScrollAt
  cases scrollHit with
  | none =>
    by_cases h1 : app.flutterEngine_ = XR_NULL_HANDLE <;>
    cases h2 : app.pointerAdded_ <;>
    cases h4 : engine events.length <;>
    simp [sendScroll_closed, h1, h2, h4]
    all_goals (cases app; simp_all)
  | some h =>
    by_cases h1 : app.flutterEngine_ = XR_NULL_HANDLE <;>
    cases h2 : app.pointerAdded_ <;>
    cases h3 : app.pointerDown_ <;>
    cases h4 : engine events.length <;>
    cases h5 : engine (events.length + 1) <;>
    cases h6 : engine (events.length + 2) <;>
    simp [ensure_closed, send_closed, sendScroll_closed, Run.assign, h1, h2, h3, h4, h5, h6]

theorem releasePointer_closed (engine : Nat → Bool) (r : Run) :
    releasePointer engine r
      = ⟨{ r.app with
            pointerDown_ := false
            triggerPressed_ := false
            pointerRayVisible_ := false
            leftPointerRayVisible_ := false },
          r.events ++
            (if r.app.pointerDown_ = true ∧ r.app.flutterEngine_ ≠ XR_NULL_HANDLE then
              [pointerEvent FlutterPointerPhase.kUp r.app.lastPointerX_ r.app.lastPointerY_ 0]
            else [])⟩ := by
  obtain ⟨app, events⟩ := r
  unfold releasePointer
  by_cases h1 : app.flutterEngine_ = XR_NULL_HANDLE <;>
  cases h3 : app.pointerDown_ <;>
  cases h4 : engine events.length <;>
  simp [send_closed, Run.assign, h1, h3, h4]



theorem sendScrollAt_keeps (engine : Nat → Bool) (r : Run) (scrollHit : Option PointerHitResult)
    (dx dy : ℚ) :
    (sendScrollAt engine r scrollHit dx dy).app.triggerPressed_ = r.app.triggerPressed_
      ∧ (sendScrollAt engine r scrollHit dx dy).app.pointerDown_ = r.app.pointerDown_
      ∧ (sendScrollAt engine r scrollHit dx dy).app.flutterEngine_ = r.app.flutterEngine_
      ∧ (sendScrollAt engine r scrollHit dx dy).app.inputActionSet_ = r.app.inputActionSet_
      ∧ (sendScrollAt engine r scrollHit dx dy).app.sessionState_ = r.app.sessionState_
      ∧ (r.app.pointerAdded_ = true →
          (sendScrollAt engine r scrollHit dx dy).app.pointerAdded_ = true) := by
  rw [sendScrollAt_closed]
  cases scrollHit with
  | none => simp only []; split_ifs <;> simp
  | some h => simp only []; split_ifs <;> simp_all

theorem sendScrollAt_events (engine : Nat → Bool) (r : Run) (scrollHit : Option PointerHitResult)
    (dx dy : ℚ) :
    ∃ S, (sendScrollAt engine r scrollHit dx dy).events = r.events ++ S
      ∧ transitions S = [] ∧ (S.filter FlutterPointerEvent.isScroll).length ≤ 1 := by
  rw [sendScrollAt_closed]
  cases scrollHit with
  | none => simp only []; split_ifs <;> simp [transitions]
  | some h => simp only []; split_ifs <;> simp [transitions]

theorem pollScroll_keeps (k : ScrollConstants) (engine : Nat → Bool) (r : Run)
    (hit leftHit : PointerHitResult) (rs ls : XrActionStateVector2f) :
    (pollScroll k engine r hit leftHit rs ls).app.triggerPressed_ = r.app.triggerPressed_
      ∧ (pollScroll k engine r hit leftHit rs ls).app.pointerDown_ = r.app.pointerDown_
      ∧ (pollScroll k engine r hit leftHit rs ls).app.flutterEngine_ = r.app.flutterEngine_
      ∧ (pollScroll k engine r hit leftHit rs ls).app.inputActionSet_ = r.app.inputActionSet_
      ∧ (pollScroll k engine r hit leftHit rs ls).app.sessionState_ = r.app.sessionState_
      ∧ (r.app.pointerAdded_ = true →
          (pollScroll k engine r hit leftHit rs ls).app.pointerAdded_ = true) := by
  unfold pollScroll
  simp only []
  split
  · simp
  · exact sendScrollAt_keeps _ _ _ _ _

theorem pollScroll_events (k : ScrollConstants) (engine : Nat → Bool) (r : Run)
    (hit leftHit : PointerHitResult) (rs ls : XrActionStateVector2f) :
    ∃ S, (pollScroll k engine r hit leftHit rs ls).events = r.events ++ S
      ∧ transitions S = [] ∧ (S.filter FlutterPointerEvent.isScroll).length ≤ 1 := by
  unfold pollScroll
  simp only []
  split
  · exact ⟨[], by simp [transitions]⟩
  · exact sendScrollAt_events _ _ _ _ _

theorem triggerTransition_keeps (engine : Nat → Bool) (r : Run) (hit : PointerHitResult)
    (inputActive pressedNow : Bool) :
    (triggerTransition engine r hit inputActive pressedNow).app.triggerPressed_
        = (inputActive && pressedNow)
      ∧ (triggerTransition engine r hit inputActive pressedNow).app.flutterEngine_
        = r.app.flutterEngine_
      ∧ (triggerTransition engine r hit inputActive pressedNow).app.inputActionSet_
        = r.app.inputActionSet_
      ∧ (triggerTransition engine r hit inputActive pressedNow).app.sessionState_
        = r.app.sessionState_
      ∧ (triggerTransition engine r hit inputActive pressedNow).app.scrollVectorAction_
        = r.app.scrollVectorAction_
      ∧ (r.app.pointerAdded_ = true →
          (triggerTransition engine r hit inputActive pressedNow).app.pointerAdded_ = true)
      ∧ ((r.app.pointerDown_ = true → r.app.pointerAdded_ = true) →
          (triggerTransition engine r hit inputActive pressedNow).app.pointerDown_ = true →
          (triggerTransition engine r hit inputActive pressedNow).app.pointerAdded_ = true) := by
  rw [triggerTransition_closed]
  split_ifs <;> simp_all

theorem triggerTransition_events (engine : Nat → Bool) (r : Run) (hit : PointerHitResult)
    (inputActive pressedNow : Bool) :
    ∃ T, (triggerTransition engine r hit inputActive pressedNow).events = r.events ++ T
      ∧ (transitions T).length ≤ 1 ∧ ∀ e ∈ T, e.isScroll = false := by
  rw [triggerTransition_closed]
  split_ifs <;> simp [transitions]



theorem updateRays_keeps (app : FlutterXrApp) (hit leftHit : PointerHitResult) :
    (updateRays app hit leftHit).triggerPressed_ = app.triggerPressed_
      ∧ (updateRays app hit leftHit).pointerAdded_ = app.pointerAdded_
      ∧ (updateRays app hit leftHit).pointerDown_ = app.pointerDown_
      ∧ (updateRays app hit leftHit).flutterEngine_ = app.flutterEngine_
      ∧ (updateRays app hit leftHit).inputActionSet_ = app.inputActionSet_
      ∧ (updateRays app hit leftHit).sessionState_ = app.sessionState_
      ∧ (updateRays app hit leftHit).scrollVectorAction_ = app.scrollVectorAction_
      ∧ (updateRays app hit leftHit).lastPointerX_ = app.lastPointerX_
      ∧ (updateRays app hit leftHit).lastPointerY_ = app.lastPointerY_ := by
  simp [updateRays]

/-- A focused poll in which no runtime call fails: the trigger statements run on the
members with updated rays, then, when the scroll action and the engine exist, the
scroll statements. -/
theorem poll_active (k : ScrollConstants) (engine : Nat → Bool) (app : FlutterXrApp)
    (hit leftHit : PointerHitResult) (v : ℚ) (rs ls : XrActionStateVector2f)
    (hset : app.inputActionSet_ ≠ XR_NULL_HANDLE)
    (hfoc : app.sessionState_ = XrSessionState.FOCUSED) :
    PollInput k engine app (activePoll hit leftHit v rs ls)
      = if app.scrollVectorAction_ = XR_NULL_HANDLE ∨ app.flutterEngine_ = XR_NULL_HANDLE then
          ⟨(triggerTransition engine ⟨updateRays app hit leftHit, []⟩ hit true
              (pressedNow app.triggerPressed_ v)).app,
            (triggerTransition engine ⟨updateRays app hit leftHit, []⟩ hit true
              (pressedNow app.triggerPressed_ v)).events, false⟩
        else
          ⟨(pollScroll k engine
              (triggerTransition engine ⟨updateRays app hit leftHit, []⟩ hit true
                (pressedNow app.triggerPressed_ v)) hit leftHit rs ls).app,
            (pollScroll k engine
              (triggerTransition engine ⟨updateRays app hit leftHit, []⟩ hit true
                (pressedNow app.triggerPressed_ v)) hit leftHit rs ls).events, false⟩ := by
  obtain ⟨h1, h2, h3, h4, h5, h6, h7, h8, h9⟩ := updateRays_keeps app hit leftHit
  obtain ⟨t1, t2, t3, t4, t5, t6, t7⟩ := triggerTransition_keeps engine
    ⟨updateRays app hit leftHit, []⟩ hit true (pressedNow app.triggerPressed_ v)
  unfold PollInput
  simp only [activePoll, pollTrigger, hset, hfoc, if_false, ne_eq, not_true_eq_false,
    Bool.not_true, Bool.false_eq_true, if_true, h1, t2, t5, h4, h7]



theorem transitions_append (a b : List FlutterPointerEvent) :
    transitions (a ++ b) = transitions a ++ transitions b := by
  simp [transitions]

/-- What a focused poll without runtime failure does to the members the trigger logic
depends on, and its down / up events: those of the trigger statements. -/
theorem poll_active_facts (k : ScrollConstants) (engine : Nat → Bool) (app : FlutterXrApp)
    (hit leftHit : PointerHitResult) (v : ℚ) (rs ls : XrActionStateVector2f)
    (hset : app.inputActionSet_ ≠ XR_NULL_HANDLE)
    (hfoc : app.sessionState_ = XrSessionState.FOCUSED) :
    (PollInput k engine app (activePoll hit leftHit v rs ls)).app.inputActionSet_
        = app.inputActionSet_
      ∧ (PollInput k engine app (activePoll hit leftHit v rs ls)).app.flutterEngine_
        = app.flutterEngine_
      ∧ (PollInput k engine app (activePoll hit leftHit v rs ls)).app.sessionState_
        = app.sessionState_
      ∧ (PollInput k engine app (activePoll hit leftHit v rs ls)).app.triggerPressed_
        = pressedNow app.triggerPressed_ v
      ∧ (PollInput k engine app (activePoll hit leftHit v rs ls)).app.pointerDown_
        = (triggerTransition engine ⟨updateRays app hit leftHit, []⟩ hit true
            (pressedNow app.triggerPressed_ v)).app.pointerDown_
      ∧ transitions (PollInput k engine app (activePoll hit leftHit v rs ls)).events
        = transitions (triggerTransition engine ⟨updateRays app hit leftHit, []⟩ hit true
            (pressedNow app.triggerPressed_ v)).events := by
  obtain ⟨h1, h2, h3, h4, h5, h6, h7, h8, h9⟩ := updateRays_keeps app hit leftHit
  obtain ⟨t1, t2, t3, t4, t5, t6, t7⟩ := triggerTransition_keeps engine
    ⟨updateRays app hit leftHit, []⟩ hit true (pressedNow app.triggerPressed_ v)
  obtain ⟨p1, p2, p3, p4, p5, p6⟩ := pollScroll_keeps k engine
    (triggerTransition engine ⟨updateRays app hit leftHit, []⟩ hit true
      (pressedNow app.triggerPressed_ v)) hit leftHit rs ls
  obtain ⟨S, hS, hST, _⟩ := pollScroll_events k engine
    (triggerTransition engine ⟨updateRays app hit leftHit, []⟩ hit true
      (pressedNow app.triggerPressed_ v)) hit leftHit rs ls
  rw [poll_active k engine app hit leftHit v rs ls hset hfoc]
  split
  · simp only [t1, t2, t3, t4, h4, h5, h6, Bool.true_and, and_self]
  · simp only [p1, p2, p3, p4, p5, t1, t2, t3, t4, h4, h5, h6, Bool.true_and, true_and]
    rw [hS, transitions_append, hST, List.append_nil]

/-- The trigger statements in the four situations of a hysteresis cycle. -/
theorem triggerTransition_cases (engine : Nat → Bool) (r : Run) (hit : PointerHitResult)
    (pn : Bool) :
    (pn = r.app.triggerPressed_ →
        (triggerTransition engine r hit true pn).events = r.events
          ∧ (triggerTransition engine r hit true pn).app.pointerDown_ = r.app.pointerDown_)
      ∧ (pn = true → r.app.triggerPressed_ = false → hit.onQuad = true →
          r.app.flutterEngine_ ≠ XR_NULL_HANDLE → engine = engineAccepts →
          transitions (triggerTransition engine r hit true pn).events
              = transitions r.events ++ [pointerEvent FlutterPointerPhase.kDown hit.xPixels
                  hit.yPixels kFlutterPointerButtonMousePrimary]
            ∧ (triggerTransition engine r hit true pn).app.pointerDown_ = true)
      ∧ (pn = false → r.app.triggerPressed_ = true → r.app.pointerDown_ = true →
          r.app.flutterEngine_ ≠ XR_NULL_HANDLE →
          transitions (triggerTransition engine r hit true pn).events
              = transitions r.events ++ [pointerEvent FlutterPointerPhase.kUp
                  (if hit.onQuad then hit.xPixels else r.app.lastPointerX_)
                  (if hit.onQuad then hit.yPixels else r.app.lastPointerY_) 0]
            ∧ (triggerTransition engine r hit true pn).app.pointerDown_ = false) := by
  rw [triggerTransition_closed]
  refine ⟨?_, ?_, ?_⟩
  · intro h
    subst h
    cases htp : r.app.triggerPressed_ <;> simp
  · intro h1 h2 h3 h4 h5
    subst h1 h5
    simp only [h2, h3, h4]
    split_ifs <;> simp_all [transitions_append, transitions, engineAccepts]
  · intro h1 h2 h3 h4
    subst h1
    simp only [h2, h3, h4]
    split_ifs <;> simp_all [transitions_append, transitions]



theorem pressedNow_values :
    pressedNow false (70 / 100) = false ∧ pressedNow false (80 / 100) = true
      ∧ pressedNow true (68 / 100) = true ∧ pressedNow true (60 / 100) = false := by
  simp only [pressedNow, kTriggerPressThreshold, kTriggerReleaseThreshold]
  norm_num

theorem pressedNow_between (tp : Bool) (v : ℚ) (hlo : 65 / 100 < v) (hhi : v < 75 / 100) :
    pressedNow tp v = tp := by
  cases tp
  · have : ¬ (kTriggerPressThreshold ≤ v) := by
      simp only [kTriggerPressThreshold]; linarith
    simp [pressedNow, this]
  · have : kTriggerReleaseThreshold ≤ v := by
      simp only [kTriggerReleaseThreshold]; linarith
    simp [pressedNow, this]

/-- C4 (trigger hysteresis). In focused polls of an initialised application (action
set and engine exist) with an active trigger, no failing runtime call and an engine
that accepts every event, starting with `triggerPressed_ = false`, the value
sequence 0.70, 0.80, 0.68, 0.60 gives: no down / up event in the first poll, exactly
one down event (at the hit point, primary button) and no up event in the second, none
in the third, exactly one up event (at the hit point) and no down event in the
fourth; the right-hand ray is on the surface in the second and fourth poll. And for
every engine and every state, a value strictly between 0.65 and 0.75 leaves
`triggerPressed_` as it is and emits no down or up event. -/
theorem trigger_hysteresis (k : ScrollConstants) (app a1 a2 a3 : FlutterXrApp)
    (h1 h2 h3 h4 l1 l2 l3 l4 : PointerHitResult)
    (rs1 rs2 rs3 rs4 ls1 ls2 ls3 ls4 : XrActionStateVector2f)
    (hset : app.inputActionSet_ ≠ XR_NULL_HANDLE)
    (heng : app.flutterEngine_ ≠ XR_NULL_HANDLE)
    (hfoc : app.sessionState_ = XrSessionState.FOCUSED)
    (hrel : app.triggerPressed_ = false)
    (hq2 : h2.onQuad = true) (hq4 : h4.onQuad = true)
    (e1 : a1 = (PollInput k engineAccepts app (activePoll h1 l1 (70 / 100) rs1 ls1)).app)
    (e2 : a2 = (PollInput k engineAccepts a1 (activePoll h2 l2 (80 / 100) rs2 ls2)).app)
    (e3 : a3 = (PollInput k engineAccepts a2 (activePoll h3 l3 (68 / 100) rs3 ls3)).app) :
    transitions (PollInput k engineAccepts app (activePoll h1 l1 (70 / 100) rs1 ls1)).events = []
      ∧ transitions (PollInput k engineAccepts a1 (activePoll h2 l2 (80 / 100) rs2 ls2)).events
          = [pointerEvent FlutterPointerPhase.kDown h2.xPixels h2.yPixels
              kFlutterPointerButtonMousePrimary]
      ∧ transitions (PollInput k engineAccepts a2 (activePoll h3 l3 (68 / 100) rs3 ls3)).events = []
      ∧ transitions (PollInput k engineAccepts a3 (activePoll h4 l4 (60 / 100) rs4 ls4)).events
          = [pointerEvent FlutterPointerPhase.kUp h4.xPixels h4.yPixels 0]
      ∧ ∀ (engine : Nat → Bool) (s : FlutterXrApp) (hit leftHit : PointerHitResult) (v : ℚ)
          (rs ls : XrActionStateVector2f),
          s.inputActionSet_ ≠ XR_NULL_HANDLE → s.sessionState_ = XrSessionState.FOCUSED →
          65 / 100 < v → v < 75 / 100 →
          (PollInput k engine s (activePoll hit leftHit v rs ls)).app.triggerPressed_
              = s.triggerPressed_
            ∧ transitions (PollInput k engine s (activePoll hit leftHit v rs ls)).events = [] := by
  obtain ⟨pv1, pv2, pv3, pv4⟩ := pressedNow_values
  -- first poll: 0.70 while released
  obtain ⟨s1, g1, f1, t1, d1, ev1⟩ :=
    poll_active_facts k engineAccepts app h1 l1 (70 / 100) rs1 ls1 hset hfoc
  rw [hrel, pv1] at t1 d1 ev1
  have c1 := (triggerTransition_cases engineAccepts ⟨updateRays app h1 l1, []⟩ h1 false).1
    (by simp [(updateRays_keeps app h1 l1).1, hrel])
  have hset1 : a1.inputActionSet_ ≠ XR_NULL_HANDLE := by rw [e1, s1]; exact hset
  have heng1 : a1.flutterEngine_ ≠ XR_NULL_HANDLE := by rw [e1, g1]; exact heng
  have hfoc1 : a1.sessionState_ = XrSessionState.FOCUSED := by rw [e1, f1]; exact hfoc
  have hrel1 : a1.triggerPressed_ = false := by rw [e1, t1]
  -- second poll: 0.80 while released
  obtain ⟨s2, g2, f2, t2, d2, ev2⟩ :=
    poll_active_facts k engineAccepts a1 h2 l2 (80 / 100) rs2 ls2 hset1 hfoc1
  rw [hrel1, pv2] at t2 d2 ev2
  have c2 := (triggerTransition_cases engineAccepts ⟨updateRays a1 h2 l2, []⟩ h2 true).2.1 rfl
    (by simp [(updateRays_keeps a1 h2 l2).1, hrel1]) hq2
    (by simp only [(updateRays_keeps a1 h2 l2).2.2.2.1]; exact heng1) rfl
  have hset2 : a2.inputActionSet_ ≠ XR_NULL_HANDLE := by rw [e2, s2]; exact hset1
  have heng2 : a2.flutterEngine_ ≠ XR_NULL_HANDLE := by rw [e2, g2]; exact heng1
  have hfoc2 : a2.sessionState_ = XrSessionState.FOCUSED := by rw [e2, f2]; exact hfoc1
  have hprs2 : a2.triggerPressed_ = true := by rw [e2, t2]
  have hdown2 : a2.pointerDown_ = true := by rw [e2, d2]; exact c2.2
  -- third poll: 0.68 while pressed
  obtain ⟨s3, g3, f3, t3, d3, ev3⟩ :=
    poll_active_facts k engineAccepts a2 h3 l3 (68 / 100) rs3 ls3 hset2 hfoc2
  rw [hprs2, pv3] at t3 d3 ev3
  have c3 := (triggerTransition_cases engineAccepts ⟨updateRays a2 h3 l3, []⟩ h3 true).1
    (by simp [(updateRays_keeps a2 h3 l3).1, hprs2])
  have hset3 : a3.inputActionSet_ ≠ XR_NULL_HANDLE := by rw [e3, s3]; exact hset2
  have heng3 : a3.flutterEngine_ ≠ XR_NULL_HANDLE := by rw [e3, g3]; exact heng2
  have hfoc3 : a3.sessionState_ = XrSessionState.FOCUSED := by rw [e3, f3]; exact hfoc2
  have hprs3 : a3.triggerPressed_ = true := by rw [e3, t3]
  have hdown3 : a3.pointerDown_ = true := by
    rw [e3, d3, c3.2]
    simp only [(updateRays_keeps a2 h3 l3).2.2.1]
    exact hdown2
  -- fourth poll: 0.60 while pressed
  obtain ⟨_, _, _, _, _, ev4⟩ :=
    poll_active_facts k engineAccepts a3 h4 l4 (60 / 100) rs4 ls4 hset3 hfoc3
  rw [hprs3, pv4] at ev4
  have c4 := (triggerTransition_cases engineAccepts ⟨updateRays a3 h4 l4, []⟩ h4 false).2.2 rfl
    (by simp [(updateRays_keeps a3 h4 l4).1, hprs3])
    (by simp only [(updateRays_keeps a3 h4 l4).2.2.1]; exact hdown3)
    (by simp only [(updateRays_keeps a3 h4 l4).2.2.2.1]; exact heng3)
  refine ⟨?_, ?_, ?_, ?_, ?_⟩
  · rw [ev1, c1.1]; rfl
  · rw [ev2, c2.1]; rfl
  · rw [ev3, c3.1]; rfl
  · rw [ev4, c4.1]; simp [hq4, transitions]
  · intro engine s hit leftHit v rs ls hs hf hlo hhi
    obtain ⟨_, _, _, t, _, ev⟩ := poll_active_facts k engine s hit leftHit v rs ls hs hf
    have hpn := pressedNow_between s.triggerPressed_ v hlo hhi
    rw [hpn] at t ev
    have c := (triggerTransition_cases engine ⟨updateRays s hit leftHit, []⟩ hit
      s.triggerPressed_).1 (by simp [(updateRays_keeps s hit leftHit).1])
    exact ⟨t, by rw [ev, c.1]; rfl⟩

theorem trigger_hysteresis_witness :
    transitions (PollInput sampleScrollConstants engineAccepts
        (PollInput sampleScrollConstants engineAccepts runningApp
          (activePoll surfaceHit surfaceHit (70 / 100) idleScroll idleScroll)).app
        (activePoll surfaceHit surfaceHit (80 / 100) idleScroll idleScroll)).events
      = [pointerEvent FlutterPointerPhase.kDown surfaceHit.xPixels surfaceHit.yPixels
          kFlutterPointerButtonMousePrimary] :=
  (trigger_hysteresis sampleScrollConstants runningApp _ _ _
    surfaceHit surfaceHit surfaceHit surfaceHit surfaceHit surfaceHit surfaceHit surfaceHit
    idleScroll idleScroll idleScroll idleScroll idleScroll idleScroll idleScroll idleScroll
    (by decide) (by decide) rfl rfl rfl rfl rfl rfl rfl).2.1



/-- C5 (trigger thresholds, as the code has them). In a focused poll of an initialised
application with an active trigger and no failing runtime call: while
`triggerPressed_` is false it becomes true exactly when the value is
`>= kTriggerPressThreshold` (0.75); while it is true it becomes false exactly when the
value is strictly below `kTriggerReleaseThreshold` (the `float` 0.65f, which is not
above 0.65), so a value equal to the release threshold keeps the trigger pressed. -/
theorem trigger_thresholds (k : ScrollConstants) (engine : Nat → Bool) (app : FlutterXrApp)
    (hit leftHit : PointerHitResult) (v : ℚ) (rs ls : XrActionStateVector2f)
    (hset : app.inputActionSet_ ≠ XR_NULL_HANDLE)
    (hfoc : app.sessionState_ = XrSessionState.FOCUSED) :
    (app.triggerPressed_ = false →
        ((PollInput k engine app (activePoll hit leftHit v rs ls)).app.triggerPressed_ = true
          ↔ kTriggerPressThreshold ≤ v))
      ∧ (app.triggerPressed_ = true →
        ((PollInput k engine app (activePoll hit leftHit v rs ls)).app.triggerPressed_ = false
          ↔ v < kTriggerReleaseThreshold))
      ∧ kTriggerPressThreshold = 75 / 100 ∧ kTriggerReleaseThreshold ≤ 65 / 100 := by
  obtain ⟨_, _, _, t, _, _⟩ := poll_active_facts k engine app hit leftHit v rs ls hset hfoc
  refine ⟨?_, ?_, ?_, ?_⟩
  · intro h
    rw [t, h]
    simp [pressedNow]
  · intro h
    rw [t, h]
    simp [pressedNow]
  · simp only [kTriggerPressThreshold]; norm_num
  · simp only [kTriggerReleaseThreshold]; norm_num

theorem trigger_thresholds_witness :
    ((PollInput sampleScrollConstants engineAccepts pressedApp
        (activePoll surfaceHit surfaceHit (60 / 100) idleScroll idleScroll)).app.triggerPressed_
          = false
        ↔ (60 / 100 : ℚ) < kTriggerReleaseThreshold) :=
  (trigger_thresholds sampleScrollConstants engineAccepts pressedApp surfaceHit surfaceHit
    (60 / 100) idleScroll idleScroll (by decide) rfl).2.1 rfl

/-- C5 as stated fails at the bound: with the trigger pressed, a poll that reads the
value 0.65 (and likewise one that reads exactly the release threshold) leaves
`triggerPressed_` true, although the value is `<= 0.65`. -/
theorem trigger_release_at_bound_stays_pressed :
    (65 / 100 : ℚ) ≤ 65 / 100
      ∧ (PollInput sampleScrollConstants engineAccepts pressedApp
          (activePoll surfaceHit surfaceHit (65 / 100) idleScroll idleScroll)).app.triggerPressed_
          = true
      ∧ kTriggerReleaseThreshold ≤ 65 / 100
      ∧ (PollInput sampleScrollConstants engineAccepts pressedApp
          (activePoll surfaceHit surfaceHit kTriggerReleaseThreshold idleScroll
            idleScroll)).app.triggerPressed_ = true := by
  have hset : pressedApp.inputActionSet_ ≠ XR_NULL_HANDLE := by decide
  have hfoc : pressedApp.sessionState_ = XrSessionState.FOCUSED := rfl
  have hprs : pressedApp.triggerPressed_ = true := rfl
  refine ⟨le_refl _, ?_, ?_, ?_⟩
  · rw [(poll_active_facts sampleScrollConstants engineAccepts pressedApp surfaceHit surfaceHit
      (65 / 100) idleScroll idleScroll hset hfoc).2.2.2.1, hprs]
    simp only [pressedNow, kTriggerReleaseThreshold]
    norm_num
  · simp only [kTriggerReleaseThreshold]; norm_num
  · rw [(poll_active_facts sampleScrollConstants engineAccepts pressedApp surfaceHit surfaceHit
      kTriggerReleaseThreshold idleScroll idleScroll hset hfoc).2.2.2.1, hprs]
    simp [pressedNow]

theorem poll_unfocused (k : ScrollConstants) (engine : Nat → Bool) (app : FlutterXrApp)
    (env : PollEnv) (hset : app.inputActionSet_ ≠ XR_NULL_HANDLE)
    (hfoc : app.sessionState_ ≠ XrSessionState.FOCUSED) :
    PollInput k engine app env
      = ⟨(releasePointer engine ⟨app, []⟩).app, (releasePointer engine ⟨app, []⟩).events, false⟩ := by
  unfold PollInput
  simp only [hset, hfoc, if_false, ne_eq, not_false_eq_true, if_true]

theorem sessionStateChanged_release (engine : Nat → Bool) (app : FlutterXrApp)
    (state : XrSessionState) (xrOk : Bool)
    (hstate : state = XrSessionState.STOPPING ∨ state = XrSessionState.EXITING
      ∨ state = XrSessionState.LOSS_PENDING) :
    (HandleSessionStateChanged engine app state xrOk).events
        = (releasePointer engine ⟨{ app with sessionState_ := state }, []⟩).events
      ∧ (HandleSessionStateChanged engine app state xrOk).app.pointerDown_
        = (releasePointer engine ⟨{ app with sessionState_ := state }, []⟩).app.pointerDown_
      ∧ (HandleSessionStateChanged engine app state xrOk).app.pointerAdded_
        = (releasePointer engine ⟨{ app with sessionState_ := state }, []⟩).app.pointerAdded_
      ∧ (HandleSessionStateChanged engine app state xrOk).app.triggerPressed_
        = (releasePointer engine ⟨{ app with sessionState_ := state }, []⟩).app.triggerPressed_
      ∧ (HandleSessionStateChanged engine app state xrOk).app.pointerRayVisible_
        = (releasePointer engine ⟨{ app with sessionState_ := state }, []⟩).app.pointerRayVisible_
      ∧ (HandleSessionStateChanged engine app state xrOk).app.leftPointerRayVisible_
        = (releasePointer engine
            ⟨{ app with sessionState_ := state }, []⟩).app.leftPointerRayVisible_ := by
  rcases hstate with h | h | h <;> subst h <;> simp [HandleSessionStateChanged]

/-- C6 (focus loss). For an application whose engine exists: a `PollInput` call made
with the action set present while the session is not focused emits exactly one event
when `pointerDown_` is true, an up event at (`lastPointerX_`, `lastPointerY_`) with no
buttons, and no event when `pointerDown_` is false; afterwards `pointerDown_`,
`triggerPressed_` and both ray-visibility flags are false.
`HandleSessionStateChanged` does the same for `STOPPING`, `EXITING` and
`LOSS_PENDING`, whatever the session state was before, `FOCUSED` included. -/
theorem focus_loss_release (k : ScrollConstants) (engine : Nat → Bool) (app : FlutterXrApp)
    (env : PollEnv) (heng : app.flutterEngine_ ≠ XR_NULL_HANDLE) :
    (app.inputActionSet_ ≠ XR_NULL_HANDLE → app.sessionState_ ≠ XrSessionState.FOCUSED →
        ((PollInput k engine app env).events
            = if app.pointerDown_ then
                [pointerEvent FlutterPointerPhase.kUp app.lastPointerX_ app.lastPointerY_ 0]
              else [])
          ∧ (PollInput k engine app env).app.pointerDown_ = false
          ∧ (PollInput k engine app env).app.triggerPressed_ = false
          ∧ (PollInput k engine app env).app.pointerRayVisible_ = false
          ∧ (PollInput k engine app env).app.leftPointerRayVisible_ = false)
      ∧ ∀ (state : XrSessionState) (xrOk : Bool),
          state = XrSessionState.STOPPING ∨ state = XrSessionState.EXITING
            ∨ state = XrSessionState.LOSS_PENDING →
          ((HandleSessionStateChanged engine app state xrOk).events
              = if app.pointerDown_ then
                  [pointerEvent FlutterPointerPhase.kUp app.lastPointerX_ app.lastPointerY_ 0]
                else [])
            ∧ (HandleSessionStateChanged engine app state xrOk).app.pointerDown_ = false
            ∧ (HandleSessionStateChanged engine app state xrOk).app.triggerPressed_ = false
            ∧ (HandleSessionStateChanged engine app state xrOk).app.pointerRayVisible_ = false
            ∧ (HandleSessionStateChanged engine app state xrOk).app.leftPointerRayVisible_
                = false := by
  refine ⟨?_, ?_⟩
  · intro hset hfoc
    rw [poll_unfocused k engine app env hset hfoc, releasePointer_closed]
    refine ⟨?_, rfl, rfl, rfl, rfl⟩
    cases app.pointerDown_ <;> simp [heng]
  · intro state xrOk hstate
    obtain ⟨c1, c2, _, c4, c5, c6⟩ := sessionStateChanged_release engine app state xrOk hstate
    rw [c1, c2, c4, c5, c6, releasePointer_closed]
    refine ⟨?_, rfl, rfl, rfl, rfl⟩
    cases app.pointerDown_ <;> simp [heng]

/-- A poll of a visible, unfocused session with the pointer down, and a `LOSS_PENDING`
event delivered to a focused session with the pointer down. -/
theorem focus_loss_release_witness :
    (PollInput sampleScrollConstants engineAccepts
        { pressedApp with sessionState_ := XrSessionState.VISIBLE }
        (activePoll surfaceHit surfaceHit 1 idleScroll idleScroll)).events
        = [pointerEvent FlutterPointerPhase.kUp 640 360 0]
      ∧ (HandleSessionStateChanged engineAccepts pressedApp XrSessionState.LOSS_PENDING true).events
        = [pointerEvent FlutterPointerPhase.kUp 640 360 0]
      ∧ (HandleSessionStateChanged engineAccepts pressedApp XrSessionState.LOSS_PENDING
          true).app.pointerDown_ = false := by
  have h := (focus_loss_release sampleScrollConstants engineAccepts
    { pressedApp with sessionState_ := XrSessionState.VISIBLE }
    (activePoll surfaceHit surfaceHit 1 idleScroll idleScroll) (by decide)).1
    (by decide) (by decide)
  have h2 := (focus_loss_release sampleScrollConstants engineAccepts pressedApp
    (activePoll surfaceHit surfaceHit 1 idleScroll idleScroll) (by decide)).2
    XrSessionState.LOSS_PENDING true (Or.inr (Or.inr rfl))
  refine ⟨?_, ?_, h2.2.1⟩
  · rw [h.1]
    simp [pressedApp, runningApp, kFlutterSurfaceWidth, kFlutterSurfaceHeight]
    norm_num
  · rw [h2.1]
    simp [pressedApp, runningApp, kFlutterSurfaceWidth, kFlutterSurfaceHeight]
    norm_num

/-- The events of one `PollInput` call are those of the trigger statements (or of the
release on focus loss) followed by those of the scroll statements. -/
theorem poll_events_shape (k : ScrollConstants) (engine : Nat → Bool) (app : FlutterXrApp)
    (env : PollEnv) :
    ∃ T S, (PollInput k engine app env).events = T ++ S
      ∧ (transitions T).length ≤ 1 ∧ (∀ e ∈ T, e.isScroll = false)
      ∧ transitions S = [] ∧ (S.filter FlutterPointerEvent.isScroll).length ≤ 1 := by
  have hnil : ∃ T S : List FlutterPointerEvent, ([] : List FlutterPointerEvent) = T ++ S
      ∧ (transitions T).length ≤ 1 ∧ (∀ e ∈ T, e.isScroll = false)
      ∧ transitions S = [] ∧ (S.filter FlutterPointerEvent.isScroll).length ≤ 1 :=
    ⟨[], [], by simp [transitions]⟩
  have honly : ∀ T : List FlutterPointerEvent, (transitions T).length ≤ 1 →
      (∀ e ∈ T, e.isScroll = false) →
      ∃ T' S : List FlutterPointerEvent, T = T' ++ S
        ∧ (transitions T').length ≤ 1 ∧ (∀ e ∈ T', e.isScroll = false)
        ∧ transitions S = [] ∧ (S.filter FlutterPointerEvent.isScroll).length ≤ 1 :=
    fun T h1 h2 => ⟨T, [], by simp, h1, h2, by simp [transitions], by simp⟩
  obtain ⟨sync, hit, leftHit, trig, rs, ls⟩ := env
  by_cases hset : app.inputActionSet_ = XR_NULL_HANDLE
  · simpa [PollInput, hset] using hnil
  by_cases hfoc : app.sessionState_ = XrSessionState.FOCUSED
  swap
  · rw [poll_unfocused k engine app _ hset hfoc, releasePointer_closed]
    apply honly
    · split_ifs <;> simp [transitions]
    · split_ifs <;> simp
  cases sync with
  | false => simpa [PollInput, hset, hfoc] using hnil
  | true =>
    cases hit with
    | none => simpa [PollInput, hset, hfoc] using hnil
    | some hit =>
      cases leftHit with
      | none => simpa [PollInput, hset, hfoc] using hnil
      | some leftHit =>
        cases trig with
        | none => simpa [PollInput, hset, hfoc] using hnil
        | some trig =>
          obtain ⟨T, hT, hT1, hT2⟩ := triggerTransition_events engine
            ⟨updateRays app hit leftHit, []⟩ hit trig.isActive
            (pressedNow (updateRays app hit leftHit).triggerPressed_
              (if trig.isActive then trig.currentState else 0))
          simp only [List.nil_append] at hT
          by_cases hguard :
              (pollTrigger engine ⟨updateRays app hit leftHit, []⟩ hit trig).app.scrollVectorAction_
                  = XR_NULL_HANDLE
                ∨ (pollTrigger engine ⟨updateRays app hit leftHit, []⟩ hit trig).app.flutterEngine_
                  = XR_NULL_HANDLE
          · have : (PollInput k engine app ⟨true, some hit, some leftHit, some trig, rs, ls⟩).events
                = T := by
              simp only [PollInput, hset, hfoc, hguard, if_true, if_false, ne_eq,
                not_true_eq_false, Bool.not_true, Bool.false_eq_true]
              simpa [pollTrigger] using hT
            rw [this]
            exact honly T hT1 hT2
          · cases rs with
            | none =>
              have : (PollInput k engine app
                  ⟨true, some hit, some leftHit, some trig, none, ls⟩).events = T := by
                simp only [PollInput, hset, hfoc, hguard, if_true, if_false, ne_eq,
                  not_true_eq_false, Bool.not_true, Bool.false_eq_true]
                simpa [pollTrigger] using hT
              rw [this]
              exact honly T hT1 hT2
            | some rs =>
              cases ls with
              | none =>
                have : (PollInput k engine app
                    ⟨true, some hit, some leftHit, some trig, some rs, none⟩).events = T := by
                  simp only [PollInput, hset, hfoc, hguard, if_true, if_false, ne_eq,
                    not_true_eq_false, Bool.not_true, Bool.false_eq_true]
                  simpa [pollTrigger] using hT
                rw [this]
                exact honly T hT1 hT2
              | some ls =>
                obtain ⟨S, hS, hS1, hS2⟩ := pollScroll_events k engine
                  (pollTrigger engine ⟨updateRays app hit leftHit, []⟩ hit trig) hit leftHit rs ls
                have hT' : (pollTrigger engine ⟨updateRays app hit leftHit, []⟩ hit trig).events
                    = T := by
                  simpa [pollTrigger] using hT
                have : (PollInput k engine app
                    ⟨true, some hit, some leftHit, some trig, some rs, some ls⟩).events
                    = T ++ S := by
                  simp only [PollInput, hset, hfoc, hguard, if_true, if_false, ne_eq,
                    not_true_eq_false, Bool.not_true, Bool.false_eq_true]
                  rw [hS, hT']
                rw [this]
                exact ⟨T, S, rfl, hT1, hT2, hS1, hS2⟩

/-- C8 (per-poll ordering). For every state, every set of runtime answers and every
behaviour of the engine, the events of one `PollInput` call contain at most one
trigger transition event (down or up) and at most one scroll-signal event, and every
transition event stands before every scroll event. -/
theorem poll_event_order (k : ScrollConstants) (engine : Nat → Bool) (app : FlutterXrApp)
    (env : PollEnv) :
    (transitions (PollInput k engine app env).events).length ≤ 1
      ∧ ((PollInput k engine app env).events.filter FlutterPointerEvent.isScroll).length ≤ 1
      ∧ ∀ (i j : Nat) (e f : FlutterPointerEvent),
          (PollInput k engine app env).events[i]? = some e →
          (PollInput k engine app env).events[j]? = some f →
          e.isTransition = true → f.isScroll = true → i < j := by
  obtain ⟨T, S, hev, hT1, hT2, hS1, hS2⟩ := poll_events_shape k engine app env
  rw [hev]
  refine ⟨?_, ?_, ?_⟩
  · rw [transitions_append, hS1, List.append_nil]
    exact hT1
  · have hTs : T.filter FlutterPointerEvent.isScroll = [] := by
      rw [List.filter_eq_nil_iff]
      intro e he
      simp [hT2 e he]
    rw [List.filter_append, hTs, List.nil_append]
    exact hS2
  · intro i j e f hi hj he hf
    have hiT : i < T.length := by
      by_contra hge
      have hge' : T.length ≤ i := Nat.le_of_not_lt hge
      rw [List.getElem?_append_right hge'] at hi
      have hmem : e ∈ transitions S := by
        simp only [transitions, List.mem_filter]
        exact ⟨List.getElem?_mem hi, he⟩
      rw [hS1] at hmem
      exact absurd hmem (List.not_mem_nil e)
    have hjT : T.length ≤ j := by
      by_contra hlt
      have hlt' : j < T.length := Nat.lt_of_not_le hlt
      rw [List.getElem?_append_left hlt'] at hj
      have := hT2 f (List.getElem?_mem hj)
      rw [hf] at this
      exact absurd this (by simp)
    omega



theorem pollTrigger_keeps_invariant (engine : Nat → Bool) (r : Run) (hit : PointerHitResult)
    (trig : XrActionStateFloat) (hinv : r.app.pointerDown_ = true → r.app.pointerAdded_ = true) :
    (pollTrigger engine r hit trig).app.pointerDown_ = true →
      (pollTrigger engine r hit trig).app.pointerAdded_ = true := by
  unfold pollTrigger
  exact (triggerTransition_keeps engine r hit _ _).2.2.2.2.2.2 hinv

/-- A `PollInput` call keeps `pointerDown_ → pointerAdded_`, whatever the runtime
answers and the engine does. -/
theorem poll_keeps_invariant (k : ScrollConstants) (engine : Nat → Bool) (app : FlutterXrApp)
    (env : PollEnv) (hinv : app.pointerDown_ = true → app.pointerAdded_ = true) :
    (PollInput k engine app env).app.pointerDown_ = true →
      (PollInput k engine app env).app.pointerAdded_ = true := by
  obtain ⟨sync, hit, leftHit, trig, rs, ls⟩ := env
  by_cases hset : app.inputActionSet_ = XR_NULL_HANDLE
  · simpa [PollInput, hset] using hinv
  by_cases hfoc : app.sessionState_ = XrSessionState.FOCUSED
  swap
  · rw [poll_unfocused k engine app _ hset hfoc, releasePointer_closed]
    simp
  cases sync with
  | false => simpa [PollInput, hset, hfoc] using hinv
  | true =>
    cases hit with
    | none => simpa [PollInput, hset, hfoc] using hinv
    | some hit =>
      cases leftHit with
      | none => simpa [PollInput, hset, hfoc] using hinv
      | some leftHit =>
        have hrays : (updateRays app hit leftHit).pointerDown_ = true →
            (updateRays app hit leftHit).pointerAdded_ = true := by
          rw [(updateRays_keeps app hit leftHit).2.1, (updateRays_keeps app hit leftHit).2.2.1]
          exact hinv
        cases trig with
        | none => simpa [PollInput, hset, hfoc] using hrays
        | some trig =>
          have htrig := pollTrigger_keeps_invariant engine ⟨updateRays app hit leftHit, []⟩ hit
            trig hrays
          by_cases hguard :
              (pollTrigger engine ⟨updateRays app hit leftHit, []⟩ hit trig).app.scrollVectorAction_
                  = XR_NULL_HANDLE
                ∨ (pollTrigger engine ⟨updateRays app hit leftHit, []⟩ hit trig).app.flutterEngine_
                  = XR_NULL_HANDLE
          · simpa only [PollInput, hset, hfoc, hguard, if_true, if_false, ne_eq,
              not_true_eq_false, Bool.not_true, Bool.false_eq_true] using htrig
          · cases rs with
            | none =>
              simpa only [PollInput, hset, hfoc, hguard, if_true, if_false, ne_eq,
                not_true_eq_false, Bool.not_true, Bool.false_eq_true] using htrig
            | some rs =>
              cases ls with
              | none =>
                simpa only [PollInput, hset, hfoc, hguard, if_true, if_false, ne_eq,
                  not_true_eq_false, Bool.not_true, Bool.false_eq_true] using htrig
              | some ls =>
                obtain ⟨_, p2, _, _, _, p6⟩ := pollScroll_keeps k engine
                  (pollTrigger engine ⟨updateRays app hit leftHit, []⟩ hit trig) hit leftHit rs ls
                simp only [PollInput, hset, hfoc, hguard, if_true, if_false, ne_eq,
                  not_true_eq_false, Bool.not_true, Bool.false_eq_true]
                intro hdown
                rw [p2] at hdown
                exact p6 (htrig hdown)

theorem sessionStateChanged_keeps_invariant (engine : Nat → Bool) (app : FlutterXrApp)
    (state : XrSessionState) (xrOk : Bool)
    (hinv : app.pointerDown_ = true → app.pointerAdded_ = true) :
    (HandleSessionStateChanged engine app state xrOk).app.pointerDown_ = true →
      (HandleSessionStateChanged engine app state xrOk).app.pointerAdded_ = true := by
  cases state <;> cases xrOk <;>
    simp [HandleSessionStateChanged, releasePointer_closed] <;> exact hinv

theorem ensure_keeps_invariant (engine : Nat → Bool) (app : FlutterXrApp) (x y : ℚ)
    (hinv : app.pointerDown_ = true → app.pointerAdded_ = true) :
    (EnsureFlutterPointerAdded engine ⟨app, []⟩ x y).app.pointerDown_ = true →
      (EnsureFlutterPointerAdded engine ⟨app, []⟩ x y).app.pointerAdded_ = true := by
  rw [ensure_closed]
  split_ifs <;> simp_all

/-- The invariant `pointerDown_ → pointerAdded_` holds after every sequence of
`PollInput`, `HandleSessionStateChanged` and `EnsureFlutterPointerAdded` calls that
starts in a state where it holds. -/
theorem pointer_invariant_without_shutdown (k : ScrollConstants) (ops : List InputOp) :
    ∀ app : FlutterXrApp, (app.pointerDown_ = true → app.pointerAdded_ = true) →
      (∀ op ∈ ops, ∀ engine, op ≠ InputOp.shutdown engine) →
      (inputRun k app ops).pointerDown_ = true → (inputRun k app ops).pointerAdded_ = true := by
  induction ops with
  | nil => intro app hinv _; simpa [inputRun] using hinv
  | cons op ops ih =>
    intro app hinv hno
    have hrest : ∀ o ∈ ops, ∀ engine, o ≠ InputOp.shutdown engine :=
      fun o ho => hno o (List.mem_cons_of_mem _ ho)
    have hstep : (inputStep k app op).pointerDown_ = true →
        (inputStep k app op).pointerAdded_ = true := by
      cases op with
      | poll engine env => exact poll_keeps_invariant k engine app env hinv
      | sessionStateChanged engine state xrOk =>
        exact sessionStateChanged_keeps_invariant engine app state xrOk hinv
      | ensurePointerAdded engine x y => exact ensure_keeps_invariant engine app x y hinv
      | shutdown engine => exact absurd rfl (hno _ (List.mem_cons_self _ _) engine)
    have := ih (inputStep k app op) hstep hrest
    simpa [inputRun] using this

theorem shutdown_pointer_flags (engine : Nat → Bool) (app : FlutterXrApp)
    (heng : app.flutterEngine_ ≠ XR_NULL_HANDLE) :
    (Shutdown engine app).app.pointerDown_ = app.pointerDown_
      ∧ (Shutdown engine app).app.pointerAdded_ = false
      ∧ ((Shutdown engine app).events
          = if app.pointerAdded_ then
              [pointerEvent FlutterPointerPhase.kRemove app.lastPointerX_ app.lastPointerY_ 0]
            else []) := by
  unfold Shutdown
  cases h2 : app.pointerAdded_ <;> cases h4 : engine 0 <;>
    simp [send_closed, Run.assign, heng, h2, h4]

/-- C7 (input-state invariant `pointerDown_ → pointerAdded_`) is broken by `Shutdown`:
from the initial input state (`pointerDown_` and `pointerAdded_` both false) a focused
poll that presses the trigger on the surface, followed by `Shutdown`, ends with
`pointerDown_ = true` and `pointerAdded_ = false`; `Shutdown` hands the engine a
remove event and no up event, unlike the release on focus loss and on session stop. -/
theorem shutdown_breaks_pointer_invariant :
    runningApp.pointerDown_ = false ∧ runningApp.pointerAdded_ = false
      ∧ (inputRun sampleScrollConstants runningApp
          [InputOp.poll engineAccepts (activePoll surfaceHit surfaceHit 1 idleScroll idleScroll),
           InputOp.shutdown engineAccepts]).pointerDown_ = true
      ∧ (inputRun sampleScrollConstants runningApp
          [InputOp.poll engineAccepts (activePoll surfaceHit surfaceHit 1 idleScroll idleScroll),
           InputOp.shutdown engineAccepts]).pointerAdded_ = false
      ∧ transitions (Shutdown engineAccepts
          (PollInput sampleScrollConstants engineAccepts runningApp
            (activePoll surfaceHit surfaceHit 1 idleScroll idleScroll)).app).events = [] := by
  have hset : runningApp.inputActionSet_ ≠ XR_NULL_HANDLE := by decide
  have heng : runningApp.flutterEngine_ ≠ XR_NULL_HANDLE := by decide
  have hfoc : runningApp.sessionState_ = XrSessionState.FOCUSED := rfl
  have hrel : runningApp.triggerPressed_ = false := rfl
  obtain ⟨_, g, _, _, d, _⟩ := poll_active_facts sampleScrollConstants engineAccepts runningApp
    surfaceHit surfaceHit 1 idleScroll idleScroll hset hfoc
  have hpn : pressedNow false 1 = true := by
    simp only [pressedNow, kTriggerPressThreshold]; norm_num
  rw [hrel, hpn] at d
  have c := (triggerTransition_cases engineAccepts ⟨updateRays runningApp surfaceHit surfaceHit, []⟩
    surfaceHit true).2.1 rfl (by simp [(updateRays_keeps runningApp surfaceHit surfaceHit).1, hrel])
    rfl (by simp only [(updateRays_keeps runningApp surfaceHit surfaceHit).2.2.2.1]; exact heng) rfl
  have hdown : (PollInput sampleScrollConstants engineAccepts runningApp
      (activePoll surfaceHit surfaceHit 1 idleScroll idleScroll)).app.pointerDown_ = true := by
    rw [d]; exact c.2
  have heng' : (PollInput sampleScrollConstants engineAccepts runningApp
      (activePoll surfaceHit surfaceHit 1 idleScroll idleScroll)).app.flutterEngine_
      ≠ XR_NULL_HANDLE := by
    rw [g]; exact heng
  obtain ⟨sd, sa, se⟩ := shutdown_pointer_flags engineAccepts _ heng'
  refine ⟨rfl, rfl, ?_, ?_, ?_⟩
  · simp only [inputRun, List.foldl, inputStep]
    rw [sd, hdown]
  · simp only [inputRun, List.foldl, inputStep]
    exact sa
  · rw [se]
    split_ifs <;> simp [transitions]



/-! ## Background configuration: atomic failure, stale uploads -/

theorem error_ne_ok (m : String) : "error:" ++ m ≠ "ok" := by
  intro h
  have := congrArg String.data h
  simp at this

/-- The three outcomes of `HandleBackgroundMessage`: an error text with the members
unchanged, or `"ok"` with the configuration replaced and the version raised by one. -/
theorem handleBackgroundMessage_outcome (env : BackgroundEnv) (app : FlutterXrApp)
    (message : String) :
    ((∃ m, (HandleBackgroundMessage env app message).2 = "error:" ++ m)
        ∧ (HandleBackgroundMessage env app message).1 = app)
      ∨ ((HandleBackgroundMessage env app message).2 = "ok"
        ∧ ∃ (mode : BackgroundMode) (path : String) (pixels : List Nat),
            (HandleBackgroundMessage env app message).1
              = { app with
                    backgroundMode_ := mode
                    backgroundAssetPathUtf8_ := path
                    backgroundCustomPixels_ := pixels
                    backgroundConfigVersion_ :=
                      (app.backgroundConfigVersion_ + 1) % kSizeModulus }) := by
  unfold HandleBackgroundMessage
  simp only []
  split
  · exact Or.inl ⟨⟨_, rfl⟩, rfl⟩
  · split
    · exact Or.inr ⟨rfl, _, _, _, rfl⟩
    · split
      · exact Or.inr ⟨rfl, _, _, _, rfl⟩
      · split
        · split
          · exact Or.inl ⟨⟨_, rfl⟩, rfl⟩
          · split
            · exact Or.inl ⟨⟨_, rfl⟩, rfl⟩
            · split
              · exact Or.inl ⟨⟨_, rfl⟩, rfl⟩
              · exact Or.inr ⟨rfl, _, _, _, rfl⟩
        · split
          · exact Or.inl ⟨⟨_, rfl⟩, rfl⟩
          · exact Or.inl ⟨⟨_, rfl⟩, rfl⟩

theorem backgroundCommand_of_empty (message : String) (h : TrimAscii message = "") :
    backgroundCommand message = "" := by
  unfold backgroundCommand
  simp only [h]
  decide

theorem bump_ne (v : Nat) : (v + 1) % kSizeModulus ≠ v := by
  unfold kSizeModulus
  omega

theorem handle_ok_bumps (env : BackgroundEnv) (app : FlutterXrApp) (message : String)
    (hok : (HandleBackgroundMessage env app message).2 = "ok") :
    (HandleBackgroundMessage env app message).1.backgroundConfigVersion_
        = (app.backgroundConfigVersion_ + 1) % kSizeModulus
      ∧ (HandleBackgroundMessage env app message).1.backgroundUploadedVersion_
        = app.backgroundUploadedVersion_
      ∧ (HandleBackgroundMessage env app message).1.backgroundTextureUploads
        = app.backgroundTextureUploads := by
  rcases handleBackgroundMessage_outcome env app message with h | h
  · obtain ⟨⟨m, hm⟩, _⟩ := h
    rw [hm] at hok
    exact absurd hok (error_ne_ok m)
  · obtain ⟨_, mode, path, pixels, hstate⟩ := h
    rw [hstate]
    exact ⟨rfl, rfl, rfl⟩

theorem backgroundRun_append (env : BackgroundEnv) (c : FlutterXrApp × UploadPc)
    (xs ys : List BackgroundAction) :
    backgroundRun env c (xs ++ ys) = backgroundRun env (backgroundRun env c xs) ys := by
  simp [backgroundRun, List.foldl_append]

theorem uploadSteps_succ (env : BackgroundEnv) (c : FlutterXrApp × UploadPc) (n : Nat) :
    backgroundRun env c (uploadSteps (n + 1))
      = backgroundRun env (uploadBackgroundStep env c.1 c.2) (uploadSteps n) := by
  simp [backgroundRun, uploadSteps, List.replicate_succ, backgroundStep]

/-- One step of a call whose snapshot `v` is no longer the configuration version, or
that has returned: the uploaded version and the configuration version stay, and the
call still targets `v` or has returned. -/
theorem stale_step (env : BackgroundEnv) (app : FlutterXrApp) (pc : UploadPc) (v : Nat)
    (hne : app.backgroundConfigVersion_ ≠ v)
    (hpc : pc.targetVersion = some v ∨ ∃ b, pc = UploadPc.returned b) :
    (uploadBackgroundStep env app pc).1.backgroundUploadedVersion_
        = app.backgroundUploadedVersion_
      ∧ (uploadBackgroundStep env app pc).1.backgroundConfigVersion_
        = app.backgroundConfigVersion_
      ∧ ((uploadBackgroundStep env app pc).2.targetVersion = some v
          ∨ ∃ b, (uploadBackgroundStep env app pc).2 = UploadPc.returned b) := by
  cases pc with
  | start =>
    rcases hpc with h | ⟨b, h⟩
    · simp [UploadPc.targetVersion] at h
    · simp at h
  | snapshotTaken l =>
    have hv : l.targetVersion = v := by
      rcases hpc with h | ⟨b, h⟩
      · simpa [UploadPc.targetVersion] using h
      · simp at h
    subst hv
    obtain ⟨mode, target, pixels⟩ := l
    cases mode <;> simp [uploadBackgroundStep, hne]
  | recheckPassed l =>
    rcases hpc with h | ⟨b, h⟩
    · simp [uploadBackgroundStep, UploadPc.targetVersion] at h ⊢
      exact h
    · simp at h
  | uploaded l =>
    have hv : l.targetVersion = v := by
      rcases hpc with h | ⟨b, h⟩
      · simpa [UploadPc.targetVersion] using h
      · simp at h
    subst hv
    simp [uploadBackgroundStep, hne]
  | returned b => simp [uploadBackgroundStep]

theorem stale_steps (env : BackgroundEnv) (v : Nat) (n : Nat) :
    ∀ (app : FlutterXrApp) (pc : UploadPc), app.backgroundConfigVersion_ ≠ v →
      (pc.targetVersion = some v ∨ ∃ b, pc = UploadPc.returned b) →
      (backgroundRun env (app, pc) (uploadSteps n)).1.backgroundUploadedVersion_
        = app.backgroundUploadedVersion_ := by
  induction n with
  | zero => intro app pc _ _; simp [backgroundRun, uploadSteps]
  | succ n ih =>
    intro app pc hne hpc
    obtain ⟨h1, h2, h3⟩ := stale_step env app pc v hne hpc
    rw [uploadSteps_succ]
    rw [ih _ _ (by rw [h2]; exact hne) h3, h1]

theorem returned_steps (env : BackgroundEnv) (app : FlutterXrApp) (b : Bool) (n : Nat) :
    backgroundRun env (app, UploadPc.returned b) (uploadSteps n) = (app, UploadPc.returned b) := by
  induction n with
  | zero => simp [backgroundRun, uploadSteps]
  | succ n ih => rw [uploadSteps_succ]; simpa [uploadBackgroundStep] using ih

/-- A call whose snapshot is stale when it leaves `snapshotTaken` returns at its next
step without touching a member: `true` for mode `None`, `false` otherwise. -/
theorem stale_snapshot_steps (env : BackgroundEnv) (app : FlutterXrApp) (l : UploadLocals)
    (hne : app.backgroundConfigVersion_ ≠ l.targetVersion) (n : Nat) :
    backgroundRun env (app, UploadPc.snapshotTaken l) (uploadSteps (n + 1))
      = (app, UploadPc.returned (decide (l.mode = BackgroundMode.None))) := by
  rw [uploadSteps_succ]
  have hstep : uploadBackgroundStep env app (UploadPc.snapshotTaken l)
      = (app, UploadPc.returned (decide (l.mode = BackgroundMode.None))) := by
    obtain ⟨mode, target, pixels⟩ := l
    cases mode <;> simp [uploadBackgroundStep, hne]
  rw [hstep]
  exact returned_steps env app _ n

/-- One step of a call while no command has changed the version `v` it started from:
the configuration version stays `v`, and either the call is still in progress on `v`
with the uploaded version untouched (`u`), or it has returned. -/
theorem fresh_step (env : BackgroundEnv) (app : FlutterXrApp) (pc : UploadPc) (v u : Nat)
    (hcfg : app.backgroundConfigVersion_ = v)
    (hpc : (pc.targetVersion = some v ∧ app.backgroundUploadedVersion_ = u)
      ∨ ∃ b, pc = UploadPc.returned b) :
    (uploadBackgroundStep env app pc).1.backgroundConfigVersion_ = v
      ∧ (((uploadBackgroundStep env app pc).2.targetVersion = some v
            ∧ (uploadBackgroundStep env app pc).1.backgroundUploadedVersion_ = u)
          ∨ ∃ b, (uploadBackgroundStep env app pc).2 = UploadPc.returned b) := by
  cases pc with
  | start =>
    rcases hpc with ⟨h, _⟩ | ⟨b, h⟩
    · simp [UploadPc.targetVersion] at h
    · simp at h
  | snapshotTaken l =>
    obtain ⟨mode, target, pixels⟩ := l
    rcases hpc with ⟨h, hu⟩ | ⟨b, h⟩
    · simp only [UploadPc.targetVersion, Option.some.injEq] at h
      subst h
      cases mode <;> simp [uploadBackgroundStep, hcfg, hu, UploadPc.targetVersion]
      split_ifs <;> simp [hcfg, hu, UploadPc.targetVersion]
    · simp at h
  | recheckPassed l =>
    rcases hpc with ⟨h, hu⟩ | ⟨b, h⟩
    · simp [uploadBackgroundStep, UploadPc.targetVersion, hcfg, hu] at h ⊢
      exact h
    · simp at h
  | uploaded l =>
    simp [uploadBackgroundStep]
    split_ifs <;> simp [hcfg]
  | returned b => simp [uploadBackgroundStep, hcfg]

theorem fresh_steps (env : BackgroundEnv) (v u : Nat) (n : Nat) :
    ∀ (app : FlutterXrApp) (pc : UploadPc), app.backgroundConfigVersion_ = v →
      ((pc.targetVersion = some v ∧ app.backgroundUploadedVersion_ = u)
        ∨ ∃ b, pc = UploadPc.returned b) →
      (backgroundRun env (app, pc) (uploadSteps n)).1.backgroundConfigVersion_ = v
        ∧ (((backgroundRun env (app, pc) (uploadSteps n)).2.targetVersion = some v
              ∧ (backgroundRun env (app, pc) (uploadSteps n)).1.backgroundUploadedVersion_ = u)
            ∨ ∃ b, (backgroundRun env (app, pc) (uploadSteps n)).2 = UploadPc.returned b) := by
  induction n with
  | zero =>
    intro app pc hcfg hpc
    simp only [backgroundRun, uploadSteps, List.replicate_zero, List.foldl_nil]
    exact ⟨hcfg, hpc⟩
  | succ n ih =>
    intro app pc hcfg hpc
    obtain ⟨h1, h2⟩ := fresh_step env app pc v u hcfg hpc
    rw [uploadSteps_succ]
    exact ih _ _ h1 h2



/-- The step model agrees with the function: four uninterrupted steps from `start` are
one `UploadBackgroundTexture` call. -/
theorem uploadSteps_agree (env : BackgroundEnv) (app : FlutterXrApp) :
    backgroundRun env (app, UploadPc.start) (uploadSteps 4)
      = ((UploadBackgroundTexture env app).1,
          UploadPc.returned (UploadBackgroundTexture env app).2) := by
  simp only [backgroundRun, uploadSteps, List.replicate, List.foldl, backgroundStep]
  unfold UploadBackgroundTexture
  by_cases h : app.backgroundUploadedVersion_ = app.backgroundConfigVersion_
  · simp [uploadBackgroundStep, h]
  · by_cases hp : app.backgroundCustomPixels_ = [] <;>
    cases hm : app.backgroundMode_ <;>
      simp [uploadBackgroundStep, uploadBackgroundPixels, h, hm, hp]

/-- C10 (stale background upload is rejected, as the code has it). Run
`UploadBackgroundTexture` as its steps (snapshot; re-check, or for mode `None` the
commit; GPU upload; commit). If after the snapshot and `n₁` further steps the call has
not returned, and a `HandleBackgroundMessage` that returns `"ok"` runs there (raising
`backgroundConfigVersion_` from the snapshotted `V` to `V + 1` modulo `2 ^ 64`), then
after any number `n₂` of further steps `backgroundUploadedVersion_` still has the value
it had before the call, which is not `V`. If the command runs right after the snapshot
(`n₁ = 0`) the call performs no GPU upload, and once it has made a further step it has
returned `false` when the snapshotted mode is `GroundGrid`, `Dds` or `Glb`, and `true`
when it is `None` (the `None` path has no re-check and nothing to upload). -/
theorem stale_upload_rejected (env : BackgroundEnv) (app : FlutterXrApp) (n₁ n₂ : Nat)
    (message : String)
    (hprog : ∀ b, (backgroundRun env (app, UploadPc.start) (uploadSteps (n₁ + 1))).2
      ≠ UploadPc.returned b)
    (hok : (HandleBackgroundMessage env
      (backgroundRun env (app, UploadPc.start) (uploadSteps (n₁ + 1))).1 message).2 = "ok") :
    (backgroundRun env (app, UploadPc.start)
        (uploadSteps (n₁ + 1) ++ [BackgroundAction.message message]
          ++ uploadSteps n₂)).1.backgroundUploadedVersion_ = app.backgroundUploadedVersion_
      ∧ app.backgroundUploadedVersion_ ≠ app.backgroundConfigVersion_
      ∧ (HandleBackgroundMessage env
          (backgroundRun env (app, UploadPc.start) (uploadSteps (n₁ + 1))).1
          message).1.backgroundConfigVersion_
          = (app.backgroundConfigVersion_ + 1) % kSizeModulus
      ∧ (n₁ = 0 →
          (backgroundRun env (app, UploadPc.start)
              (uploadSteps (n₁ + 1) ++ [BackgroundAction.message message]
                ++ uploadSteps n₂)).1.backgroundTextureUploads = app.backgroundTextureUploads
            ∧ (0 < n₂ →
                (backgroundRun env (app, UploadPc.start)
                    (uploadSteps (n₁ + 1) ++ [BackgroundAction.message message]
                      ++ uploadSteps n₂)).2
                  = UploadPc.returned (decide (app.backgroundMode_ = BackgroundMode.None)))) := by
  -- the first step is the snapshot
  have hstale : app.backgroundUploadedVersion_ ≠ app.backgroundConfigVersion_ := by
    intro heq
    have hfirst : uploadBackgroundStep env app UploadPc.start = (app, UploadPc.returned true) := by
      simp [uploadBackgroundStep, heq]
    have := hprog true
    rw [uploadSteps_succ, hfirst, returned_steps] at this
    exact this rfl
  have hfirst : uploadBackgroundStep env app UploadPc.start
      = (app, UploadPc.snapshotTaken
          ⟨app.backgroundMode_, app.backgroundConfigVersion_,
            if app.backgroundMode_ = BackgroundMode.Dds then app.backgroundCustomPixels_
            else []⟩) := by
    simp [uploadBackgroundStep, hstale]
  -- the state in which the command runs
  have hpre : backgroundRun env (app, UploadPc.start) (uploadSteps (n₁ + 1))
      = backgroundRun env (app, UploadPc.snapshotTaken
          ⟨app.backgroundMode_, app.backgroundConfigVersion_,
            if app.backgroundMode_ = BackgroundMode.Dds then app.backgroundCustomPixels_
            else []⟩) (uploadSteps n₁) := by
    rw [uploadSteps_succ, hfirst]
  obtain ⟨hcfg, hpc⟩ := fresh_steps env app.backgroundConfigVersion_
    app.backgroundUploadedVersion_ n₁ app
    (UploadPc.snapshotTaken
      ⟨app.backgroundMode_, app.backgroundConfigVersion_,
        if app.backgroundMode_ = BackgroundMode.Dds then app.backgroundCustomPixels_ else []⟩)
    rfl (Or.inl ⟨rfl, rfl⟩)
  rw [← hpre] at hcfg hpc
  have hpc' : (backgroundRun env (app, UploadPc.start) (uploadSteps (n₁ + 1))).2.targetVersion
        = some app.backgroundConfigVersion_
      ∧ (backgroundRun env (app, UploadPc.start)
          (uploadSteps (n₁ + 1))).1.backgroundUploadedVersion_
        = app.backgroundUploadedVersion_ := by
    rcases hpc with h | ⟨b, h⟩
    · exact h
    · exact absurd h (hprog b)
  obtain ⟨hbump, hup, htex⟩ := handle_ok_bumps env _ message hok
  rw [hcfg] at hbump
  have hrun : backgroundRun env (app, UploadPc.start)
      (uploadSteps (n₁ + 1) ++ [BackgroundAction.message message] ++ uploadSteps n₂)
      = backgroundRun env
          ((HandleBackgroundMessage env
              (backgroundRun env (app, UploadPc.start) (uploadSteps (n₁ + 1))).1 message).1,
            (backgroundRun env (app, UploadPc.start) (uploadSteps (n₁ + 1))).2)
          (uploadSteps n₂) := by
    rw [backgroundRun_append, backgroundRun_append]
    simp [backgroundRun, backgroundStep]
  have hne : (HandleBackgroundMessage env
      (backgroundRun env (app, UploadPc.start) (uploadSteps (n₁ + 1))).1
      message).1.backgroundConfigVersion_ ≠ app.backgroundConfigVersion_ := by
    rw [hbump]
    exact bump_ne _
  refine ⟨?_, hstale, hbump, ?_⟩
  · rw [hrun, stale_steps env app.backgroundConfigVersion_ n₂ _ _ hne (Or.inl hpc'.1), hup]
    exact hpc'.2
  · intro hn
    subst hn
    have hpre0 : backgroundRun env (app, UploadPc.start) (uploadSteps (0 + 1))
        = (app, UploadPc.snapshotTaken
            ⟨app.backgroundMode_, app.backgroundConfigVersion_,
              if app.backgroundMode_ = BackgroundMode.Dds then app.backgroundCustomPixels_
              else []⟩) := by
      rw [hpre]
      simp [backgroundRun, uploadSteps]
    rw [hrun]
    rw [hpre0] at hne htex ⊢
    constructor
    · cases n₂ with
      | zero => simpa [backgroundRun, uploadSteps] using htex
      | succ n => rw [stale_snapshot_steps env _ _ hne n]; exact htex
    · intro hpos
      obtain ⟨n, rfl⟩ : ∃ n, n₂ = n + 1 := ⟨n₂ - 1, by omega⟩
      rw [stale_snapshot_steps env _ _ hne n]

theorem stale_upload_rejected_witness :
    (backgroundRun emptyDiskEnv ({}, UploadPc.start)
        (uploadSteps (0 + 1) ++ [BackgroundAction.message "none"]
          ++ uploadSteps 1)).1.backgroundUploadedVersion_
      = ({} : FlutterXrApp).backgroundUploadedVersion_ :=
  (stale_upload_rejected emptyDiskEnv {} 0 1 "none"
    (by intro b; cases b <;> decide) (by decide)).1

/-- C10 as stated fails for the `None` mode: the snapshot is taken under version 1, a
`grid` command then raises the version to 2 before any other step of the upload, and
the call returns `true`, not `false` (without GPU upload and without setting
`backgroundUploadedVersion_`). -/
theorem stale_upload_none_mode_returns_true :
    (backgroundRun emptyDiskEnv ({ backgroundMode_ := BackgroundMode.None }, UploadPc.start)
        [BackgroundAction.uploadStep]).2
        = UploadPc.snapshotTaken ⟨BackgroundMode.None, 1, []⟩
      ∧ (HandleBackgroundMessage emptyDiskEnv { backgroundMode_ := BackgroundMode.None }
          "grid").2 = "ok"
      ∧ (HandleBackgroundMessage emptyDiskEnv { backgroundMode_ := BackgroundMode.None }
          "grid").1.backgroundConfigVersion_ = 2
      ∧ (backgroundRun emptyDiskEnv ({ backgroundMode_ := BackgroundMode.None }, UploadPc.start)
          [BackgroundAction.uploadStep, BackgroundAction.message "grid",
            BackgroundAction.uploadStep]).2 = UploadPc.returned true
      ∧ (backgroundRun emptyDiskEnv ({ backgroundMode_ := BackgroundMode.None }, UploadPc.start)
          [BackgroundAction.uploadStep, BackgroundAction.message "grid",
            BackgroundAction.uploadStep]).1.backgroundTextureUploads = []
      ∧ (backgroundRun emptyDiskEnv ({ backgroundMode_ := BackgroundMode.None }, UploadPc.start)
          [BackgroundAction.uploadStep, BackgroundAction.message "grid",
            BackgroundAction.uploadStep]).1.backgroundUploadedVersion_ = 0 := by
  refine ⟨by decide, by decide, by decide, by decide, by decide, by decide⟩

/-! ## Background configuration: the version invariant -/

/-- A step of `UploadBackgroundTexture` leaves `backgroundConfigVersion_` alone and
either leaves `backgroundUploadedVersion_` alone or sets it to the configuration
version. -/
theorem uploadStep_versions (env : BackgroundEnv) (app : FlutterXrApp) (pc : UploadPc) :
    (uploadBackgroundStep env app pc).1.backgroundConfigVersion_ = app.backgroundConfigVersion_
      ∧ ((uploadBackgroundStep env app pc).1.backgroundUploadedVersion_
            = app.backgroundUploadedVersion_
          ∨ (uploadBackgroundStep env app pc).1.backgroundUploadedVersion_
            = app.backgroundConfigVersion_) := by
  cases pc with
  | start =>
    by_cases h : app.backgroundUploadedVersion_ = app.backgroundConfigVersion_ <;>
      simp [uploadBackgroundStep, h]
  | snapshotTaken l =>
    obtain ⟨mode, target, pixels⟩ := l
    by_cases h : app.backgroundConfigVersion_ = target <;>
    by_cases hp : pixels = [] <;>
    cases mode <;> simp [uploadBackgroundStep, h, hp]
  | recheckPassed l => simp [uploadBackgroundStep]
  | uploaded l =>
    by_cases h : app.backgroundConfigVersion_ = l.targetVersion <;>
      simp [uploadBackgroundStep, h]
  | returned b => simp [uploadBackgroundStep]

/-- A `HandleBackgroundMessage` call leaves `backgroundUploadedVersion_` alone and leaves
`backgroundConfigVersion_` alone or adds 1 to it modulo `2 ^ 64`. -/
theorem message_versions (env : BackgroundEnv) (app : FlutterXrApp) (message : String) :
    (HandleBackgroundMessage env app message).1.backgroundUploadedVersion_
        = app.backgroundUploadedVersion_
      ∧ ((HandleBackgroundMessage env app message).1.backgroundConfigVersion_
            = app.backgroundConfigVersion_
          ∨ (HandleBackgroundMessage env app message).1.backgroundConfigVersion_
            = (app.backgroundConfigVersion_ + 1) % kSizeModulus) := by
  rcases handleBackgroundMessage_outcome env app message with h | h
  · rw [h.2]
    exact ⟨rfl, Or.inl rfl⟩
  · obtain ⟨_, mode, path, pixels, hstate⟩ := h
    rw [hstate]
    exact ⟨rfl, Or.inr rfl⟩

/-- A `CreateBackgroundTexture` call leaves `backgroundConfigVersion_` alone and leaves
`backgroundUploadedVersion_` alone (when it throws) or resets it to 0. -/
theorem createTexture_versions (env : BackgroundEnv) (app : FlutterXrApp) (createOk : Bool) :
    (CreateBackgroundTexture env app createOk).1.backgroundConfigVersion_
        = app.backgroundConfigVersion_
      ∧ ((CreateBackgroundTexture env app createOk).1.backgroundUploadedVersion_
            = app.backgroundUploadedVersion_
          ∨ (CreateBackgroundTexture env app createOk).1.backgroundUploadedVersion_ = 0) := by
  cases createOk <;> simp [CreateBackgroundTexture]

/-- One atomic action keeps `backgroundUploadedVersion_ <= backgroundConfigVersion_ <= n + 1`
when it starts with `backgroundUploadedVersion_ <= backgroundConfigVersion_ <= n` and
`n + 1` is below the modulus. -/
theorem backgroundStep_invariant (env : BackgroundEnv) (c : FlutterXrApp × UploadPc)
    (action : BackgroundAction) (n : Nat)
    (hinv : c.1.backgroundUploadedVersion_ ≤ c.1.backgroundConfigVersion_)
    (hbound : c.1.backgroundConfigVersion_ ≤ n) (hn : n + 1 < kSizeModulus) :
    (backgroundStep env c action).1.backgroundUploadedVersion_
        ≤ (backgroundStep env c action).1.backgroundConfigVersion_
      ∧ (backgroundStep env c action).1.backgroundConfigVersion_ ≤ n + 1 := by
  cases action with
  | uploadStep =>
    obtain ⟨hcfg, hup⟩ := uploadStep_versions env c.1 c.2
    simp only [backgroundStep]
    rw [hcfg]
    rcases hup with h | h <;> rw [h] <;> omega
  | message text =>
    obtain ⟨hup, hcfg⟩ := message_versions env c.1 text
    simp only [backgroundStep]
    rw [hup]
    rcases hcfg with h | h
    · rw [h]; omega
    · rw [h, mod_size_of_lt (by omega)]; omega
  | uploadCall =>
    simp only [backgroundStep]
    split <;> exact ⟨hinv, Nat.le_succ_of_le hbound⟩
  | createTexture createOk =>
    obtain ⟨hcfg, hup⟩ := createTexture_versions env c.1 createOk
    simp only [backgroundStep]
    rw [hcfg]
    rcases hup with h | h <;> rw [h] <;> omega

theorem backgroundRun_snoc (env : BackgroundEnv) (c : FlutterXrApp × UploadPc)
    (actions : List BackgroundAction) (action : BackgroundAction) :
    backgroundRun env c (actions ++ [action])
      = backgroundStep env (backgroundRun env c actions) action := by
  simp [backgroundRun, List.foldl_append]

theorem backgroundRun_invariant (env : BackgroundEnv) (init : FlutterXrApp) (pc : UploadPc)
    (hu : init.backgroundUploadedVersion_ = 0) (hc : init.backgroundConfigVersion_ = 1)
    (actions : List BackgroundAction) :
    actions.length + 1 < kSizeModulus →
      (backgroundRun env (init, pc) actions).1.backgroundUploadedVersion_
          ≤ (backgroundRun env (init, pc) actions).1.backgroundConfigVersion_
        ∧ (backgroundRun env (init, pc) actions).1.backgroundConfigVersion_
          ≤ actions.length + 1 := by
  induction actions using List.reverseRecOn with
  | nil =>
    intro _
    simp [backgroundRun, hu, hc]
  | append_singleton actions action ih =>
    intro hlen
    have hlen2 : actions.length + 1 + 1 < kSizeModulus := by simpa using hlen
    obtain ⟨hinv, hbound⟩ := ih (by omega)
    obtain ⟨h1, h2⟩ := backgroundStep_invariant env (backgroundRun env (init, pc) actions) action
      (actions.length + 1) hinv hbound hlen2
    rw [backgroundRun_snoc]
    exact ⟨h1, by simpa using h2⟩

/-- An uninterrupted `UploadBackgroundTexture` call that finds the versions equal changes
nothing and returns `true`; one that finds mode `None`, `GroundGrid`, or `Dds` with
non-empty pixels ends with the versions equal and returns `true`. -/
theorem upload_completes (env : BackgroundEnv) (app : FlutterXrApp) :
    (app.backgroundUploadedVersion_ = app.backgroundConfigVersion_ →
        UploadBackgroundTexture env app = (app, true))
      ∧ ((app.backgroundMode_ = BackgroundMode.None ∨ app.backgroundMode_ = BackgroundMode.GroundGrid
            ∨ (app.backgroundMode_ = BackgroundMode.Dds ∧ app.backgroundCustomPixels_ ≠ [])) →
          (UploadBackgroundTexture env app).1.backgroundUploadedVersion_
              = (UploadBackgroundTexture env app).1.backgroundConfigVersion_
            ∧ (UploadBackgroundTexture env app).1.backgroundConfigVersion_
              = app.backgroundConfigVersion_
            ∧ (UploadBackgroundTexture env app).2 = true) := by
  constructor
  · intro h
    simp [UploadBackgroundTexture, h]
  · intro hmode
    by_cases h : app.backgroundUploadedVersion_ = app.backgroundConfigVersion_
    · simp [UploadBackgroundTexture, h]
    · rcases hmode with hm | hm | ⟨hm, hp⟩ <;>
        simp [UploadBackgroundTexture, uploadBackgroundPixels, h, hm, *]

/-- C11 (background version invariant). The initial members have
`backgroundUploadedVersion_ = 0` and `backgroundConfigVersion_ = 1`; from any state with
these two values, after every sequence of fewer than `2 ^ 64 - 1` atomic actions (steps
of `UploadBackgroundTexture`, whole `HandleBackgroundMessage` calls, entries into a new
`UploadBackgroundTexture` call, whole `CreateBackgroundTexture` calls, in any order and
from any point of an upload in progress), `backgroundUploadedVersion_ <=
backgroundConfigVersion_`; an `UploadBackgroundTexture` call that starts with the two
versions equal changes no member and returns `true`, as its first step and as a whole;
and a call that runs to completion with nothing in between in mode `None`, in mode
`GroundGrid`, or in mode `Dds` with non-empty pixels returns `true` with the two
versions equal (to the unchanged configuration version), as a whole and as four
steps. -/
theorem background_version_invariant (env : BackgroundEnv) :
    (({} : FlutterXrApp).backgroundUploadedVersion_ = 0
        ∧ ({} : FlutterXrApp).backgroundConfigVersion_ = 1)
      ∧ (∀ (init : FlutterXrApp) (pc : UploadPc) (actions : List BackgroundAction),
          init.backgroundUploadedVersion_ = 0 → init.backgroundConfigVersion_ = 1 →
          actions.length + 1 < kSizeModulus →
          (backgroundRun env (init, pc) actions).1.backgroundUploadedVersion_
            ≤ (backgroundRun env (init, pc) actions).1.backgroundConfigVersion_)
      ∧ (∀ app : FlutterXrApp,
          app.backgroundUploadedVersion_ = app.backgroundConfigVersion_ →
          UploadBackgroundTexture env app = (app, true)
            ∧ uploadBackgroundStep env app UploadPc.start = (app, UploadPc.returned true))
      ∧ (∀ app : FlutterXrApp,
          (app.backgroundMode_ = BackgroundMode.None
            ∨ app.backgroundMode_ = BackgroundMode.GroundGrid
            ∨ (app.backgroundMode_ = BackgroundMode.Dds ∧ app.backgroundCustomPixels_ ≠ [])) →
          ((UploadBackgroundTexture env app).1.backgroundUploadedVersion_
              = (UploadBackgroundTexture env app).1.backgroundConfigVersion_
            ∧ (UploadBackgroundTexture env app).1.backgroundConfigVersion_
              = app.backgroundConfigVersion_
            ∧ (UploadBackgroundTexture env app).2 = true)
          ∧ (backgroundRun env (app, UploadPc.start) (uploadSteps 4)).1.backgroundUploadedVersion_
              = (backgroundRun env (app, UploadPc.start)
                  (uploadSteps 4)).1.backgroundConfigVersion_
          ∧ (backgroundRun env (app, UploadPc.start) (uploadSteps 4)).2
              = UploadPc.returned true) := by
  refine ⟨⟨rfl, rfl⟩, ?_, ?_, ?_⟩
  · intro init pc actions hu hc hlen
    exact (backgroundRun_invariant env init pc hu hc actions hlen).1
  · intro app h
    refine ⟨(upload_completes env app).1 h, ?_⟩
    simp [uploadBackgroundStep, h]
  · intro app hmode
    obtain ⟨h1, h2, h3⟩ := (upload_completes env app).2 hmode
    refine ⟨⟨h1, h2, h3⟩, ?_, ?_⟩
    · rw [uploadSteps_agree]
      exact h1
    · rw [uploadSteps_agree, h3]

theorem background_version_invariant_witness :
    (backgroundRun emptyDiskEnv ({}, UploadPc.start)
        [BackgroundAction.uploadStep, BackgroundAction.message "none",
          BackgroundAction.uploadStep, BackgroundAction.createTexture true,
          BackgroundAction.uploadCall, BackgroundAction.message "grid",
          BackgroundAction.uploadStep]).1.backgroundUploadedVersion_
      ≤ (backgroundRun emptyDiskEnv ({}, UploadPc.start)
        [BackgroundAction.uploadStep, BackgroundAction.message "none",
          BackgroundAction.uploadStep, BackgroundAction.createTexture true,
          BackgroundAction.uploadCall, BackgroundAction.message "grid",
          BackgroundAction.uploadStep]).1.backgroundConfigVersion_ :=
  (background_version_invariant emptyDiskEnv).2.1 {} UploadPc.start _ rfl rfl (by decide)

/-! ## Ray and surface: parallel rays, centre hit, rays from behind, surface coordinates -/

/-- Rotating by a unit quaternion and then by its conjugate gives the vector back. -/
theorem rotate_conjugate_rotate (q : XrQuaternionf) (v : XrVector3f)
    (hunit : q.x * q.x + q.y * q.y + q.z * q.z + q.w * q.w = 1) :
    RotateVector (Conjugate q) (RotateVector q v) = v := by
  obtain ⟨qx, qy, qz, qw⟩ := q
  obtain ⟨vx, vy, vz⟩ := v
  simp only at hunit
  simp only [RotateVector, Conjugate, Scale, Dot, Cross, Add, XrVector3f.mk.injEq]
  refine ⟨?_, ?_, ?_⟩
  · linear_combination ((qx * qx + qy * qy + qz * qz + qw * qw + 1) * vx) * hunit
  · linear_combination ((qx * qx + qy * qy + qz * qz + qw * qw + 1) * vy) * hunit
  · linear_combination ((qx * qx + qy * qy + qz * qz + qw * qw + 1) * vz) * hunit

theorem subtract_add_cancel (p v : XrVector3f) : Subtract (Add p v) p = v := by
  obtain ⟨px, py, pz⟩ := p
  obtain ⟨vx, vy, vz⟩ := v
  simp [Subtract, Add]

/-- The four ways in which `IntersectRayWithQuad` returns: three refusals that write
nothing, or a hit that writes `u`, `v` and, through a non-null pointer, the distance. -/
theorem intersect_closed (o d : XrVector3f) (pose : XrPosef) (w h : ℚ) (out : QuadHitOutputs) :
    IntersectRayWithQuad o d pose w h out
      = if out.outU = none ∨ out.outV = none ∨ w ≤ 0 ∨ h ≤ 0
            ∨ |(rayDirectionLocal d pose).z| < lit_1_0e_6f
            ∨ planeCrossing o d pose ≤ 0
            ∨ w * (1 / 2) < |(quadHit o d pose).x| ∨ h * (1 / 2) < |(quadHit o d pose).y| then
          (false, out)
        else
          (true,
            { outHitDistanceMeters := out.outHitDistanceMeters.map (fun _ => planeCrossing o d pose)
              outU := some ((quadHit o d pose).x / w + 1 / 2)
              outV := some (1 / 2 - (quadHit o d pose).y / h) }) := by
  unfold IntersectRayWithQuad
  by_cases h1 : out.outU = none ∨ out.outV = none ∨ w ≤ 0 ∨ h ≤ 0
  · have : out.outU = none ∨ out.outV = none ∨ w ≤ 0 ∨ h ≤ 0
        ∨ |(rayDirectionLocal d pose).z| < lit_1_0e_6f
        ∨ planeCrossing o d pose ≤ 0
        ∨ w * (1 / 2) < |(quadHit o d pose).x| ∨ h * (1 / 2) < |(quadHit o d pose).y| := by
      tauto
    rw [if_pos h1, if_pos this]
  · rw [if_neg h1]
    by_cases h2 : |(rayDirectionLocal d pose).z| < lit_1_0e_6f
    · rw [if_pos h2, if_pos (by tauto)]
    · rw [if_neg h2]
      simp only []
      by_cases h3 : planeCrossing o d pose ≤ 0
      · rw [if_pos h3, if_pos (by tauto)]
      · rw [if_neg h3]
        by_cases h4 : |(quadHit o d pose).x| > w * (1 / 2) ∨ |(quadHit o d pose).y| > h * (1 / 2)
        · rw [if_pos h4, if_pos (by simp only [gt_iff_lt] at h4; tauto)]
        · rw [if_neg h4, if_neg (by simp only [gt_iff_lt] at h4; tauto)]

/-- C12 (a ray parallel to the surface misses, with the bound of the code). For every
ray origin, ray direction and quad pose, and every positive width and height: when the
z-component of the direction rotated by the conjugate of the quad orientation has
magnitude below the `float` literal `1.0e-6f`, which is 8796093 / 2^43 and so slightly
less than 1e-6, `IntersectRayWithQuad` returns `false` and leaves the pointees of all
three output parameters as they were. -/
theorem parallel_ray_no_hit (rayOriginWorld rayDirectionWorld : XrVector3f) (quadPoseWorld : XrPosef)
    (quadWidthMeters quadHeightMeters : ℚ) (out : QuadHitOutputs)
    (_hw : 0 < quadWidthMeters) (_hh : 0 < quadHeightMeters)
    (hz : |(RotateVector (Conjugate quadPoseWorld.orientation) rayDirectionWorld).z|
      < lit_1_0e_6f) :
    IntersectRayWithQuad rayOriginWorld rayDirectionWorld quadPoseWorld quadWidthMeters
      quadHeightMeters out = (false, out) := by
  rw [intersect_closed, if_pos]
  exact Or.inr (Or.inr (Or.inr (Or.inr (Or.inl hz))))

theorem parallel_ray_no_hit_witness :
    IntersectRayWithQuad ⟨0, 0, 2⟩ ⟨1, 0, 0⟩ ⟨⟨0, 0, 0, 1⟩, ⟨0, 0, 0⟩⟩ 2 1 ⟨some 7, some 8, some 9⟩
      = (false, ⟨some 7, some 8, some 9⟩) :=
  parallel_ray_no_hit ⟨0, 0, 2⟩ ⟨1, 0, 0⟩ ⟨⟨0, 0, 0, 1⟩, ⟨0, 0, 0⟩⟩ 2 1 ⟨some 7, some 8, some 9⟩
    (by norm_num) (by norm_num)
    (by norm_num [RotateVector, Conjugate, Scale, Dot, Cross, Add, lit_1_0e_6f])

/-- C12 as stated fails: the direction (0, 0, -1.0e-6f) has, in the frame of the quad
with the identity pose, a z-component of magnitude 8796093 / 2^43 < 1e-6, which is not
below the literal `1.0e-6f` that the code compares with; from the origin (0, 0, 1)
`IntersectRayWithQuad` reports a hit at the centre of a 2 by 1 quad and writes all three
outputs. -/
theorem parallel_ray_at_decimal_bound_hits :
    |(RotateVector (Conjugate (⟨⟨0, 0, 0, 1⟩, ⟨0, 0, 0⟩⟩ : XrPosef).orientation)
          ⟨0, 0, -lit_1_0e_6f⟩).z| < 1 / 1000000
      ∧ ¬ |(RotateVector (Conjugate (⟨⟨0, 0, 0, 1⟩, ⟨0, 0, 0⟩⟩ : XrPosef).orientation)
          ⟨0, 0, -lit_1_0e_6f⟩).z| < lit_1_0e_6f
      ∧ IntersectRayWithQuad ⟨0, 0, 1⟩ ⟨0, 0, -lit_1_0e_6f⟩ ⟨⟨0, 0, 0, 1⟩, ⟨0, 0, 0⟩⟩ 2 1
          ⟨some 7, some 8, some 9⟩
        = (true, ⟨some (1 / lit_1_0e_6f), some (1 / 2), some (1 / 2)⟩) := by
  refine ⟨?_, ?_, ?_⟩
  · norm_num [RotateVector, Conjugate, Scale, Dot, Cross, Add, lit_1_0e_6f, abs_lt]
  · norm_num [RotateVector, Conjugate, Scale, Dot, Cross, Add, lit_1_0e_6f, abs_lt]
  · rw [intersect_closed, if_neg]
    · norm_num [planeCrossing, quadHit, rayOriginLocal, rayDirectionLocal, RotateVector,
        Conjugate, Subtract, Scale, Dot, Cross, Add, lit_1_0e_6f]
    · norm_num [planeCrossing, quadHit, rayOriginLocal, rayDirectionLocal, RotateVector,
        Conjugate, Subtract, Scale, Dot, Cross, Add, lit_1_0e_6f, abs_lt, abs_le]
      exact ⟨by simp, by simp⟩

/-- C13 (centre hit). For a quad pose with unit orientation `q`, positive width and
height and a distance `d > 0`, the ray from `position + RotateVector(q, (0, 0, d))` with
direction `RotateVector(q, (0, 0, -1))` is a hit: `IntersectRayWithQuad` returns `true`,
writes `u = v = 0.5`, and writes `d` as the hit distance (through a non-null
`outHitDistanceMeters`). -/
theorem centre_hit (quadPoseWorld : XrPosef) (quadWidthMeters quadHeightMeters d : ℚ)
    (out : QuadHitOutputs)
    (hunit : quadPoseWorld.orientation.x * quadPoseWorld.orientation.x
      + quadPoseWorld.orientation.y * quadPoseWorld.orientation.y
      + quadPoseWorld.orientation.z * quadPoseWorld.orientation.z
      + quadPoseWorld.orientation.w * quadPoseWorld.orientation.w = 1)
    (hw : 0 < quadWidthMeters) (hh : 0 < quadHeightMeters) (hd : 0 < d)
    (hu : out.outU ≠ none) (hv : out.outV ≠ none) :
    IntersectRayWithQuad
        (Add quadPoseWorld.position (RotateVector quadPoseWorld.orientation ⟨0, 0, d⟩))
        (RotateVector quadPoseWorld.orientation ⟨0, 0, -1⟩)
        quadPoseWorld quadWidthMeters quadHeightMeters out
      = (true,
          { outHitDistanceMeters := out.outHitDistanceMeters.map (fun _ => d)
            outU := some (1 / 2)
            outV := some (1 / 2) }) := by
  have horigin : rayOriginLocal
      (Add quadPoseWorld.position (RotateVector quadPoseWorld.orientation ⟨0, 0, d⟩))
      quadPoseWorld = ⟨0, 0, d⟩ := by
    unfold rayOriginLocal
    rw [subtract_add_cancel, rotate_conjugate_rotate _ _ hunit]
  have hdirection : rayDirectionLocal (RotateVector quadPoseWorld.orientation ⟨0, 0, -1⟩)
      quadPoseWorld = ⟨0, 0, -1⟩ := by
    unfold rayDirectionLocal
    rw [rotate_conjugate_rotate _ _ hunit]
  have ht : planeCrossing
      (Add quadPoseWorld.position (RotateVector quadPoseWorld.orientation ⟨0, 0, d⟩))
      (RotateVector quadPoseWorld.orientation ⟨0, 0, -1⟩) quadPoseWorld = d := by
    unfold planeCrossing
    rw [horigin, hdirection]
    simp
  have hhit : quadHit
      (Add quadPoseWorld.position (RotateVector quadPoseWorld.orientation ⟨0, 0, d⟩))
      (RotateVector quadPoseWorld.orientation ⟨0, 0, -1⟩) quadPoseWorld = ⟨0, 0, 0⟩ := by
    unfold quadHit
    rw [ht, horigin, hdirection]
    simp [Add, Scale]
  rw [intersect_closed, hdirection, ht, hhit, if_neg]
  · simp
  · have heps : ¬ (|(-1 : ℚ)| < lit_1_0e_6f) := by norm_num [lit_1_0e_6f]
    have hw2 : ¬ (quadWidthMeters * (1 / 2) < |(0 : ℚ)|) := by
      rw [abs_zero]; linarith
    have hh2 : ¬ (quadHeightMeters * (1 / 2) < |(0 : ℚ)|) := by
      rw [abs_zero]; linarith
    simp only [not_or]
    exact ⟨hu, hv, not_le.mpr hw, not_le.mpr hh, heps, not_le.mpr hd, hw2, hh2⟩

theorem centre_hit_witness :
    IntersectRayWithQuad
        (Add (⟨1, 2, 3⟩ : XrVector3f) (RotateVector ⟨3 / 5, 0, 0, 4 / 5⟩ ⟨0, 0, 2⟩))
        (RotateVector ⟨3 / 5, 0, 0, 4 / 5⟩ ⟨0, 0, -1⟩)
        ⟨⟨3 / 5, 0, 0, 4 / 5⟩, ⟨1, 2, 3⟩⟩ 2 1 ⟨some 0, some 0, some 0⟩
      = (true, ⟨some 2, some (1 / 2), some (1 / 2)⟩) :=
  centre_hit ⟨⟨3 / 5, 0, 0, 4 / 5⟩, ⟨1, 2, 3⟩⟩ 2 1 2 ⟨some 0, some 0, some 0⟩
    (by norm_num) (by norm_num) (by norm_num) (by norm_num) (by simp) (by simp)

/-- C14 (a surface behind the ray is missed). Whenever the local direction has
`|z| >= 1e-6` (the literal `1.0e-6f`) and the plane-crossing parameter
`t = -rayOriginLocal.z / rayDirectionLocal.z` is `<= 0`, `IntersectRayWithQuad` returns
`false` and writes nothing, wherever the point `rayOriginLocal + t * rayDirectionLocal`
lies, inside the half-width / half-height bounds included. -/
theorem behind_origin_no_hit (rayOriginWorld rayDirectionWorld : XrVector3f) (quadPoseWorld : XrPosef)
    (quadWidthMeters quadHeightMeters : ℚ) (out : QuadHitOutputs)
    (_hz : lit_1_0e_6f
      ≤ |(RotateVector (Conjugate quadPoseWorld.orientation) rayDirectionWorld).z|)
    (ht : -(RotateVector (Conjugate quadPoseWorld.orientation)
          (Subtract rayOriginWorld quadPoseWorld.position)).z
        / (RotateVector (Conjugate quadPoseWorld.orientation) rayDirectionWorld).z ≤ 0) :
    IntersectRayWithQuad rayOriginWorld rayDirectionWorld quadPoseWorld quadWidthMeters
      quadHeightMeters out = (false, out) := by
  rw [intersect_closed, if_pos]
  exact Or.inr (Or.inr (Or.inr (Or.inr (Or.inr (Or.inl ht)))))

theorem behind_origin_no_hit_witness :
    (|(quadHit ⟨0, 0, -2⟩ ⟨0, 0, -1⟩ ⟨⟨0, 0, 0, 1⟩, ⟨0, 0, 0⟩⟩).x| ≤ 2 * (1 / 2)
        ∧ |(quadHit ⟨0, 0, -2⟩ ⟨0, 0, -1⟩ ⟨⟨0, 0, 0, 1⟩, ⟨0, 0, 0⟩⟩).y| ≤ 1 * (1 / 2))
      ∧ IntersectRayWithQuad ⟨0, 0, -2⟩ ⟨0, 0, -1⟩ ⟨⟨0, 0, 0, 1⟩, ⟨0, 0, 0⟩⟩ 2 1
          ⟨some 7, some 8, some 9⟩ = (false, ⟨some 7, some 8, some 9⟩) :=
  ⟨by norm_num [quadHit, planeCrossing, rayOriginLocal, rayDirectionLocal, RotateVector,
      Conjugate, Subtract, Scale, Dot, Cross, Add],
   behind_origin_no_hit ⟨0, 0, -2⟩ ⟨0, 0, -1⟩ ⟨⟨0, 0, 0, 1⟩, ⟨0, 0, 0⟩⟩ 2 1 ⟨some 7, some 8, some 9⟩
    (by norm_num [RotateVector, Conjugate, Scale, Dot, Cross, Add, lit_1_0e_6f])
    (by norm_num [RotateVector, Conjugate, Subtract, Scale, Dot, Cross, Add])⟩

theorem half_div_self (w : ℚ) (hw : 0 < w) : w / 2 / w = 1 / 2 := by
  rw [div_right_comm, div_self (ne_of_gt hw)]

/-- What a hit of `IntersectRayWithQuad` says about its inputs and outputs. -/
theorem intersect_hit (o d : XrVector3f) (pose : XrPosef) (w h : ℚ) (out result : QuadHitOutputs)
    (hhit : IntersectRayWithQuad o d pose w h out = (true, result)) :
    0 < w ∧ 0 < h ∧ 0 < planeCrossing o d pose
      ∧ |(quadHit o d pose).x| ≤ w * (1 / 2) ∧ |(quadHit o d pose).y| ≤ h * (1 / 2)
      ∧ result = { outHitDistanceMeters :=
                      out.outHitDistanceMeters.map (fun _ => planeCrossing o d pose)
                   outU := some ((quadHit o d pose).x / w + 1 / 2)
                   outV := some (1 / 2 - (quadHit o d pose).y / h) } := by
  rw [intersect_closed] at hhit
  split at hhit
  · simp at hhit
  · rename_i hno
    simp only [not_or, not_le, not_lt] at hno
    obtain ⟨_, _, hw, hh, _, ht, hx, hy⟩ := hno
    simp only [Prod.mk.injEq, true_and] at hhit
    exact ⟨hw, hh, ht, hx, hy, hhit.symm⟩

/-- C15 (surface coordinate convention). Whenever `IntersectRayWithQuad` returns `true`,
it has written `u = hit.x / width + 0.5` and `v = 0.5 - hit.y / height` for the local
plane-crossing point `hit`; both lie in `[0, 1]`; a hit at the local top-left corner
`(-width/2, +height/2)` gives `(u, v) = (0, 0)` and one at the bottom-right corner
`(+width/2, -height/2)` gives `(1, 1)`; and of two hits on the same quad the one with the
larger local `y` has the smaller `v`. -/
theorem surface_coordinates (rayOriginWorld rayDirectionWorld : XrVector3f)
    (quadPoseWorld : XrPosef) (quadWidthMeters quadHeightMeters : ℚ)
    (out result : QuadHitOutputs)
    (hhit : IntersectRayWithQuad rayOriginWorld rayDirectionWorld quadPoseWorld quadWidthMeters
      quadHeightMeters out = (true, result)) :
    result.outU
        = some ((quadHit rayOriginWorld rayDirectionWorld quadPoseWorld).x / quadWidthMeters
            + 1 / 2)
      ∧ result.outV
        = some (1 / 2
            - (quadHit rayOriginWorld rayDirectionWorld quadPoseWorld).y / quadHeightMeters)
      ∧ (0 ≤ (quadHit rayOriginWorld rayDirectionWorld quadPoseWorld).x / quadWidthMeters + 1 / 2
          ∧ (quadHit rayOriginWorld rayDirectionWorld quadPoseWorld).x / quadWidthMeters + 1 / 2
            ≤ 1)
      ∧ (0 ≤ 1 / 2
            - (quadHit rayOriginWorld rayDirectionWorld quadPoseWorld).y / quadHeightMeters
          ∧ 1 / 2 - (quadHit rayOriginWorld rayDirectionWorld quadPoseWorld).y / quadHeightMeters
            ≤ 1)
      ∧ ((quadHit rayOriginWorld rayDirectionWorld quadPoseWorld).x = -(quadWidthMeters / 2) →
          (quadHit rayOriginWorld rayDirectionWorld quadPoseWorld).y = quadHeightMeters / 2 →
          result.outU = some 0 ∧ result.outV = some 0)
      ∧ ((quadHit rayOriginWorld rayDirectionWorld quadPoseWorld).x = quadWidthMeters / 2 →
          (quadHit rayOriginWorld rayDirectionWorld quadPoseWorld).y = -(quadHeightMeters / 2) →
          result.outU = some 1 ∧ result.outV = some 1)
      ∧ (∀ (otherOrigin otherDirection : XrVector3f) (otherOut otherResult : QuadHitOutputs),
          IntersectRayWithQuad otherOrigin otherDirection quadPoseWorld quadWidthMeters
            quadHeightMeters otherOut = (true, otherResult) →
          (quadHit rayOriginWorld rayDirectionWorld quadPoseWorld).y
            < (quadHit otherOrigin otherDirection quadPoseWorld).y →
          ∃ v otherV : ℚ, result.outV = some v ∧ otherResult.outV = some otherV
            ∧ otherV < v) := by
  obtain ⟨hw, hh, _, hx, hy, hres⟩ := intersect_hit _ _ _ _ _ _ _ hhit
  have hxb := abs_le.mp hx
  have hyb := abs_le.mp hy
  have hu0 : 0 ≤ (quadHit rayOriginWorld rayDirectionWorld quadPoseWorld).x / quadWidthMeters
      + 1 / 2 := by
    have : -(1 / 2) ≤ (quadHit rayOriginWorld rayDirectionWorld quadPoseWorld).x / quadWidthMeters := by
      rw [le_div_iff₀ hw]; linarith [hxb.1]
    linarith
  have hu1 : (quadHit rayOriginWorld rayDirectionWorld quadPoseWorld).x / quadWidthMeters
      + 1 / 2 ≤ 1 := by
    have : (quadHit rayOriginWorld rayDirectionWorld quadPoseWorld).x / quadWidthMeters ≤ 1 / 2 := by
      rw [div_le_iff₀ hw]; linarith [hxb.2]
    linarith
  have hv0 : 0 ≤ 1 / 2
      - (quadHit rayOriginWorld rayDirectionWorld quadPoseWorld).y / quadHeightMeters := by
    have : (quadHit rayOriginWorld rayDirectionWorld quadPoseWorld).y / quadHeightMeters ≤ 1 / 2 := by
      rw [div_le_iff₀ hh]; linarith [hyb.2]
    linarith
  have hv1 : 1 / 2
      - (quadHit rayOriginWorld rayDirectionWorld quadPoseWorld).y / quadHeightMeters ≤ 1 := by
    have : -(1 / 2) ≤ (quadHit rayOriginWorld rayDirectionWorld quadPoseWorld).y / quadHeightMeters := by
      rw [le_div_iff₀ hh]; linarith [hyb.1]
    linarith
  subst hres
  refine ⟨rfl, rfl, ⟨hu0, hu1⟩, ⟨hv0, hv1⟩, ?_, ?_, ?_⟩
  · intro hxc hyc
    simp only [hxc, hyc, Option.some.injEq]
    constructor
    · rw [neg_div, half_div_self _ hw]; norm_num
    · rw [half_div_self _ hh]; norm_num
  · intro hxc hyc
    simp only [hxc, hyc, Option.some.injEq]
    constructor
    · rw [half_div_self _ hw]; norm_num
    · rw [neg_div, half_div_self _ hh]; norm_num
  · intro otherOrigin otherDirection otherOut otherResult hother hlt
    obtain ⟨_, _, _, _, _, hres2⟩ := intersect_hit _ _ _ _ _ _ _ hother
    subst hres2
    refine ⟨_, _, rfl, rfl, ?_⟩
    have := div_lt_div_of_pos_right hlt hh
    linarith

theorem surface_coordinates_witness :
    IntersectRayWithQuad ⟨-1, 1 / 2, 2⟩ ⟨0, 0, -1⟩ ⟨⟨0, 0, 0, 1⟩, ⟨0, 0, 0⟩⟩ 2 1
        ⟨some 7, some 8, some 9⟩ = (true, ⟨some 2, some 0, some 0⟩)
      ∧ (0 ≤ (quadHit ⟨-1, 1 / 2, 2⟩ ⟨0, 0, -1⟩ ⟨⟨0, 0, 0, 1⟩, ⟨0, 0, 0⟩⟩).x / 2 + 1 / 2
          ∧ (quadHit ⟨-1, 1 / 2, 2⟩ ⟨0, 0, -1⟩ ⟨⟨0, 0, 0, 1⟩, ⟨0, 0, 0⟩⟩).x / 2 + 1 / 2 ≤ 1) :=
  have hhit : IntersectRayWithQuad ⟨-1, 1 / 2, 2⟩ ⟨0, 0, -1⟩ ⟨⟨0, 0, 0, 1⟩, ⟨0, 0, 0⟩⟩ 2 1
      ⟨some 7, some 8, some 9⟩ = (true, ⟨some 2, some 0, some 0⟩) := by
    rw [intersect_closed]
    norm_num [quadHit, planeCrossing, rayOriginLocal, rayDirectionLocal, RotateVector,
      Conjugate, Subtract, Scale, Dot, Cross, Add, lit_1_0e_6f, abs_le]
    exact ⟨by simp, by simp⟩
  ⟨hhit, (surface_coordinates _ _ _ _ _ _ _ hhit).2.2.1⟩

/-! ## Scroll deadzone -/

/-- The scroll part of `PollInput` computes its two deltas as `scrollDeltas` of the
chosen axis. -/
theorem pollScroll_deltas (k : ScrollConstants) (engine : Nat → Bool) (r : Run)
    (hit leftHit : PointerHitResult) (rightScrollState leftScrollState : XrActionStateVector2f) :
    pollScroll k engine r hit leftHit rightScrollState leftScrollState
      = if |(scrollDeltas k (chooseScrollAxis r.app rightScrollState leftScrollState).1).1|
              ≤ k.kScrollDeltaEpsilonPixels
            ∧ |(scrollDeltas k (chooseScrollAxis r.app rightScrollState leftScrollState).1).2|
              ≤ k.kScrollDeltaEpsilonPixels then r
        else
          sendScrollAt engine r
            (SelectScrollHit (chooseScrollAxis r.app rightScrollState leftScrollState).2
              r.app.leftHandPath_ hit leftHit)
            (scrollDeltas k (chooseScrollAxis r.app rightScrollState leftScrollState).1).1
            (scrollDeltas k (chooseScrollAxis r.app rightScrollState leftScrollState).1).2 :=
  rfl

theorem applyAxisDeadzone_inside (k : ScrollConstants) (a : ℚ)
    (ha : |a| ≤ k.kScrollAxisDeadzone) : ApplyAxisDeadzone k a = 0 := by
  simp [ApplyAxisDeadzone, ha]

theorem applyAxisDeadzone_full (k : ScrollConstants) (a : ℚ)
    (hd : k.kScrollAxisDeadzone < 1) (ha : |a| = 1) :
    (a = 1 ∨ a = -1) ∧ ApplyAxisDeadzone k a = a := by
  have hnot : ¬ (|a| ≤ k.kScrollAxisDeadzone) := by rw [ha]; exact not_le.mpr hd
  have hne : (1 : ℚ) - k.kScrollAxisDeadzone ≠ 0 := by linarith
  have hnorm : clamp ((|a| - k.kScrollAxisDeadzone) / (1 - k.kScrollAxisDeadzone)) 0 1 = 1 := by
    rw [ha, div_self hne]
    norm_num [clamp]
  have hcases : a = 1 ∨ a = -1 := by
    rcases abs_cases a with ⟨h, _⟩ | ⟨h, _⟩
    · left; rw [← h, ha]
    · right; rw [ha] at h; linarith
  refine ⟨hcases, ?_⟩
  unfold ApplyAxisDeadzone
  simp only [hnot, if_false, hnorm]
  rcases hcases with h | h <;> subst h <;> norm_num [copysign]

/-- C16 (scroll deadzone end points). For every deadzone constant `d` with `0 <= d < 1`
and every pixels-per-frame scale: an axis value `a` with `|a| <= d` gives
`ApplyAxisDeadzone(a) = 0` and a scroll delta of exactly 0 on its axis (be it the
horizontal or the vertical one); an axis value with `|a| = 1` is `1` or `-1`, gives
`ApplyAxisDeadzone(a) = a`, the sign of `a`, and so a horizontal delta of
`a * kScrollPixelsPerFrame` and a vertical delta of `-a * kScrollPixelsPerFrame`. -/
theorem scroll_deadzone_end_points (k : ScrollConstants)
    (_hd0 : 0 ≤ k.kScrollAxisDeadzone) (hd1 : k.kScrollAxisDeadzone < 1) :
    (∀ a : ℚ, |a| ≤ k.kScrollAxisDeadzone →
        ApplyAxisDeadzone k a = 0
          ∧ ∀ other : ℚ, (scrollDeltas k ⟨a, other⟩).1 = 0 ∧ (scrollDeltas k ⟨other, a⟩).2 = 0)
      ∧ (∀ a : ℚ, |a| = 1 →
          (a = 1 ∨ a = -1) ∧ ApplyAxisDeadzone k a = a
            ∧ ∀ other : ℚ,
                (scrollDeltas k ⟨a, other⟩).1 = a * k.kScrollPixelsPerFrame
                  ∧ (scrollDeltas k ⟨other, a⟩).2 = -a * k.kScrollPixelsPerFrame) := by
  constructor
  · intro a ha
    refine ⟨applyAxisDeadzone_inside k a ha, fun other => ?_⟩
    simp [scrollDeltas, applyAxisDeadzone_inside k a ha]
  · intro a ha
    obtain ⟨hcases, hfull⟩ := applyAxisDeadzone_full k a hd1 ha
    refine ⟨hcases, hfull, fun other => ?_⟩
    simp [scrollDeltas, hfull]

theorem scroll_deadzone_end_points_witness :
    (ApplyAxisDeadzone sampleScrollConstants (1 / 5) = 0
        ∧ ∀ other : ℚ, (scrollDeltas sampleScrollConstants ⟨1 / 5, other⟩).1 = 0
            ∧ (scrollDeltas sampleScrollConstants ⟨other, 1 / 5⟩).2 = 0)
      ∧ ((-1 : ℚ) = 1 ∨ (-1 : ℚ) = -1) ∧ ApplyAxisDeadzone sampleScrollConstants (-1) = -1
      ∧ ∀ other : ℚ,
          (scrollDeltas sampleScrollConstants ⟨-1, other⟩).1
              = -1 * sampleScrollConstants.kScrollPixelsPerFrame
            ∧ (scrollDeltas sampleScrollConstants ⟨other, -1⟩).2
              = - -1 * sampleScrollConstants.kScrollPixelsPerFrame :=
  ⟨(scroll_deadzone_end_points sampleScrollConstants
      (by norm_num [sampleScrollConstants]) (by norm_num [sampleScrollConstants])).1 (1 / 5)
      (by norm_num [sampleScrollConstants, abs_le]),
   (scroll_deadzone_end_points sampleScrollConstants
      (by norm_num [sampleScrollConstants]) (by norm_num [sampleScrollConstants])).2 (-1)
      (by norm_num)⟩

/-! ## Background configuration: the commands `none` and `grid` -/

theorem backgroundCommand_nonempty (message : String) (h : backgroundCommand message ≠ "") :
    TrimAscii message ≠ "" := by
  intro htrim
  exact h (backgroundCommand_of_empty message htrim)

/-- C17 (`none` and `grid` switch the mode at once). For every message whose command
part (the text before the first `|`, trimmed and lower-cased) is `none` or `grid`,
whatever the argument and the members: `HandleBackgroundMessage` returns exactly `"ok"`,
sets `backgroundMode_` to `None` (for `none`) or `GroundGrid` (for `grid`), clears the
asset path and the custom pixels, adds 1 to `backgroundConfigVersion_` (modulo `2 ^ 64`,
so exactly 1 unless the 64-bit version wraps) and leaves every other member,
`backgroundUploadedVersion_` included, as it was. -/
theorem none_grid_switch (env : BackgroundEnv) (app : FlutterXrApp) (message : String)
    (hcmd : backgroundCommand message = "none" ∨ backgroundCommand message = "grid") :
    HandleBackgroundMessage env app message
        = ({ app with
              backgroundMode_ :=
                if backgroundCommand message = "none" then BackgroundMode.None
                else BackgroundMode.GroundGrid
              backgroundAssetPathUtf8_ := ""
              backgroundCustomPixels_ := []
              backgroundConfigVersion_ := (app.backgroundConfigVersion_ + 1) % kSizeModulus },
           "ok")
      ∧ (app.backgroundConfigVersion_ + 1 < kSizeModulus →
          (HandleBackgroundMessage env app message).1.backgroundConfigVersion_
            = app.backgroundConfigVersion_ + 1)
      ∧ (HandleBackgroundMessage env app message).1.backgroundUploadedVersion_
          = app.backgroundUploadedVersion_ := by
  have htrim : TrimAscii message ≠ "" := by
    apply backgroundCommand_nonempty
    rcases hcmd with h | h <;> rw [h] <;> decide
  have hstate : HandleBackgroundMessage env app message
      = ({ app with
            backgroundMode_ :=
              if backgroundCommand message = "none" then BackgroundMode.None
              else BackgroundMode.GroundGrid
            backgroundAssetPathUtf8_ := ""
            backgroundCustomPixels_ := []
            backgroundConfigVersion_ := (app.backgroundConfigVersion_ + 1) % kSizeModulus },
         "ok") := by
    unfold HandleBackgroundMessage
    rcases hcmd with h | h
    · simp [htrim, h]
    · have hne : ("grid" : String) ≠ "none" := by decide
      simp [htrim, h, hne]
  refine ⟨hstate, ?_, ?_⟩
  · intro hwrap
    rw [hstate]
    exact mod_size_of_lt hwrap
  · rw [hstate]

theorem none_grid_switch_witness :
    HandleBackgroundMessage emptyDiskEnv
        { backgroundMode_ := BackgroundMode.Dds, backgroundAssetPathUtf8_ := "C:/sky.dds",
          backgroundCustomPixels_ := [1, 2, 3], backgroundConfigVersion_ := 7,
          backgroundUploadedVersion_ := 7 }
        "  NoNe |  some argument "
      = ({ backgroundMode_ := BackgroundMode.None, backgroundAssetPathUtf8_ := "",
           backgroundCustomPixels_ := [], backgroundConfigVersion_ := (7 + 1) % kSizeModulus,
           backgroundUploadedVersion_ := 7 }, "ok") :=
  (none_grid_switch emptyDiskEnv
    { backgroundMode_ := BackgroundMode.Dds, backgroundAssetPathUtf8_ := "C:/sky.dds",
      backgroundCustomPixels_ := [1, 2, 3], backgroundConfigVersion_ := 7,
      backgroundUploadedVersion_ := 7 }
    "  NoNe |  some argument " (Or.inl (by decide))).1

/-! ## Pointer hit query: pixel bounds, tracking loss -/

theorem clamp_bounds (v lo hi : ℚ) (h : lo ≤ hi) : lo ≤ clamp v lo hi ∧ clamp v lo hi ≤ hi := by
  unfold clamp
  split_ifs with h1 h2
  · exact ⟨le_refl _, h⟩
  · exact ⟨h, le_refl _⟩
  · exact ⟨not_lt.mp h1, not_lt.mp h2⟩

/-- A location with both required flags passes the flag test of `QueryPointerHit`, one
that lacks a required flag fails it. -/
theorem requiredFlags_missing (flags : Nat)
    (h : flags &&& XR_SPACE_LOCATION_POSITION_VALID_BIT = 0
      ∨ flags &&& XR_SPACE_LOCATION_ORIENTATION_VALID_BIT = 0) :
    flags &&& kRequiredFlags ≠ kRequiredFlags := by
  have hk : kRequiredFlags = 3 := by decide
  rw [hk]
  intro h3
  rcases h with h | h
  · have h2 : flags &&& 3 &&& 2 = 3 &&& 2 := by rw [h3]
    rw [Nat.land_assoc] at h2
    have h32 : (3 : Nat) &&& 2 = 2 := by decide
    rw [h32] at h2
    simp only [XR_SPACE_LOCATION_POSITION_VALID_BIT] at h
    omega
  · have h1 : flags &&& 3 &&& 1 = 3 &&& 1 := by rw [h3]
    rw [Nat.land_assoc] at h1
    have h31 : (3 : Nat) &&& 1 = 1 := by decide
    rw [h31] at h1
    simp only [XR_SPACE_LOCATION_ORIENTATION_VALID_BIT] at h
    omega

theorem query_closed (env : QueryEnv) (pointerSpace handPath : Nat) :
    QueryPointerHit env pointerSpace handPath
      = if pointerSpace = XR_NULL_HANDLE ∨ handPath = XR_NULL_HANDLE then some {}
        else
          match env.poseState with
          | none => none
          | some false => some {}
          | some true =>
            match env.locateSpace with
            | none => some {}
            | some pointerLocation =>
              if pointerLocation.locationFlags &&& kRequiredFlags ≠ kRequiredFlags then some {}
              else
                match IntersectRayWithQuad pointerLocation.pose.position
                    (locatedSample env pointerLocation).rayDirectionWorld MakeQuadPose
                    kQuadWidthMeters kQuadHeightMeters ⟨some 0, some 0, some 0⟩ with
                | (false, out) =>
                  some { locatedSample env pointerLocation with
                          hitDistanceMeters := out.outHitDistanceMeters.getD 0 }
                | (true, out) =>
                  some { locatedSample env pointerLocation with
                          hitDistanceMeters := out.outHitDistanceMeters.getD 0
                          onQuad := true
                          xPixels := clamp (out.outU.getD 0 * 1280) 0 1279
                          yPixels := clamp (out.outV.getD 0 * 720) 0 719 } := by
  unfold QueryPointerHit
  by_cases h0 : pointerSpace = XR_NULL_HANDLE ∨ handPath = XR_NULL_HANDLE
  · simp [h0]
  · simp only [h0, if_false]
    cases hp : env.poseState with
    | none => rfl
    | some isActive =>
      cases isActive with
      | false => simp
      | true =>
        simp only [Bool.not_true, Bool.false_eq_true, if_false]
        cases hl : env.locateSpace with
        | none => rfl
        | some pointerLocation =>
          simp only []
          by_cases hf : pointerLocation.locationFlags &&& kRequiredFlags ≠ kRequiredFlags
          · simp [hf]
          · simp only [hf, if_false]
            simp only [locatedSample]
            generalize IntersectRayWithQuad pointerLocation.pose.position
              (Normalize env.sqrt (RotateVector pointerLocation.pose.orientation ⟨0, 0, -1⟩))
              MakeQuadPose kQuadWidthMeters kQuadHeightMeters ⟨some 0, some 0, some 0⟩ = res
            obtain ⟨hitFound, out⟩ := res
            cases hitFound <;> simp [kFlutterSurfaceWidth, kFlutterSurfaceHeight]

/-- A miss of `IntersectRayWithQuad` writes nothing. -/
theorem intersect_miss (o d : XrVector3f) (pose : XrPosef) (w h : ℚ) (out result : QuadHitOutputs)
    (hmiss : IntersectRayWithQuad o d pose w h out = (false, result)) : result = out := by
  rw [intersect_closed] at hmiss
  split at hmiss
  · simp only [Prod.mk.injEq, true_and] at hmiss
    exact hmiss.symm
  · simp at hmiss

/-- C18 (pixel coordinates of a hit are in bounds). Whenever `QueryPointerHit` returns a
sample with `onQuad = true`, the runtime has located the hand, `IntersectRayWithQuad`
(called on the located position, the normalised forward direction and the surface pose)
has returned `true` with some `(u, v)`, and the sample has
`xPixels = clamp(u * 1280, 0, 1279)`, `yPixels = clamp(v * 720, 0, 719)`, so
`0 <= xPixels <= 1279` and `0 <= yPixels <= 719`, and `hitDistanceMeters > 0`. -/
theorem pointer_hit_pixels_in_bounds (env : QueryEnv) (pointerSpace handPath : Nat)
    (result : PointerHitResult)
    (hquery : QueryPointerHit env pointerSpace handPath = some result)
    (hon : result.onQuad = true) :
    ∃ (pointerLocation : XrSpaceLocation) (out : QuadHitOutputs) (u v : ℚ),
      env.locateSpace = some pointerLocation
        ∧ IntersectRayWithQuad pointerLocation.pose.position
            (Normalize env.sqrt (RotateVector pointerLocation.pose.orientation ⟨0, 0, -1⟩))
            MakeQuadPose kQuadWidthMeters kQuadHeightMeters ⟨some 0, some 0, some 0⟩
          = (true, out)
        ∧ out.outU = some u ∧ out.outV = some v
        ∧ result.xPixels = clamp (u * 1280) 0 1279
        ∧ result.yPixels = clamp (v * 720) 0 719
        ∧ (0 ≤ result.xPixels ∧ result.xPixels ≤ 1279)
        ∧ (0 ≤ result.yPixels ∧ result.yPixels ≤ 719)
        ∧ 0 < result.hitDistanceMeters := by
  rw [query_closed] at hquery
  split at hquery
  · simp only [Option.some.injEq] at hquery
    subst hquery
    simp at hon
  · split at hquery
    · simp at hquery
    · simp only [Option.some.injEq] at hquery
      subst hquery
      simp at hon
    · split at hquery
      · simp only [Option.some.injEq] at hquery
        subst hquery
        simp at hon
      · rename_i pointerLocation hlocate
        split at hquery
        · simp only [Option.some.injEq] at hquery
          subst hquery
          simp at hon
        · split at hquery
          · simp only [Option.some.injEq] at hquery
            subst hquery
            simp [locatedSample] at hon
          · rename_i out hhit
            simp only [Option.some.injEq] at hquery
            subst hquery
            have hhit2 : IntersectRayWithQuad pointerLocation.pose.position
                (Normalize env.sqrt (RotateVector pointerLocation.pose.orientation ⟨0, 0, -1⟩))
                MakeQuadPose kQuadWidthMeters kQuadHeightMeters ⟨some 0, some 0, some 0⟩
                = (true, out) := hhit
            obtain ⟨_, _, ht, _, _, hout⟩ := intersect_hit _ _ _ _ _ _ _ hhit2
            refine ⟨pointerLocation, out, _, _, hlocate, hhit2, by rw [hout], by rw [hout], ?_, ?_,
              ?_, ?_, ?_⟩
            · simp [hout]
            · simp [hout]
            · exact clamp_bounds _ 0 1279 (by norm_num)
            · exact clamp_bounds _ 0 719 (by norm_num)
            · simpa [hout] using ht

theorem facingEnv_query : QueryPointerHit facingEnv 1 1 = some centreSample := by
  rw [query_closed]
  simp only [facingEnv, XR_NULL_HANDLE, kRequiredFlags, XR_SPACE_LOCATION_POSITION_VALID_BIT,
    XR_SPACE_LOCATION_ORIENTATION_VALID_BIT, locatedSample, intersect_closed, centreSample]
  norm_num [Normalize, quadHit, planeCrossing, rayOriginLocal, rayDirectionLocal, RotateVector,
    Conjugate, Subtract, Scale, Dot, Cross, Add, MakeQuadPose, lit_1_0e_6f, lit_1_0e_8f,
    kQuadWidthMeters, kQuadHeightMeters, kQuadDistanceMeters, kFlutterSurfaceWidth,
    kFlutterSurfaceHeight, clamp]
  rw [if_pos (by decide), if_neg (by simp)]
  norm_num

theorem pointer_hit_pixels_in_bounds_witness :
    ∃ (pointerLocation : XrSpaceLocation) (out : QuadHitOutputs) (u v : ℚ),
      facingEnv.locateSpace = some pointerLocation
        ∧ IntersectRayWithQuad pointerLocation.pose.position
            (Normalize facingEnv.sqrt (RotateVector pointerLocation.pose.orientation ⟨0, 0, -1⟩))
            MakeQuadPose kQuadWidthMeters kQuadHeightMeters ⟨some 0, some 0, some 0⟩
          = (true, out)
        ∧ out.outU = some u ∧ out.outV = some v
        ∧ centreSample.xPixels = clamp (u * 1280) 0 1279
        ∧ centreSample.yPixels = clamp (v * 720) 0 719
        ∧ (0 ≤ centreSample.xPixels ∧ centreSample.xPixels ≤ 1279)
        ∧ (0 ≤ centreSample.yPixels ∧ centreSample.yPixels ≤ 719)
        ∧ 0 < centreSample.hitDistanceMeters :=
  pointer_hit_pixels_in_bounds facingEnv 1 1 centreSample facingEnv_query rfl

/-- C20 (tracking loss is a non-event). Whenever `xrGetActionStatePose` reports the pose
action inactive, or reports it active and `xrLocateSpace` fails, or the location lacks
the position-valid or the orientation-valid flag, `QueryPointerHit` returns (it does not
throw) the default sample: `hasPose = false`, `onQuad = false`, pixel coordinates
`(640, 360)`. For a located pose with both flags whose ray `IntersectRayWithQuad` reports
as a miss, it returns `hasPose = true`, `onQuad = false` and again `(640, 360)`. -/
theorem tracking_loss_default_sample (env : QueryEnv) (pointerSpace handPath : Nat) :
    ((env.poseState = some false
          ∨ (env.poseState = some true ∧ env.locateSpace = none)
          ∨ (env.poseState = some true ∧ ∃ pointerLocation : XrSpaceLocation,
              env.locateSpace = some pointerLocation
                ∧ (pointerLocation.locationFlags &&& XR_SPACE_LOCATION_POSITION_VALID_BIT = 0
                  ∨ pointerLocation.locationFlags
                    &&& XR_SPACE_LOCATION_ORIENTATION_VALID_BIT = 0))) →
        QueryPointerHit env pointerSpace handPath = some {}
          ∧ ({} : PointerHitResult).hasPose = false ∧ ({} : PointerHitResult).onQuad = false
          ∧ ({} : PointerHitResult).xPixels = 640 ∧ ({} : PointerHitResult).yPixels = 360)
      ∧ (∀ (pointerLocation : XrSpaceLocation) (out : QuadHitOutputs),
          pointerSpace ≠ XR_NULL_HANDLE → handPath ≠ XR_NULL_HANDLE →
          env.poseState = some true → env.locateSpace = some pointerLocation →
          pointerLocation.locationFlags &&& kRequiredFlags = kRequiredFlags →
          IntersectRayWithQuad pointerLocation.pose.position
              (Normalize env.sqrt (RotateVector pointerLocation.pose.orientation ⟨0, 0, -1⟩))
              MakeQuadPose kQuadWidthMeters kQuadHeightMeters ⟨some 0, some 0, some 0⟩
            = (false, out) →
          ∃ result : PointerHitResult,
            QueryPointerHit env pointerSpace handPath = some result
              ∧ result.hasPose = true ∧ result.onQuad = false
              ∧ result.xPixels = 640 ∧ result.yPixels = 360) := by
  have hdefault : ({} : PointerHitResult).xPixels = 640 ∧ ({} : PointerHitResult).yPixels = 360 := by
    constructor <;> norm_num [kFlutterSurfaceWidth, kFlutterSurfaceHeight]
  constructor
  · intro hloss
    refine ⟨?_, rfl, rfl, hdefault.1, hdefault.2⟩
    rw [query_closed]
    split
    · rfl
    · rcases hloss with h | ⟨h, hl⟩ | ⟨h, pointerLocation, hl, hflags⟩
      · rw [h]
      · rw [h, hl]
      · rw [h, hl]
        simp only []
        rw [if_pos (requiredFlags_missing _ hflags)]
  · intro pointerLocation out hspace hpath hactive hlocate hflags hmiss
    have hnull : ¬ (pointerSpace = XR_NULL_HANDLE ∨ handPath = XR_NULL_HANDLE) := by
      simp [hspace, hpath]
    have hout := intersect_miss _ _ _ _ _ _ _ hmiss
    refine ⟨locatedSample env pointerLocation, ?_, rfl, rfl, ?_, ?_⟩
    · rw [query_closed, if_neg hnull, hactive, hlocate]
      simp only []
      rw [if_neg (by simpa using hflags)]
      have hmiss2 : IntersectRayWithQuad pointerLocation.pose.position
          (locatedSample env pointerLocation).rayDirectionWorld MakeQuadPose
          kQuadWidthMeters kQuadHeightMeters ⟨some 0, some 0, some 0⟩ = (false, out) := hmiss
      rw [hmiss2, hout]
      rfl
    · exact hdefault.1
    · exact hdefault.2

theorem tracking_loss_default_sample_witness :
    (QueryPointerHit ⟨some false, none, fun value => value⟩ 1 1 = some {}
        ∧ ({} : PointerHitResult).hasPose = false ∧ ({} : PointerHitResult).onQuad = false
        ∧ ({} : PointerHitResult).xPixels = 640 ∧ ({} : PointerHitResult).yPixels = 360)
      ∧ ∃ result : PointerHitResult,
          QueryPointerHit facingAwayEnv 1 1 = some result
            ∧ result.hasPose = true ∧ result.onQuad = false
            ∧ result.xPixels = 640 ∧ result.yPixels = 360 :=
  ⟨(tracking_loss_default_sample ⟨some false, none, fun value => value⟩ 1 1).1 (Or.inl rfl),
   (tracking_loss_default_sample facingAwayEnv 1 1).2 ⟨3, ⟨⟨0, 1, 0, 0⟩, ⟨0, 0, 0⟩⟩⟩
      ⟨some 0, some 0, some 0⟩ (by decide) (by decide) rfl rfl (by decide)
      (by
        rw [intersect_closed]
        norm_num [facingAwayEnv, Normalize, quadHit, planeCrossing, rayOriginLocal,
          rayDirectionLocal, RotateVector, Conjugate, Subtract, Scale, Dot, Cross, Add,
          MakeQuadPose, lit_1_0e_6f, lit_1_0e_8f, kQuadWidthMeters, kQuadHeightMeters,
          kQuadDistanceMeters])⟩

/-! ## Channel reordering -/

theorem resize_length (v : List Nat) (n : Nat) : (resize v n).length = n := by
  simp only [resize, List.length_append, List.length_take, List.length_replicate]
  omega

theorem convertPixel_length (source : List Nat) (srcOff : Nat) (out : List Nat) (dstOff x : Nat) :
    (convertPixel source srcOff out dstOff x).length = out.length := by
  simp [convertPixel]

/-- The inner loop body leaves every byte outside the four bytes of pixel `x` alone. -/
theorem convertPixel_outside (source : List Nat) (srcOff : Nat) (out : List Nat) (dstOff x i : Nat)
    (hi : i < dstOff + x * 4 ∨ dstOff + x * 4 + 4 ≤ i) :
    (convertPixel source srcOff out dstOff x)[i]? = out[i]? := by
  simp only [convertPixel]
  rw [List.getElem?_set_ne (by omega), List.getElem?_set_ne (by omega),
    List.getElem?_set_ne (by omega), List.getElem?_set_ne (by omega)]

/-- The inner loop body writes the four bytes of pixel `x`: channels 2, 1, 0, 3 of the
source pixel. -/
theorem convertPixel_inside (source : List Nat) (srcOff : Nat) (out : List Nat) (dstOff x : Nat)
    (hfit : dstOff + x * 4 + 4 ≤ out.length) :
    (convertPixel source srcOff out dstOff x)[dstOff + x * 4 + 0]?
        = some (source.getD (srcOff + x * 4 + 2) 0)
      ∧ (convertPixel source srcOff out dstOff x)[dstOff + x * 4 + 1]?
        = some (source.getD (srcOff + x * 4 + 1) 0)
      ∧ (convertPixel source srcOff out dstOff x)[dstOff + x * 4 + 2]?
        = some (source.getD (srcOff + x * 4 + 0) 0)
      ∧ (convertPixel source srcOff out dstOff x)[dstOff + x * 4 + 3]?
        = some (source.getD (srcOff + x * 4 + 3) 0) := by
  simp only [convertPixel, List.getElem?_set, List.length_set]
  refine ⟨?_, ?_, ?_, ?_⟩
  · rw [if_neg (by omega), if_neg (by omega), if_neg (by omega), if_pos (by omega),
      if_pos (by omega)]
    congr 2
  · rw [if_neg (by omega), if_neg (by omega), if_pos (by omega), if_pos (by omega)]
    congr 2
  · rw [if_neg (by omega), if_pos (by omega), if_pos (by omega)]
    congr 2
  · rw [if_pos (by omega), if_pos (by omega)]
    congr 2

/-- The first `m` rounds of the inner loop for the row that starts at byte `srcOff` of
the source and byte `dstOff` of the output. -/
theorem rowFold_succ (source : List Nat) (srcOff : Nat) (out : List Nat) (dstOff m : Nat) :
    (List.range (m + 1)).foldl (fun out x => convertPixel source srcOff out dstOff x) out
      = convertPixel source srcOff
          ((List.range m).foldl (fun out x => convertPixel source srcOff out dstOff x) out)
          dstOff m := by
  rw [List.range_succ, List.foldl_append]
  rfl

theorem rowFold_length (source : List Nat) (srcOff : Nat) (out : List Nat) (dstOff m : Nat) :
    ((List.range m).foldl (fun out x => convertPixel source srcOff out dstOff x) out).length
      = out.length := by
  induction m with
  | zero => rfl
  | succ m ih => rw [rowFold_succ, convertPixel_length, ih]

theorem rowFold_outside (source : List Nat) (srcOff : Nat) (out : List Nat) (dstOff m i : Nat)
    (hi : i < dstOff ∨ dstOff + m * 4 ≤ i) :
    ((List.range m).foldl (fun out x => convertPixel source srcOff out dstOff x) out)[i]?
      = out[i]? := by
  induction m with
  | zero => rfl
  | succ m ih =>
    rw [rowFold_succ, convertPixel_outside _ _ _ _ _ _ (by omega)]
    exact ih (by omega)

theorem rowFold_inside (source : List Nat) (srcOff : Nat) (out : List Nat) (dstOff m x : Nat)
    (hx : x < m) (hfit : dstOff + m * 4 ≤ out.length) :
    ((List.range m).foldl (fun out x => convertPixel source srcOff out dstOff x) out)[
          dstOff + x * 4 + 0]?
        = some (source.getD (srcOff + x * 4 + 2) 0)
      ∧ ((List.range m).foldl (fun out x => convertPixel source srcOff out dstOff x) out)[
          dstOff + x * 4 + 1]?
        = some (source.getD (srcOff + x * 4 + 1) 0)
      ∧ ((List.range m).foldl (fun out x => convertPixel source srcOff out dstOff x) out)[
          dstOff + x * 4 + 2]?
        = some (source.getD (srcOff + x * 4 + 0) 0)
      ∧ ((List.range m).foldl (fun out x => convertPixel source srcOff out dstOff x) out)[
          dstOff + x * 4 + 3]?
        = some (source.getD (srcOff + x * 4 + 3) 0) := by
  induction m with
  | zero => omega
  | succ m ih =>
    rw [rowFold_succ]
    by_cases hxm : x = m
    · subst hxm
      exact convertPixel_inside _ _ _ _ _ (by rw [rowFold_length]; omega)
    · have hx2 : x < m := by omega
      obtain ⟨h0, h1, h2, h3⟩ := ih hx2 (by omega)
      refine ⟨?_, ?_, ?_, ?_⟩
      · rw [convertPixel_outside _ _ _ _ _ _ (by omega)]; exact h0
      · rw [convertPixel_outside _ _ _ _ _ _ (by omega)]; exact h1
      · rw [convertPixel_outside _ _ _ _ _ _ (by omega)]; exact h2
      · rw [convertPixel_outside _ _ _ _ _ _ (by omega)]; exact h3

theorem convertRow_eq (source : List Nat) (sourceRowBytes width : Nat) (out : List Nat) (y : Nat) :
    convertRow source sourceRowBytes width out y
      = (List.range width).foldl
          (fun out x => convertPixel source (y * sourceRowBytes) out (y * width * 4) x) out :=
  rfl

theorem imageFold_succ (source : List Nat) (sourceRowBytes width : Nat) (out : List Nat) (n : Nat) :
    (List.range (n + 1)).foldl (convertRow source sourceRowBytes width) out
      = convertRow source sourceRowBytes width
          ((List.range n).foldl (convertRow source sourceRowBytes width) out) n := by
  rw [List.range_succ, List.foldl_append]
  rfl

theorem imageFold_length (source : List Nat) (sourceRowBytes width : Nat) (out : List Nat) (n : Nat) :
    ((List.range n).foldl (convertRow source sourceRowBytes width) out).length = out.length := by
  induction n with
  | zero => rfl
  | succ n ih =>
    rw [imageFold_succ, convertRow_eq, rowFold_length, ih]

/-- After the first `n` rounds of the outer loop, the four bytes of every pixel `(x, y)`
with `y < n` are channels 2, 1, 0, 3 of the source pixel. -/
theorem imageFold_inside (source : List Nat) (sourceRowBytes width : Nat) (out : List Nat)
    (n x y : Nat) (hy : y < n) (hx : x < width) (hfit : n * width * 4 ≤ out.length) :
    ((List.range n).foldl (convertRow source sourceRowBytes width) out)[
          y * width * 4 + x * 4 + 0]?
        = some (source.getD (y * sourceRowBytes + x * 4 + 2) 0)
      ∧ ((List.range n).foldl (convertRow source sourceRowBytes width) out)[
          y * width * 4 + x * 4 + 1]?
        = some (source.getD (y * sourceRowBytes + x * 4 + 1) 0)
      ∧ ((List.range n).foldl (convertRow source sourceRowBytes width) out)[
          y * width * 4 + x * 4 + 2]?
        = some (source.getD (y * sourceRowBytes + x * 4 + 0) 0)
      ∧ ((List.range n).foldl (convertRow source sourceRowBytes width) out)[
          y * width * 4 + x * 4 + 3]?
        = some (source.getD (y * sourceRowBytes + x * 4 + 3) 0) := by
  induction n with
  | zero => omega
  | succ n ih =>
    rw [imageFold_succ]
    have hsplit : (n + 1) * width * 4 = n * width * 4 + width * 4 := by ring
    by_cases hyn : y = n
    · subst hyn
      rw [convertRow_eq]
      exact rowFold_inside _ _ _ _ _ _ hx (by rw [imageFold_length]; omega)
    · have hy2 : y < n := by omega
      have hrows : y * width + width ≤ n * width := by
        have := Nat.mul_le_mul_right width (Nat.succ_le_of_lt hy2)
        rwa [Nat.succ_mul] at this
      obtain ⟨h0, h1, h2, h3⟩ := ih hy2 (by omega)
      rw [convertRow_eq]
      refine ⟨?_, ?_, ?_, ?_⟩
      · rw [rowFold_outside _ _ _ _ _ _ (by omega)]; exact h0
      · rw [rowFold_outside _ _ _ _ _ _ (by omega)]; exact h1
      · rw [rowFold_outside _ _ _ _ _ _ (by omega)]; exact h2
      · rw [rowFold_outside _ _ _ _ _ _ (by omega)]; exact h3

theorem some_getD_eq (l : List Nat) (j : Nat) (h : j < l.length) : some (l.getD j 0) = l[j]? := by
  rw [List.getD_eq_getElem?_getD, List.getElem?_eq_getElem h]
  rfl

/-- The guard of `ConvertRgbaToBgra` refuses a null source, a zero width or height, and a
row shorter than `width * 4` bytes (for a `width * 4` that a `size_t` holds). -/
theorem convert_refuses (source : Option (List Nat)) (outPixels : List Nat)
    (sourceRowBytes width height : Nat)
    (h : source = none ∨ width = 0 ∨ height = 0
      ∨ (sourceRowBytes < 4 * width ∧ 4 * width < kSizeModulus)) :
    ConvertRgbaToBgra source sourceRowBytes width height outPixels = (false, outPixels) := by
  cases source with
  | none => rfl
  | some src =>
    have hguard : width = 0 ∨ height = 0 ∨ sourceRowBytes < width * 4 % kSizeModulus := by
      rcases h with h | h | h | ⟨h, hsmall⟩
      · exact absurd h (by simp)
      · exact Or.inl h
      · exact Or.inr (Or.inl h)
      · right; right
        rw [mod_size_of_lt (by omega)]
        omega
    simp [ConvertRgbaToBgra, hguard]

/-- The result of `ConvertRgbaToBgra` on a source buffer that holds the `height` rows it
reads. -/
theorem convert_shuffles (src outPixels : List Nat) (sourceRowBytes width height : Nat)
    (hw : 0 < width) (hh : 0 < height) (hrow : 4 * width ≤ sourceRowBytes)
    (hbuf : (height - 1) * sourceRowBytes + 4 * width ≤ src.length)
    (hlen : src.length < kSizeModulus) :
    (ConvertRgbaToBgra (some src) sourceRowBytes width height outPixels).1 = true
      ∧ (ConvertRgbaToBgra (some src) sourceRowBytes width height outPixels).2.length
        = width * height * 4
      ∧ ∀ x y : Nat, x < width → y < height →
          y * sourceRowBytes + 4 * x + 3 < src.length
            ∧ (ConvertRgbaToBgra (some src) sourceRowBytes width height outPixels).2[
                4 * (y * width + x) + 0]? = src[y * sourceRowBytes + 4 * x + 2]?
            ∧ (ConvertRgbaToBgra (some src) sourceRowBytes width height outPixels).2[
                4 * (y * width + x) + 1]? = src[y * sourceRowBytes + 4 * x + 1]?
            ∧ (ConvertRgbaToBgra (some src) sourceRowBytes width height outPixels).2[
                4 * (y * width + x) + 2]? = src[y * sourceRowBytes + 4 * x + 0]?
            ∧ (ConvertRgbaToBgra (some src) sourceRowBytes width height outPixels).2[
                4 * (y * width + x) + 3]? = src[y * sourceRowBytes + 4 * x + 3]? := by
  obtain ⟨rows, rfl⟩ : ∃ rows, height = rows + 1 := ⟨height - 1, by omega⟩
  simp only [Nat.add_sub_cancel] at hbuf
  have hexpand : width * (rows + 1) * 4 = rows * (4 * width) + 4 * width := by ring
  have hrows : rows * (4 * width) ≤ rows * sourceRowBytes := Nat.mul_le_mul_left _ hrow
  have hsize : width * (rows + 1) * 4 % kSizeModulus = width * (rows + 1) * 4 :=
    mod_size_of_lt (by omega)
  have hguard : ¬ (width = 0 ∨ rows + 1 = 0 ∨ sourceRowBytes < width * 4 % kSizeModulus) := by
    rw [mod_size_of_lt (by omega)]
    omega
  have hresult : ConvertRgbaToBgra (some src) sourceRowBytes width (rows + 1) outPixels
      = (true, (List.range (rows + 1)).foldl (convertRow src sourceRowBytes width)
          (resize outPixels (width * (rows + 1) * 4))) := by
    unfold ConvertRgbaToBgra
    simp only [if_neg hguard, hsize]
  rw [hresult]
  refine ⟨rfl, ?_, ?_⟩
  · simp only [imageFold_length, resize_length]
  · intro x y hx hy
    have hyrows : y * sourceRowBytes ≤ rows * sourceRowBytes :=
      Nat.mul_le_mul_right _ (Nat.le_of_lt_succ hy)
    have hin : y * sourceRowBytes + 4 * x + 3 < src.length := by omega
    obtain ⟨h0, h1, h2, h3⟩ := imageFold_inside src sourceRowBytes width
      (resize outPixels (width * (rows + 1) * 4)) (rows + 1) x y hy hx
      (by rw [resize_length]; exact Nat.le_of_eq (by ring))
    have hdst : ∀ k, 4 * (y * width + x) + k = y * width * 4 + x * 4 + k := by
      intro k; ring
    have hsrc : ∀ k, y * sourceRowBytes + 4 * x + k = y * sourceRowBytes + x * 4 + k := by
      intro k; ring
    simp only [hdst, hsrc]
    refine ⟨by omega, ?_, ?_, ?_, ?_⟩
    · rw [h0, some_getD_eq _ _ (by omega)]
    · rw [h1, some_getD_eq _ _ (by omega)]
    · rw [h2, some_getD_eq _ _ (by omega)]
    · rw [h3, some_getD_eq _ _ (by omega)]

/-- C19 (channel reordering is a pure byte shuffle). For every source buffer that holds
the rows read (`height` rows, `sourceRowBytes` apart, inside a 64-bit address space) with
`width > 0`, `height > 0` and `sourceRowBytes >= 4 * width`, `ConvertRgbaToBgra` returns
`true` and leaves exactly `width * height * 4` bytes in `outPixels`, whatever it held
before, with `out[4*(y*width + x) + k] = source[y*sourceRowBytes + 4*x + p(k)]` for every
pixel `(x, y)` and `p = (2, 1, 0, 3)`; for a null source, `width = 0`, `height = 0` or
`sourceRowBytes < 4 * width` it returns `false` and leaves `outPixels` as it was; the
function returns only the new `outPixels`, and `UploadLatestFlutterFrame`, which calls it
on its snapshot, leaves the shared slot `latestFrame` unchanged. -/
theorem convert_is_byte_shuffle :
    (∀ (src outPixels : List Nat) (sourceRowBytes width height : Nat),
        0 < width → 0 < height → 4 * width ≤ sourceRowBytes →
        (height - 1) * sourceRowBytes + 4 * width ≤ src.length → src.length < kSizeModulus →
        (ConvertRgbaToBgra (some src) sourceRowBytes width height outPixels).1 = true
          ∧ (ConvertRgbaToBgra (some src) sourceRowBytes width height outPixels).2.length
            = width * height * 4
          ∧ ∀ x y : Nat, x < width → y < height →
              y * sourceRowBytes + 4 * x + 3 < src.length
                ∧ (ConvertRgbaToBgra (some src) sourceRowBytes width height outPixels).2[
                    4 * (y * width + x) + 0]? = src[y * sourceRowBytes + 4 * x + 2]?
                ∧ (ConvertRgbaToBgra (some src) sourceRowBytes width height outPixels).2[
                    4 * (y * width + x) + 1]? = src[y * sourceRowBytes + 4 * x + 1]?
                ∧ (ConvertRgbaToBgra (some src) sourceRowBytes width height outPixels).2[
                    4 * (y * width + x) + 2]? = src[y * sourceRowBytes + 4 * x + 0]?
                ∧ (ConvertRgbaToBgra (some src) sourceRowBytes width height outPixels).2[
                    4 * (y * width + x) + 3]? = src[y * sourceRowBytes + 4 * x + 3]?)
      ∧ (∀ (source : Option (List Nat)) (outPixels : List Nat)
          (sourceRowBytes width height : Nat),
          (source = none ∨ width = 0 ∨ height = 0
            ∨ (sourceRowBytes < 4 * width ∧ 4 * width < kSizeModulus)) →
          ConvertRgbaToBgra source sourceRowBytes width height outPixels = (false, outPixels))
      ∧ (∀ app : FlutterXrApp, (UploadLatestFlutterFrame app).1.latestFrame = app.latestFrame) :=
  ⟨convert_shuffles, convert_refuses, fun app => (upload_effect app).1⟩

theorem convert_is_byte_shuffle_witness :
    ((ConvertRgbaToBgra (some [1, 2, 3, 4, 5, 6, 7, 8, 0, 0, 11, 12, 13, 14, 15, 16, 17, 18]) 10 2 2
          [9]).1 = true
        ∧ (ConvertRgbaToBgra (some [1, 2, 3, 4, 5, 6, 7, 8, 0, 0, 11, 12, 13, 14, 15, 16, 17, 18])
            10 2 2 [9]).2.length = 2 * 2 * 4)
      ∧ (ConvertRgbaToBgra (some [1, 2, 3, 4, 5, 6, 7, 8, 0, 0, 11, 12, 13, 14, 15, 16, 17, 18])
            10 2 2 [9]).2[4 * (1 * 2 + 1) + 0]?
          = [1, 2, 3, 4, 5, 6, 7, 8, 0, 0, 11, 12, 13, 14, 15, 16, 17, 18][1 * 10 + 4 * 1 + 2]?
      ∧ ConvertRgbaToBgra (some [1, 2, 3, 4]) 3 1 1 [9] = (false, [9]) :=
  ⟨⟨(convert_is_byte_shuffle.1 [1, 2, 3, 4, 5, 6, 7, 8, 0, 0, 11, 12, 13, 14, 15, 16, 17, 18] [9]
        10 2 2 (by decide) (by decide) (by decide) (by decide) (by decide)).1,
     (convert_is_byte_shuffle.1 [1, 2, 3, 4, 5, 6, 7, 8, 0, 0, 11, 12, 13, 14, 15, 16, 17, 18] [9]
        10 2 2 (by decide) (by decide) (by decide) (by decide) (by decide)).2.1⟩,
   ((convert_is_byte_shuffle.1 [1, 2, 3, 4, 5, 6, 7, 8, 0, 0, 11, 12, 13, 14, 15, 16, 17, 18] [9]
        10 2 2 (by decide) (by decide) (by decide) (by decide) (by decide)).2.2 1 1
      (by decide) (by decide)).2.1,
   convert_is_byte_shuffle.2.1 (some [1, 2, 3, 4]) [9] 3 1 1
     (Or.inr (Or.inr (Or.inr ⟨by decide, by decide⟩)))⟩

/-! ## Quaternion algebra: Hamilton product, rotation, ray alignment -/

theorem multiply_eq_hamilton (a b : XrQuaternionf) : Multiply a b = hamiltonProduct a b := by
  obtain ⟨ax, ay, az, aw⟩ := a
  obtain ⟨bx, b_y, bz, bw⟩ := b
  simp only [Multiply, hamiltonProduct, ofHamilton, toHamilton, Quaternion.mul_re,
    Quaternion.mul_imI, Quaternion.mul_imJ, Quaternion.mul_imK]

theorem rotate_eq_sandwich (q : XrQuaternionf) (v : XrVector3f) :
    RotateVector q v = vectorPart (Multiply (Multiply q (pureQuaternion v)) (Conjugate q))
      ∧ (Multiply (Multiply q (pureQuaternion v)) (Conjugate q)).w = 0 := by
  obtain ⟨qx, qy, qz, qw⟩ := q
  obtain ⟨vx, vy, vz⟩ := v
  simp only [RotateVector, Multiply, Conjugate, pureQuaternion, vectorPart, Scale, Dot, Cross,
    Add, XrVector3f.mk.injEq]
  refine ⟨⟨?_, ?_, ?_⟩, ?_⟩ <;> ring

theorem rotate_multiply (a b : XrQuaternionf) (v : XrVector3f) :
    RotateVector (Multiply a b) v = RotateVector a (RotateVector b v) := by
  obtain ⟨ax, ay, az, aw⟩ := a
  obtain ⟨bx, b_y, bz, bw⟩ := b
  obtain ⟨vx, vy, vz⟩ := v
  simp only [RotateVector, Multiply, Scale, Dot, Cross, Add, XrVector3f.mk.injEq]
  refine ⟨?_, ?_, ?_⟩ <;> ring

/-- C27 (rotation agrees with the Hamilton product). `Multiply` is the product of
Hamilton's quaternions in `(x, y, z, w)` layout; for every quaternion `q` and vector `v`,
`RotateVector(q, v)` is the vector part of `Multiply(Multiply(q, (v.x, v.y, v.z, 0)),
Conjugate(q))`, whose scalar part is 0; hence `RotateVector(Multiply(a, b), v) =
RotateVector(a, RotateVector(b, v))` for all `a`, `b`, `v`; and `Multiply(a, b)` differs
from `Multiply(b, a)` for some `a`, `b`. -/
theorem rotation_is_hamilton_sandwich :
    (∀ a b : XrQuaternionf, Multiply a b = hamiltonProduct a b)
      ∧ (∀ (q : XrQuaternionf) (v : XrVector3f),
          RotateVector q v = vectorPart (Multiply (Multiply q (pureQuaternion v)) (Conjugate q))
            ∧ (Multiply (Multiply q (pureQuaternion v)) (Conjugate q)).w = 0)
      ∧ (∀ (a b : XrQuaternionf) (v : XrVector3f),
          RotateVector (Multiply a b) v = RotateVector a (RotateVector b v))
      ∧ ∃ a b : XrQuaternionf, Multiply a b ≠ Multiply b a := by
  refine ⟨multiply_eq_hamilton, rotate_eq_sandwich, rotate_multiply, ⟨1, 0, 0, 0⟩, ⟨0, 1, 0, 0⟩, ?_⟩
  simp only [Multiply, ne_eq, XrQuaternionf.mk.injEq]
  norm_num

/-! ## Ray visual: alignment and placement -/

theorem rotate_scale (q : XrQuaternionf) (v : XrVector3f) (c : ℚ) :
    RotateVector q (Scale v c) = Scale (RotateVector q v) c := by
  obtain ⟨qx, qy, qz, qw⟩ := q
  obtain ⟨vx, vy, vz⟩ := v
  simp only [RotateVector, Scale, Dot, Cross, Add, XrVector3f.mk.injEq]
  refine ⟨?_, ?_, ?_⟩ <;> ring

/-- The alignment quaternion turns the local length axis `(1, 0, 0)` of the ray quad
onto `kRayAlignmentScale * (0, 0, -1)`. -/
theorem alignment_axis :
    RotateVector kRayAlignmentFromController ⟨1, 0, 0⟩ = Scale ⟨0, 0, -1⟩ kRayAlignmentScale := by
  simp only [RotateVector, kRayAlignmentFromController, kRayAlignmentScale, Scale, Dot, Cross,
    Add, XrVector3f.mk.injEq]
  refine ⟨?_, ?_, ?_⟩ <;> norm_num

theorem sendScrollAt_keeps_rays (engine : Nat → Bool) (r : Run) (scrollHit : Option PointerHitResult)
    (dx dy : ℚ) :
    (sendScrollAt engine r scrollHit dx dy).app.pointerRayVisible_ = r.app.pointerRayVisible_
      ∧ (sendScrollAt engine r scrollHit dx dy).app.pointerRayLengthMeters_
        = r.app.pointerRayLengthMeters_
      ∧ (sendScrollAt engine r scrollHit dx dy).app.pointerRayPose_ = r.app.pointerRayPose_
      ∧ (sendScrollAt engine r scrollHit dx dy).app.leftPointerRayVisible_
        = r.app.leftPointerRayVisible_
      ∧ (sendScrollAt engine r scrollHit dx dy).app.leftPointerRayLengthMeters_
        = r.app.leftPointerRayLengthMeters_
      ∧ (sendScrollAt engine r scrollHit dx dy).app.leftPointerRayPose_
        = r.app.leftPointerRayPose_ := by
  rw [sendScrollAt_closed]
  cases scrollHit with
  | none => simp only []; split_ifs <;> simp
  | some h => simp only []; split_ifs <;> simp

theorem pollScroll_keeps_rays (k : ScrollConstants) (engine : Nat → Bool) (r : Run)
    (hit leftHit : PointerHitResult) (rs ls : XrActionStateVector2f) :
    (pollScroll k engine r hit leftHit rs ls).app.pointerRayVisible_ = r.app.pointerRayVisible_
      ∧ (pollScroll k engine r hit leftHit rs ls).app.pointerRayLengthMeters_
        = r.app.pointerRayLengthMeters_
      ∧ (pollScroll k engine r hit leftHit rs ls).app.pointerRayPose_ = r.app.pointerRayPose_
      ∧ (pollScroll k engine r hit leftHit rs ls).app.leftPointerRayVisible_
        = r.app.leftPointerRayVisible_
      ∧ (pollScroll k engine r hit leftHit rs ls).app.leftPointerRayLengthMeters_
        = r.app.leftPointerRayLengthMeters_
      ∧ (pollScroll k engine r hit leftHit rs ls).app.leftPointerRayPose_
        = r.app.leftPointerRayPose_ := by
  unfold pollScroll
  simp only []
  split
  · simp
  · exact sendScrollAt_keeps_rays _ _ _ _ _

theorem triggerTransition_keeps_rays (engine : Nat → Bool) (r : Run) (hit : PointerHitResult)
    (inputActive pressedNow : Bool) :
    (triggerTransition engine r hit inputActive pressedNow).app.pointerRayVisible_
        = r.app.pointerRayVisible_
      ∧ (triggerTransition engine r hit inputActive pressedNow).app.pointerRayLengthMeters_
        = r.app.pointerRayLengthMeters_
      ∧ (triggerTransition engine r hit inputActive pressedNow).app.pointerRayPose_
        = r.app.pointerRayPose_
      ∧ (triggerTransition engine r hit inputActive pressedNow).app.leftPointerRayVisible_
        = r.app.leftPointerRayVisible_
      ∧ (triggerTransition engine r hit inputActive pressedNow).app.leftPointerRayLengthMeters_
        = r.app.leftPointerRayLengthMeters_
      ∧ (triggerTransition engine r hit inputActive pressedNow).app.leftPointerRayPose_
        = r.app.leftPointerRayPose_ := by
  rw [triggerTransition_closed]
  split_ifs <;> simp

/-- The ray members after a focused poll without runtime failure are those that the two
`updateRayState` calls set. -/
theorem poll_active_rays (k : ScrollConstants) (engine : Nat → Bool) (app : FlutterXrApp)
    (hit leftHit : PointerHitResult) (v : ℚ) (rs ls : XrActionStateVector2f)
    (hset : app.inputActionSet_ ≠ XR_NULL_HANDLE)
    (hfoc : app.sessionState_ = XrSessionState.FOCUSED) :
    ((PollInput k engine app (activePoll hit leftHit v rs ls)).app.pointerRayVisible_,
        (PollInput k engine app (activePoll hit leftHit v rs ls)).app.pointerRayLengthMeters_,
        (PollInput k engine app (activePoll hit leftHit v rs ls)).app.pointerRayPose_)
        = updateRayState hit app.pointerRayLengthMeters_ app.pointerRayPose_
      ∧ ((PollInput k engine app (activePoll hit leftHit v rs ls)).app.leftPointerRayVisible_,
          (PollInput k engine app (activePoll hit leftHit v rs ls)).app.leftPointerRayLengthMeters_,
          (PollInput k engine app (activePoll hit leftHit v rs ls)).app.leftPointerRayPose_)
        = updateRayState leftHit app.leftPointerRayLengthMeters_ app.leftPointerRayPose_ := by
  obtain ⟨t1, t2, t3, t4, t5, t6⟩ := triggerTransition_keeps_rays engine
    ⟨updateRays app hit leftHit, []⟩ hit true (pressedNow app.triggerPressed_ v)
  obtain ⟨p1, p2, p3, p4, p5, p6⟩ := pollScroll_keeps_rays k engine
    (triggerTransition engine ⟨updateRays app hit leftHit, []⟩ hit true
      (pressedNow app.triggerPressed_ v)) hit leftHit rs ls
  rw [poll_active k engine app hit leftHit v rs ls hset hfoc]
  split
  · simp only [t1, t2, t3, t4, t5, t6]
    simp [updateRays]
  · simp only [p1, p2, p3, p4, p5, p6, t1, t2, t3, t4, t5, t6]
    simp [updateRays]

/-- C26 (ray visual alignment). The constant `c = -2 * 0.70710677f²` is not 0, and for
every hand orientation `q` the ray pose orientation
`Multiply(q, kRayAlignmentFromController)` turns the local length axis `(1, 0, 0)` of
the ray quad onto `c * RotateVector(q, (0, 0, -1))`. For a sample with a pose,
`updateRayState` shows the ray, with orientation
`Multiply(pointerOrientation, kRayAlignmentFromController)`, length
`clamp(hitDistance, 0.05f, 2.0)` on the surface and `2.0` off it, and position
`rayOrigin + rayDirection * (length / 2)`; a focused poll without runtime failure
stores exactly these values for the right and the left hand. -/
theorem ray_visual_alignment :
    kRayAlignmentScale ≠ 0
      ∧ (∀ q : XrQuaternionf,
          RotateVector (Multiply q kRayAlignmentFromController) ⟨1, 0, 0⟩
            = Scale (RotateVector q ⟨0, 0, -1⟩) kRayAlignmentScale)
      ∧ (∀ (pointerHit : PointerHitResult) (length : ℚ) (pose : XrPosef),
          pointerHit.hasPose = true →
          updateRayState pointerHit length pose
              = (true, rayLength pointerHit,
                  { orientation := Multiply pointerHit.pointerOrientation kRayAlignmentFromController
                    position := Add pointerHit.rayOriginWorld
                      (Scale pointerHit.rayDirectionWorld (rayLength pointerHit * (1 / 2))) })
            ∧ (pointerHit.onQuad = true →
                rayLength pointerHit
                  = clamp pointerHit.hitDistanceMeters kPointerRayMinLengthMeters 2)
            ∧ (pointerHit.onQuad = false → rayLength pointerHit = 2))
      ∧ (∀ (k : ScrollConstants) (engine : Nat → Bool) (app : FlutterXrApp)
          (hit leftHit : PointerHitResult) (v : ℚ) (rs ls : XrActionStateVector2f),
          app.inputActionSet_ ≠ XR_NULL_HANDLE → app.sessionState_ = XrSessionState.FOCUSED →
          ((PollInput k engine app (activePoll hit leftHit v rs ls)).app.pointerRayVisible_,
              (PollInput k engine app (activePoll hit leftHit v rs ls)).app.pointerRayLengthMeters_,
              (PollInput k engine app (activePoll hit leftHit v rs ls)).app.pointerRayPose_)
              = updateRayState hit app.pointerRayLengthMeters_ app.pointerRayPose_
            ∧ ((PollInput k engine app (activePoll hit leftHit v rs ls)).app.leftPointerRayVisible_,
                (PollInput k engine app
                  (activePoll hit leftHit v rs ls)).app.leftPointerRayLengthMeters_,
                (PollInput k engine app (activePoll hit leftHit v rs ls)).app.leftPointerRayPose_)
              = updateRayState leftHit app.leftPointerRayLengthMeters_
                  app.leftPointerRayPose_) := by
  refine ⟨?_, ?_, ?_, ?_⟩
  · simp only [kRayAlignmentScale, kRayAlignmentFromController]
    norm_num
  · intro q
    rw [rotate_multiply, alignment_axis, rotate_scale]
  · intro pointerHit length pose hpose
    refine ⟨?_, ?_, ?_⟩
    · simp only [updateRayState, hpose, if_true, rayLength]
    · intro hon
      simp [rayLength, hon, kPointerRayFallbackLengthMeters]
    · intro hoff
      simp [rayLength, hoff, kPointerRayFallbackLengthMeters]
  · intro k engine app hit leftHit v rs ls hset hfoc
    exact poll_active_rays k engine app hit leftHit v rs ls hset hfoc

theorem ray_visual_alignment_witness :
    updateRayState surfaceHit 0 ⟨⟨0, 0, 0, 0⟩, ⟨0, 0, 0⟩⟩
        = (true, rayLength surfaceHit,
            { orientation := Multiply surfaceHit.pointerOrientation kRayAlignmentFromController
              position := Add surfaceHit.rayOriginWorld
                (Scale surfaceHit.rayDirectionWorld (rayLength surfaceHit * (1 / 2))) })
      ∧ rayLength surfaceHit
          = clamp surfaceHit.hitDistanceMeters kPointerRayMinLengthMeters 2 :=
  ⟨(ray_visual_alignment.2.2.1 surfaceHit 0 ⟨⟨0, 0, 0, 0⟩, ⟨0, 0, 0⟩⟩ rfl).1,
   (ray_visual_alignment.2.2.1 surfaceHit 0 ⟨⟨0, 0, 0, 0⟩, ⟨0, 0, 0⟩⟩ rfl).2.1 rfl⟩

/-! ## Ray and surface: the hit point lies on the quad -/

theorem conjugate_conjugate (q : XrQuaternionf) : Conjugate (Conjugate q) = q := by
  obtain ⟨qx, qy, qz, qw⟩ := q
  simp [Conjugate]

/-- Rotating by the conjugate of a unit quaternion and then by the quaternion gives the
vector back. -/
theorem rotate_rotate_conjugate (q : XrQuaternionf) (v : XrVector3f)
    (hunit : q.x * q.x + q.y * q.y + q.z * q.z + q.w * q.w = 1) :
    RotateVector q (RotateVector (Conjugate q) v) = v := by
  have h := rotate_conjugate_rotate (Conjugate q) v (by simpa [Conjugate] using hunit)
  rwa [conjugate_conjugate] at h

theorem rotate_add (q : XrQuaternionf) (a b : XrVector3f) :
    RotateVector q (Add a b) = Add (RotateVector q a) (RotateVector q b) := by
  obtain ⟨qx, qy, qz, qw⟩ := q
  obtain ⟨ax, ay, az⟩ := a
  obtain ⟨bx, b_y, bz⟩ := b
  simp only [RotateVector, Scale, Dot, Cross, Add, XrVector3f.mk.injEq]
  refine ⟨?_, ?_, ?_⟩ <;> ring

theorem add_subtract_cancel (p o d : XrVector3f) : Add p (Add (Subtract o p) d) = Add o d := by
  obtain ⟨px, py, pz⟩ := p
  obtain ⟨ox, oy, oz⟩ := o
  obtain ⟨dx, dy, dz⟩ := d
  simp only [Add, Subtract, XrVector3f.mk.injEq]
  refine ⟨?_, ?_, ?_⟩ <;> ring

/-- On a hit the local direction is not parallel to the quad plane. -/
theorem intersect_hit_direction (o d : XrVector3f) (pose : XrPosef) (w h : ℚ)
    (out result : QuadHitOutputs)
    (hhit : IntersectRayWithQuad o d pose w h out = (true, result)) :
    (rayDirectionLocal d pose).z ≠ 0 := by
  rw [intersect_closed] at hhit
  split at hhit
  · simp at hhit
  · rename_i hno
    simp only [not_or, not_lt] at hno
    obtain ⟨_, _, _, _, hz, _⟩ := hno
    intro h0
    rw [h0, abs_zero] at hz
    have : (0 : ℚ) < lit_1_0e_6f := by norm_num [lit_1_0e_6f]
    linarith

/-- The local plane-crossing point lies in the plane `z = 0` of the quad. -/
theorem quadHit_in_plane (o d : XrVector3f) (pose : XrPosef)
    (hz : (rayDirectionLocal d pose).z ≠ 0) : (quadHit o d pose).z = 0 := by
  simp only [quadHit, planeCrossing, Add, Scale]
  field_simp
  ring

/-- The world-space point of the ray at parameter `t` is the quad position plus the
local plane-crossing point rotated by the (unit) quad orientation. -/
theorem quadHit_world (o d : XrVector3f) (pose : XrPosef)
    (hunit : pose.orientation.x * pose.orientation.x + pose.orientation.y * pose.orientation.y
      + pose.orientation.z * pose.orientation.z + pose.orientation.w * pose.orientation.w = 1) :
    Add pose.position (RotateVector pose.orientation (quadHit o d pose))
      = Add o (Scale d (planeCrossing o d pose)) := by
  unfold quadHit rayOriginLocal rayDirectionLocal
  rw [rotate_add, rotate_scale, rotate_rotate_conjugate _ _ hunit,
    rotate_rotate_conjugate _ _ hunit, add_subtract_cancel]

/-- C28 (geometric soundness of the hit test). For every quad pose with unit orientation
`q` and every ray: if `IntersectRayWithQuad` reports a hit, then the distance `t` it
reports (through a non-null `outHitDistanceMeters`) is positive, and for the `(u, v)` it
writes the world-space point `rayOrigin + t * rayDirection` equals
`quadPosition + RotateVector(q, ((u - 0.5) * width, (0.5 - v) * height, 0))`, a point
within the half-width and half-height of the quad rectangle. In particular
`RotateVector(Conjugate(q), RotateVector(q, w)) = w` for every vector `w` and unit `q`. -/
theorem hit_point_on_quad :
    (∀ (rayOriginWorld rayDirectionWorld : XrVector3f) (quadPoseWorld : XrPosef)
        (quadWidthMeters quadHeightMeters : ℚ) (out result : QuadHitOutputs),
        quadPoseWorld.orientation.x * quadPoseWorld.orientation.x
          + quadPoseWorld.orientation.y * quadPoseWorld.orientation.y
          + quadPoseWorld.orientation.z * quadPoseWorld.orientation.z
          + quadPoseWorld.orientation.w * quadPoseWorld.orientation.w = 1 →
        IntersectRayWithQuad rayOriginWorld rayDirectionWorld quadPoseWorld quadWidthMeters
          quadHeightMeters out = (true, result) →
        ∃ t u v : ℚ,
          result.outHitDistanceMeters = out.outHitDistanceMeters.map (fun _ => t)
            ∧ result.outU = some u ∧ result.outV = some v
            ∧ 0 < t
            ∧ Add rayOriginWorld (Scale rayDirectionWorld t)
              = Add quadPoseWorld.position
                  (RotateVector quadPoseWorld.orientation
                    ⟨(u - 1 / 2) * quadWidthMeters, (1 / 2 - v) * quadHeightMeters, 0⟩)
            ∧ |(u - 1 / 2) * quadWidthMeters| ≤ quadWidthMeters / 2
            ∧ |(1 / 2 - v) * quadHeightMeters| ≤ quadHeightMeters / 2)
      ∧ (∀ (q : XrQuaternionf) (w : XrVector3f),
          q.x * q.x + q.y * q.y + q.z * q.z + q.w * q.w = 1 →
          RotateVector (Conjugate q) (RotateVector q w) = w) := by
  refine ⟨?_, rotate_conjugate_rotate⟩
  intro o d pose w h out result hunit hhit
  obtain ⟨hw, hh, ht, hx, hy, hres⟩ := intersect_hit _ _ _ _ _ _ _ hhit
  have hz := quadHit_in_plane o d pose (intersect_hit_direction _ _ _ _ _ _ _ hhit)
  have hu : ((quadHit o d pose).x / w + 1 / 2 - 1 / 2) * w = (quadHit o d pose).x := by
    field_simp
    ring
  have hv : (1 / 2 - (1 / 2 - (quadHit o d pose).y / h)) * h = (quadHit o d pose).y := by
    field_simp
    ring
  have hpoint : (⟨((quadHit o d pose).x / w + 1 / 2 - 1 / 2) * w,
      (1 / 2 - (1 / 2 - (quadHit o d pose).y / h)) * h, 0⟩ : XrVector3f) = quadHit o d pose := by
    rw [hu, hv, ← hz]
  refine ⟨planeCrossing o d pose, (quadHit o d pose).x / w + 1 / 2,
    1 / 2 - (quadHit o d pose).y / h, by rw [hres], by rw [hres], by rw [hres], ht, ?_, ?_, ?_⟩
  · rw [hpoint, quadHit_world o d pose hunit]
  · rw [hu]; linarith
  · rw [hv]; linarith

theorem hit_point_on_quad_witness :
    ∃ t u v : ℚ,
      (⟨some 2, some (1 / 2), some (1 / 2)⟩ : QuadHitOutputs).outHitDistanceMeters
          = (⟨some 0, some 0, some 0⟩ : QuadHitOutputs).outHitDistanceMeters.map (fun _ => t)
        ∧ (⟨some 2, some (1 / 2), some (1 / 2)⟩ : QuadHitOutputs).outU = some u
        ∧ (⟨some 2, some (1 / 2), some (1 / 2)⟩ : QuadHitOutputs).outV = some v
        ∧ 0 < t
        ∧ Add (Add (⟨1, 2, 3⟩ : XrVector3f) (RotateVector ⟨3 / 5, 0, 0, 4 / 5⟩ ⟨0, 0, 2⟩))
            (Scale (RotateVector ⟨3 / 5, 0, 0, 4 / 5⟩ ⟨0, 0, -1⟩) t)
          = Add (⟨1, 2, 3⟩ : XrVector3f)
              (RotateVector ⟨3 / 5, 0, 0, 4 / 5⟩ ⟨(u - 1 / 2) * 2, (1 / 2 - v) * 1, 0⟩)
        ∧ |(u - 1 / 2) * 2| ≤ (2 : ℚ) / 2
        ∧ |(1 / 2 - v) * 1| ≤ (1 : ℚ) / 2 :=
  hit_point_on_quad.1
    (Add (⟨1, 2, 3⟩ : XrVector3f) (RotateVector ⟨3 / 5, 0, 0, 4 / 5⟩ ⟨0, 0, 2⟩))
    (RotateVector ⟨3 / 5, 0, 0, 4 / 5⟩ ⟨0, 0, -1⟩)
    ⟨⟨3 / 5, 0, 0, 4 / 5⟩, ⟨1, 2, 3⟩⟩ 2 1 ⟨some 0, some 0, some 0⟩
    ⟨some 2, some (1 / 2), some (1 / 2)⟩ (by norm_num)
    (by
      rw [intersect_closed]
      norm_num [quadHit, planeCrossing, rayOriginLocal, rayDirectionLocal, RotateVector,
        Conjugate, Subtract, Scale, Dot, Cross, Add, lit_1_0e_6f, abs_le]
      simp)

/-! ## Frame handoff: upload reads stay inside the snapshot -/

theorem convertPixel_eq_accesses (source : List Nat) (srcOff : Nat) (out : List Nat)
    (dstOff x : Nat) :
    convertPixel source srcOff out dstOff x
      = (convertPixelAccesses srcOff dstOff x).foldl (copyByte source) out :=
  rfl

theorem convertRow_eq_accesses (source : List Nat) (sourceRowBytes width : Nat) (out : List Nat)
    (y : Nat) :
    convertRow source sourceRowBytes width out y
      = (convertRowAccesses sourceRowBytes width y).foldl (copyByte source) out := by
  rw [convertRow_eq]
  unfold convertRowAccesses
  generalize hxs : List.range width = xs
  clear hxs
  induction xs generalizing out with
  | nil => rfl
  | cons x xs ih =>
    rw [List.foldl_cons, List.flatMap_cons, List.foldl_append, ih, convertPixel_eq_accesses]

/-- The two loops of `ConvertRgbaToBgra` make exactly the assignments of
`convertAccesses`, in order. -/
theorem convertImage_eq_accesses (source : List Nat) (sourceRowBytes width height : Nat)
    (out : List Nat) :
    (List.range height).foldl (convertRow source sourceRowBytes width) out
      = (convertAccesses sourceRowBytes width height).foldl (copyByte source) out := by
  unfold convertAccesses
  generalize hys : List.range height = ys
  clear hys
  induction ys generalizing out with
  | nil => rfl
  | cons y ys ih =>
    rw [List.foldl_cons, List.flatMap_cons, List.foldl_append, ih, convertRow_eq_accesses]

/-- Every access of the conversion reads inside the rows of the source and writes inside
the `width * height * 4` bytes of the output. -/
theorem convertAccesses_bounds (sourceRowBytes width height : Nat) (access : Nat × Nat)
    (hmem : access ∈ convertAccesses sourceRowBytes width height)
    (hrow : 4 * width ≤ sourceRowBytes) :
    access.1 < sourceRowBytes * height ∧ access.2 < width * height * 4
      ∧ ∃ x y k, x < width ∧ y < height ∧ k < 4
          ∧ access.1 = y * sourceRowBytes + 4 * x + k := by
  simp only [convertAccesses, convertRowAccesses, convertPixelAccesses, List.mem_flatMap,
    List.mem_range, List.mem_cons, List.mem_singleton, List.not_mem_nil, or_false] at hmem
  obtain ⟨y, hy, x, hx, hacc⟩ := hmem
  have hrows : y * sourceRowBytes + sourceRowBytes ≤ sourceRowBytes * height := by
    have := Nat.mul_le_mul_left sourceRowBytes (Nat.succ_le_of_lt hy)
    rw [Nat.mul_succ, Nat.mul_comm sourceRowBytes y] at this
    exact this
  have hcols : y * width + width ≤ width * height := by
    have := Nat.mul_le_mul_left width (Nat.succ_le_of_lt hy)
    rw [Nat.mul_succ, Nat.mul_comm width y] at this
    exact this
  have hout : width * height * 4 = (width * height) * 4 := rfl
  rcases hacc with h | h | h | h <;> subst h <;>
    refine ⟨by simp only []; omega, by simp only []; omega, x, y, ?_⟩
  · exact ⟨2, hx, hy, by omega, by simp only []; omega⟩
  · exact ⟨1, hx, hy, by omega, by simp only []; omega⟩
  · exact ⟨0, hx, hy, by omega, by simp only []; omega⟩
  · exact ⟨3, hx, hy, by omega, by simp only []; omega⟩

/-- An accepted `HandleFlutterSurfacePresent` leaves a published slot. -/
theorem present_publishes (app : FlutterXrApp) (p : SurfacePresent) (h : p.Accepted) :
    (HandleFlutterSurfacePresent app p.allocation p.rowBytes p.height).1.latestFrame.Published := by
  rw [present_accepted app p h]
  obtain ⟨mem, hmem, hrow, hheight, hlen, hsize⟩ := h
  refine ⟨hrow, hheight, rfl, ?_, lt_of_le_of_lt hlen hsize⟩
  simp [SurfacePresent.payload, hmem, hlen]

/-- What `UploadLatestFlutterFrame` does when it reaches the `ConvertRgbaToBgra` call: it
calls it on `convertedPixels_`, keeps its output there, and returns its result. -/
theorem upload_calls_convert (app : FlutterXrApp) (src : List Nat) (rb w h : Nat)
    (hargs : uploadConvertArguments app = some (src, rb, w, h)) :
    (UploadLatestFlutterFrame app).1.convertedPixels_
        = (ConvertRgbaToBgra (some src) rb w h app.convertedPixels_).2
      ∧ (UploadLatestFlutterFrame app).2
        = (ConvertRgbaToBgra (some src) rb w h app.convertedPixels_).1 := by
  unfold uploadConvertArguments at hargs
  unfold UploadLatestFlutterFrame
  cases hs : snapshotLatestFrame app with
  | none => simp [hs] at hargs
  | some snapshot =>
    simp only [hs] at hargs ⊢
    split at hargs
    · simp at hargs
    · rename_i hguard
      simp only [hguard, if_false] at hargs ⊢
      split at hargs
      · simp at hargs
      · rename_i hmin
        simp only [hmin, if_false] at hargs ⊢
        split at hargs
        · rename_i hbgra
          simp only [Option.some.injEq, Prod.mk.injEq] at hargs
          obtain ⟨rfl, rfl, rfl, rfl⟩ := hargs
          simp only [hbgra, if_true]
          cases hc : (ConvertRgbaToBgra (some snapshot.pixels) snapshot.rowBytes
              (min snapshot.width kFlutterSurfaceWidth)
              (min snapshot.height kFlutterSurfaceHeight) app.convertedPixels_).1 <;> simp
        · simp at hargs

/-- C30 (upload reads stay inside the snapshot). An accepted
`HandleFlutterSurfacePresent` leaves a published slot (`rowBytes * height` bytes,
`width = rowBytes / 4`, the product not overflowing). Whenever `UploadLatestFlutterFrame`
reaches its `ConvertRgbaToBgra` call on a published slot, it passes the snapshot's pixels
and `rowBytes`, the width `min(width, 1280)` and the height `min(height, 720)`, with
`4 * uploadWidth <= rowBytes`; the conversion returns `true` (and so does the upload); it
makes exactly the assignments `out[w] = source[r]` of the two loops on an output of
`uploadWidth * uploadHeight * 4` bytes; and every read index
`r = y * rowBytes + 4 * x + k` (`y < uploadHeight`, `x < uploadWidth`, `k < 4`) is smaller
than the snapshot's pixel count and every write index smaller than
`uploadWidth * uploadHeight * 4`. -/
theorem upload_reads_in_bounds :
    (∀ (app : FlutterXrApp) (p : SurfacePresent), p.Accepted →
        (HandleFlutterSurfacePresent app p.allocation p.rowBytes p.height).1.latestFrame.Published)
      ∧ (∀ (app : FlutterXrApp) (source : List Nat) (sourceRowBytes width height : Nat),
          app.latestFrame.Published →
          uploadConvertArguments app = some (source, sourceRowBytes, width, height) →
          source = app.latestFrame.pixels ∧ sourceRowBytes = app.latestFrame.rowBytes
            ∧ width = min app.latestFrame.width 1280
            ∧ height = min app.latestFrame.height 720
            ∧ 4 * width ≤ sourceRowBytes
            ∧ ConvertRgbaToBgra (some source) sourceRowBytes width height app.convertedPixels_
              = (true, (convertAccesses sourceRowBytes width height).foldl (copyByte source)
                  (resize app.convertedPixels_ (width * height * 4)))
            ∧ (resize app.convertedPixels_ (width * height * 4)).length = width * height * 4
            ∧ (UploadLatestFlutterFrame app).2 = true
            ∧ (UploadLatestFlutterFrame app).1.convertedPixels_
              = (ConvertRgbaToBgra (some source) sourceRowBytes width height
                  app.convertedPixels_).2
            ∧ ∀ access ∈ convertAccesses sourceRowBytes width height,
                access.1 < source.length ∧ access.2 < width * height * 4
                  ∧ ∃ x y k, x < width ∧ y < height ∧ k < 4
                      ∧ access.1 = y * sourceRowBytes + 4 * x + k) := by
  refine ⟨present_publishes, ?_⟩
  intro app source sourceRowBytes width height hpub hargs
  obtain ⟨hcalls, hresult⟩ := upload_calls_convert app source sourceRowBytes width height hargs
  obtain ⟨hrow4, hheight, hwidth, hlen, hsize⟩ := hpub
  -- the arguments
  have hshape : source = app.latestFrame.pixels ∧ sourceRowBytes = app.latestFrame.rowBytes
      ∧ width = min app.latestFrame.width 1280 ∧ height = min app.latestFrame.height 720 := by
    unfold uploadConvertArguments at hargs
    cases hs : snapshotLatestFrame app with
    | none => simp [hs] at hargs
    | some snapshot =>
      have hsnap : snapshot = app.latestFrame := by
        unfold snapshotLatestFrame at hs
        split at hs
        · exact absurd hs (by simp)
        · exact (Option.some.inj hs).symm
      subst hsnap
      simp only [hs] at hargs
      split at hargs
      · simp at hargs
      · split at hargs
        · simp at hargs
        · split at hargs
          · simp only [Option.some.injEq, Prod.mk.injEq] at hargs
            obtain ⟨h1, h2, h3, h4⟩ := hargs
            exact ⟨h1.symm, h2.symm, by rw [← h3]; rfl, by rw [← h4]; rfl⟩
          · simp at hargs
  obtain ⟨hsrc, hrb, hw, hh⟩ := hshape
  have hdiv : app.latestFrame.rowBytes / 4 * 4 ≤ app.latestFrame.rowBytes :=
    Nat.div_mul_le_self _ _
  have hwpos : 0 < width := by rw [hw, hwidth]; omega
  have hhpos : 0 < height := by rw [hh]; omega
  have hrowle : 4 * width ≤ sourceRowBytes := by rw [hw, hrb, hwidth]; omega
  have hhle : height ≤ app.latestFrame.height := by rw [hh]; omega
  have hbytes : sourceRowBytes * height ≤ source.length := by
    rw [hsrc, hlen, hrb]
    exact Nat.mul_le_mul_left _ hhle
  have hbig : sourceRowBytes * height < kSizeModulus := by
    rw [← hsrc] at hlen
    omega
  have hout : width * height * 4 ≤ sourceRowBytes * height := by
    have := Nat.mul_le_mul_right height hrowle
    have e : width * height * 4 = 4 * width * height := by ring
    omega
  have hrowsmall : sourceRowBytes ≤ sourceRowBytes * height := Nat.le_mul_of_pos_right _ hhpos
  have hguard : ¬ (width = 0 ∨ height = 0 ∨ sourceRowBytes < width * 4 % kSizeModulus) := by
    rw [mod_size_of_lt (by omega)]
    omega
  have hconv : ConvertRgbaToBgra (some source) sourceRowBytes width height app.convertedPixels_
      = (true, (convertAccesses sourceRowBytes width height).foldl (copyByte source)
          (resize app.convertedPixels_ (width * height * 4))) := by
    unfold ConvertRgbaToBgra
    simp only [if_neg hguard, mod_size_of_lt (show width * height * 4 < kSizeModulus by omega)]
    rw [convertImage_eq_accesses]
  refine ⟨hsrc, hrb, hw, hh, hrowle, hconv, resize_length _ _, ?_, hcalls, ?_⟩
  · rw [hresult, hconv]
  · intro access hmem
    obtain ⟨h1, h2, h3⟩ := convertAccesses_bounds sourceRowBytes width height access hmem hrowle
    exact ⟨lt_of_lt_of_le h1 hbytes, h2, h3⟩

theorem bgraApp_published : bgraApp.latestFrame.Published := by
  refine ⟨by decide, by decide, by decide, by decide, by decide⟩

theorem upload_reads_in_bounds_witness :
    (4 * 2 ≤ 10
        ∧ ConvertRgbaToBgra
            (some [1, 2, 3, 4, 5, 6, 7, 8, 0, 0, 11, 12, 13, 14, 15, 16, 17, 18, 0, 0]) 10 2 2
            bgraApp.convertedPixels_
          = (true, (convertAccesses 10 2 2).foldl
              (copyByte [1, 2, 3, 4, 5, 6, 7, 8, 0, 0, 11, 12, 13, 14, 15, 16, 17, 18, 0, 0])
              (resize bgraApp.convertedPixels_ (2 * 2 * 4)))
        ∧ (UploadLatestFlutterFrame bgraApp).2 = true)
      ∧ (17 < ([1, 2, 3, 4, 5, 6, 7, 8, 0, 0, 11, 12, 13, 14, 15, 16, 17, 18, 0, 0]
                : List Nat).length
          ∧ 15 < 2 * 2 * 4) :=
  have h := upload_reads_in_bounds.2 bgraApp
    [1, 2, 3, 4, 5, 6, 7, 8, 0, 0, 11, 12, 13, 14, 15, 16, 17, 18, 0, 0] 10 2 2
    bgraApp_published (by decide)
  ⟨⟨h.2.2.2.2.1, h.2.2.2.2.2.1, h.2.2.2.2.2.2.2.1⟩,
   ⟨(h.2.2.2.2.2.2.2.2.2 (17, 15) (by decide)).1, (h.2.2.2.2.2.2.2.2.2 (17, 15) (by decide)).2.1⟩⟩

/-! ## Pointer input: the forms of a poll -/

/-- A focused poll in which `xrSyncActions`, the two pose queries and the trigger read
succeed: the trigger statements on the members with updated rays, then (scroll action
and engine present) the two scroll reads and the scroll statements. -/
theorem poll_focused (k : ScrollConstants) (engine : Nat → Bool) (app : FlutterXrApp)
    (hit leftHit : PointerHitResult) (trig : XrActionStateFloat)
    (rs ls : Option XrActionStateVector2f)
    (hset : app.inputActionSet_ ≠ XR_NULL_HANDLE)
    (hfoc : app.sessionState_ = XrSessionState.FOCUSED) :
    PollInput k engine app ⟨true, some hit, some leftHit, some trig, rs, ls⟩
      = if app.scrollVectorAction_ = XR_NULL_HANDLE ∨ app.flutterEngine_ = XR_NULL_HANDLE then
          ⟨(pollTrigger engine ⟨updateRays app hit leftHit, []⟩ hit trig).app,
            (pollTrigger engine ⟨updateRays app hit leftHit, []⟩ hit trig).events, false⟩
        else
          match rs, ls with
          | some rs, some ls =>
            ⟨(pollScroll k engine (pollTrigger engine ⟨updateRays app hit leftHit, []⟩ hit trig)
                hit leftHit rs ls).app,
              (pollScroll k engine (pollTrigger engine ⟨updateRays app hit leftHit, []⟩ hit trig)
                hit leftHit rs ls).events, false⟩
          | _, _ =>
            ⟨(pollTrigger engine ⟨updateRays app hit leftHit, []⟩ hit trig).app,
              (pollTrigger engine ⟨updateRays app hit leftHit, []⟩ hit trig).events, true⟩ := by
  obtain ⟨h1, h2, h3, h4, h5, h6, h7, h8, h9⟩ := updateRays_keeps app hit leftHit
  obtain ⟨t1, t2, t3, t4, t5, t6, t7⟩ := triggerTransition_keeps engine
    ⟨updateRays app hit leftHit, []⟩ hit trig.isActive
    (pressedNow (updateRays app hit leftHit).triggerPressed_
      (if trig.isActive then trig.currentState else 0))
  have hg1 : (pollTrigger engine ⟨updateRays app hit leftHit, []⟩ hit trig).app.scrollVectorAction_
      = app.scrollVectorAction_ := by
    unfold pollTrigger; rw [t5, h7]
  have hg2 : (pollTrigger engine ⟨updateRays app hit leftHit, []⟩ hit trig).app.flutterEngine_
      = app.flutterEngine_ := by
    unfold pollTrigger; rw [t2, h4]
  unfold PollInput
  simp only [hset, hfoc, if_false, ne_eq, not_true_eq_false, Bool.not_true, Bool.false_eq_true,
    hg1, hg2]
  split
  · rfl
  · cases rs with
    | none => rfl
    | some rs =>
      cases ls with
      | none => rfl
      | some ls => rfl

/-- Case analysis on a `PollInput` call: a property of the members and events afterwards
holds when it holds for a call that changes nothing, for the release on focus loss, for
the update of the rays alone, for the trigger statements, and for the scroll statements
after them. -/
theorem poll_cases (k : ScrollConstants) (engine : Nat → Bool) (app : FlutterXrApp)
    (env : PollEnv) (P : FlutterXrApp → List FlutterPointerEvent → Prop)
    (hsame : P app [])
    (hrelease : app.sessionState_ ≠ XrSessionState.FOCUSED →
      P (releasePointer engine ⟨app, []⟩).app (releasePointer engine ⟨app, []⟩).events)
    (hrays : ∀ hit leftHit, P (updateRays app hit leftHit) [])
    (htrigger : ∀ hit leftHit trig,
      P (pollTrigger engine ⟨updateRays app hit leftHit, []⟩ hit trig).app
        (pollTrigger engine ⟨updateRays app hit leftHit, []⟩ hit trig).events)
    (hscroll : ∀ hit leftHit trig rs ls,
      app.scrollVectorAction_ ≠ XR_NULL_HANDLE → app.flutterEngine_ ≠ XR_NULL_HANDLE →
      P (pollScroll k engine (pollTrigger engine ⟨updateRays app hit leftHit, []⟩ hit trig)
          hit leftHit rs ls).app
        (pollScroll k engine (pollTrigger engine ⟨updateRays app hit leftHit, []⟩ hit trig)
          hit leftHit rs ls).events) :
    P (PollInput k engine app env).app (PollInput k engine app env).events := by
  obtain ⟨sync, hit, leftHit, trig, rs, ls⟩ := env
  by_cases hset : app.inputActionSet_ = XR_NULL_HANDLE
  · simpa [PollInput, hset] using hsame
  by_cases hfoc : app.sessionState_ = XrSessionState.FOCUSED
  swap
  · rw [poll_unfocused k engine app _ hset hfoc]
    exact hrelease hfoc
  cases sync with
  | false => simpa [PollInput, hset, hfoc] using hsame
  | true =>
    cases hit with
    | none => simpa [PollInput, hset, hfoc] using hsame
    | some hit =>
      cases leftHit with
      | none => simpa [PollInput, hset, hfoc] using hsame
      | some leftHit =>
        cases trig with
        | none => simpa [PollInput, hset, hfoc] using hrays hit leftHit
        | some trig =>
          rw [poll_focused k engine app hit leftHit trig rs ls hset hfoc]
          split
          · exact htrigger hit leftHit trig
          · rename_i hguard
            simp only [not_or] at hguard
            cases rs with
            | none => exact htrigger hit leftHit trig
            | some rs =>
              cases ls with
              | none => exact htrigger hit leftHit trig
              | some ls => exact hscroll hit leftHit trig rs ls hguard.1 hguard.2

theorem pressedNow_inactive (triggerPressed : Bool) : pressedNow triggerPressed 0 = false := by
  cases triggerPressed <;>
    simp only [pressedNow, kTriggerPressThreshold, kTriggerReleaseThreshold] <;> norm_num

/-- The trigger statements as `triggerTransition` with an active trigger, or with an
inactive one, for which `pressedNow` is false. -/
theorem pollTrigger_forms (engine : Nat → Bool) (r : Run) (hit : PointerHitResult)
    (trig : XrActionStateFloat) :
    pollTrigger engine r hit trig
      = if trig.isActive then
          triggerTransition engine r hit true (pressedNow r.app.triggerPressed_ trig.currentState)
        else triggerTransition engine r hit false false := by
  unfold pollTrigger
  cases h : trig.isActive
  · simp [pressedNow_inactive]
  · simp

/-! ## Pointer input: well-formed event stream -/

theorem streamRun_append (s : PointerStream) (a b : List FlutterPointerEvent) :
    streamRun s (a ++ b) = (streamRun s a).bind (fun mid => streamRun mid b) := by
  induction a generalizing s with
  | nil => rfl
  | cons e a ih =>
    simp only [List.cons_append, streamRun]
    cases streamStep s e with
    | none => rfl
    | some next => exact ih next

/-- The trigger statements extend a well-formed stream to a well-formed stream when
every send succeeds, and keep `pointerDown_ → pointerAdded_ ∧ triggerPressed_`. -/
theorem pollTrigger_stream (engine : Nat → Bool) (hall : ∀ n, engine n = true) (r : Run)
    (hit : PointerHitResult) (trig : XrActionStateFloat)
    (heng : r.app.flutterEngine_ ≠ XR_NULL_HANDLE)
    (hadded : r.app.pointerDown_ = true → r.app.pointerAdded_ = true)
    (hpressed : r.app.pointerDown_ = true → r.app.triggerPressed_ = true) :
    ∃ T, (pollTrigger engine r hit trig).events = r.events ++ T
      ∧ streamRun ⟨r.app.pointerAdded_, r.app.pointerDown_⟩ T
        = some ⟨(pollTrigger engine r hit trig).app.pointerAdded_,
            (pollTrigger engine r hit trig).app.pointerDown_⟩
      ∧ ((pollTrigger engine r hit trig).app.pointerDown_ = true →
          (pollTrigger engine r hit trig).app.pointerAdded_ = true)
      ∧ ((pollTrigger engine r hit trig).app.pointerDown_ = true →
          (pollTrigger engine r hit trig).app.triggerPressed_ = true)
      ∧ (pollTrigger engine r hit trig).app.flutterEngine_ = r.app.flutterEngine_ := by
  obtain ⟨app, events⟩ := r
  simp only at heng hadded hpressed
  rw [pollTrigger_forms]
  cases hactive : trig.isActive <;>
  simp only [Bool.false_eq_true, if_false, if_true] <;>
  rw [triggerTransition_closed] <;>
  cases ha : app.pointerAdded_ <;>
  cases hd : app.pointerDown_ <;>
  cases ht : app.triggerPressed_ <;>
  cases ho : hit.onQuad <;>
  (try cases hp : pressedNow true trig.currentState) <;>
  (try cases hq : pressedNow false trig.currentState) <;>
  simp_all [streamRun, streamStep, pointerEvent, FlutterPointerEvent.isScroll,
    kFlutterPointerButtonMousePrimary]

/-- The scroll statements extend a well-formed stream to a well-formed stream when every
send succeeds, and change none of `pointerDown_`, `triggerPressed_`. -/
theorem pollScroll_stream (k : ScrollConstants) (engine : Nat → Bool) (hall : ∀ n, engine n = true)
    (r : Run) (hit leftHit : PointerHitResult) (rs ls : XrActionStateVector2f)
    (heng : r.app.flutterEngine_ ≠ XR_NULL_HANDLE)
    (hadded : r.app.pointerDown_ = true → r.app.pointerAdded_ = true) :
    ∃ S, (pollScroll k engine r hit leftHit rs ls).events = r.events ++ S
      ∧ streamRun ⟨r.app.pointerAdded_, r.app.pointerDown_⟩ S
        = some ⟨(pollScroll k engine r hit leftHit rs ls).app.pointerAdded_,
            (pollScroll k engine r hit leftHit rs ls).app.pointerDown_⟩
      ∧ (pollScroll k engine r hit leftHit rs ls).app.pointerDown_ = r.app.pointerDown_
      ∧ (pollScroll k engine r hit leftHit rs ls).app.triggerPressed_ = r.app.triggerPressed_
      ∧ ((pollScroll k engine r hit leftHit rs ls).app.pointerDown_ = true →
          (pollScroll k engine r hit leftHit rs ls).app.pointerAdded_ = true)
      ∧ (pollScroll k engine r hit leftHit rs ls).app.flutterEngine_ = r.app.flutterEngine_ := by
  obtain ⟨app, events⟩ := r
  simp only at heng hadded
  unfold pollScroll
  simp only []
  split
  · exact ⟨[], by simp [streamRun], by simp [streamRun], rfl, rfl, hadded, rfl⟩
  · rw [sendScrollAt_closed]
    cases SelectScrollHit (chooseScrollAxis app rs ls).2 app.leftHandPath_ hit leftHit with
    | none =>
      cases ha : app.pointerAdded_ <;> cases hd : app.pointerDown_ <;>
      simp_all [streamRun, streamStep, scrollEvent, FlutterPointerEvent.isScroll,
        kFlutterPointerButtonMousePrimary]
    | some h =>
      cases ha : app.pointerAdded_ <;> cases hd : app.pointerDown_ <;>
      simp_all [streamRun, streamStep, scrollEvent, pointerEvent, FlutterPointerEvent.isScroll,
        kFlutterPointerButtonMousePrimary]

/-- The release on focus loss or session stop extends a well-formed stream to a
well-formed stream. -/
theorem releasePointer_stream (engine : Nat → Bool) (app : FlutterXrApp)
    (heng : app.flutterEngine_ ≠ XR_NULL_HANDLE)
    (hadded : app.pointerDown_ = true → app.pointerAdded_ = true) :
    streamRun ⟨app.pointerAdded_, app.pointerDown_⟩ (releasePointer engine ⟨app, []⟩).events
        = some ⟨(releasePointer engine ⟨app, []⟩).app.pointerAdded_,
            (releasePointer engine ⟨app, []⟩).app.pointerDown_⟩
      ∧ (releasePointer engine ⟨app, []⟩).app.pointerDown_ = false
      ∧ (releasePointer engine ⟨app, []⟩).app.pointerAdded_ = app.pointerAdded_
      ∧ (releasePointer engine ⟨app, []⟩).app.flutterEngine_ = app.flutterEngine_ := by
  rw [releasePointer_closed]
  cases ha : app.pointerAdded_ <;> cases hd : app.pointerDown_ <;>
    simp_all [streamRun, streamStep, pointerEvent, FlutterPointerEvent.isScroll]

theorem streamInvariant_extend (start : PointerStream) (app next : FlutterXrApp)
    (events more : List FlutterPointerEvent) (hinv : StreamInvariant start app events)
    (hengine : next.flutterEngine_ = app.flutterEngine_)
    (hstream : streamRun ⟨app.pointerAdded_, app.pointerDown_⟩ more
      = some ⟨next.pointerAdded_, next.pointerDown_⟩)
    (hadded : next.pointerDown_ = true → next.pointerAdded_ = true)
    (hpressed : next.pointerDown_ = true → next.triggerPressed_ = true) :
    StreamInvariant start next (events ++ more) := by
  refine ⟨by rw [hengine]; exact hinv.engine, ?_, hadded, hpressed⟩
  rw [streamRun_append, hinv.stream]
  exact hstream

/-- A `PollInput` call during which every send succeeds keeps the invariant. -/
theorem poll_keeps_stream (k : ScrollConstants) (engine : Nat → Bool)
    (hall : ∀ n, engine n = true) (start : PointerStream) (app : FlutterXrApp) (env : PollEnv)
    (events : List FlutterPointerEvent) (hinv : StreamInvariant start app events) :
    StreamInvariant start (PollInput k engine app env).app
      (events ++ (PollInput k engine app env).events) := by
  apply poll_cases k engine app env
    (fun next more => StreamInvariant start next (events ++ more))
  · simpa using hinv
  · intro _
    obtain ⟨h1, h2, h3, h4⟩ := releasePointer_stream engine app hinv.engine hinv.added
    exact streamInvariant_extend start app _ events _ hinv h4 h1
      (by rw [h2]; simp) (by rw [h2]; simp)
  · intro hit leftHit
    obtain ⟨u1, u2, u3, u4, _⟩ := updateRays_keeps app hit leftHit
    exact streamInvariant_extend start app _ events [] hinv u4
      (by rw [u2, u3]; rfl) (by rw [u2, u3]; exact hinv.added)
      (by rw [u1, u3]; exact hinv.pressed)
  · intro hit leftHit trig
    obtain ⟨u1, u2, u3, u4, _⟩ := updateRays_keeps app hit leftHit
    obtain ⟨T, hT, hs, ha, hp, he⟩ := pollTrigger_stream engine hall
      ⟨updateRays app hit leftHit, []⟩ hit trig (by rw [u4]; exact hinv.engine)
      (by rw [u2, u3]; exact hinv.added) (by rw [u1, u3]; exact hinv.pressed)
    simp only [List.nil_append] at hT
    rw [hT]
    simp only [u2, u3] at hs
    exact streamInvariant_extend start app _ events T hinv (by rw [he, u4]) hs ha hp
  · intro hit leftHit trig rs ls _ _
    obtain ⟨u1, u2, u3, u4, _⟩ := updateRays_keeps app hit leftHit
    obtain ⟨T, hT, hs, ha, hp, he⟩ := pollTrigger_stream engine hall
      ⟨updateRays app hit leftHit, []⟩ hit trig (by rw [u4]; exact hinv.engine)
      (by rw [u2, u3]; exact hinv.added) (by rw [u1, u3]; exact hinv.pressed)
    simp only [List.nil_append] at hT
    simp only [u2, u3] at hs
    obtain ⟨S, hS, hss, hd, htp, hsa, hse⟩ := pollScroll_stream k engine hall
      (pollTrigger engine ⟨updateRays app hit leftHit, []⟩ hit trig) hit leftHit rs ls
      (by rw [he, u4]; exact hinv.engine) ha
    rw [hS, hT]
    refine streamInvariant_extend start app _ events (T ++ S) hinv (by rw [hse, he, u4]) ?_ hsa ?_
    · rw [streamRun_append, hs]
      exact hss
    · intro hdown
      rw [htp]
      rw [hd] at hdown
      exact hp hdown

/-- A `HandleSessionStateChanged` call keeps the invariant. -/
theorem sessionStateChanged_keeps_stream (engine : Nat → Bool) (start : PointerStream)
    (app : FlutterXrApp) (state : XrSessionState) (xrOk : Bool)
    (events : List FlutterPointerEvent) (hinv : StreamInvariant start app events) :
    StreamInvariant start (HandleSessionStateChanged engine app state xrOk).app
      (events ++ (HandleSessionStateChanged engine app state xrOk).events) := by
  obtain ⟨h1, h2, h3, h4⟩ := releasePointer_stream engine { app with sessionState_ := state }
    hinv.engine hinv.added
  have hsame : StreamInvariant start { app with sessionState_ := state } (events ++ []) :=
    streamInvariant_extend start app _ events [] hinv rfl rfl hinv.added hinv.pressed
  cases state <;> cases xrOk <;>
    first
    | exact hsame
    | exact streamInvariant_extend start app _ events [] hinv rfl rfl hinv.added hinv.pressed
    | exact streamInvariant_extend start app _ events _ hinv h4 h1
        (by simp [HandleSessionStateChanged, releasePointer_closed])
        (by simp [HandleSessionStateChanged, releasePointer_closed])

theorem inputTrace_snoc (k : ScrollConstants) (app : FlutterXrApp) (ops : List InputOp)
    (op : InputOp) :
    inputTrace k app (ops ++ [op])
      = (inputStep k (inputTrace k app ops).1 op,
          (inputTrace k app ops).2 ++ inputEvents k (inputTrace k app ops).1 op) := by
  simp [inputTrace, List.foldl_append]

/-- The invariant holds after every sequence of `PollInput` and
`HandleSessionStateChanged` calls whose sends succeed, from a state with the engine
present and the pointer neither added nor down. -/
theorem inputTrace_invariant (k : ScrollConstants) (init : FlutterXrApp)
    (heng : init.flutterEngine_ ≠ XR_NULL_HANDLE) (hadded : init.pointerAdded_ = false)
    (hdown : init.pointerDown_ = false) (ops : List InputOp) :
    (∀ op ∈ ops, op.Succeeds) →
      StreamInvariant ⟨false, false⟩ (inputTrace k init ops).1 (inputTrace k init ops).2 := by
  induction ops using List.reverseRecOn with
  | nil =>
    intro _
    exact ⟨heng, by simp [inputTrace, streamRun, hadded, hdown], by simp [inputTrace, hdown],
      by simp [inputTrace, hdown]⟩
  | append_singleton ops op ih =>
    intro hops
    have hinv := ih (fun o ho => hops o (List.mem_append_left _ ho))
    have hop : op.Succeeds := hops op (by simp)
    rw [inputTrace_snoc]
    cases op with
    | poll engine env => exact poll_keeps_stream k engine hop _ _ env _ hinv
    | sessionStateChanged engine state xrOk =>
      exact sessionStateChanged_keeps_stream engine _ _ state xrOk _ hinv
    | ensurePointerAdded engine x y => exact absurd hop (by simp [InputOp.Succeeds])
    | shutdown engine => exact absurd hop (by simp [InputOp.Succeeds])

/-- The five ways in which an event is well-formed after a stream. -/
theorem streamStep_some (s next : PointerStream) (e : FlutterPointerEvent)
    (h : streamStep s e = some next) :
    (e.isScroll = true ∧ s.added = true ∧ next = s
        ∧ e.phase = (if s.down then FlutterPointerPhase.kMove else FlutterPointerPhase.kHover)
        ∧ e.buttons = (if s.down then kFlutterPointerButtonMousePrimary else 0))
      ∨ (e.isScroll = false ∧ e.phase = FlutterPointerPhase.kAdd ∧ s.added = false
          ∧ next = ⟨true, s.down⟩)
      ∨ (e.isScroll = false ∧ e.phase = FlutterPointerPhase.kDown ∧ s.added = true
          ∧ s.down = false ∧ next = ⟨true, true⟩)
      ∨ (e.isScroll = false ∧ e.phase = FlutterPointerPhase.kUp ∧ s.added = true
          ∧ s.down = true ∧ next = ⟨true, false⟩)
      ∨ (e.isScroll = false ∧ e.phase = FlutterPointerPhase.kHover ∧ s.added = true
          ∧ s.down = false ∧ next = s) := by
  obtain ⟨added, down⟩ := s
  unfold streamStep at h
  cases hs : e.isScroll <;> cases hp : e.phase <;> cases added <;> cases down <;>
    simp_all

/-- In a well-formed stream an add event can only be the first event, and only when the
pointer was not added before. -/
theorem stream_add_first (events : List FlutterPointerEvent) :
    ∀ (s final : PointerStream), streamRun s events = some final →
      ∀ (i : Nat) (e : FlutterPointerEvent), events[i]? = some e → e.isAdd = true →
        i = 0 ∧ s.added = false := by
  induction events with
  | nil => intro s final _ i e hi; simp at hi
  | cons e0 rest ih =>
    intro s final hrun i e hi hadd
    simp only [streamRun] at hrun
    cases hstep : streamStep s e0 with
    | none => simp [hstep] at hrun
    | some next =>
      simp only [hstep] at hrun
      have hcases := streamStep_some s next e0 hstep
      have hnext : next.added = true := by
        rcases hcases with ⟨_, h, hn, _⟩ | ⟨_, _, _, hn⟩ | ⟨_, _, _, _, hn⟩ | ⟨_, _, _, _, hn⟩
          | ⟨_, _, h, _, hn⟩ <;> rw [hn] <;> first | rfl | exact h
      cases i with
      | zero =>
        simp only [List.getElem?_cons_zero, Option.some.injEq] at hi
        subst hi
        refine ⟨rfl, ?_⟩
        simp only [FlutterPointerEvent.isAdd, decide_eq_true_eq] at hadd
        rcases hcases with ⟨_, _, _, hp, _⟩ | ⟨_, _, h, _⟩ | ⟨_, hp, _⟩ | ⟨_, hp, _⟩ | ⟨_, hp, _⟩
        · rw [hadd] at hp
          cases hd : s.down <;> simp [hd] at hp
        · exact h
        · rw [hadd] at hp; simp at hp
        · rw [hadd] at hp; simp at hp
        · rw [hadd] at hp; simp at hp
      | succ j =>
        simp only [List.getElem?_cons_succ] at hi
        have := (ih next final hrun j e hi hadd).2
        rw [hnext] at this
        exact absurd this (by simp)

/-- In a well-formed stream the down and up events alternate: the `i`-th of them is a
down when `i` is even and the pointer was not down at the start, or `i` is odd and it
was. -/
theorem stream_alternates (events : List FlutterPointerEvent) :
    ∀ (s final : PointerStream), streamRun s events = some final →
      ∀ (i : Nat) (e : FlutterPointerEvent), (transitions events)[i]? = some e →
        e.phase = if (decide (i % 2 = 0) != s.down) then FlutterPointerPhase.kDown
          else FlutterPointerPhase.kUp := by
  induction events with
  | nil => intro s final _ i e hi; simp [transitions] at hi
  | cons e0 rest ih =>
    intro s final hrun i e hi
    simp only [streamRun] at hrun
    cases hstep : streamStep s e0 with
    | none => simp [hstep] at hrun
    | some next =>
      simp only [hstep] at hrun
      have hcases := streamStep_some s next e0 hstep
      have hkeep : e0.isTransition = false → next.down = s.down →
          e.phase = if (decide (i % 2 = 0) != s.down) then FlutterPointerPhase.kDown
            else FlutterPointerPhase.kUp := by
        intro hnt hsame
        have htr : transitions (e0 :: rest) = transitions rest := by
          simp [transitions, List.filter_cons, hnt]
        rw [htr] at hi
        rw [← hsame]
        exact ih next final hrun i e hi
      have hflip : e0.isTransition = true → next.down = !s.down →
          e0.phase = (if s.down then FlutterPointerPhase.kUp else FlutterPointerPhase.kDown) →
          e.phase = if (decide (i % 2 = 0) != s.down) then FlutterPointerPhase.kDown
            else FlutterPointerPhase.kUp := by
        intro ht hnd hph
        have htr : transitions (e0 :: rest) = e0 :: transitions rest := by
          simp [transitions, List.filter_cons, ht]
        rw [htr] at hi
        cases i with
        | zero =>
          simp only [List.getElem?_cons_zero, Option.some.injEq] at hi
          subst hi
          rw [hph]
          cases s.down <;> simp
        | succ j =>
          simp only [List.getElem?_cons_succ] at hi
          rw [ih next final hrun j e hi, hnd]
          have hpar : decide ((j + 1) % 2 = 0) = !decide (j % 2 = 0) := by
            rcases Nat.mod_two_eq_zero_or_one j with h | h <;>
              simp [Nat.add_mod, h]
          rw [hpar]
          cases s.down <;> cases decide (j % 2 = 0) <;> simp
      rcases hcases with ⟨hsc, _, hn, hp, _⟩ | ⟨_, hp, _, hn⟩ | ⟨_, hp, _, hd, hn⟩
        | ⟨_, hp, _, hd, hn⟩ | ⟨_, hp, _, _, hn⟩
      · refine hkeep ?_ (by rw [hn])
        cases hsd : s.down <;>
          simp [hsd] at hp <;>
          simp [FlutterPointerEvent.isTransition, FlutterPointerEvent.isDown,
            FlutterPointerEvent.isUp, hp]
      · refine hkeep ?_ (by rw [hn])
        simp [FlutterPointerEvent.isTransition, FlutterPointerEvent.isDown,
          FlutterPointerEvent.isUp, hp]
      · refine hflip ?_ (by rw [hn, hd]; rfl) (by rw [hd, hp]; rfl)
        simp [FlutterPointerEvent.isTransition, FlutterPointerEvent.isDown, hp]
      · refine hflip ?_ (by rw [hn, hd]; rfl) (by rw [hd, hp]; rfl)
        simp [FlutterPointerEvent.isTransition, FlutterPointerEvent.isUp, hp]
      · refine hkeep ?_ (by rw [hn])
        simp [FlutterPointerEvent.isTransition, FlutterPointerEvent.isDown,
          FlutterPointerEvent.isUp, hp]

/-- A well-formed stream leaves the pointer down exactly when the number of its down and
up events is odd (it started not down) or even (it started down). -/
theorem stream_down_parity (events : List FlutterPointerEvent) :
    ∀ (s final : PointerStream), streamRun s events = some final →
      final.down = (s.down != decide ((transitions events).length % 2 = 1)) := by
  induction events with
  | nil =>
    intro s final hrun
    simp only [streamRun, Option.some.injEq] at hrun
    subst hrun
    simp [transitions]
  | cons e0 rest ih =>
    intro s final hrun
    simp only [streamRun] at hrun
    cases hstep : streamStep s e0 with
    | none => simp [hstep] at hrun
    | some next =>
      simp only [hstep] at hrun
      have hrest := ih next final hrun
      have hkeep : e0.isTransition = false → next.down = s.down →
          final.down = (s.down != decide ((transitions (e0 :: rest)).length % 2 = 1)) := by
        intro hnt hsame
        have htr : transitions (e0 :: rest) = transitions rest := by
          simp [transitions, List.filter_cons, hnt]
        rw [htr, ← hsame]
        exact hrest
      have hflip : e0.isTransition = true → next.down = !s.down →
          final.down = (s.down != decide ((transitions (e0 :: rest)).length % 2 = 1)) := by
        intro ht hnd
        have htr : transitions (e0 :: rest) = e0 :: transitions rest := by
          simp [transitions, List.filter_cons, ht]
        rw [htr, hrest, hnd, List.length_cons]
        have hpar : decide (((transitions rest).length + 1) % 2 = 1)
            = !decide ((transitions rest).length % 2 = 1) := by
          rcases Nat.mod_two_eq_zero_or_one (transitions rest).length with h | h <;>
            simp [Nat.add_mod, h]
        rw [hpar]
        cases s.down <;> cases decide ((transitions rest).length % 2 = 1) <;> simp
      rcases streamStep_some s next e0 hstep with ⟨hsc, _, hn, hp, _⟩ | ⟨_, hp, _, hn⟩
        | ⟨_, hp, _, hd, hn⟩ | ⟨_, hp, _, hd, hn⟩ | ⟨_, hp, _, _, hn⟩
      · refine hkeep ?_ (by rw [hn])
        cases hsd : s.down <;>
          simp [hsd] at hp <;>
          simp [FlutterPointerEvent.isTransition, FlutterPointerEvent.isDown,
            FlutterPointerEvent.isUp, hp]
      · refine hkeep ?_ (by rw [hn])
        simp [FlutterPointerEvent.isTransition, FlutterPointerEvent.isDown,
          FlutterPointerEvent.isUp, hp]
      · refine hflip ?_ (by rw [hn, hd]; rfl)
        simp [FlutterPointerEvent.isTransition, FlutterPointerEvent.isDown, hp]
      · refine hflip ?_ (by rw [hn, hd]; rfl)
        simp [FlutterPointerEvent.isTransition, FlutterPointerEvent.isUp, hp]
      · refine hkeep ?_ (by rw [hn])
        simp [FlutterPointerEvent.isTransition, FlutterPointerEvent.isDown,
          FlutterPointerEvent.isUp, hp]

/-- The members after a traced run are those of the run. -/
theorem inputTrace_app (k : ScrollConstants) (init : FlutterXrApp) (ops : List InputOp) :
    (inputTrace k init ops).1 = inputRun k init ops := by
  simp only [inputTrace, inputRun]
  generalize ([] : List FlutterPointerEvent) = acc
  induction ops generalizing init acc with
  | nil => rfl
  | cons op ops ih => simp only [List.foldl_cons]; exact ih _ _

theorem stream_at (s0 final : PointerStream) (pre post : List FlutterPointerEvent)
    (e : FlutterPointerEvent) (h : streamRun s0 (pre ++ e :: post) = some final) :
    ∃ s next, streamRun s0 pre = some s ∧ streamStep s e = some next := by
  rw [streamRun_append] at h
  cases hpre : streamRun s0 pre with
  | none => simp [hpre] at h
  | some s =>
    simp only [hpre, Option.some_bind, streamRun] at h
    cases hstep : streamStep s e with
    | none => simp [hstep] at h
    | some next => exact ⟨s, next, rfl, hstep⟩

/-- C29 (well-formed event stream). Take any state with the engine present and the
pointer neither added nor down, and any sequence of `PollInput` and
`HandleSessionStateChanged` calls during which every send succeeds. Then the events
handed to the engine, in order, form a well-formed stream that leaves the pointer in the
state `pointerAdded_`, `pointerDown_` of the members; there is at most one add event and
it is the first event; the `i`-th down-or-up event is a down for even `i` and an up for
odd `i`; with "the pointer is down" before an event meaning that the number of down and
up events before it is odd, a hover event without scroll signal occurs only while the
pointer is not down, and a scroll-signal event has phase move and the primary button
when the pointer is down, phase hover and no button otherwise; and `pointerDown_`
implies `triggerPressed_` in the state reached. -/
theorem event_stream_well_formed (k : ScrollConstants) (init : FlutterXrApp)
    (ops : List InputOp) (heng : init.flutterEngine_ ≠ XR_NULL_HANDLE)
    (hadded : init.pointerAdded_ = false) (hdown : init.pointerDown_ = false)
    (hops : ∀ op ∈ ops, op.Succeeds) :
    streamRun ⟨false, false⟩ (inputTrace k init ops).2
        = some ⟨(inputTrace k init ops).1.pointerAdded_, (inputTrace k init ops).1.pointerDown_⟩
      ∧ (((inputTrace k init ops).2.filter FlutterPointerEvent.isAdd).length ≤ 1
          ∧ ∀ (i : Nat) (e : FlutterPointerEvent), (inputTrace k init ops).2[i]? = some e →
              e.isAdd = true → i = 0)
      ∧ (∀ (i : Nat) (e : FlutterPointerEvent),
          (transitions (inputTrace k init ops).2)[i]? = some e →
          e.phase = if i % 2 = 0 then FlutterPointerPhase.kDown else FlutterPointerPhase.kUp)
      ∧ (∀ (pre post : List FlutterPointerEvent) (e : FlutterPointerEvent),
          (inputTrace k init ops).2 = pre ++ e :: post →
          (e.isScroll = false → e.phase = FlutterPointerPhase.kHover →
              (transitions pre).length % 2 = 0)
            ∧ (e.isScroll = true →
                e.phase = (if (transitions pre).length % 2 = 1 then FlutterPointerPhase.kMove
                  else FlutterPointerPhase.kHover)
                  ∧ e.buttons = (if (transitions pre).length % 2 = 1 then
                      kFlutterPointerButtonMousePrimary else 0)))
      ∧ ((inputTrace k init ops).1.pointerDown_ = true →
          (inputTrace k init ops).1.triggerPressed_ = true)
      ∧ (inputTrace k init ops).1 = inputRun k init ops := by
  have hinv := inputTrace_invariant k init heng hadded hdown ops hops
  have hfirst := stream_add_first _ _ _ hinv.stream
  refine ⟨hinv.stream, ⟨?_, fun i e hi he => (hfirst i e hi he).1⟩, ?_, ?_, hinv.pressed, ?_⟩
  · -- at most one add: every add event is at index 0
    generalize (inputTrace k init ops).2 = events at hfirst
    cases events with
    | nil => simp
    | cons e0 rest =>
      have hrest : rest.filter FlutterPointerEvent.isAdd = [] := by
        rw [List.filter_eq_nil_iff]
        intro e he
        obtain ⟨j, hj, hget⟩ := List.getElem_of_mem he
        intro hadd
        have := (hfirst (j + 1) e (by simp [List.getElem?_eq_getElem hj, hget]) hadd).1
        omega
      rw [List.filter_cons]
      split <;> simp [hrest]
  · intro i e hi
    have := stream_alternates _ _ _ hinv.stream i e hi
    simpa using this
  · intro pre post e hsplit
    rw [hsplit] at hinv
    obtain ⟨s, next, hpre, hstep⟩ := stream_at _ _ pre post e hinv.stream
    have hpar := stream_down_parity pre _ _ hpre
    simp only [Bool.false_bne] at hpar
    have hcases := streamStep_some s next e hstep
    constructor
    · intro hns hhover
      have hsd : s.down = false := by
        rcases hcases with ⟨hsc, _⟩ | ⟨_, hp, _⟩ | ⟨_, hp, _⟩ | ⟨_, hp, _⟩ | ⟨_, _, _, hd, _⟩
        · rw [hns] at hsc; simp at hsc
        · rw [hhover] at hp; simp at hp
        · rw [hhover] at hp; simp at hp
        · rw [hhover] at hp; simp at hp
        · exact hd
      rw [hsd] at hpar
      have := (decide_eq_false_iff_not.mp hpar.symm)
      omega
    · intro hsc
      rcases hcases with ⟨_, _, _, hp, hb⟩ | ⟨h, _⟩ | ⟨h, _⟩ | ⟨h, _⟩ | ⟨h, _⟩
      · rw [hp, hb, hpar]
        by_cases hodd : (transitions pre).length % 2 = 1 <;> simp [hodd]
      all_goals (rw [hsc] at h; simp at h)
  · exact inputTrace_app k init ops

theorem sampleSession_succeeds : ∀ op ∈ sampleSession, op.Succeeds := by
  intro op hop
  simp only [sampleSession, List.mem_cons, List.mem_singleton, List.not_mem_nil, or_false] at hop
  rcases hop with h | h | h | h | h <;> subst h <;> intro n <;> rfl

theorem event_stream_well_formed_witness :
    streamRun ⟨false, false⟩ (inputTrace sampleScrollConstants runningApp sampleSession).2
        = some ⟨(inputTrace sampleScrollConstants runningApp sampleSession).1.pointerAdded_,
            (inputTrace sampleScrollConstants runningApp sampleSession).1.pointerDown_⟩
      ∧ ((inputTrace sampleScrollConstants runningApp sampleSession).2.filter
          FlutterPointerEvent.isAdd).length ≤ 1 :=
  ⟨(event_stream_well_formed sampleScrollConstants runningApp sampleSession (by decide) rfl rfl
      sampleSession_succeeds).1,
   (event_stream_well_formed sampleScrollConstants runningApp sampleSession (by decide) rfl rfl
      sampleSession_succeeds).2.1.1⟩

/-! ## Pointer input: focus loss, rising and falling edge -/

/-- C21 (loss of focus, as the code has it). After a `PollInput` call made by an
initialised application while the session is not `FOCUSED`, the pointer is not down and
the trigger not pressed, and `pointerAdded_` is what it was before the call: from Idle
(not added, not down) the state machine stays in Idle, from Hovering (added, not down)
and from Dragging (added, down) it is in Hovering afterwards. The pointer is removed
only by `Shutdown`. -/
theorem focus_loss_keeps_pointer_added (k : ScrollConstants) (engine : Nat → Bool)
    (app : FlutterXrApp) (env : PollEnv) (hset : app.inputActionSet_ ≠ XR_NULL_HANDLE)
    (hfoc : app.sessionState_ ≠ XrSessionState.FOCUSED) :
    (PollInput k engine app env).app.pointerDown_ = false
      ∧ (PollInput k engine app env).app.triggerPressed_ = false
      ∧ (PollInput k engine app env).app.pointerAdded_ = app.pointerAdded_
      ∧ (app.pointerAdded_ = false →
          (PollInput k engine app env).app.pointerAdded_ = false
            ∧ (PollInput k engine app env).app.pointerDown_ = false)
      ∧ (app.pointerAdded_ = true →
          (PollInput k engine app env).app.pointerAdded_ = true
            ∧ (PollInput k engine app env).app.pointerDown_ = false) := by
  rw [poll_unfocused k engine app env hset hfoc, releasePointer_closed]
  refine ⟨rfl, rfl, rfl, fun h => ⟨h, rfl⟩, fun h => ⟨h, rfl⟩⟩

theorem focus_loss_keeps_pointer_added_witness :
    (PollInput sampleScrollConstants engineAccepts
        { pressedApp with sessionState_ := XrSessionState.VISIBLE }
        (activePoll surfaceHit surfaceHit 1 idleScroll idleScroll)).app.pointerAdded_ = true
      ∧ (PollInput sampleScrollConstants engineAccepts
          { pressedApp with sessionState_ := XrSessionState.VISIBLE }
          (activePoll surfaceHit surfaceHit 1 idleScroll idleScroll)).app.pointerDown_ = false :=
  (focus_loss_keeps_pointer_added sampleScrollConstants engineAccepts
    { pressedApp with sessionState_ := XrSessionState.VISIBLE }
    (activePoll surfaceHit surfaceHit 1 idleScroll idleScroll) (by decide) (by decide)).2.2.2.2 rfl

/-- C21 as stated fails: from Dragging (pointer added and down) a `PollInput` call made
while the session is `VISIBLE`, not `FOCUSED`, leaves `pointerAdded_` true, so the state
afterwards is Hovering (added, not down), not Idle (no pointer added). -/
theorem focus_loss_from_dragging_is_not_idle :
    ({ pressedApp with sessionState_ := XrSessionState.VISIBLE } : FlutterXrApp).pointerAdded_
        = true
      ∧ ({ pressedApp with sessionState_ := XrSessionState.VISIBLE } : FlutterXrApp).pointerDown_
        = true
      ∧ ({ pressedApp with sessionState_ := XrSessionState.VISIBLE } : FlutterXrApp).sessionState_
        ≠ XrSessionState.FOCUSED
      ∧ (PollInput sampleScrollConstants engineAccepts
          { pressedApp with sessionState_ := XrSessionState.VISIBLE }
          (activePoll surfaceHit surfaceHit 1 idleScroll idleScroll)).app.pointerAdded_ = true
      ∧ ¬ ((PollInput sampleScrollConstants engineAccepts
            { pressedApp with sessionState_ := XrSessionState.VISIBLE }
            (activePoll surfaceHit surfaceHit 1 idleScroll idleScroll)).app.pointerAdded_ = false
          ∧ (PollInput sampleScrollConstants engineAccepts
            { pressedApp with sessionState_ := XrSessionState.VISIBLE }
            (activePoll surfaceHit surfaceHit 1 idleScroll idleScroll)).app.pointerDown_
              = false) := by
  have hadded : (PollInput sampleScrollConstants engineAccepts
      { pressedApp with sessionState_ := XrSessionState.VISIBLE }
      (activePoll surfaceHit surfaceHit 1 idleScroll idleScroll)).app.pointerAdded_ = true := by
    rw [poll_unfocused _ _ _ _ (by decide) (by decide), releasePointer_closed]
    rfl
  refine ⟨rfl, rfl, by decide, hadded, ?_⟩
  rw [hadded]
  simp

/-- The scroll statements hand the engine no down and no up event, no add event once
the pointer is added, and set `pointerAdded_` only by an add event. -/
theorem pollScroll_phases (k : ScrollConstants) (engine : Nat → Bool) (r : Run)
    (hit leftHit : PointerHitResult) (rs ls : XrActionStateVector2f) :
    ∃ S, (pollScroll k engine r hit leftHit rs ls).events = r.events ++ S
      ∧ transitions S = []
      ∧ (r.app.pointerAdded_ = true → ∀ e ∈ S, e.isAdd = false)
      ∧ ((pollScroll k engine r hit leftHit rs ls).app.pointerAdded_ = true →
          r.app.pointerAdded_ = true ∨ ∃ e ∈ S, e.isAdd = true)
      ∧ (pollScroll k engine r hit leftHit rs ls).app.pointerDown_ = r.app.pointerDown_
      ∧ (pollScroll k engine r hit leftHit rs ls).app.triggerPressed_ = r.app.triggerPressed_
      ∧ (r.app.pointerAdded_ = true →
          (pollScroll k engine r hit leftHit rs ls).app.pointerAdded_ = true) := by
  obtain ⟨app, events⟩ := r
  unfold pollScroll
  simp only []
  split
  · exact ⟨[], by simp [transitions]⟩
  · rw [sendScrollAt_closed]
    by_cases hpd : app.pointerDown_ = true <;>
      cases SelectScrollHit (chooseScrollAxis app rs ls).2 app.leftHandPath_ hit leftHit <;>
      simp only [] <;> split_ifs <;>
      simp_all [transitions, scrollEvent, pointerEvent, FlutterPointerEvent.isAdd,
        FlutterPointerEvent.isTransition, FlutterPointerEvent.isDown, FlutterPointerEvent.isUp]

/-- C23 (falling edge). In a focused poll of an initialised application (action set and
engine exist; the runtime calls up to the trigger read succeed) with `triggerPressed_`
and `pointerDown_` true, in a state where `pointerDown_` implies `pointerAdded_`: if the
trigger input is inactive or its value is below the release threshold, the first event
of the poll is an up event with no buttons, at the hit coordinates when the right-hand
ray is on the surface and at (`lastPointerX_`, `lastPointerY_`) otherwise, no other down
or up event follows, and afterwards `pointerDown_ = false`, `triggerPressed_ = false`
and `pointerAdded_ = true`. -/
theorem falling_edge_up (k : ScrollConstants) (engine : Nat → Bool) (app : FlutterXrApp)
    (hit leftHit : PointerHitResult) (trig : XrActionStateFloat)
    (rs ls : Option XrActionStateVector2f)
    (hset : app.inputActionSet_ ≠ XR_NULL_HANDLE)
    (heng : app.flutterEngine_ ≠ XR_NULL_HANDLE)
    (hfoc : app.sessionState_ = XrSessionState.FOCUSED)
    (hpressed : app.triggerPressed_ = true) (hdown : app.pointerDown_ = true)
    (hinv : app.pointerDown_ = true → app.pointerAdded_ = true)
    (hrelease : trig.isActive = false ∨ trig.currentState < kTriggerReleaseThreshold) :
    (∃ rest,
        (PollInput k engine app ⟨true, some hit, some leftHit, some trig, rs, ls⟩).events
            = pointerEvent FlutterPointerPhase.kUp
                (if hit.onQuad then hit.xPixels else app.lastPointerX_)
                (if hit.onQuad then hit.yPixels else app.lastPointerY_) 0 :: rest
          ∧ transitions rest = [])
      ∧ (PollInput k engine app ⟨true, some hit, some leftHit, some trig, rs, ls⟩).app.pointerDown_
        = false
      ∧ (PollInput k engine app
          ⟨true, some hit, some leftHit, some trig, rs, ls⟩).app.triggerPressed_ = false
      ∧ (PollInput k engine app
          ⟨true, some hit, some leftHit, some trig, rs, ls⟩).app.pointerAdded_ = true := by
  obtain ⟨u1, u2, u3, u4, u5, u6, u7, u8, u9⟩ := updateRays_keeps app hit leftHit
  have hadded := hinv hdown
  -- the trigger statements
  have hnow : (if trig.isActive then
        triggerTransition engine ⟨updateRays app hit leftHit, []⟩ hit true
          (pressedNow (updateRays app hit leftHit).triggerPressed_ trig.currentState)
      else triggerTransition engine ⟨updateRays app hit leftHit, []⟩ hit false false)
      = if trig.isActive then
          triggerTransition engine ⟨updateRays app hit leftHit, []⟩ hit true false
        else triggerTransition engine ⟨updateRays app hit leftHit, []⟩ hit false false := by
    cases hactive : trig.isActive
    · rfl
    · have hlt : trig.currentState < kTriggerReleaseThreshold := by
        rcases hrelease with h | h
        · rw [hactive] at h; exact absurd h (by simp)
        · exact h
      simp [u1, hpressed, pressedNow, not_le.mpr hlt]
  have htrig : (pollTrigger engine ⟨updateRays app hit leftHit, []⟩ hit trig).events
        = [pointerEvent FlutterPointerPhase.kUp
            (if hit.onQuad then hit.xPixels else app.lastPointerX_)
            (if hit.onQuad then hit.yPixels else app.lastPointerY_) 0]
      ∧ (pollTrigger engine ⟨updateRays app hit leftHit, []⟩ hit trig).app.pointerDown_ = false
      ∧ (pollTrigger engine ⟨updateRays app hit leftHit, []⟩ hit trig).app.triggerPressed_ = false
      ∧ (pollTrigger engine ⟨updateRays app hit leftHit, []⟩ hit trig).app.pointerAdded_ = true := by
    rw [pollTrigger_forms, hnow]
    cases hactive : trig.isActive <;> cases hsend : engine 0 <;>
      simp [triggerTransition_closed, u1, u2, u3, u4, u8, u9, hpressed, hdown, hadded, heng,
        hsend]
  obtain ⟨t1, t2, t3, t4⟩ := htrig
  rw [poll_focused k engine app hit leftHit trig rs ls hset hfoc]
  split
  · exact ⟨⟨[], by rw [t1], by simp [transitions]⟩, t2, t3, t4⟩
  · cases rs with
    | none => exact ⟨⟨[], by rw [t1], by simp [transitions]⟩, t2, t3, t4⟩
    | some rs =>
      cases ls with
      | none => exact ⟨⟨[], by rw [t1], by simp [transitions]⟩, t2, t3, t4⟩
      | some ls =>
        obtain ⟨S, hS, hST, _, _, hd, ht, ha⟩ := pollScroll_phases k engine
          (pollTrigger engine ⟨updateRays app hit leftHit, []⟩ hit trig) hit leftHit rs ls
        simp only []
        refine ⟨⟨S, by rw [hS, t1]; rfl, hST⟩, by rw [hd, t2], by rw [ht, t3], ha t4⟩

theorem falling_edge_up_witness :
    (∃ rest,
        (PollInput sampleScrollConstants engineAccepts pressedApp
            ⟨true, some surfaceHit, some surfaceHit, some ⟨true, 0⟩, some idleScroll,
              some idleScroll⟩).events
            = pointerEvent FlutterPointerPhase.kUp
                (if surfaceHit.onQuad then surfaceHit.xPixels else pressedApp.lastPointerX_)
                (if surfaceHit.onQuad then surfaceHit.yPixels else pressedApp.lastPointerY_) 0
              :: rest
          ∧ transitions rest = [])
      ∧ (PollInput sampleScrollConstants engineAccepts pressedApp
          ⟨true, some surfaceHit, some surfaceHit, some ⟨true, 0⟩, some idleScroll,
            some idleScroll⟩).app.pointerDown_ = false :=
  ⟨(falling_edge_up sampleScrollConstants engineAccepts pressedApp surfaceHit surfaceHit ⟨true, 0⟩
      (some idleScroll) (some idleScroll) (by decide) (by decide) rfl rfl rfl (fun _ => rfl)
      (Or.inr (by norm_num [kTriggerReleaseThreshold]))).1,
   (falling_edge_up sampleScrollConstants engineAccepts pressedApp surfaceHit surfaceHit ⟨true, 0⟩
      (some idleScroll) (some idleScroll) (by decide) (by decide) rfl rfl rfl (fun _ => rfl)
      (Or.inr (by norm_num [kTriggerReleaseThreshold]))).2.1⟩


/-- The trigger statements on a run whose pointer is added hand the engine no add event
and leave the pointer added. -/
theorem triggerTransition_no_add (engine : Nat → Bool) (r : Run) (hit : PointerHitResult)
    (inputActive pressed : Bool) (hadded : r.app.pointerAdded_ = true) :
    ∃ T, (triggerTransition engine r hit inputActive pressed).events = r.events ++ T
      ∧ (∀ e ∈ T, e.isAdd = false)
      ∧ (triggerTransition engine r hit inputActive pressed).app.pointerAdded_ = true := by
  rw [triggerTransition_closed]
  split_ifs <;>
    simp_all [pointerEvent, FlutterPointerEvent.isAdd]

theorem poll_no_add (k : ScrollConstants) (engine : Nat → Bool) (app : FlutterXrApp)
    (env : PollEnv) (hadded : app.pointerAdded_ = true) :
    (PollInput k engine app env).app.pointerAdded_ = true
      ∧ ∀ e ∈ (PollInput k engine app env).events, e.isAdd = false := by
  have htrig : ∀ hit leftHit trig,
      (pollTrigger engine ⟨updateRays app hit leftHit, []⟩ hit trig).app.pointerAdded_ = true
        ∧ ∀ e ∈ (pollTrigger engine ⟨updateRays app hit leftHit, []⟩ hit trig).events,
            e.isAdd = false := by
    intro hit leftHit trig
    have hr : (⟨updateRays app hit leftHit, []⟩ : Run).app.pointerAdded_ = true := by
      rw [(updateRays_keeps app hit leftHit).2.1]; exact hadded
    rw [pollTrigger_forms]
    split
    · obtain ⟨T, hT, hno, ha⟩ := triggerTransition_no_add engine _ hit true
        (pressedNow (updateRays app hit leftHit).triggerPressed_ trig.currentState) hr
      refine ⟨ha, ?_⟩
      rw [hT]
      simpa using hno
    · obtain ⟨T, hT, hno, ha⟩ := triggerTransition_no_add engine _ hit false false hr
      refine ⟨ha, ?_⟩
      rw [hT]
      simpa using hno
  refine poll_cases k engine app env
    (fun a events => a.pointerAdded_ = true ∧ ∀ e ∈ events, e.isAdd = false)
    ⟨hadded, by simp⟩ ?_ ?_ htrig ?_
  · intro _
    rw [releasePointer_closed]
    refine ⟨hadded, ?_⟩
    simp only [List.nil_append]
    split_ifs <;> simp [pointerEvent, FlutterPointerEvent.isAdd]
  · intro hit leftHit
    exact ⟨by rw [(updateRays_keeps app hit leftHit).2.1]; exact hadded, by simp⟩
  · intro hit leftHit trig rs ls _ _
    obtain ⟨ha, hno⟩ := htrig hit leftHit trig
    obtain ⟨S, hS, _, hnoS, _, _, _, hkeep⟩ := pollScroll_phases k engine
      (pollTrigger engine ⟨updateRays app hit leftHit, []⟩ hit trig) hit leftHit rs ls
    refine ⟨hkeep ha, ?_⟩
    rw [hS]
    intro e he
    rcases List.mem_append.mp he with h | h
    · exact hno e h
    · exact hnoS ha e h

theorem sessionStateChanged_no_add (engine : Nat → Bool) (app : FlutterXrApp)
    (state : XrSessionState) (xrOk : Bool) (hadded : app.pointerAdded_ = true) :
    (HandleSessionStateChanged engine app state xrOk).app.pointerAdded_ = true
      ∧ ∀ e ∈ (HandleSessionStateChanged engine app state xrOk).events, e.isAdd = false := by
  cases state <;> cases xrOk <;>
    simp only [HandleSessionStateChanged, releasePointer_closed] <;>
    refine ⟨by simpa using hadded, ?_⟩ <;>
    intro e he <;>
    (try split_ifs at he) <;>
    simp_all [pointerEvent, FlutterPointerEvent.isAdd]

/-- Once the pointer is added, no sequence of calls without a `Shutdown` hands the
engine an add event, and the pointer stays added. -/
theorem inputTrace_no_add (k : ScrollConstants) (app : FlutterXrApp)
    (hadded : app.pointerAdded_ = true) (ops : List InputOp) :
    (∀ op ∈ ops, ∀ engine, op ≠ InputOp.shutdown engine) →
      (inputTrace k app ops).1.pointerAdded_ = true
        ∧ ∀ e ∈ (inputTrace k app ops).2, e.isAdd = false := by
  induction ops using List.reverseRecOn with
  | nil =>
    intro _
    exact ⟨by simpa [inputTrace] using hadded, by simp [inputTrace]⟩
  | append_singleton ops op ih =>
    intro hops
    obtain ⟨ha, hno⟩ := ih (fun o ho => hops o (List.mem_append_left _ ho))
    have hop := hops op (by simp)
    rw [inputTrace_snoc]
    have hstep : (inputStep k (inputTrace k app ops).1 op).pointerAdded_ = true
        ∧ ∀ e ∈ inputEvents k (inputTrace k app ops).1 op, e.isAdd = false := by
      cases op with
      | poll engine env => exact poll_no_add k engine _ env ha
      | sessionStateChanged engine state xrOk =>
        exact sessionStateChanged_no_add engine _ state xrOk ha
      | ensurePointerAdded engine x y =>
        simp [inputStep, inputEvents, ensure_closed, ha]
      | shutdown engine => exact absurd rfl (hop engine)
    refine ⟨hstep.1, ?_⟩
    intro e he
    rcases List.mem_append.mp he with h | h
    · exact hno e h
    · exact hstep.2 e h

set_option maxHeartbeats 1000000 in
/-- C22 (add-then-down is atomic). In a focused poll of an initialised application
(action set and engine exist; the runtime calls up to the trigger read succeed) with
a rising trigger edge (`triggerPressed_` false, trigger active with a value of at least
the press threshold), the right-hand ray on the surface and the pointer neither added
nor down: the first event handed to the engine is an add event at the hit coordinates.
If that send fails, the poll hands the engine no down event, `pointerAdded_` and
`pointerDown_` are false after the trigger statements, `pointerDown_` is false after
the poll, and `pointerAdded_` is false after the poll unless the scroll statements of
the same poll sent a further add event. If it succeeds, the second event is a down
event with the primary button at the same coordinates, no further add or down event
follows, `pointerAdded_` is true and `pointerDown_` is true exactly when the second send
succeeds. From a state with `pointerAdded_` true, no sequence of later calls without a
`Shutdown` hands the engine an add event, and `pointerAdded_` stays true. -/
theorem add_then_down_atomic (k : ScrollConstants) (engine : Nat → Bool) (app : FlutterXrApp)
    (hit leftHit : PointerHitResult) (trig : XrActionStateFloat)
    (rs ls : Option XrActionStateVector2f)
    (hset : app.inputActionSet_ ≠ XR_NULL_HANDLE)
    (heng : app.flutterEngine_ ≠ XR_NULL_HANDLE)
    (hfoc : app.sessionState_ = XrSessionState.FOCUSED)
    (hpressed : app.triggerPressed_ = false)
    (hactive : trig.isActive = true) (hvalue : kTriggerPressThreshold ≤ trig.currentState)
    (hquad : hit.onQuad = true)
    (hadded : app.pointerAdded_ = false) (hdown : app.pointerDown_ = false) :
    (∃ rest,
        (PollInput k engine app ⟨true, some hit, some leftHit, some trig, rs, ls⟩).events
            = pointerEvent FlutterPointerPhase.kAdd hit.xPixels hit.yPixels 0 :: rest
          ∧ (engine 0 = false →
              (∀ e ∈ (PollInput k engine app
                    ⟨true, some hit, some leftHit, some trig, rs, ls⟩).events, e.isDown = false)
                ∧ (pollTrigger engine ⟨updateRays app hit leftHit, []⟩ hit trig).app.pointerAdded_
                    = false
                ∧ (pollTrigger engine ⟨updateRays app hit leftHit, []⟩ hit trig).app.pointerDown_
                    = false
                ∧ (PollInput k engine app
                    ⟨true, some hit, some leftHit, some trig, rs, ls⟩).app.pointerDown_ = false
                ∧ ((PollInput k engine app
                      ⟨true, some hit, some leftHit, some trig, rs, ls⟩).app.pointerAdded_ = false
                    ∨ ∃ e ∈ rest, e.isAdd = true))
          ∧ (engine 0 = true →
              ∃ later,
                rest = pointerEvent FlutterPointerPhase.kDown hit.xPixels hit.yPixels
                    kFlutterPointerButtonMousePrimary :: later
                  ∧ (∀ e ∈ later, e.isAdd = false ∧ e.isDown = false)
                  ∧ (PollInput k engine app
                      ⟨true, some hit, some leftHit, some trig, rs, ls⟩).app.pointerAdded_ = true
                  ∧ (PollInput k engine app
                      ⟨true, some hit, some leftHit, some trig, rs, ls⟩).app.pointerDown_
                      = engine 1))
      ∧ ∀ (later : FlutterXrApp) (ops : List InputOp), later.pointerAdded_ = true →
          (∀ op ∈ ops, ∀ e, op ≠ InputOp.shutdown e) →
          (inputTrace k later ops).1.pointerAdded_ = true
            ∧ ∀ e ∈ (inputTrace k later ops).2, e.isAdd = false := by
  refine ⟨?_, fun later ops h hops => inputTrace_no_add k later h ops hops⟩
  obtain ⟨u1, u2, u3, u4, u5, u6, u7, u8, u9⟩ := updateRays_keeps app hit leftHit
  have hnow : pressedNow (updateRays app hit leftHit).triggerPressed_ trig.currentState = true := by
    simp [u1, hpressed, pressedNow, hvalue]
  -- the trigger statements
  have htrig : pollTrigger engine ⟨updateRays app hit leftHit, []⟩ hit trig
      = if engine 0 then
          if engine 1 then
            ⟨{ updateRays app hit leftHit with
                lastPointerX_ := hit.xPixels, lastPointerY_ := hit.yPixels
                pointerAdded_ := true, pointerDown_ := true, triggerPressed_ := true },
              [pointerEvent FlutterPointerPhase.kAdd hit.xPixels hit.yPixels 0,
                pointerEvent FlutterPointerPhase.kDown hit.xPixels hit.yPixels
                  kFlutterPointerButtonMousePrimary]⟩
          else
            ⟨{ updateRays app hit leftHit with
                lastPointerX_ := hit.xPixels, lastPointerY_ := hit.yPixels
                pointerAdded_ := true, triggerPressed_ := true },
              [pointerEvent FlutterPointerPhase.kAdd hit.xPixels hit.yPixels 0,
                pointerEvent FlutterPointerPhase.kDown hit.xPixels hit.yPixels
                  kFlutterPointerButtonMousePrimary]⟩
        else
          ⟨{ updateRays app hit leftHit with triggerPressed_ := true },
            [pointerEvent FlutterPointerPhase.kAdd hit.xPixels hit.yPixels 0]⟩ := by
    rw [pollTrigger_forms, if_pos hactive, hnow, triggerTransition_closed]
    simp [u1, u2, u4, hpressed, hadded, heng, hquad]
  -- what the poll adds after the trigger statements
  have hpoll : ∃ S,
      (PollInput k engine app ⟨true, some hit, some leftHit, some trig, rs, ls⟩).events
          = (pollTrigger engine ⟨updateRays app hit leftHit, []⟩ hit trig).events ++ S
        ∧ transitions S = []
        ∧ ((pollTrigger engine ⟨updateRays app hit leftHit, []⟩ hit trig).app.pointerAdded_ = true →
            ∀ e ∈ S, e.isAdd = false)
        ∧ ((PollInput k engine app
              ⟨true, some hit, some leftHit, some trig, rs, ls⟩).app.pointerAdded_ = true →
            (pollTrigger engine ⟨updateRays app hit leftHit, []⟩ hit trig).app.pointerAdded_ = true
              ∨ ∃ e ∈ S, e.isAdd = true)
        ∧ (PollInput k engine app
              ⟨true, some hit, some leftHit, some trig, rs, ls⟩).app.pointerDown_
            = (pollTrigger engine ⟨updateRays app hit leftHit, []⟩ hit trig).app.pointerDown_
        ∧ ((pollTrigger engine ⟨updateRays app hit leftHit, []⟩ hit trig).app.pointerAdded_ = true →
            (PollInput k engine app
              ⟨true, some hit, some leftHit, some trig, rs, ls⟩).app.pointerAdded_ = true) := by
    rw [poll_focused k engine app hit leftHit trig rs ls hset hfoc]
    have hnone : ∃ S,
        (pollTrigger engine ⟨updateRays app hit leftHit, []⟩ hit trig).events
            = (pollTrigger engine ⟨updateRays app hit leftHit, []⟩ hit trig).events ++ S
          ∧ transitions S = []
          ∧ ((pollTrigger engine ⟨updateRays app hit leftHit, []⟩ hit trig).app.pointerAdded_
                = true → ∀ e ∈ S, e.isAdd = false)
          ∧ ((pollTrigger engine ⟨updateRays app hit leftHit, []⟩ hit trig).app.pointerAdded_
                = true →
              (pollTrigger engine ⟨updateRays app hit leftHit, []⟩ hit trig).app.pointerAdded_
                  = true ∨ ∃ e ∈ S, e.isAdd = true)
          ∧ (pollTrigger engine ⟨updateRays app hit leftHit, []⟩ hit trig).app.pointerDown_
              = (pollTrigger engine ⟨updateRays app hit leftHit, []⟩ hit trig).app.pointerDown_
          ∧ ((pollTrigger engine ⟨updateRays app hit leftHit, []⟩ hit trig).app.pointerAdded_
                = true →
              (pollTrigger engine ⟨updateRays app hit leftHit, []⟩ hit trig).app.pointerAdded_
                = true) :=
      ⟨[], by simp, by simp [transitions], by simp, fun h => Or.inl h, rfl, fun h => h⟩
    split
    · exact hnone
    · cases rs with
      | none => exact hnone
      | some rs =>
        cases ls with
        | none => exact hnone
        | some ls =>
          obtain ⟨S, hS, hST, hno, hsome, hd, _, hkeep⟩ := pollScroll_phases k engine
            (pollTrigger engine ⟨updateRays app hit leftHit, []⟩ hit trig) hit leftHit rs ls
          exact ⟨S, hS, hST, hno, hsome, hd, hkeep⟩
  obtain ⟨S, hS, hST, hno, hsome, hd, hkeep⟩ := hpoll
  have hSdown : ∀ e ∈ S, e.isDown = false := by
    intro e he
    have hmem : e ∉ transitions S := by rw [hST]; simp
    have : e.isTransition = false := by
      by_contra hc
      exact hmem (List.mem_filter.mpr ⟨he, by simpa using hc⟩)
    simp only [FlutterPointerEvent.isTransition, Bool.or_eq_false_iff] at this
    exact this.1
  cases h0 : engine 0 with
  | false =>
    rw [h0] at htrig
    simp only [Bool.false_eq_true, if_false] at htrig
    have hta : (pollTrigger engine ⟨updateRays app hit leftHit, []⟩ hit trig).app.pointerAdded_
        = false := by
      rw [htrig]
      exact u2.trans hadded
    have hte : (pollTrigger engine ⟨updateRays app hit leftHit, []⟩ hit trig).events
        = [pointerEvent FlutterPointerPhase.kAdd hit.xPixels hit.yPixels 0] := by
      rw [htrig]
    have htd : (pollTrigger engine ⟨updateRays app hit leftHit, []⟩ hit trig).app.pointerDown_
        = false := by
      rw [htrig]
      exact u3.trans hdown
    refine ⟨S, by rw [hS, hte]; rfl, ?_, by simp⟩
    intro _
    refine ⟨?_, hta, htd, by rw [hd, htd], ?_⟩
    · rw [hS, hte]
      intro e he
      rcases List.mem_append.mp he with h | h
      · simp only [List.mem_singleton] at h
        subst h
        simp [pointerEvent, FlutterPointerEvent.isDown]
      · exact hSdown e h
    · by_cases hend : (PollInput k engine app
          ⟨true, some hit, some leftHit, some trig, rs, ls⟩).app.pointerAdded_ = true
      · rcases hsome hend with h | h
        · rw [hta] at h
          exact absurd h (by simp)
        · exact Or.inr h
      · exact Or.inl (by simpa using hend)
  | true =>
    rw [h0] at htrig
    simp only [if_true] at htrig
    have hta : (pollTrigger engine ⟨updateRays app hit leftHit, []⟩ hit trig).app.pointerAdded_
        = true := by
      rw [htrig]; split <;> rfl
    have hte : (pollTrigger engine ⟨updateRays app hit leftHit, []⟩ hit trig).events
        = [pointerEvent FlutterPointerPhase.kAdd hit.xPixels hit.yPixels 0,
            pointerEvent FlutterPointerPhase.kDown hit.xPixels hit.yPixels
              kFlutterPointerButtonMousePrimary] := by
      rw [htrig]; split <;> rfl
    have htd : (pollTrigger engine ⟨updateRays app hit leftHit, []⟩ hit trig).app.pointerDown_
        = engine 1 := by
      rw [htrig]
      cases h1 : engine 1
      · simpa [u3] using hdown
      · simp
    refine ⟨pointerEvent FlutterPointerPhase.kDown hit.xPixels hit.yPixels
        kFlutterPointerButtonMousePrimary :: S, by rw [hS, hte]; rfl, by simp, ?_⟩
    intro _
    exact ⟨S, rfl, fun e he => ⟨hno hta e he, hSdown e he⟩, hkeep hta, by rw [hd, htd]⟩

/-- First press on the surface, with an engine that accepts every event. -/
theorem add_then_down_atomic_witness :
    ∃ rest,
      (PollInput sampleScrollConstants engineAccepts runningApp
          ⟨true, some surfaceHit, some surfaceHit, some ⟨true, 1⟩, some idleScroll,
            some idleScroll⟩).events
          = pointerEvent FlutterPointerPhase.kAdd surfaceHit.xPixels surfaceHit.yPixels 0 :: rest :=
  (add_then_down_atomic sampleScrollConstants engineAccepts runningApp surfaceHit surfaceHit
    ⟨true, 1⟩ (some idleScroll) (some idleScroll) (by decide) (by decide) rfl rfl rfl
    (by norm_num [kTriggerPressThreshold]) rfl rfl rfl).1.imp (fun _ h => h.1)

/-! ## Pointer input: scroll arbitration and scroll coordinates -/

/-- The scroll events of the scroll statements: their deltas are `scrollDeltas` of the
chosen axis and their coordinates those of the hit that `SelectScrollHit` returns, or the
last known coordinates when it returns null; in that case the only event is the scroll
event, sent exactly when the pointer is added. -/
theorem pollScroll_scroll_events (k : ScrollConstants) (engine : Nat → Bool) (r : Run)
    (hit leftHit : PointerHitResult) (rs ls : XrActionStateVector2f) :
    ∃ S, (pollScroll k engine r hit leftHit rs ls).events = r.events ++ S
      ∧ (∀ e ∈ S, e.isScroll = true →
          e.scroll_delta_x = (scrollDeltas k (chooseScrollAxis r.app rs ls).1).1
            ∧ e.scroll_delta_y = (scrollDeltas k (chooseScrollAxis r.app rs ls).1).2
            ∧ (e.x, e.y)
                = match SelectScrollHit (chooseScrollAxis r.app rs ls).2 r.app.leftHandPath_
                    hit leftHit with
                  | some h => (h.xPixels, h.yPixels)
                  | none => (r.app.lastPointerX_, r.app.lastPointerY_))
      ∧ (SelectScrollHit (chooseScrollAxis r.app rs ls).2 r.app.leftHandPath_ hit leftHit = none →
          S = if ¬ (|(scrollDeltas k (chooseScrollAxis r.app rs ls).1).1|
                      ≤ k.kScrollDeltaEpsilonPixels
                    ∧ |(scrollDeltas k (chooseScrollAxis r.app rs ls).1).2|
                      ≤ k.kScrollDeltaEpsilonPixels)
                  ∧ r.app.pointerAdded_ = true ∧ r.app.flutterEngine_ ≠ XR_NULL_HANDLE then
                [scrollEvent r.app.pointerDown_ r.app.lastPointerX_ r.app.lastPointerY_
                  (scrollDeltas k (chooseScrollAxis r.app rs ls).1).1
                  (scrollDeltas k (chooseScrollAxis r.app rs ls).1).2]
              else [])
      ∧ ((|(scrollDeltas k (chooseScrollAxis r.app rs ls).1).1| ≤ k.kScrollDeltaEpsilonPixels
            ∧ |(scrollDeltas k (chooseScrollAxis r.app rs ls).1).2|
              ≤ k.kScrollDeltaEpsilonPixels) → S = []) := by
  rw [pollScroll_deltas]
  split
  · rename_i heps
    exact ⟨[], by simp, by simp, fun _ => by simp [heps], fun _ => rfl⟩
  · rename_i heps
    rw [sendScrollAt_closed]
    cases hsel : SelectScrollHit (chooseScrollAxis r.app rs ls).2 r.app.leftHandPath_ hit leftHit
    · simp only []
      split_ifs <;>
        simp_all [scrollEvent, pointerEvent, FlutterPointerEvent.isScroll]
    · simp only []
      by_cases hd : r.app.pointerDown_ = true <;> split_ifs <;>
        simp_all [scrollEvent, pointerEvent, FlutterPointerEvent.isScroll]

/-- The function `SelectScrollHit` by the preferred hand. -/
theorem selectScrollHit_cases (preferred leftPath : Nat) (hit leftHit : PointerHitResult) :
    SelectScrollHit preferred leftPath hit leftHit
      = if preferred = leftPath then
          (if leftHit.onQuad then some leftHit else if hit.onQuad then some hit else none)
        else (if hit.onQuad then some hit else if leftHit.onQuad then some leftHit else none) := by
  unfold SelectScrollHit
  by_cases h : preferred = leftPath <;> simp [h]

theorem selectScrollHit_spec (preferred leftPath : Nat) (hit leftHit : PointerHitResult)
    (lastX lastY : ℚ) :
    (match SelectScrollHit preferred leftPath hit leftHit with
      | some h => (h.xPixels, h.yPixels)
      | none => (lastX, lastY))
      = if preferred = leftPath then specScrollCoordinates leftHit hit lastX lastY
        else specScrollCoordinates hit leftHit lastX lastY := by
  rw [selectScrollHit_cases]
  unfold specScrollCoordinates
  by_cases h : preferred = leftPath <;> cases hit.onQuad <;> cases leftHit.onQuad <;> simp [h]

/-- The chosen scroll input, case by case. -/
theorem chooseScrollAxis_cases (app : FlutterXrApp) (rs ls : XrActionStateVector2f) :
    (rs.isActive = true → ls.isActive = true →
        MagnitudeSquared rs.currentState < MagnitudeSquared ls.currentState →
        chooseScrollAxis app rs ls = (ls.currentState, app.leftHandPath_))
      ∧ (rs.isActive = true → ls.isActive = true →
          ¬ MagnitudeSquared rs.currentState < MagnitudeSquared ls.currentState →
          chooseScrollAxis app rs ls = (rs.currentState, app.rightHandPath_))
      ∧ (rs.isActive = true → ls.isActive = false →
          chooseScrollAxis app rs ls = (rs.currentState, app.rightHandPath_))
      ∧ (rs.isActive = false → ls.isActive = true →
          chooseScrollAxis app rs ls = (ls.currentState, app.leftHandPath_))
      ∧ (rs.isActive = false → ls.isActive = false →
          chooseScrollAxis app rs ls = (⟨0, 0⟩, app.rightHandPath_)) := by
  unfold chooseScrollAxis
  refine ⟨?_, ?_, ?_, ?_, ?_⟩ <;> intros <;> simp_all

/-- The chosen axis vector does not depend on the members. -/
theorem chooseScrollAxis_vector (app other : FlutterXrApp) (rs ls : XrActionStateVector2f) :
    (chooseScrollAxis app rs ls).1 = (chooseScrollAxis other rs ls).1 := by
  unfold chooseScrollAxis
  simp only []
  split_ifs <;> rfl

theorem chooseScrollAxis_path (app other : FlutterXrApp) (rs ls : XrActionStateVector2f)
    (hleft : other.leftHandPath_ = app.leftHandPath_)
    (hright : other.rightHandPath_ = app.rightHandPath_) :
    (chooseScrollAxis other rs ls).2 = (chooseScrollAxis app rs ls).2 := by
  unfold chooseScrollAxis
  simp only []
  split_ifs <;> simp [hleft, hright]

theorem triggerTransition_keeps_paths (engine : Nat → Bool) (r : Run) (hit : PointerHitResult)
    (inputActive pressed : Bool) :
    (triggerTransition engine r hit inputActive pressed).app.leftHandPath_ = r.app.leftHandPath_
      ∧ (triggerTransition engine r hit inputActive pressed).app.rightHandPath_
        = r.app.rightHandPath_ := by
  rw [triggerTransition_closed]
  split_ifs <;> simp

/-- The trigger statements with the right-hand ray off the surface: the only event they
can hand to the engine is an up event, and they leave `pointerAdded_` and the value of
the last known coordinates as they were. -/
theorem triggerTransition_off_surface (engine : Nat → Bool) (r : Run) (hit : PointerHitResult)
    (inputActive pressed : Bool) (hoff : hit.onQuad = false) :
    (triggerTransition engine r hit inputActive pressed).app.lastPointerX_ = r.app.lastPointerX_
      ∧ (triggerTransition engine r hit inputActive pressed).app.lastPointerY_
        = r.app.lastPointerY_
      ∧ (triggerTransition engine r hit inputActive pressed).app.pointerAdded_
        = r.app.pointerAdded_
      ∧ (triggerTransition engine r hit inputActive pressed).app.flutterEngine_
        = r.app.flutterEngine_
      ∧ ∃ T, (triggerTransition engine r hit inputActive pressed).events = r.events ++ T
          ∧ ∀ e ∈ T, e.phase = FlutterPointerPhase.kUp := by
  rw [triggerTransition_closed]
  simp only [hoff, Bool.false_and, Bool.false_eq_true, if_false]
  split_ifs <;> simp [pointerEvent]

/-- The trigger statements hand the engine no scroll event and keep the hand paths. -/
theorem pollTrigger_paths (engine : Nat → Bool) (app : FlutterXrApp)
    (hit leftHit : PointerHitResult) (trig : XrActionStateFloat) :
    (pollTrigger engine ⟨updateRays app hit leftHit, []⟩ hit trig).app.leftHandPath_
        = app.leftHandPath_
      ∧ (pollTrigger engine ⟨updateRays app hit leftHit, []⟩ hit trig).app.rightHandPath_
        = app.rightHandPath_
      ∧ ∀ e ∈ (pollTrigger engine ⟨updateRays app hit leftHit, []⟩ hit trig).events,
          e.isScroll = false := by
  have hl : (updateRays app hit leftHit).leftHandPath_ = app.leftHandPath_ := by
    simp [updateRays]
  have hr : (updateRays app hit leftHit).rightHandPath_ = app.rightHandPath_ := by
    simp [updateRays]
  rw [pollTrigger_forms]
  split
  · obtain ⟨p1, p2⟩ := triggerTransition_keeps_paths engine ⟨updateRays app hit leftHit, []⟩ hit
      true (pressedNow (updateRays app hit leftHit).triggerPressed_ trig.currentState)
    obtain ⟨T, hT, _, hno⟩ := triggerTransition_events engine ⟨updateRays app hit leftHit, []⟩ hit
      true (pressedNow (updateRays app hit leftHit).triggerPressed_ trig.currentState)
    refine ⟨p1.trans hl, p2.trans hr, ?_⟩
    rw [hT]
    simpa using hno
  · obtain ⟨p1, p2⟩ := triggerTransition_keeps_paths engine ⟨updateRays app hit leftHit, []⟩ hit
      false false
    obtain ⟨T, hT, _, hno⟩ := triggerTransition_events engine ⟨updateRays app hit leftHit, []⟩ hit
      false false
    refine ⟨p1.trans hl, p2.trans hr, ?_⟩
    rw [hT]
    simpa using hno

theorem pollTrigger_off_surface (engine : Nat → Bool) (app : FlutterXrApp)
    (hit leftHit : PointerHitResult) (trig : XrActionStateFloat) (hoff : hit.onQuad = false) :
    (pollTrigger engine ⟨updateRays app hit leftHit, []⟩ hit trig).app.lastPointerX_
        = app.lastPointerX_
      ∧ (pollTrigger engine ⟨updateRays app hit leftHit, []⟩ hit trig).app.lastPointerY_
        = app.lastPointerY_
      ∧ (pollTrigger engine ⟨updateRays app hit leftHit, []⟩ hit trig).app.pointerAdded_
        = app.pointerAdded_
      ∧ (pollTrigger engine ⟨updateRays app hit leftHit, []⟩ hit trig).app.flutterEngine_
        = app.flutterEngine_
      ∧ ∀ e ∈ (pollTrigger engine ⟨updateRays app hit leftHit, []⟩ hit trig).events,
          e.phase = FlutterPointerPhase.kUp := by
  obtain ⟨u1, u2, u3, u4, u5, u6, u7, u8, u9⟩ := updateRays_keeps app hit leftHit
  rw [pollTrigger_forms]
  split
  · obtain ⟨o1, o2, o3, o4, T, hT, hup⟩ := triggerTransition_off_surface engine
      ⟨updateRays app hit leftHit, []⟩ hit true
      (pressedNow (updateRays app hit leftHit).triggerPressed_ trig.currentState) hoff
    refine ⟨o1.trans u8, o2.trans u9, o3.trans u2, o4.trans u4, ?_⟩
    rw [hT]
    simpa using hup
  · obtain ⟨o1, o2, o3, o4, T, hT, hup⟩ := triggerTransition_off_surface engine
      ⟨updateRays app hit leftHit, []⟩ hit false false hoff
    refine ⟨o1.trans u8, o2.trans u9, o3.trans u2, o4.trans u4, ?_⟩
    rw [hT]
    simpa using hup

/-- What a focused poll in which no runtime call fails hands to the engine: the events
of the trigger statements, followed by those of the scroll statements when the scroll
action and the engine exist. -/
theorem poll_scroll_forms (k : ScrollConstants) (engine : Nat → Bool) (app : FlutterXrApp)
    (hit leftHit : PointerHitResult) (trig : XrActionStateFloat)
    (rs ls : XrActionStateVector2f)
    (hset : app.inputActionSet_ ≠ XR_NULL_HANDLE)
    (hfoc : app.sessionState_ = XrSessionState.FOCUSED) :
    PollInput k engine app ⟨true, some hit, some leftHit, some trig, some rs, some ls⟩
      = if app.scrollVectorAction_ = XR_NULL_HANDLE ∨ app.flutterEngine_ = XR_NULL_HANDLE then
          ⟨(pollTrigger engine ⟨updateRays app hit leftHit, []⟩ hit trig).app,
            (pollTrigger engine ⟨updateRays app hit leftHit, []⟩ hit trig).events, false⟩
        else
          ⟨(pollScroll k engine (pollTrigger engine ⟨updateRays app hit leftHit, []⟩ hit trig)
              hit leftHit rs ls).app,
            (pollScroll k engine (pollTrigger engine ⟨updateRays app hit leftHit, []⟩ hit trig)
              hit leftHit rs ls).events, false⟩ := by
  rw [poll_focused k engine app hit leftHit trig (some rs) (some ls) hset hfoc]

/-- The scroll events of a focused poll in which no runtime call fails. -/
theorem poll_scroll_events (k : ScrollConstants) (engine : Nat → Bool) (app : FlutterXrApp)
    (hit leftHit : PointerHitResult) (trig : XrActionStateFloat)
    (rs ls : XrActionStateVector2f)
    (hset : app.inputActionSet_ ≠ XR_NULL_HANDLE)
    (hfoc : app.sessionState_ = XrSessionState.FOCUSED) :
    ∃ S,
      (PollInput k engine app ⟨true, some hit, some leftHit, some trig, some rs, some ls⟩).events
          = (pollTrigger engine ⟨updateRays app hit leftHit, []⟩ hit trig).events ++ S
        ∧ (∀ e ∈ S, e.isScroll = true →
            e.scroll_delta_x = (scrollDeltas k (chooseScrollAxis app rs ls).1).1
              ∧ e.scroll_delta_y = (scrollDeltas k (chooseScrollAxis app rs ls).1).2
              ∧ (e.x, e.y)
                  = if (chooseScrollAxis app rs ls).2 = app.leftHandPath_ then
                      specScrollCoordinates leftHit hit
                        (pollTrigger engine ⟨updateRays app hit leftHit, []⟩ hit trig).app.lastPointerX_
                        (pollTrigger engine ⟨updateRays app hit leftHit, []⟩ hit trig).app.lastPointerY_
                    else
                      specScrollCoordinates hit leftHit
                        (pollTrigger engine ⟨updateRays app hit leftHit, []⟩ hit trig).app.lastPointerX_
                        (pollTrigger engine ⟨updateRays app hit leftHit, []⟩ hit trig).app.lastPointerY_)
        ∧ (hit.onQuad = false → leftHit.onQuad = false →
            S = if ¬ (|(scrollDeltas k (chooseScrollAxis app rs ls).1).1|
                        ≤ k.kScrollDeltaEpsilonPixels
                      ∧ |(scrollDeltas k (chooseScrollAxis app rs ls).1).2|
                        ≤ k.kScrollDeltaEpsilonPixels)
                    ∧ app.pointerAdded_ = true ∧ app.scrollVectorAction_ ≠ XR_NULL_HANDLE
                    ∧ app.flutterEngine_ ≠ XR_NULL_HANDLE then
                  [scrollEvent
                    (PollInput k engine app
                      ⟨true, some hit, some leftHit, some trig, some rs, some ls⟩).app.pointerDown_
                    app.lastPointerX_ app.lastPointerY_
                    (scrollDeltas k (chooseScrollAxis app rs ls).1).1
                    (scrollDeltas k (chooseScrollAxis app rs ls).1).2]
                else [])
        ∧ ((|(scrollDeltas k (chooseScrollAxis app rs ls).1).1| ≤ k.kScrollDeltaEpsilonPixels
              ∧ |(scrollDeltas k (chooseScrollAxis app rs ls).1).2|
                ≤ k.kScrollDeltaEpsilonPixels) → S = []) := by
  obtain ⟨hl, hr, _⟩ := pollTrigger_paths engine app hit leftHit trig
  rw [poll_scroll_forms k engine app hit leftHit trig rs ls hset hfoc]
  split
  · rename_i hguard
    refine ⟨[], by simp, by simp, ?_, fun _ => rfl⟩
    intro _ _
    rw [if_neg]
    rintro ⟨_, _, h1, h2⟩
    rcases hguard with h | h
    · exact h1 h
    · exact h2 h
  · rename_i hguard
    simp only [not_or] at hguard
    obtain ⟨S, hS, hscroll, hnone, heps⟩ := pollScroll_scroll_events k engine
      (pollTrigger engine ⟨updateRays app hit leftHit, []⟩ hit trig) hit leftHit rs ls
    rw [chooseScrollAxis_vector _ app] at hscroll hnone heps
    rw [chooseScrollAxis_path app _ rs ls hl hr, hl] at hscroll hnone
    refine ⟨S, hS, ?_, ?_, heps⟩
    · intro e he hes
      obtain ⟨h1, h2, h3⟩ := hscroll e he hes
      refine ⟨h1, h2, ?_⟩
      rw [h3, selectScrollHit_spec]
    · intro hoff hleftoff
      obtain ⟨o1, o2, o3, o4, _⟩ := pollTrigger_off_surface engine app hit leftHit trig hoff
      have hsel : SelectScrollHit (chooseScrollAxis app rs ls).2 app.leftHandPath_ hit leftHit
          = none := by
        rw [selectScrollHit_cases]
        simp [hoff, hleftoff]
      rw [hnone hsel, o1, o2, o3, o4]
      have hd := (pollScroll_keeps k engine
        (pollTrigger engine ⟨updateRays app hit leftHit, []⟩ hit trig) hit leftHit rs ls).2.1
      simp only [hd, hguard.1, hguard.2, ne_eq, not_false_eq_true, and_true]

/-- With one of the two rays on the surface the rule does not use the last known
coordinates. -/
theorem specScrollCoordinates_on (own other : PointerHitResult) (a b c d : ℚ)
    (h : own.onQuad = true ∨ other.onQuad = true) :
    specScrollCoordinates own other a b = specScrollCoordinates own other c d := by
  unfold specScrollCoordinates
  cases hown : own.onQuad
  · have hother : other.onQuad = true := by
      rcases h with h | h
      · rw [hown] at h; exact absurd h (by simp)
      · exact h
    simp [hother]
  · simp

/-- The scroll events of the scroll statements for an above-epsilon scroll with the
engine present: exactly one scroll event when the pointer is added or a ray selected by
`SelectScrollHit` lets the statements add it with a send that succeeds, and none
otherwise. -/
theorem pollScroll_sent (k : ScrollConstants) (engine : Nat → Bool) (r : Run)
    (hit leftHit : PointerHitResult) (rs ls : XrActionStateVector2f)
    (heng : r.app.flutterEngine_ ≠ XR_NULL_HANDLE)
    (habove : ¬ (|(scrollDeltas k (chooseScrollAxis r.app rs ls).1).1|
          ≤ k.kScrollDeltaEpsilonPixels
        ∧ |(scrollDeltas k (chooseScrollAxis r.app rs ls).1).2| ≤ k.kScrollDeltaEpsilonPixels)) :
    ∃ S, (pollScroll k engine r hit leftHit rs ls).events = r.events ++ S
      ∧ S.filter FlutterPointerEvent.isScroll
        = if r.app.pointerAdded_ = true
              ∨ ((SelectScrollHit (chooseScrollAxis r.app rs ls).2 r.app.leftHandPath_
                    hit leftHit).isSome = true
                  ∧ engine r.events.length = true) then
            [scrollEvent r.app.pointerDown_
              (((SelectScrollHit (chooseScrollAxis r.app rs ls).2 r.app.leftHandPath_
                  hit leftHit).map (fun h => (h.xPixels, h.yPixels))).getD
                (r.app.lastPointerX_, r.app.lastPointerY_)).1
              (((SelectScrollHit (chooseScrollAxis r.app rs ls).2 r.app.leftHandPath_
                  hit leftHit).map (fun h => (h.xPixels, h.yPixels))).getD
                (r.app.lastPointerX_, r.app.lastPointerY_)).2
              (scrollDeltas k (chooseScrollAxis r.app rs ls).1).1
              (scrollDeltas k (chooseScrollAxis r.app rs ls).1).2]
          else [] := by
  rw [pollScroll_deltas, if_neg habove, sendScrollAt_closed]
  cases hsel : SelectScrollHit (chooseScrollAxis r.app rs ls).2 r.app.leftHandPath_ hit leftHit
  · simp only []
    by_cases ha : r.app.pointerAdded_ = true
    · exact ⟨_, by rw [if_pos ha, if_neg heng], by simp [ha]⟩
    · exact ⟨[], by rw [if_neg ha]; simp, by simp [ha]⟩
  · simp only [if_neg heng]
    by_cases ha : r.app.pointerAdded_ = true
    · by_cases hd : r.app.pointerDown_ = true
      · exact ⟨_, by rw [if_pos ha, if_pos hd], by simp [ha, hd]⟩
      · exact ⟨_, by rw [if_pos ha, if_neg hd], by
          simp only [Bool.not_eq_true] at hd
          simp [ha, hd]⟩
    · by_cases he : engine r.events.length = true
      · by_cases hd : r.app.pointerDown_ = true
        · exact ⟨_, by rw [if_neg ha, if_pos he, if_pos hd], by simp [he, hd]⟩
        · exact ⟨_, by rw [if_neg ha, if_pos he, if_neg hd], by
            simp only [Bool.not_eq_true] at hd
            simp [he, hd]⟩
      · exact ⟨_, by rw [if_neg ha, if_neg he], by simp [ha, he]⟩

theorem selectScrollHit_coords (preferred leftPath : Nat) (hit leftHit : PointerHitResult)
    (lastX lastY : ℚ) :
    ((SelectScrollHit preferred leftPath hit leftHit).map
        (fun h => (h.xPixels, h.yPixels))).getD (lastX, lastY)
      = if preferred = leftPath then specScrollCoordinates leftHit hit lastX lastY
        else specScrollCoordinates hit leftHit lastX lastY := by
  rw [selectScrollHit_cases]
  unfold specScrollCoordinates
  by_cases h : preferred = leftPath <;> cases hit.onQuad <;> cases leftHit.onQuad <;> simp [h]

theorem selectScrollHit_isSome (preferred leftPath : Nat) (hit leftHit : PointerHitResult) :
    (SelectScrollHit preferred leftPath hit leftHit).isSome
      = (hit.onQuad || leftHit.onQuad) := by
  rw [selectScrollHit_cases]
  by_cases h : preferred = leftPath <;> cases hit.onQuad <;> cases leftHit.onQuad <;> simp [h]

/-- The trigger statements keep the engine and the value of `pointerAdded_` once true. -/
theorem pollTrigger_keeps_added (engine : Nat → Bool) (app : FlutterXrApp)
    (hit leftHit : PointerHitResult) (trig : XrActionStateFloat) :
    (pollTrigger engine ⟨updateRays app hit leftHit, []⟩ hit trig).app.flutterEngine_
        = app.flutterEngine_
      ∧ (app.pointerAdded_ = true →
          (pollTrigger engine ⟨updateRays app hit leftHit, []⟩ hit trig).app.pointerAdded_
            = true) := by
  obtain ⟨u1, u2, u3, u4, u5, u6, u7, u8, u9⟩ := updateRays_keeps app hit leftHit
  rw [pollTrigger_forms]
  split
  · obtain ⟨_, t2, _, _, _, t6, _⟩ := triggerTransition_keeps engine
      ⟨updateRays app hit leftHit, []⟩ hit true
      (pressedNow (updateRays app hit leftHit).triggerPressed_ trig.currentState)
    exact ⟨t2.trans u4, fun h => t6 (u2.trans h)⟩
  · obtain ⟨_, t2, _, _, _, t6, _⟩ := triggerTransition_keeps engine
      ⟨updateRays app hit leftHit, []⟩ hit false false
    exact ⟨t2.trans u4, fun h => t6 (u2.trans h)⟩

/-- The scroll events of a focused poll of an initialised application in which no
runtime call fails, for an above-epsilon scroll: exactly one, with the deltas of the
chosen axis and at the coordinates of the rule, when the pointer is added after the
trigger statements or a ray is on the surface and the send of the add event that the
scroll statements then make succeeds; none otherwise. -/
theorem poll_scroll_sent (k : ScrollConstants) (engine : Nat → Bool) (app : FlutterXrApp)
    (hit leftHit : PointerHitResult) (trig : XrActionStateFloat)
    (rs ls : XrActionStateVector2f)
    (hset : app.inputActionSet_ ≠ XR_NULL_HANDLE)
    (hfoc : app.sessionState_ = XrSessionState.FOCUSED)
    (hact : app.scrollVectorAction_ ≠ XR_NULL_HANDLE)
    (heng : app.flutterEngine_ ≠ XR_NULL_HANDLE)
    (habove : ¬ (|(scrollDeltas k (chooseScrollAxis app rs ls).1).1|
          ≤ k.kScrollDeltaEpsilonPixels
        ∧ |(scrollDeltas k (chooseScrollAxis app rs ls).1).2| ≤ k.kScrollDeltaEpsilonPixels)) :
    (PollInput k engine app
        ⟨true, some hit, some leftHit, some trig, some rs, some ls⟩).events.filter
        FlutterPointerEvent.isScroll
      = if (pollTrigger engine ⟨updateRays app hit leftHit, []⟩ hit trig).app.pointerAdded_ = true
            ∨ ((hit.onQuad = true ∨ leftHit.onQuad = true)
                ∧ engine (pollTrigger engine ⟨updateRays app hit leftHit, []⟩ hit
                    trig).events.length = true) then
          [scrollEvent
            (PollInput k engine app
              ⟨true, some hit, some leftHit, some trig, some rs, some ls⟩).app.pointerDown_
            (if (chooseScrollAxis app rs ls).2 = app.leftHandPath_ then
                specScrollCoordinates leftHit hit app.lastPointerX_ app.lastPointerY_
              else specScrollCoordinates hit leftHit app.lastPointerX_ app.lastPointerY_).1
            (if (chooseScrollAxis app rs ls).2 = app.leftHandPath_ then
                specScrollCoordinates leftHit hit app.lastPointerX_ app.lastPointerY_
              else specScrollCoordinates hit leftHit app.lastPointerX_ app.lastPointerY_).2
            (scrollDeltas k (chooseScrollAxis app rs ls).1).1
            (scrollDeltas k (chooseScrollAxis app rs ls).1).2]
        else [] := by
  obtain ⟨hl, hr, hnoscroll⟩ := pollTrigger_paths engine app hit leftHit trig
  obtain ⟨hte, _⟩ := pollTrigger_keeps_added engine app hit leftHit trig
  have hvec := chooseScrollAxis_vector
    (pollTrigger engine ⟨updateRays app hit leftHit, []⟩ hit trig).app app rs ls
  have hpath := chooseScrollAxis_path app
    (pollTrigger engine ⟨updateRays app hit leftHit, []⟩ hit trig).app rs ls hl hr
  obtain ⟨S, hS, hfilter⟩ := pollScroll_sent k engine
    (pollTrigger engine ⟨updateRays app hit leftHit, []⟩ hit trig) hit leftHit rs ls
    (by rw [hte]; exact heng) (by rw [hvec]; exact habove)
  have hd := (pollScroll_keeps k engine
    (pollTrigger engine ⟨updateRays app hit leftHit, []⟩ hit trig) hit leftHit rs ls).2.1
  have hlast : ∀ own other : PointerHitResult, own = hit ∨ other = hit →
      specScrollCoordinates own other
          (pollTrigger engine ⟨updateRays app hit leftHit, []⟩ hit trig).app.lastPointerX_
          (pollTrigger engine ⟨updateRays app hit leftHit, []⟩ hit trig).app.lastPointerY_
        = specScrollCoordinates own other app.lastPointerX_ app.lastPointerY_ := by
    intro own other hwhich
    cases hq : hit.onQuad
    · obtain ⟨o1, o2, _⟩ := pollTrigger_off_surface engine app hit leftHit trig hq
      rw [o1, o2]
    · exact specScrollCoordinates_on own other _ _ _ _
        (by rcases hwhich with h | h
            · exact Or.inl (by rw [h]; exact hq)
            · exact Or.inr (by rw [h]; exact hq))
  have hcoords : ((SelectScrollHit (chooseScrollAxis app rs ls).2 app.leftHandPath_
        hit leftHit).map (fun h => (h.xPixels, h.yPixels))).getD
        ((pollTrigger engine ⟨updateRays app hit leftHit, []⟩ hit trig).app.lastPointerX_,
          (pollTrigger engine ⟨updateRays app hit leftHit, []⟩ hit trig).app.lastPointerY_)
      = if (chooseScrollAxis app rs ls).2 = app.leftHandPath_ then
          specScrollCoordinates leftHit hit app.lastPointerX_ app.lastPointerY_
        else specScrollCoordinates hit leftHit app.lastPointerX_ app.lastPointerY_ := by
    rw [selectScrollHit_coords]
    split
    · exact hlast _ _ (Or.inr rfl)
    · exact hlast _ _ (Or.inl rfl)
  rw [hvec, hpath, hl, hcoords, selectScrollHit_isSome] at hfilter
  have hform : (PollInput k engine app
      ⟨true, some hit, some leftHit, some trig, some rs, some ls⟩).events.filter
      FlutterPointerEvent.isScroll = S.filter FlutterPointerEvent.isScroll
      ∧ (PollInput k engine app
        ⟨true, some hit, some leftHit, some trig, some rs, some ls⟩).app.pointerDown_
        = (pollTrigger engine ⟨updateRays app hit leftHit, []⟩ hit trig).app.pointerDown_ := by
    rw [poll_scroll_forms k engine app hit leftHit trig rs ls hset hfoc,
      if_neg (by simp [hact, heng])]
    refine ⟨?_, hd⟩
    simp only []
    rw [hS, List.filter_append]
    have : (pollTrigger engine ⟨updateRays app hit leftHit, []⟩ hit trig).events.filter
        FlutterPointerEvent.isScroll = [] := by
      rw [List.filter_eq_nil_iff]
      intro e he
      rw [hnoscroll e he]
      simp
    rw [this, List.nil_append]
  rw [hform.1, hform.2, hfilter]
  simp only [Bool.or_eq_true]

/-- C25 (scroll arbitration). With both scroll inputs active the chosen axis vector is
the left hand's when its squared magnitude is strictly greater than the right hand's
and the right hand's otherwise, a tie included; with exactly one input active it is
that hand's vector; with neither active it is (0, 0). In a focused poll of an
initialised application in which no runtime call fails: every scroll event carries the
deltas computed from the chosen vector; when the deltas of the vector chosen by this
rule are above the epsilon, the scroll action and the engine exist and the pointer is
added, the poll hands the engine exactly one scroll event, with those deltas (in
general it sends that event exactly when the pointer is added after the trigger
statements or a ray is on the surface and the add event of the scroll statements is
accepted); and, the deadzone and the epsilon constant being non-negative, no scroll
event is handed to the engine when neither input is active. -/
theorem scroll_arbitration (k : ScrollConstants) (engine : Nat → Bool) (app : FlutterXrApp)
    (hit leftHit : PointerHitResult) (trig : XrActionStateFloat)
    (rs ls : XrActionStateVector2f)
    (hset : app.inputActionSet_ ≠ XR_NULL_HANDLE)
    (hfoc : app.sessionState_ = XrSessionState.FOCUSED)
    (hdead : 0 ≤ k.kScrollAxisDeadzone) (heps : 0 ≤ k.kScrollDeltaEpsilonPixels) :
    (rs.isActive = true → ls.isActive = true →
        MagnitudeSquared rs.currentState < MagnitudeSquared ls.currentState →
        (chooseScrollAxis app rs ls).1 = ls.currentState)
      ∧ (rs.isActive = true → ls.isActive = true →
          ¬ MagnitudeSquared rs.currentState < MagnitudeSquared ls.currentState →
          (chooseScrollAxis app rs ls).1 = rs.currentState)
      ∧ (rs.isActive = true → ls.isActive = true →
          MagnitudeSquared rs.currentState = MagnitudeSquared ls.currentState →
          (chooseScrollAxis app rs ls).1 = rs.currentState)
      ∧ (rs.isActive = true → ls.isActive = false →
          (chooseScrollAxis app rs ls).1 = rs.currentState)
      ∧ (rs.isActive = false → ls.isActive = true →
          (chooseScrollAxis app rs ls).1 = ls.currentState)
      ∧ (∀ e ∈ (PollInput k engine app
            ⟨true, some hit, some leftHit, some trig, some rs, some ls⟩).events,
          e.isScroll = true →
            e.scroll_delta_x = (scrollDeltas k (chooseScrollAxis app rs ls).1).1
              ∧ e.scroll_delta_y = (scrollDeltas k (chooseScrollAxis app rs ls).1).2)
      ∧ (∀ chosen : XrVector2f,
          (rs.isActive = true ∧ ls.isActive = true
              ∧ MagnitudeSquared rs.currentState < MagnitudeSquared ls.currentState
              ∧ chosen = ls.currentState)
            ∨ (rs.isActive = true ∧ ls.isActive = true
              ∧ ¬ MagnitudeSquared rs.currentState < MagnitudeSquared ls.currentState
              ∧ chosen = rs.currentState)
            ∨ (rs.isActive = true ∧ ls.isActive = false ∧ chosen = rs.currentState)
            ∨ (rs.isActive = false ∧ ls.isActive = true ∧ chosen = ls.currentState) →
          ¬ (|(scrollDeltas k chosen).1| ≤ k.kScrollDeltaEpsilonPixels
              ∧ |(scrollDeltas k chosen).2| ≤ k.kScrollDeltaEpsilonPixels) →
          app.scrollVectorAction_ ≠ XR_NULL_HANDLE → app.flutterEngine_ ≠ XR_NULL_HANDLE →
          ((PollInput k engine app
                ⟨true, some hit, some leftHit, some trig, some rs, some ls⟩).events.filter
                FlutterPointerEvent.isScroll
              = if (pollTrigger engine ⟨updateRays app hit leftHit, []⟩ hit
                        trig).app.pointerAdded_ = true
                    ∨ ((hit.onQuad = true ∨ leftHit.onQuad = true)
                        ∧ engine (pollTrigger engine ⟨updateRays app hit leftHit, []⟩ hit
                            trig).events.length = true) then
                  [scrollEvent
                    (PollInput k engine app
                      ⟨true, some hit, some leftHit, some trig, some rs, some ls⟩).app.pointerDown_
                    (if (chooseScrollAxis app rs ls).2 = app.leftHandPath_ then
                        specScrollCoordinates leftHit hit app.lastPointerX_ app.lastPointerY_
                      else
                        specScrollCoordinates hit leftHit app.lastPointerX_ app.lastPointerY_).1
                    (if (chooseScrollAxis app rs ls).2 = app.leftHandPath_ then
                        specScrollCoordinates leftHit hit app.lastPointerX_ app.lastPointerY_
                      else
                        specScrollCoordinates hit leftHit app.lastPointerX_ app.lastPointerY_).2
                    (scrollDeltas k chosen).1 (scrollDeltas k chosen).2]
                else [])
              ∧ (app.pointerAdded_ = true →
                  (PollInput k engine app
                      ⟨true, some hit, some leftHit, some trig, some rs, some ls⟩).events.filter
                      FlutterPointerEvent.isScroll
                    = [scrollEvent
                        (PollInput k engine app
                          ⟨true, some hit, some leftHit, some trig, some rs,
                            some ls⟩).app.pointerDown_
                        (if (chooseScrollAxis app rs ls).2 = app.leftHandPath_ then
                        specScrollCoordinates leftHit hit app.lastPointerX_ app.lastPointerY_
                      else
                        specScrollCoordinates hit leftHit app.lastPointerX_ app.lastPointerY_).1
                    (if (chooseScrollAxis app rs ls).2 = app.leftHandPath_ then
                        specScrollCoordinates leftHit hit app.lastPointerX_ app.lastPointerY_
                      else
                        specScrollCoordinates hit leftHit app.lastPointerX_ app.lastPointerY_).2
                    (scrollDeltas k chosen).1 (scrollDeltas k chosen).2]))
      ∧ (rs.isActive = false → ls.isActive = false →
          (chooseScrollAxis app rs ls).1 = ⟨0, 0⟩
            ∧ ∀ e ∈ (PollInput k engine app
                ⟨true, some hit, some leftHit, some trig, some rs, some ls⟩).events,
                e.isScroll = false) := by
  obtain ⟨c1, c2, c3, c4, c5⟩ := chooseScrollAxis_cases app rs ls
  obtain ⟨_, _, hnoscroll⟩ := pollTrigger_paths engine app hit leftHit trig
  obtain ⟨S, hS, hscroll, _, hepsS⟩ := poll_scroll_events k engine app hit leftHit trig rs ls
    hset hfoc
  refine ⟨fun h1 h2 h3 => by rw [c1 h1 h2 h3], fun h1 h2 h3 => by rw [c2 h1 h2 h3],
    fun h1 h2 h3 => by rw [c2 h1 h2 (by rw [h3]; exact lt_irrefl _)],
    fun h1 h2 => by rw [c3 h1 h2], fun h1 h2 => by rw [c4 h1 h2], ?_, ?_, ?_⟩
  · intro e he hes
    rw [hS] at he
    rcases List.mem_append.mp he with h | h
    · rw [hnoscroll e h] at hes
      exact absurd hes (by simp)
    · exact ⟨(hscroll e h hes).1, (hscroll e h hes).2.1⟩
  · intro chosen hchosen habove hact heng
    have haxis : (chooseScrollAxis app rs ls).1 = chosen := by
      rcases hchosen with ⟨h1, h2, h3, h4⟩ | ⟨h1, h2, h3, h4⟩ | ⟨h1, h2, h4⟩ | ⟨h1, h2, h4⟩
      · rw [c1 h1 h2 h3, h4]
      · rw [c2 h1 h2 h3, h4]
      · rw [c3 h1 h2, h4]
      · rw [c4 h1 h2, h4]
    have hsent := poll_scroll_sent k engine app hit leftHit trig rs ls hset hfoc hact heng
      (by rw [haxis]; exact habove)
    rw [haxis] at hsent
    refine ⟨hsent, fun h => ?_⟩
    rw [hsent, if_pos (Or.inl ((pollTrigger_keeps_added engine app hit leftHit trig).2 h))]
  · intro h1 h2
    have haxis : (chooseScrollAxis app rs ls).1 = ⟨0, 0⟩ := by rw [c5 h1 h2]
    refine ⟨haxis, ?_⟩
    have hzero : ApplyAxisDeadzone k 0 = 0 :=
      applyAxisDeadzone_inside k 0 (by simpa using hdead)
    have hS0 : S = [] := by
      apply hepsS
      rw [haxis]
      simp only [scrollDeltas, hzero]
      simpa using heps
    rw [hS, hS0, List.append_nil]
    exact hnoscroll

/-- Both hands scroll while the trigger is held, the right hand half way to the right and
the left hand fully up: the poll sends one scroll event, and its deltas (0, -40) are
those of the left hand's vector, not the (15, 0) of the right hand's. -/
theorem scroll_arbitration_witness :
    scrollDeltas sampleScrollConstants ⟨1 / 2, 0⟩ = (15, 0)
      ∧ (PollInput sampleScrollConstants engineAccepts pressedApp
            ⟨true, some surfaceHit, some surfaceHit, some ⟨true, 1⟩, some ⟨true, ⟨1 / 2, 0⟩⟩,
              some ⟨true, ⟨0, 1⟩⟩⟩).events.filter FlutterPointerEvent.isScroll
          = [scrollEvent
              (PollInput sampleScrollConstants engineAccepts pressedApp
                ⟨true, some surfaceHit, some surfaceHit, some ⟨true, 1⟩,
                  some ⟨true, ⟨1 / 2, 0⟩⟩, some ⟨true, ⟨0, 1⟩⟩⟩).app.pointerDown_
              100 200 0 (-40)] := by
  have hleft : scrollDeltas sampleScrollConstants ⟨0, 1⟩ = (0, -40) := by
    norm_num [scrollDeltas, ApplyAxisDeadzone, sampleScrollConstants, clamp, copysign]
  have hright : scrollDeltas sampleScrollConstants ⟨1 / 2, 0⟩ = (15, 0) := by
    simp only [scrollDeltas, ApplyAxisDeadzone, sampleScrollConstants, clamp, copysign]
    rw [show |(1 / 2 : ℚ)| = 1 / 2 from abs_of_pos (by norm_num)]
    norm_num
    rw [abs_of_pos (by norm_num)]
    norm_num
  have h := ((scroll_arbitration sampleScrollConstants engineAccepts pressedApp
    surfaceHit surfaceHit ⟨true, 1⟩ ⟨true, ⟨1 / 2, 0⟩⟩ ⟨true, ⟨0, 1⟩⟩ (by decide) rfl
    (by norm_num [sampleScrollConstants]) (by norm_num [sampleScrollConstants])).2.2.2.2.2.2.1
    ⟨0, 1⟩ (Or.inl ⟨rfl, rfl, by norm_num [MagnitudeSquared], rfl⟩)
    (by rw [hleft]; norm_num [sampleScrollConstants]) (by decide) (by decide)).2 rfl
  refine ⟨hright, ?_⟩
  rw [h, hleft]
  simp [specScrollCoordinates, surfaceHit]

/-- With distinct hand paths, the local `scrollAxisHandPath` is the left hand's path
exactly when the left hand's input is the chosen one. -/
theorem chooseScrollAxis_left (app : FlutterXrApp) (rs ls : XrActionStateVector2f)
    (hpaths : app.rightHandPath_ ≠ app.leftHandPath_) :
    (chooseScrollAxis app rs ls).2 = app.leftHandPath_
      ↔ (ls.isActive = true
          ∧ (rs.isActive = true →
              MagnitudeSquared rs.currentState < MagnitudeSquared ls.currentState)) := by
  obtain ⟨c1, c2, c3, c4, c5⟩ := chooseScrollAxis_cases app rs ls
  cases hr : rs.isActive <;> cases hl : ls.isActive
  · rw [c5 hr hl]; simp [hpaths]
  · rw [c4 hr hl]; simp
  · rw [c3 hr hl]; simp [hpaths]
  · by_cases hlt : MagnitudeSquared rs.currentState < MagnitudeSquared ls.currentState
    · rw [c1 hr hl hlt]; simp [hlt]
    · rw [c2 hr hl hlt]; simp [hlt, hpaths]

/-- A right-hand scroll of full deflection is above the epsilon of the sample
constants, whatever the members. -/
theorem sample_scroll_above (app : FlutterXrApp) :
    chooseScrollAxis app ⟨true, ⟨0, 1⟩⟩ idleScroll = (⟨0, 1⟩, app.rightHandPath_)
      ∧ scrollDeltas sampleScrollConstants ⟨0, 1⟩ = (0, -40)
      ∧ ¬ (|(scrollDeltas sampleScrollConstants
              (chooseScrollAxis app ⟨true, ⟨0, 1⟩⟩ idleScroll).1).1|
            ≤ sampleScrollConstants.kScrollDeltaEpsilonPixels
          ∧ |(scrollDeltas sampleScrollConstants
              (chooseScrollAxis app ⟨true, ⟨0, 1⟩⟩ idleScroll).1).2|
            ≤ sampleScrollConstants.kScrollDeltaEpsilonPixels) := by
  have h1 : chooseScrollAxis app ⟨true, ⟨0, 1⟩⟩ idleScroll = (⟨0, 1⟩, app.rightHandPath_) := by
    simp [chooseScrollAxis, idleScroll]
  have h2 : scrollDeltas sampleScrollConstants ⟨0, 1⟩ = (0, -40) := by
    norm_num [scrollDeltas, ApplyAxisDeadzone, sampleScrollConstants, clamp, copysign]
  refine ⟨h1, h2, ?_⟩
  rw [h1, h2]
  norm_num [sampleScrollConstants]

/-- With neither ray on the surface and the pointer not added, a focused poll sends no
scroll event. -/
theorem poll_scroll_not_added (k : ScrollConstants) (engine : Nat → Bool) (app : FlutterXrApp)
    (hit leftHit : PointerHitResult) (trig : XrActionStateFloat)
    (rs ls : XrActionStateVector2f)
    (hset : app.inputActionSet_ ≠ XR_NULL_HANDLE)
    (hfoc : app.sessionState_ = XrSessionState.FOCUSED)
    (hoff : hit.onQuad = false) (hleftoff : leftHit.onQuad = false)
    (hadded : app.pointerAdded_ = false) :
    (PollInput k engine app
        ⟨true, some hit, some leftHit, some trig, some rs, some ls⟩).events.filter
        FlutterPointerEvent.isScroll = [] := by
  obtain ⟨_, _, hnoscroll⟩ := pollTrigger_paths engine app hit leftHit trig
  obtain ⟨S, hS, _, hnone, _⟩ := poll_scroll_events k engine app hit leftHit trig rs ls hset hfoc
  rw [hS, hnone hoff hleftoff, if_neg (fun h => by rw [hadded] at h; exact absurd h.2.1 (by simp)),
    List.append_nil, List.filter_eq_nil_iff]
  intro e he
  rw [hnoscroll e he]
  simp

/-- With neither ray on the surface a focused poll sends no add event, and no hover
event other than a scroll event. -/
theorem poll_off_surface_events (k : ScrollConstants) (engine : Nat → Bool) (app : FlutterXrApp)
    (hit leftHit : PointerHitResult) (trig : XrActionStateFloat)
    (rs ls : XrActionStateVector2f)
    (hset : app.inputActionSet_ ≠ XR_NULL_HANDLE)
    (hfoc : app.sessionState_ = XrSessionState.FOCUSED)
    (hoff : hit.onQuad = false) (hleftoff : leftHit.onQuad = false) :
    ∀ e ∈ (PollInput k engine app
        ⟨true, some hit, some leftHit, some trig, some rs, some ls⟩).events,
      e.isAdd = false ∧ (e.isScroll = false → e.phase ≠ FlutterPointerPhase.kHover) := by
  obtain ⟨_, _, _, _, hup⟩ := pollTrigger_off_surface engine app hit leftHit trig hoff
  obtain ⟨S, hS, _, hnone, _⟩ := poll_scroll_events k engine app hit leftHit trig rs ls hset hfoc
  have hSform := hnone hoff hleftoff
  intro e he
  rw [hS] at he
  rcases List.mem_append.mp he with h | h
  · have hp := hup e h
    exact ⟨by simp [FlutterPointerEvent.isAdd, hp], fun _ => by rw [hp]; simp⟩
  · rw [hSform] at h
    split_ifs at h
    · simp only [List.mem_singleton] at h
      subst h
      refine ⟨?_, fun hns => absurd hns (by simp)⟩
      cases (PollInput k engine app
        ⟨true, some hit, some leftHit, some trig, some rs, some ls⟩).app.pointerDown_ <;>
        simp [scrollEvent, FlutterPointerEvent.isAdd]
    · exact absurd h (by simp)

/-- C24 (scroll coordinates, as the code has them). In a focused poll of an initialised
application (action set, scroll action and engine exist, the two hand paths differ, no
runtime call fails) with an above-epsilon scroll, the poll hands the engine exactly one
scroll event when the pointer is added after the trigger statements, or a ray is on the
surface and the add event that the scroll statements then send is accepted, and no
scroll event otherwise; in particular it sends one whenever the pointer was added
before the poll. The event carries the deltas of the chosen axis and the coordinates of
the rule: with the left hand's input chosen (left active, and right inactive or of
strictly smaller squared magnitude) those of the left ray when it is on the surface,
otherwise those of the right ray when it is on the surface; with the right hand's input
chosen those of the right ray when it is on the surface, otherwise those of the left
ray when it is on the surface; and (`lastPointerX_`, `lastPointerY_`) when neither ray
is on the surface. When neither ray is on the surface the poll sends no add event and
no hover event other than the scroll event; the scroll event is sent at
(`lastPointerX_`, `lastPointerY_`) when the pointer is added, and no scroll event is
sent when it is not. -/
theorem scroll_event_coordinates (k : ScrollConstants) (engine : Nat → Bool)
    (app : FlutterXrApp) (hit leftHit : PointerHitResult) (trig : XrActionStateFloat)
    (rs ls : XrActionStateVector2f)
    (hset : app.inputActionSet_ ≠ XR_NULL_HANDLE)
    (hfoc : app.sessionState_ = XrSessionState.FOCUSED)
    (hpaths : app.rightHandPath_ ≠ app.leftHandPath_)
    (hact : app.scrollVectorAction_ ≠ XR_NULL_HANDLE)
    (heng : app.flutterEngine_ ≠ XR_NULL_HANDLE)
    (habove : ¬ (|(scrollDeltas k (chooseScrollAxis app rs ls).1).1|
          ≤ k.kScrollDeltaEpsilonPixels
        ∧ |(scrollDeltas k (chooseScrollAxis app rs ls).1).2| ≤ k.kScrollDeltaEpsilonPixels)) :
    ∀ own other : PointerHitResult,
      ((ls.isActive = true
            ∧ (rs.isActive = true →
                MagnitudeSquared rs.currentState < MagnitudeSquared ls.currentState))
          ∧ own = leftHit ∧ other = hit)
        ∨ (¬ (ls.isActive = true
              ∧ (rs.isActive = true →
                  MagnitudeSquared rs.currentState < MagnitudeSquared ls.currentState))
            ∧ own = hit ∧ other = leftHit) →
      ((PollInput k engine app
          ⟨true, some hit, some leftHit, some trig, some rs, some ls⟩).events.filter
          FlutterPointerEvent.isScroll
        = if (pollTrigger engine ⟨updateRays app hit leftHit, []⟩ hit trig).app.pointerAdded_
                = true
              ∨ ((hit.onQuad = true ∨ leftHit.onQuad = true)
                  ∧ engine (pollTrigger engine ⟨updateRays app hit leftHit, []⟩ hit
                      trig).events.length = true) then
            [scrollEvent
              (PollInput k engine app
                ⟨true, some hit, some leftHit, some trig, some rs, some ls⟩).app.pointerDown_
              (specScrollCoordinates own other app.lastPointerX_ app.lastPointerY_).1
              (specScrollCoordinates own other app.lastPointerX_ app.lastPointerY_).2
              (scrollDeltas k (chooseScrollAxis app rs ls).1).1
              (scrollDeltas k (chooseScrollAxis app rs ls).1).2]
          else [])
        ∧ (app.pointerAdded_ = true →
            (PollInput k engine app
                ⟨true, some hit, some leftHit, some trig, some rs, some ls⟩).events.filter
                FlutterPointerEvent.isScroll
              = [scrollEvent
                  (PollInput k engine app
                    ⟨true, some hit, some leftHit, some trig, some rs, some ls⟩).app.pointerDown_
                  (specScrollCoordinates own other app.lastPointerX_ app.lastPointerY_).1
                  (specScrollCoordinates own other app.lastPointerX_ app.lastPointerY_).2
                  (scrollDeltas k (chooseScrollAxis app rs ls).1).1
                  (scrollDeltas k (chooseScrollAxis app rs ls).1).2])
        ∧ (hit.onQuad = false → leftHit.onQuad = false →
            (∀ e ∈ (PollInput k engine app
                ⟨true, some hit, some leftHit, some trig, some rs, some ls⟩).events,
              e.isAdd = false ∧ (e.isScroll = false → e.phase ≠ FlutterPointerPhase.kHover))
              ∧ (app.pointerAdded_ = true →
                  (PollInput k engine app
                      ⟨true, some hit, some leftHit, some trig, some rs,
                        some ls⟩).events.filter FlutterPointerEvent.isScroll
                    = [scrollEvent
                        (PollInput k engine app
                          ⟨true, some hit, some leftHit, some trig, some rs,
                            some ls⟩).app.pointerDown_
                        app.lastPointerX_ app.lastPointerY_
                        (scrollDeltas k (chooseScrollAxis app rs ls).1).1
                        (scrollDeltas k (chooseScrollAxis app rs ls).1).2])
              ∧ (app.pointerAdded_ = false →
                  (PollInput k engine app
                      ⟨true, some hit, some leftHit, some trig, some rs,
                        some ls⟩).events.filter FlutterPointerEvent.isScroll = [])) := by
  intro own other hwhich
  have hsent := poll_scroll_sent k engine app hit leftHit trig rs ls hset hfoc hact heng habove
  have hleft := chooseScrollAxis_left app rs ls hpaths
  have hcoords : (if (chooseScrollAxis app rs ls).2 = app.leftHandPath_ then
        specScrollCoordinates leftHit hit app.lastPointerX_ app.lastPointerY_
      else specScrollCoordinates hit leftHit app.lastPointerX_ app.lastPointerY_)
      = specScrollCoordinates own other app.lastPointerX_ app.lastPointerY_ := by
    rcases hwhich with ⟨hp, ho, hot⟩ | ⟨hp, ho, hot⟩
    · rw [if_pos (hleft.mpr hp), ho, hot]
    · rw [if_neg (fun h => hp (hleft.mp h)), ho, hot]
  rw [hcoords] at hsent
  have hadded : app.pointerAdded_ = true →
      (PollInput k engine app
          ⟨true, some hit, some leftHit, some trig, some rs, some ls⟩).events.filter
          FlutterPointerEvent.isScroll
        = [scrollEvent
            (PollInput k engine app
              ⟨true, some hit, some leftHit, some trig, some rs, some ls⟩).app.pointerDown_
            (specScrollCoordinates own other app.lastPointerX_ app.lastPointerY_).1
            (specScrollCoordinates own other app.lastPointerX_ app.lastPointerY_).2
            (scrollDeltas k (chooseScrollAxis app rs ls).1).1
            (scrollDeltas k (chooseScrollAxis app rs ls).1).2] := by
    intro h
    rw [hsent, if_pos (Or.inl ((pollTrigger_keeps_added engine app hit leftHit trig).2 h))]
  refine ⟨hsent, hadded, ?_⟩
  intro hoff hleftoff
  refine ⟨poll_off_surface_events k engine app hit leftHit trig rs ls hset hfoc hoff hleftoff,
    ?_, poll_scroll_not_added k engine app hit leftHit trig rs ls hset hfoc hoff hleftoff⟩
  intro h
  have hspec : specScrollCoordinates own other app.lastPointerX_ app.lastPointerY_
      = (app.lastPointerX_, app.lastPointerY_) := by
    rcases hwhich with ⟨_, ho, hot⟩ | ⟨_, ho, hot⟩ <;>
      simp [specScrollCoordinates, ho, hot, hoff, hleftoff]
  rw [hadded h, hspec]

/-- A right-hand scroll while the trigger is held, with the right ray off the surface and
the left ray on it at pixel (300, 400): the poll sends one scroll event, at (300, 400),
with the deltas (0, -40) of the right hand's axis. -/
theorem scroll_event_coordinates_witness :
    (PollInput sampleScrollConstants engineAccepts pressedApp
        ⟨true, some offSurfaceHit, some leftSurfaceHit, some ⟨true, 1⟩, some ⟨true, ⟨0, 1⟩⟩,
          some idleScroll⟩).events.filter FlutterPointerEvent.isScroll
      = [scrollEvent
          (PollInput sampleScrollConstants engineAccepts pressedApp
            ⟨true, some offSurfaceHit, some leftSurfaceHit, some ⟨true, 1⟩, some ⟨true, ⟨0, 1⟩⟩,
              some idleScroll⟩).app.pointerDown_
          300 400 0 (-40)] := by
  have h := ((scroll_event_coordinates sampleScrollConstants engineAccepts pressedApp
    offSurfaceHit leftSurfaceHit ⟨true, 1⟩ ⟨true, ⟨0, 1⟩⟩ idleScroll (by decide) rfl (by decide)
    (by decide) (by decide) (sample_scroll_above pressedApp).2.2) offSurfaceHit leftSurfaceHit
    (Or.inr ⟨by simp [idleScroll], rfl, rfl⟩)).2.1 rfl
  rw [h, (sample_scroll_above pressedApp).1, (sample_scroll_above pressedApp).2.1]
  rfl

/-- C24 as stated fails: with neither ray on the surface and the pointer not yet added,
an above-epsilon scroll (right hand active at full deflection, deltas (0, -40)) in a
focused poll with every send accepted sends no scroll event at all, at the last known
coordinates or elsewhere. -/
theorem scroll_not_sent_before_add :
    runningApp.pointerAdded_ = false
      ∧ offSurfaceHit.onQuad = false
      ∧ ¬ (|(scrollDeltas sampleScrollConstants
              (chooseScrollAxis runningApp ⟨true, ⟨0, 1⟩⟩ idleScroll).1).1|
            ≤ sampleScrollConstants.kScrollDeltaEpsilonPixels
          ∧ |(scrollDeltas sampleScrollConstants
              (chooseScrollAxis runningApp ⟨true, ⟨0, 1⟩⟩ idleScroll).1).2|
            ≤ sampleScrollConstants.kScrollDeltaEpsilonPixels)
      ∧ (PollInput sampleScrollConstants engineAccepts runningApp
          ⟨true, some offSurfaceHit, some offSurfaceHit, some ⟨true, 0⟩, some ⟨true, ⟨0, 1⟩⟩,
            some idleScroll⟩).events.filter FlutterPointerEvent.isScroll = [] :=
  ⟨rfl, rfl, (sample_scroll_above runningApp).2.2,
    poll_scroll_not_added sampleScrollConstants engineAccepts runningApp offSurfaceHit
      offSurfaceHit ⟨true, 0⟩ ⟨true, ⟨0, 1⟩⟩ idleScroll (by decide) rfl rfl rfl rfl⟩

end FlutterXr
